import Mathlib

/-!
# openusim: APDU dispatcher, file store, access control, XOR authentication
and byte transport

A shallow embedding of the card-side USIM firmware (default build:
`USIM_ENABLE_USAT = 0`, `USIM_ENABLE_CONFIG_APDU = 0`, logging off).

Conventions of the embedding

* `uint8_t` / `uint16_t` values are `Nat`; where the C arithmetic can wrap the
  reduction `% 256` / `% 65536` is written out.
* A C byte buffer is a `List Nat`.  `rd buf i` is `buf[i]` (0 outside the list),
  `write_bytes dst off src n` is `memcpy(&dst[off], src, n)` restricted to the
  extent of `dst`, `read_bytes src off n` is the `n` bytes `src[off .. off+n)`.
* The globals `subscriber`, `session`, `current_file`, the table `usim_files`
  and the seven static data arrays the table points into form one `Card` value.
  A table entry's `file_data` pointer is a `data_ptr` naming one of the arrays,
  or `none` for `NULL`.
* `resp->data` always aliases the caller's response buffer, so the response
  record carries the buffer contents.
* Local arrays that the C code reads before writing them are explicit
  parameters (`temp` of `usim_run_xor_auth`).
* Byte transport (`chip_init.c`): the statics form a `sim_transport` value.
  What the card holds on the I/O line while it sends is recorded as a list of
  levels with their duration in timer ticks; what the reader does while the
  card listens is a list of `line_event`s, one per reception from the line,
  each giving the levels `sim_io_read()` returns at the sampling points.  The
  reader keeps RST high: reset detection during a reception is not modelled.
* An UPDATE BINARY whose offset plus `Lc` exceeds 16 bits can pass the size
  check; its `memcpy` then writes outside the array of the file, where the
  embedding has no bytes.  For such a command (`update_wraps`) the embedding
  gives the response only: `Reachable` leaves these commands out, and the
  theorems on C26, C34, C35 and C37 say so in their hypotheses.
* Clock measurement (`sim_measure_clock_period`): the reader clock is a function
  giving the level of the CLK pin at each successive read of `P1`; the contents
  of `TH0` and `TL0` when the timer is stopped are parameters.  The guard
  counter is a `uint32_t`, its decrement is taken modulo `2^32`.
-/

namespace OpenUsim

/-! ## Constants (`inc/usim_constants.h`, `inc/apdu_handler.h`) -/

abbrev CLA_STANDARD : Nat := 0x00
abbrev CLA_GSM : Nat := 0xA0

abbrev INS_SELECT_FILE : Nat := 0xA4
abbrev INS_READ_BINARY : Nat := 0xB0
abbrev INS_UPDATE_BINARY : Nat := 0xD6
abbrev INS_AUTHENTICATE : Nat := 0x88
abbrev INS_VERIFY_CHV : Nat := 0x20
abbrev INS_CHANGE_CHV : Nat := 0x24
abbrev INS_GET_RESPONSE : Nat := 0xC0
abbrev INS_STATUS : Nat := 0xF2

abbrev SW_OK : Nat := 0x9000
abbrev SW_WRONG_LENGTH : Nat := 0x6700
abbrev SW_SECURITY_STATUS_NOT_SATISFIED : Nat := 0x6982
abbrev SW_FILE_NOT_FOUND : Nat := 0x6A82
abbrev SW_WRONG_PARAMETERS : Nat := 0x6B00
abbrev SW_INS_NOT_SUPPORTED : Nat := 0x6D00
abbrev SW_CLA_NOT_SUPPORTED : Nat := 0x6E00
abbrev SW_COMMAND_NOT_ALLOWED : Nat := 0x6986
abbrev SW_AUTHENTICATION_FAILED : Nat := 0x6300
abbrev SW_MEMORY_PROBLEM : Nat := 0x9240
abbrev SW_PIN_BLOCKED : Nat := 0x6983

/-- The macro `SW_REMAINING_ATTEMPTS(n) ((uint16_t)(0x63C0 | ((n) & 0x0F)))`. -/
def SW_REMAINING_ATTEMPTS (n : Nat) : Nat := (0x63C0 ||| (n &&& 0x0F)) % 65536

abbrev FILE_TYPE_MF : Nat := 0x01
abbrev FILE_TYPE_DF : Nat := 0x02
abbrev FILE_TYPE_EF : Nat := 0x04

abbrev AC_ALWAYS : Nat := 0x00
abbrev AC_NEVER : Nat := 0xFF
abbrev AC_CHV1 : Nat := 0x01
abbrev AC_ADM : Nat := 0x0F

abbrev ACCESS_SELECT : Nat := 0x01
abbrev ACCESS_READ : Nat := 0x02
abbrev ACCESS_UPDATE : Nat := 0x04

abbrev USIM_STATE_IDLE : Nat := 0x00
abbrev USIM_STATE_SELECTED : Nat := 0x01
abbrev USIM_STATE_AUTHENTICATED : Nat := 0x02
abbrev USIM_STATE_PIN_VERIFIED : Nat := 0x04

abbrev USIM_VERSION_MAJOR : Nat := 2
abbrev USIM_VERSION_MINOR : Nat := 0

abbrev USIM_APDU_MAX_DATA_LEN : Nat := 255
abbrev USIM_APDU_RESPONSE_MAX_LEN : Nat := USIM_APDU_MAX_DATA_LEN + 2
abbrev USIM_APDU_RESPONSE_DATA_MAX : Nat := USIM_APDU_MAX_DATA_LEN

/-- The process-wide mask `xor_key[16]` of `main.c`. -/
def xor_key : List Nat :=
  [0x2A, 0x4F, 0x1C, 0x93, 0x76, 0xA8, 0xDF, 0x35,
   0xB9, 0x62, 0x8C, 0x17, 0xE4, 0x50, 0x3B, 0xCE]

/-! ## Byte buffers -/

/-- The byte `buf[i]`. -/
def rd (buf : List Nat) (i : Nat) : Nat := buf.getD i 0

/-- The `n` bytes `src[off], ..., src[off + n - 1]`. -/
def read_bytes (src : List Nat) (off n : Nat) : List Nat :=
  (List.range n).map (fun i => rd src (off + i))

/-- The buffer `dst` after `memcpy(&dst[off], src, n)`. -/
def write_bytes (dst : List Nat) (off : Nat) (src : List Nat) (n : Nat) : List Nat :=
  (List.range dst.length).map
    (fun j => if off ≤ j ∧ j < off + n then rd src (j - off) else rd dst j)

/-- Whether `memcmp(a, b, n) == 0`. -/
def memcmp_eq (a b : List Nat) (n : Nat) : Bool :=
  decide (read_bytes a 0 n = read_bytes b 0 n)

/-! ## Data model (`inc/usim_files.h`, `inc/usim_app.h`, `inc/apdu_handler.h`) -/

/-- The static data arrays of `usim_files.c` a table entry can point to. -/
inductive data_ptr where
  | imsi_data
  | key_data
  | opc_data
  | acc_data
  | loci_data
  | ad_data
  | phase_data
deriving DecidableEq, Repr

/-- An entry `usim_file_t` of the catalogue (the debug `name` is left out). -/
structure usim_file_t where
  file_id : Nat
  file_type : Nat
  file_size : Nat
  access_conditions : Nat
  file_data : Option data_ptr
  data_size : Nat
deriving DecidableEq, Repr

/-- The record `subscriber_data_t`. -/
structure subscriber_data_t where
  imsi : List Nat
  key : List Nat
  opc : List Nat
  sqn : List Nat
  amf : List Nat
  pin1 : List Nat
  puk1 : List Nat
  pin1_retries : Nat
  puk1_retries : Nat
deriving DecidableEq, Repr

/-- The record `session_context_t`. -/
structure session_context_t where
  ck : List Nat
  ik : List Nat
  res : List Nat
  auts : List Nat
  kc : List Nat
  authenticated : Bool
  state : Nat
deriving DecidableEq, Repr

/-- The record `current_file_t`. -/
structure current_file_t where
  file_id : Nat
  file_type : Nat
  file_size : Nat
deriving DecidableEq, Repr

/-- The mutable globals of the card. -/
structure Card where
  subscriber : subscriber_data_t
  session : session_context_t
  current_file : current_file_t
  usim_files : List usim_file_t
  imsi_data : List Nat
  key_data : List Nat
  opc_data : List Nat
  acc_data : List Nat
  loci_data : List Nat
  ad_data : List Nat
  phase_data : List Nat
deriving DecidableEq, Repr

/-- The record `apdu_command_t`; `data` is the buffer `cmd->data` points into
(`[]` for `NULL`). -/
structure apdu_command_t where
  cla : Nat
  ins : Nat
  p1 : Nat
  p2 : Nat
  lc : Nat
  data : List Nat
  le : Nat
deriving DecidableEq, Repr

/-- The record `apdu_response_t`; `data` holds the contents of the response
buffer `resp->data` points to. -/
structure apdu_response_t where
  data : List Nat
  data_len : Nat
  sw1sw2 : Nat
deriving DecidableEq, Repr

/-- What a handler leaves behind: its return value, the response record and
the globals. -/
structure handled where
  ok : Bool
  resp : apdu_response_t
  card : Card
deriving DecidableEq, Repr

/-- Contents of the array a `data_ptr` names. -/
def Card.load (st : Card) : data_ptr → List Nat
  | .imsi_data => st.imsi_data
  | .key_data => st.key_data
  | .opc_data => st.opc_data
  | .acc_data => st.acc_data
  | .loci_data => st.loci_data
  | .ad_data => st.ad_data
  | .phase_data => st.phase_data

/-- Replace the contents of the array a `data_ptr` names. -/
def Card.store (st : Card) (p : data_ptr) (v : List Nat) : Card :=
  match p with
  | .imsi_data => { st with imsi_data := v }
  | .key_data => { st with key_data := v }
  | .opc_data => { st with opc_data := v }
  | .acc_data => { st with acc_data := v }
  | .loci_data => { st with loci_data := v }
  | .ad_data => { st with ad_data := v }
  | .phase_data => { st with phase_data := v }

/-! ## File store (`src/usim_files.c`) -/

def imsi_data_init : List Nat := [0x08, 0x09, 0x01, 0x02, 0x03, 0x04, 0x05, 0x06, 0x07]

def key_data_init : List Nat :=
  [0x46, 0x5B, 0x5C, 0xE8, 0xB1, 0x99, 0xB4, 0x9F,
   0xAA, 0x5F, 0x0A, 0x2E, 0xE2, 0x38, 0xA6, 0xBC]

def opc_data_init : List Nat :=
  [0xCD, 0x63, 0xCB, 0x71, 0x95, 0x4A, 0x9F, 0x4E,
   0x48, 0xA5, 0x99, 0x4B, 0x86, 0x5A, 0xE9, 0x55]

def acc_data_init : List Nat := [0x00, 0x01]

def loci_data_init : List Nat :=
  [0x07, 0x25, 0x43, 0x10, 0x00, 0x62, 0xF5, 0x35, 0x01, 0x00, 0x00]

def ad_data_init : List Nat := [0x00, 0x00]

def phase_data_init : List Nat := [0x03]

/-- The initialiser of the table `usim_files[]`, sentinel included. -/
def usim_files_table : List usim_file_t :=
  [ ⟨0x3F00, FILE_TYPE_MF, 0x0000, AC_ALWAYS, none, 0⟩,
    ⟨0x7F10, FILE_TYPE_DF, 0x0000, AC_ALWAYS, none, 0⟩,
    ⟨0x7F20, FILE_TYPE_DF, 0x0000, AC_ALWAYS, none, 0⟩,
    ⟨0x6F07, FILE_TYPE_EF, 0x0009, AC_CHV1, some .imsi_data, 9⟩,
    ⟨0x6F08, FILE_TYPE_EF, 0x0010, AC_NEVER, some .key_data, 16⟩,
    ⟨0x6F09, FILE_TYPE_EF, 0x0010, AC_NEVER, some .opc_data, 16⟩,
    ⟨0x6F60, FILE_TYPE_EF, 0x0016, AC_ALWAYS, none, 0⟩,
    ⟨0x6F78, FILE_TYPE_EF, 0x0002, AC_ALWAYS, some .acc_data, 2⟩,
    ⟨0x6F7E, FILE_TYPE_EF, 0x000B, AC_CHV1, some .loci_data, 11⟩,
    ⟨0x6FAD, FILE_TYPE_EF, 0x0002, AC_ALWAYS, some .ad_data, 2⟩,
    ⟨0x6FAE, FILE_TYPE_EF, 0x0001, AC_ALWAYS, some .phase_data, 1⟩,
    ⟨0x0000, 0x00, 0x0000, 0x00, none, 0⟩ ]

/-- The loop of `usim_xor_operation`: `data[i] ^= key[i % key_length]` for
`i < length`. -/
def usim_xor_operation (data : List Nat) (length : Nat) (key : List Nat)
    (key_length : Nat) : List Nat :=
  (List.range data.length).map
    (fun i => if i < length then rd data i ^^^ rd key (i % key_length) else rd data i)

/-- The loop of `usim_find_file`: walk the table until the entry with
identifier 0; the result is the entry found (`none` for `NULL`). -/
def usim_find_file : List usim_file_t → Nat → Option usim_file_t
  | [], _ => none
  | f :: rest, file_id =>
    if f.file_id = 0x0000 then none
    else if f.file_id = file_id then some f
    else usim_find_file rest file_id

/-- The loop of `usim_find_file_mutable`, started at index `i`: the result is
the index of the entry found together with the entry. -/
def usim_find_file_mutable_from : List usim_file_t → Nat → Nat → Option (Nat × usim_file_t)
  | [], _, _ => none
  | f :: rest, file_id, i =>
    if f.file_id = 0x0000 then none
    else if f.file_id = file_id then some (i, f)
    else usim_find_file_mutable_from rest file_id (i + 1)

/-- The function `usim_find_file_mutable`. -/
def usim_find_file_mutable (files : List usim_file_t) (file_id : Nat) :
    Option (Nat × usim_file_t) :=
  usim_find_file_mutable_from files file_id 0

/-- The function `usim_check_access`, reading `session.state`. -/
def usim_check_access (session : session_context_t) (file : Option usim_file_t)
    (access_type : Nat) : Bool :=
  match file with
  | none => false
  | some f =>
    if access_type = ACCESS_SELECT then true
    else if f.access_conditions = AC_ALWAYS then true
    else if f.access_conditions = AC_NEVER then false
    else if f.access_conditions = AC_CHV1 then
      decide (session.state &&& USIM_STATE_PIN_VERIFIED ≠ 0)
    else if f.access_conditions = AC_ADM then
      decide (session.state &&& USIM_STATE_AUTHENTICATED ≠ 0)
    else false

/-- The function `usim_filesystem_init`: each `memcpy(x_data, x_data_init,
sizeof(x_data))` overwrites a whole array with its seed; `key_data` and
`opc_data` are then masked. -/
def usim_filesystem_init (st : Card) : Card :=
  { st with
    imsi_data := imsi_data_init
    key_data := usim_xor_operation key_data_init 16 xor_key 16
    opc_data := usim_xor_operation opc_data_init 16 xor_key 16
    acc_data := acc_data_init
    loci_data := loci_data_init
    ad_data := ad_data_init
    phase_data := phase_data_init }

/-! ## Application (`src/usim_app.c`) -/

/-- The function `usim_get_file_data`: `none` for `NULL`, otherwise the bytes
the returned pointer addresses and the value stored in `*length`.  For the two
secret files the bytes are the unmasked copy made in the caller's buffer. -/
def usim_get_file_data (st : Card) (file_id : Nat) : Option (List Nat × Nat) :=
  match usim_find_file st.usim_files file_id with
  | none => none
  | some file =>
    match file.file_data with
    | none => none
    | some p =>
      if file_id = 0x6F08 ∨ file_id = 0x6F09 then
        some (usim_xor_operation (read_bytes (st.load p) 0 file.file_size)
                file.file_size xor_key 16, file.file_size)
      else
        some (st.load p, file.file_size)

/-- The function `usim_init`. -/
def usim_init (st : Card) : Card :=
  usim_filesystem_init
    { st with
      subscriber :=
        { imsi := List.replicate 16 0
          key := List.replicate 16 0
          opc := List.replicate 16 0
          sqn := List.replicate 6 0
          amf := List.replicate 2 0
          pin1 := write_bytes (write_bytes (List.replicate 8 0) 0 [0x30, 0x30, 0x30, 0x30] 4)
                    4 [0xFF, 0xFF, 0xFF, 0xFF] 4
          puk1 := List.replicate 8 0
          pin1_retries := 3
          puk1_retries := 10 }
      session :=
        { ck := List.replicate 16 0
          ik := List.replicate 16 0
          res := List.replicate 8 0
          auts := List.replicate 14 0
          kc := List.replicate 8 0
          authenticated := false
          state := USIM_STATE_IDLE }
      current_file := { file_id := 0x3F00, file_type := FILE_TYPE_MF, file_size := 0 } }

/-- The globals as the C start-up code leaves them before `main` runs:
zero-filled, the table holding its initialiser. -/
def static_image : Card :=
  { subscriber :=
      { imsi := List.replicate 16 0
        key := List.replicate 16 0
        opc := List.replicate 16 0
        sqn := List.replicate 6 0
        amf := List.replicate 2 0
        pin1 := List.replicate 8 0
        puk1 := List.replicate 8 0
        pin1_retries := 0
        puk1_retries := 0 }
    session :=
      { ck := List.replicate 16 0
        ik := List.replicate 16 0
        res := List.replicate 8 0
        auts := List.replicate 14 0
        kc := List.replicate 8 0
        authenticated := false
        state := 0 }
    current_file := { file_id := 0, file_type := 0, file_size := 0 }
    usim_files := usim_files_table
    imsi_data := List.replicate 9 0
    key_data := List.replicate 16 0
    opc_data := List.replicate 16 0
    acc_data := List.replicate 2 0
    loci_data := List.replicate 11 0
    ad_data := List.replicate 2 0
    phase_data := List.replicate 1 0 }

/-- The card after power-on: `main` calls `usim_init` once. -/
def power_on : Card := usim_init static_image

/-! ## Authentication engine (`src/usim_auth.c`) -/

/-- The local `temp[16]` of `usim_run_xor_auth` after its first loop, which
assigns `temp[i] = rand[i] ^ key[i] ^ opc[i]` for `i < 8` only; `temp` is the
array as the function finds it on entry. -/
def xor_auth_temp (rand key opc temp : List Nat) : List Nat :=
  (List.range 16).map
    (fun i => if i < 8 then rd rand i ^^^ rd key i ^^^ rd opc i else rd temp i)

/-- The local `res[8]`: `res[i] = temp[i] & 0x0F; res[i] |= (uint8_t)((temp[i+8] & 0x0F) << 4)`. -/
def xor_auth_res (temp : List Nat) : List Nat :=
  (List.range 8).map
    (fun i => (rd temp i &&& 0x0F) ||| (((rd temp (i + 8) &&& 0x0F) <<< 4) % 256))

/-- Index `(uint8_t)((i + k) % 16U)` used by the CK and IK loops. -/
def rot_index (i k : Nat) : Nat := ((i + k) % 16) % 256

/-- The local `ck[16]`. -/
def xor_auth_ck (rand key opc : List Nat) : List Nat :=
  (List.range 16).map
    (fun i => rd rand i ^^^ rd key (rot_index i 3) ^^^ rd opc (rot_index i 7))

/-- The local `ik[16]`. -/
def xor_auth_ik (rand key opc : List Nat) : List Nat :=
  (List.range 16).map
    (fun i => rd rand (rot_index i 5) ^^^ rd key (rot_index i 11) ^^^ rd opc (rot_index i 13))

/-- The local `ak[6]`: `ak[i] = rand[i+2] ^ key[i+5] ^ opc[i+9]`. -/
def xor_auth_ak (rand key opc : List Nat) : List Nat :=
  (List.range 6).map (fun i => rd rand (i + 2) ^^^ rd key (i + 5) ^^^ rd opc (i + 9))

/-- The local `kc[8]`: `kc[i] = ck[i] ^ ck[i+8]`. -/
def xor_auth_kc (ck : List Nat) : List Nat :=
  (List.range 8).map (fun i => rd ck i ^^^ rd ck (i + 8))

/-- The function `usim_run_xor_auth`.  `output` is the buffer written, `temp`
the contents of the local array `temp[16]` on entry.  The result is `none` when
the function returns `false` (nothing written), otherwise the output buffer,
`*output_len` and the globals.  The four `memcpy` into `session` each overwrite
a whole array of the session record. -/
def usim_run_xor_auth (st : Card) (rand output temp : List Nat) :
    Option (List Nat × Nat × Card) :=
  match usim_get_file_data st 0x6F08, usim_get_file_data st 0x6F09 with
  | some (key, key_len), some (opc, opc_len) =>
    if key_len ≠ 16 ∨ opc_len ≠ 16 then none
    else
      let temp1 := xor_auth_temp rand key opc temp
      let res := xor_auth_res temp1
      let ck := xor_auth_ck rand key opc
      let ik := xor_auth_ik rand key opc
      let ak := xor_auth_ak rand key opc
      let out1 := write_bytes output 0 res 8
      let out2 := write_bytes out1 8 ck 16
      let out3 := write_bytes out2 24 ik 16
      let out4 := write_bytes out3 40 ak 6
      let kc := xor_auth_kc ck
      let out5 := write_bytes out4 46 kc 8
      let pos := ((((((((0 + 8) % 256) + 16) % 256 + 16) % 256) + 6) % 256) + 8) % 256
      some (out5, pos,
        { st with
          session :=
            { st.session with
              res := res
              ck := ck
              ik := ik
              kc := kc
              authenticated := true
              state := (st.session.state ||| USIM_STATE_AUTHENTICATED) % 256 } })
  | _, _ => none

/-! ## Command handlers (`src/apdu_handler.c`) -/

/-- The function `handle_select_file`. -/
def handle_select_file (cmd : apdu_command_t) (resp : apdu_response_t) (st : Card) : handled :=
  if cmd.lc ≠ 2 then ⟨false, { resp with sw1sw2 := SW_WRONG_LENGTH }, st⟩
  else if cmd.le ≠ 0 ∧ cmd.le < 13 then ⟨false, { resp with sw1sw2 := SW_WRONG_LENGTH }, st⟩
  else
    let file_id := ((rd cmd.data 0 <<< 8) ||| rd cmd.data 1) % 65536
    match usim_find_file st.usim_files file_id with
    | none => ⟨false, { resp with sw1sw2 := SW_FILE_NOT_FOUND }, st⟩
    | some file =>
      if ¬ usim_check_access st.session (some file) ACCESS_SELECT then
        ⟨false, { resp with sw1sw2 := SW_SECURITY_STATUS_NOT_SATISFIED }, st⟩
      else
        let fcp : List Nat :=
          [0x62, 0x0B, 0x80, 0x02,
           (file.file_size >>> 8) &&& 0xFF, file.file_size &&& 0xFF,
           0x82, 0x01, (if file.file_type = FILE_TYPE_EF then 0x21 else 0x38),
           0x83, 0x02, (file_id >>> 8) &&& 0xFF, file_id &&& 0xFF]
        ⟨true,
         { data := write_bytes resp.data 0 fcp 13, data_len := 13, sw1sw2 := SW_OK },
         { st with
           current_file :=
             { file_id := file_id, file_type := file.file_type, file_size := file.file_size }
           session :=
             { st.session with state := (st.session.state ||| USIM_STATE_SELECTED) % 256 } }⟩

/-- The length `requested` computed by `handle_read_binary` from
`available = file_size - offset` and `cmd->le`. -/
def read_binary_requested (available le : Nat) : Nat :=
  if le ≠ 0 then
    if le = 256 then (if available > 256 then 256 else available)
    else if le < available then le
    else available
  else if available > USIM_APDU_RESPONSE_DATA_MAX then USIM_APDU_RESPONSE_DATA_MAX
  else available

/-- The function `handle_read_binary`. -/
def handle_read_binary (cmd : apdu_command_t) (resp : apdu_response_t) (st : Card) : handled :=
  let offset := ((cmd.p1 <<< 8) ||| cmd.p2) % 65536
  match usim_find_file st.usim_files st.current_file.file_id with
  | none => ⟨false, { resp with sw1sw2 := SW_FILE_NOT_FOUND }, st⟩
  | some file =>
    if file.file_type ≠ FILE_TYPE_EF then
      ⟨false, { resp with sw1sw2 := SW_COMMAND_NOT_ALLOWED }, st⟩
    else if ¬ usim_check_access st.session (some file) ACCESS_READ then
      ⟨false, { resp with sw1sw2 := SW_SECURITY_STATUS_NOT_SATISFIED }, st⟩
    else
      match file.file_data with
      | none => ⟨false, { resp with sw1sw2 := SW_WRONG_PARAMETERS }, st⟩
      | some p =>
        if offset ≥ file.file_size then
          ⟨false, { resp with sw1sw2 := SW_WRONG_PARAMETERS }, st⟩
        else
          let available := file.file_size - offset
          let requested := read_binary_requested available cmd.le
          let data :=
            if st.current_file.file_id = 0x6F08 ∨ st.current_file.file_id = 0x6F09 then
              match usim_get_file_data st st.current_file.file_id with
              | some (file_data, _) => write_bytes resp.data 0 (file_data.drop offset) requested
              | none => resp.data
            else write_bytes resp.data 0 ((st.load p).drop offset) requested
          ⟨true, { data := data, data_len := requested, sw1sw2 := SW_OK }, st⟩

/-- The function `handle_authenticate`; `temp` is the entry contents of the
local array of `usim_run_xor_auth`. -/
def handle_authenticate (cmd : apdu_command_t) (resp : apdu_response_t) (st : Card)
    (temp : List Nat) : handled :=
  if cmd.lc < 16 then ⟨false, { resp with sw1sw2 := SW_WRONG_LENGTH }, st⟩
  else if st.session.state &&& USIM_STATE_PIN_VERIFIED = 0 then
    ⟨false, { resp with sw1sw2 := SW_SECURITY_STATUS_NOT_SATISFIED }, st⟩
  else if cmd.le ≠ 0 ∧ cmd.le ≠ 256 ∧ cmd.le < 54 then
    ⟨false, { resp with sw1sw2 := SW_WRONG_LENGTH }, st⟩
  else
    let rand := read_bytes cmd.data 0 16
    match usim_run_xor_auth st rand resp.data temp with
    | some (out, out_len, st1) =>
      ⟨true, { data := out, data_len := out_len, sw1sw2 := SW_OK }, st1⟩
    | none => ⟨false, { resp with sw1sw2 := SW_AUTHENTICATION_FAILED }, st⟩

/-- The function `handle_verify_chv`. -/
def handle_verify_chv (cmd : apdu_command_t) (resp : apdu_response_t) (st : Card) : handled :=
  if cmd.lc ≠ 8 then ⟨false, { resp with sw1sw2 := SW_WRONG_LENGTH }, st⟩
  else if cmd.p2 &&& 0x01 = 0 then ⟨false, { resp with sw1sw2 := SW_WRONG_PARAMETERS }, st⟩
  else if st.subscriber.pin1_retries = 0 then
    ⟨false, { resp with sw1sw2 := SW_PIN_BLOCKED }, st⟩
  else if memcmp_eq cmd.data st.subscriber.pin1 8 then
    ⟨true, { resp with sw1sw2 := SW_OK },
     { st with
       session :=
         { st.session with state := (st.session.state ||| USIM_STATE_PIN_VERIFIED) % 256 }
       subscriber := { st.subscriber with pin1_retries := 3 } }⟩
  else
    let retries :=
      if st.subscriber.pin1_retries > 0 then st.subscriber.pin1_retries - 1
      else st.subscriber.pin1_retries
    let st1 := { st with subscriber := { st.subscriber with pin1_retries := retries } }
    if retries = 0 then ⟨false, { resp with sw1sw2 := SW_PIN_BLOCKED }, st1⟩
    else ⟨false, { resp with sw1sw2 := SW_REMAINING_ATTEMPTS retries }, st1⟩

/-- The function `handle_change_chv`; `memcpy(subscriber.pin1, &cmd->data[8], 8)`
overwrites the whole array `pin1`. -/
def handle_change_chv (cmd : apdu_command_t) (resp : apdu_response_t) (st : Card) : handled :=
  if cmd.lc ≠ 16 then ⟨false, { resp with sw1sw2 := SW_WRONG_LENGTH }, st⟩
  else if cmd.p2 &&& 0x01 = 0 then ⟨false, { resp with sw1sw2 := SW_WRONG_PARAMETERS }, st⟩
  else if st.subscriber.pin1_retries = 0 then
    ⟨false, { resp with sw1sw2 := SW_PIN_BLOCKED }, st⟩
  else if ¬ memcmp_eq cmd.data st.subscriber.pin1 8 then
    let retries :=
      if st.subscriber.pin1_retries > 0 then st.subscriber.pin1_retries - 1
      else st.subscriber.pin1_retries
    let st1 := { st with subscriber := { st.subscriber with pin1_retries := retries } }
    if retries = 0 then ⟨false, { resp with sw1sw2 := SW_PIN_BLOCKED }, st1⟩
    else ⟨false, { resp with sw1sw2 := SW_REMAINING_ATTEMPTS retries }, st1⟩
  else
    ⟨true, { resp with sw1sw2 := SW_OK },
     { st with
       subscriber :=
         { st.subscriber with
           pin1 := read_bytes cmd.data 8 8
           pin1_retries := 3 }
       session :=
         { st.session with state := (st.session.state ||| USIM_STATE_PIN_VERIFIED) % 256 } }⟩

/-- The function `handle_get_response`. -/
def handle_get_response (cmd : apdu_command_t) (resp : apdu_response_t) (st : Card) : handled :=
  let requested_length := if cmd.le = 0 then 256 else cmd.le
  if requested_length > 256 then ⟨false, { resp with sw1sw2 := SW_WRONG_LENGTH }, st⟩
  else
    let data_len := if requested_length > 32 then 32 else requested_length
    ⟨true,
     { data := write_bytes resp.data 0
         ((List.range data_len).map (fun i => (i + 0x10) % 256)) data_len
       data_len := data_len
       sw1sw2 := SW_OK },
     st⟩

/-- The function `handle_status`. -/
def handle_status (cmd : apdu_command_t) (resp : apdu_response_t) (st : Card) : handled :=
  if cmd.le ≠ 0 ∧ cmd.le < 5 then ⟨false, { resp with sw1sw2 := SW_WRONG_LENGTH }, st⟩
  else
    ⟨true,
     { data := write_bytes resp.data 0
         [USIM_VERSION_MAJOR, USIM_VERSION_MINOR, st.session.state,
          st.subscriber.pin1_retries, st.subscriber.puk1_retries] 5
       data_len := 5
       sw1sw2 := SW_OK },
     st⟩

/-- The function `handle_update_binary`.  The sum `offset + cmd->lc` is taken
in 16-bit unsigned arithmetic, as on the 8051 target.  When the sum does not
wrap, the size check keeps `memcpy(&file->file_data[offset], cmd->data, cmd->lc)`
inside the array of the file and `write_bytes` is that `memcpy`.  When the sum
wraps and passes the check (`update_wraps`), the C `memcpy` writes outside the
array, in front of it; `write_bytes` has no bytes outside the array to write,
so for such a command the definition gives the response record only, and the
card it returns is not the memory of the firmware. -/
def handle_update_binary (cmd : apdu_command_t) (resp : apdu_response_t) (st : Card) : handled :=
  let offset := ((cmd.p1 <<< 8) ||| cmd.p2) % 65536
  match usim_find_file_mutable st.usim_files st.current_file.file_id,
        usim_find_file st.usim_files st.current_file.file_id with
  | some (slot, file), some file_const =>
    if file_const.file_type ≠ FILE_TYPE_EF then
      ⟨false, { resp with sw1sw2 := SW_COMMAND_NOT_ALLOWED }, st⟩
    else if ¬ usim_check_access st.session (some file_const) ACCESS_UPDATE then
      ⟨false, { resp with sw1sw2 := SW_SECURITY_STATUS_NOT_SATISFIED }, st⟩
    else if cmd.lc = 0 then ⟨false, { resp with sw1sw2 := SW_WRONG_LENGTH }, st⟩
    else if (offset + cmd.lc) % 65536 > file_const.file_size then
      ⟨false, { resp with sw1sw2 := SW_WRONG_PARAMETERS }, st⟩
    else
      match file.file_data with
      | none => ⟨false, { resp with sw1sw2 := SW_MEMORY_PROBLEM }, st⟩
      | some p =>
        let st1 := st.store p (write_bytes (st.load p) offset cmd.data cmd.lc)
        let st2 :=
          if (offset + cmd.lc) % 65536 > file.data_size then
            { st1 with
              usim_files :=
                st1.usim_files.set slot { file with data_size := (offset + cmd.lc) % 65536 } }
          else st1
        ⟨true, { resp with sw1sw2 := SW_OK, data_len := 0 }, st2⟩
  | _, _ => ⟨false, { resp with sw1sw2 := SW_FILE_NOT_FOUND }, st⟩

/-! ## Codec and dispatcher (`apdu_process_command`) -/

/-- The parsing part of `apdu_process_command` (from `cmd_len < 4U` to the
check `has_le && cmd->le > 256U`): the command record on success, `none` when
the code jumps to `send_response` with `SW_WRONG_LENGTH`.  `cmd_len` is the
length of `command`. -/
def apdu_parse (command : List Nat) : Option apdu_command_t :=
  let cmd_len := command.length
  if cmd_len < 4 then none
  else
    let cmd0 : apdu_command_t :=
      { cla := rd command 0, ins := rd command 1, p1 := rd command 2, p2 := rd command 3,
        lc := 0, data := [], le := 0 }
    let parsed : Option (apdu_command_t × Bool) :=
      if cmd_len = 5 then some ({ cmd0 with le := rd command 4 }, true)
      else if cmd_len > 5 then
        let lc := rd command 4
        if lc > USIM_APDU_MAX_DATA_LEN then none
        else if cmd_len < (5 + lc) % 65536 then none
        else
          let cmd1 : apdu_command_t :=
            { cmd0 with lc := lc, data := if lc > 0 then command.drop 5 else [] }
          if cmd_len = (5 + lc + 1) % 65536 then
            some ({ cmd1 with le := rd command (5 + lc) }, true)
          else if cmd_len ≠ (5 + lc) % 65536 then none
          else some (cmd1, false)
      else some (cmd0, false)
    match parsed with
    | none => none
    | some (cmd, has_le) =>
      let cmd2 : apdu_command_t := if has_le ∧ cmd.le = 0 then { cmd with le := 256 } else cmd
      if has_le ∧ cmd2.le > 256 then none else some cmd2

/-- The dispatch block of `apdu_process_command` in the default build: the
CLA test, the `switch` on INS and the `!invoked` default. -/
def apdu_dispatch (cmd : apdu_command_t) (resp : apdu_response_t) (st : Card)
    (temp : List Nat) : handled :=
  if cmd.cla = CLA_STANDARD ∨ cmd.cla = CLA_GSM then
    if cmd.ins = INS_SELECT_FILE then handle_select_file cmd resp st
    else if cmd.ins = INS_READ_BINARY then handle_read_binary cmd resp st
    else if cmd.ins = INS_UPDATE_BINARY then handle_update_binary cmd resp st
    else if cmd.ins = INS_VERIFY_CHV then handle_verify_chv cmd resp st
    else if cmd.ins = INS_CHANGE_CHV then handle_change_chv cmd resp st
    else if cmd.ins = INS_AUTHENTICATE then handle_authenticate cmd resp st temp
    else if cmd.ins = INS_GET_RESPONSE then handle_get_response cmd resp st
    else if cmd.ins = INS_STATUS then handle_status cmd resp st
    else
      ⟨false, (if resp.sw1sw2 = 0 then { resp with sw1sw2 := SW_INS_NOT_SUPPORTED } else resp), st⟩
  else
    let resp1 := { resp with sw1sw2 := SW_CLA_NOT_SUPPORTED }
    ⟨false, (if resp1.sw1sw2 = 0 then { resp1 with sw1sw2 := SW_INS_NOT_SUPPORTED } else resp1), st⟩

/-- What `apdu_process_command` leaves behind: its return value, the response
buffer, `*resp_len`, the final record `g_apdu_resp` and the globals. -/
structure processed where
  ok : Bool
  response : List Nat
  resp_len : Nat
  resp : apdu_response_t
  card : Card
deriving DecidableEq, Repr

/-- The label `send_response` of `apdu_process_command`: SW1 and SW2 are
stored behind the data and `*resp_len` is set.  (`resp->data` is the response
buffer itself, so the `memcpy` guarded by `resp->data != response` never runs.) -/
def send_response (h : handled) : processed :=
  let buf1 := h.resp.data.set h.resp.data_len ((h.resp.sw1sw2 >>> 8) &&& 0xFF)
  let buf2 := buf1.set (h.resp.data_len + 1) (h.resp.sw1sw2 &&& 0xFF)
  { ok := decide (h.resp.sw1sw2 = SW_OK)
    response := buf2
    resp_len := (h.resp.data_len + 2) % 65536
    resp := h.resp
    card := h.card }

/-- The function `apdu_process_command`.  `command` holds the `cmd_len`
received bytes, `response` the contents of the response buffer on entry, `temp`
the entry contents of the local array of `usim_run_xor_auth`. -/
def apdu_process_command (command response : List Nat) (st : Card) (temp : List Nat) :
    processed :=
  let resp0 : apdu_response_t := { data := response, data_len := 0, sw1sw2 := 0 }
  match apdu_parse command with
  | none => send_response ⟨false, { resp0 with sw1sw2 := SW_WRONG_LENGTH }, st⟩
  | some cmd => send_response (apdu_dispatch cmd resp0 st temp)

/-- The bytes `usim_send_response(apdu_response, resp_len)` puts on the line. -/
def processed.sent (r : processed) : List Nat := r.response.take r.resp_len

/-! ## The main loop (`src/main.c`) and reachable states -/

/-- One iteration of the loop of `main` that received a command: the bytes of
the command and the entry contents of the local array of `usim_run_xor_auth`
for this call. -/
structure apdu_event where
  command : List Nat
  temp : List Nat
deriving DecidableEq, Repr

/-- The loop of `main` over a sequence of received commands, starting with the
globals `st` and the response buffer `response`: the final globals, the final
response buffer and the byte strings sent, in order. -/
def main_loop : Card → List Nat → List apdu_event → Card × List Nat × List (List Nat)
  | st, response, [] => (st, response, [])
  | st, response, e :: es =>
    let r := apdu_process_command e.command response st e.temp
    let t := main_loop r.card r.response es
    (t.1, t.2.1, r.sent :: t.2.2)

/-- A command buffer routed to `handle_update_binary` whose offset plus `Lc`
does not fit 16 bits: the commands on which the `memcpy` of
`handle_update_binary` can leave the array of the file. -/
def update_wraps (command : List Nat) : Bool :=
  match apdu_parse command with
  | some cmd =>
    decide ((cmd.cla = CLA_STANDARD ∨ cmd.cla = CLA_GSM) ∧ cmd.ins = INS_UPDATE_BINARY
      ∧ 65536 ≤ ((cmd.p1 <<< 8) ||| cmd.p2) % 65536 + cmd.lc)
  | none => false

/-- The fields of a table entry that no code writes: identifier, type,
declared size, access condition and data pointer. -/
def static_part (f : usim_file_t) : Nat × Nat × Nat × Nat × Option data_ptr :=
  (f.file_id, f.file_type, f.file_size, f.access_conditions, f.file_data)

/-- The table of the card still carries the constant fields of its
initialiser (only `data_size` may differ). -/
def catalogue_intact (st : Card) : Prop :=
  st.usim_files.map static_part = usim_files_table.map static_part

instance (st : Card) : Decidable (catalogue_intact st) := by
  unfold catalogue_intact
  infer_instance

/-! ## Vocabulary of the specification -/

/-- A command buffer the codec accepts and the dispatcher routes to
`handle_verify_chv` with `Lc = 8` and an odd `P2`. -/
def is_verify_chv (command : List Nat) : Bool :=
  match apdu_parse command with
  | some cmd =>
    decide ((cmd.cla = CLA_STANDARD ∨ cmd.cla = CLA_GSM) ∧ cmd.ins = INS_VERIFY_CHV
      ∧ cmd.lc = 8 ∧ cmd.p2 % 2 = 1)
  | none => false

/-- The first 8 data bytes of the command buffer are the bytes of `pin`. -/
def carries_pin (command pin : List Nat) : Bool :=
  match apdu_parse command with
  | some cmd => decide (read_bytes cmd.data 0 8 = read_bytes pin 0 8)
  | none => false

/-- The plaintext of a secret file: its 16 stored bytes with the mask removed. -/
def unmasked (stored : List Nat) : List Nat :=
  (List.range 16).map (fun i => rd stored i ^^^ rd xor_key i)

/-- The vector `T` of the specification: `T[i] = RAND[i] ^ Ki[i] ^ OPc[i]` for
`i` in `0..15`. -/
def spec_T (rand ki opc : List Nat) : List Nat :=
  (List.range 16).map (fun i => rd rand i ^^^ rd ki i ^^^ rd opc i)

/-- The response `RES` of the specification: `RES[i]` is the low nibble of
`T[i]` OR-ed with the low nibble of `T[i+8]` shifted left by 4, `i` in `0..7`. -/
def spec_RES (rand ki opc : List Nat) : List Nat :=
  (List.range 8).map
    (fun i => (rd (spec_T rand ki opc) i &&& 0x0F)
      ||| ((rd (spec_T rand ki opc) (i + 8) &&& 0x0F) <<< 4))

/-- The entries of the catalogue: the table up to, and without, the sentinel
with identifier 0. -/
def catalogue_entries (files : List usim_file_t) : List usim_file_t :=
  files.takeWhile (fun f => decide (f.file_id ≠ 0))

/-! ## Byte transport (`src/chip_init.c`) -/

abbrev SIM_MACHINE_CYCLE_DIV : Nat := 4
abbrev SIM_ETU_FACTOR : Nat := 372
abbrev SIM_DEFAULT_ETU_TICKS : Nat := SIM_ETU_FACTOR / SIM_MACHINE_CYCLE_DIV
abbrev SIM_MIN_ETU_TICKS : Nat := 8
abbrev SIM_MAX_ETU_TICKS : Nat := 0xFFFF
abbrev SIM_PPS_START_TIMEOUT : Nat := 120000
abbrev SIM_PPS_INTERBYTE_TIMEOUT : Nat := 60000
abbrev SIM_PREFETCH_CAPACITY : Nat := 8

/-- The statics of `chip_init.c` that byte transport reads and writes, together
with `io_pin`, the level the card puts on the I/O line (bit `SIM_IO_PIN` of
`P1`; `true` is released, `false` driven low), and `tx_wire`, the record of
what the card held on the line while sending: one entry per `sim_delay_ticks`
of `sim_send_byte`, the level of the pin and the number of timer ticks. -/
structure sim_transport where
  sim_etu_ticks : Nat
  sim_half_etu_ticks : Nat
  sim_quarter_etu_ticks : Nat
  sim_etu_ready : Bool
  sim_rx_prefetch_buf : List Nat
  sim_rx_prefetch_count : Nat
  sim_pps_processed : Bool
  io_pin : Bool
  tx_wire : List (Bool × Nat)
deriving DecidableEq, Repr

/-- What the reader does on the I/O line during one call of `sim_receive_byte`
that has to listen to the line (RST staying high): `silence` when the wait for
a start bit runs out, otherwise `frame samples`, the successive values of
`sim_io_read()` from the start-bit check half an ETU after the falling edge
on: start bit, eight data bits, parity bit, stop bit (`true` is high; a sample
the list does not hold is high, the idle level). -/
inductive line_event where
  | silence
  | frame (samples : List Bool)
deriving DecidableEq, Repr

/-- The function `sim_set_etu_ticks`. -/
def sim_set_etu_ticks (t : sim_transport) (ticks : Nat) : sim_transport :=
  let ticks1 :=
    if ticks < SIM_MIN_ETU_TICKS then SIM_MIN_ETU_TICKS
    else if ticks > SIM_MAX_ETU_TICKS then SIM_MAX_ETU_TICKS
    else ticks
  { t with
    sim_etu_ticks := ticks1
    sim_half_etu_ticks := if ticks1 / 2 = 0 then 1 else ticks1 / 2
    sim_quarter_etu_ticks := if ticks1 / 4 = 0 then 1 else ticks1 / 4 }

/-- The block `if(!sim_etu_ready) { sim_set_etu_ticks(SIM_DEFAULT_ETU_TICKS);
sim_etu_ready = true; }` of `sim_send_byte` and `sim_receive_byte`. -/
def sim_ensure_etu (t : sim_transport) : sim_transport :=
  if t.sim_etu_ready then t
  else { sim_set_etu_ticks t SIM_DEFAULT_ETU_TICKS with sim_etu_ready := true }

/-- The function `sim_io_drive_low`. -/
def sim_io_drive_low (t : sim_transport) : sim_transport := { t with io_pin := false }

/-- The function `sim_io_release`. -/
def sim_io_release (t : sim_transport) : sim_transport := { t with io_pin := true }

/-- The function `sim_delay_ticks` as the reader sees it while the card sends:
the line keeps the level of the pin for `ticks` timer ticks. -/
def sim_delay_ticks (t : sim_transport) (ticks : Nat) : sim_transport :=
  { t with tx_wire := t.tx_wire ++ [(t.io_pin, ticks)] }

/-- The function `sim_prefetch_pop`: `none` when it returns `false`, otherwise
the value stored in `*value` and the statics. -/
def sim_prefetch_pop (t : sim_transport) : Option (Nat × sim_transport) :=
  if t.sim_rx_prefetch_count = 0 then none
  else
    some (rd t.sim_rx_prefetch_buf (t.sim_rx_prefetch_count - 1),
          { t with sim_rx_prefetch_count := t.sim_rx_prefetch_count - 1 })

/-- The function `sim_prefetch_push`. -/
def sim_prefetch_push (t : sim_transport) (value : Nat) : sim_transport :=
  if t.sim_rx_prefetch_count < SIM_PREFETCH_CAPACITY then
    { t with
      sim_rx_prefetch_buf := t.sim_rx_prefetch_buf.set t.sim_rx_prefetch_count value
      sim_rx_prefetch_count := t.sim_rx_prefetch_count + 1 }
  else t

/-- The function `sim_prefetch_clear`. -/
def sim_prefetch_clear (t : sim_transport) : sim_transport :=
  { t with sim_rx_prefetch_count := 0 }

/-- The loop of `sim_send_byte` over `bit_index`, with `n` iterations left:
the statics and the local `parity` after it. -/
def sim_send_bits : Nat → Nat → Nat → sim_transport → sim_transport × Nat
  | 0, _, parity, t => (t, parity)
  | n + 1, data, parity, t =>
    if data &&& 0x01 ≠ 0 then
      sim_send_bits n (data >>> 1) (parity ^^^ 1)
        (sim_delay_ticks (sim_io_release t) t.sim_etu_ticks)
    else
      sim_send_bits n (data >>> 1) parity
        (sim_delay_ticks (sim_io_drive_low t) t.sim_etu_ticks)

/-- The function `sim_send_byte`: its return value and the statics. -/
def sim_send_byte (t : sim_transport) (data : Nat) : Bool × sim_transport :=
  let t0 := sim_ensure_etu t
  let t1 := sim_delay_ticks (sim_io_drive_low t0) t0.sim_etu_ticks
  let sent := sim_send_bits 8 data 0 t1
  let t2 := if sent.2 ≠ 0 then sim_io_release sent.1 else sim_io_drive_low sent.1
  let t3 := sim_delay_ticks t2 t2.sim_etu_ticks
  let t4 := sim_delay_ticks (sim_io_release t3) t3.sim_etu_ticks
  let t5 := sim_delay_ticks t4 t4.sim_half_etu_ticks
  (true, t5)

/-- The loop of `sim_receive_byte` over `bit_index`, with `n` iterations left:
the locals `value` and `parity` after it.  The sample read in iteration
`bit_index` is the one after the start-bit check. -/
def sim_receive_bits (samples : List Bool) : Nat → Nat → Nat → Nat → Nat × Nat
  | 0, _, value, parity => (value, parity)
  | n + 1, bit_index, value, parity =>
    if samples.getD (1 + bit_index) true then
      sim_receive_bits samples n (bit_index + 1) (value ||| ((1 <<< bit_index) % 256))
        (parity ^^^ 1)
    else sim_receive_bits samples n (bit_index + 1) value parity

/-- The function `sim_receive_byte` (called with a valid `data` pointer): the
byte stored in `*data` when it returns `true`, `none` when it returns `false`;
the statics; the line events left.  A parity error or a missing stop bit is
only logged.  The wait for the start bit, which `timeout_cycles` bounds, is
represented by its outcome, the next line event. -/
def sim_receive_byte (t : sim_transport) (line : List line_event) (_timeout_cycles : Nat) :
    Option Nat × sim_transport × List line_event :=
  match sim_prefetch_pop t with
  | some (value, t1) => (some value, t1, line)
  | none =>
    let t1 := sim_io_release (sim_ensure_etu t)
    match line with
    | [] => (none, t1, [])
    | .silence :: rest => (none, t1, rest)
    | .frame samples :: rest =>
      if samples.getD 0 true then (none, t1, rest)
      else (some (sim_receive_bits samples 8 0 0 0).1, t1, rest)

/-- The locals of `sim_handle_pps_sequence` that its loop over the optional
bytes carries, with the statics and the line events left.  `consumed` holds
the `consumed_len` bytes stored so far. -/
structure pps_scan where
  transport : sim_transport
  line : List line_event
  optional_count : Nat
  xor_acc : Nat
  consumed : List Nat
deriving DecidableEq, Repr

/-- The statement `if(consumed_len < sizeof(consumed)) consumed[consumed_len++] = b`. -/
def pps_consume (consumed : List Nat) (b : Nat) : List Nat :=
  if consumed.length < 6 then consumed ++ [b] else consumed

/-- The loop `for(index = 0; index < consumed_len; ++index)
sim_prefetch_push(consumed[consumed_len - 1 - index])`. -/
def sim_pps_push_back (t : sim_transport) (consumed : List Nat) : sim_transport :=
  (List.range consumed.length).foldl
    (fun t1 index => sim_prefetch_push t1 (rd consumed (consumed.length - 1 - index))) t

/-- The loop of `sim_handle_pps_sequence` over `index`, for the indices left:
`error` when a reception fails (the function then marks PPS processed and
returns), otherwise the locals after the loop. -/
def sim_pps_optional : List Nat → Nat → pps_scan → Except (sim_transport × List line_event) pps_scan
  | [], _, s => .ok s
  | index :: rest, optional_mask, s =>
    if optional_mask &&& (1 <<< index) ≠ 0 then
      if s.optional_count ≥ 3 then .ok s
      else
        match sim_receive_byte s.transport s.line SIM_PPS_INTERBYTE_TIMEOUT with
        | (none, t1, line1) => .error (t1, line1)
        | (some b, t1, line1) =>
          sim_pps_optional rest optional_mask
            { transport := t1
              line := line1
              optional_count := s.optional_count + 1
              xor_acc := s.xor_acc ^^^ b
              consumed := pps_consume s.consumed b }
    else sim_pps_optional rest optional_mask s

/-- The function `sim_handle_pps_sequence`: its return value, the statics and
the line events left. -/
def sim_handle_pps_sequence (t : sim_transport) (line : List line_event) :
    Bool × sim_transport × List line_event :=
  if t.sim_pps_processed then (true, t, line)
  else
    match sim_receive_byte t line SIM_PPS_START_TIMEOUT with
    | (none, t1, line1) => (true, { t1 with sim_pps_processed := true }, line1)
    | (some first_byte, t1, line1) =>
      if first_byte ≠ 0xFF then
        (true, { sim_prefetch_push t1 first_byte with sim_pps_processed := true }, line1)
      else
        match sim_receive_byte t1 line1 SIM_PPS_INTERBYTE_TIMEOUT with
        | (none, t2, line2) =>
          (true, { sim_prefetch_push t2 first_byte with sim_pps_processed := true }, line2)
        | (some pps0, t2, line2) =>
          if pps0 < 0x10 ∨ pps0 > 0x1F then
            (true,
             { sim_pps_push_back t2 (pps_consume [first_byte] pps0) with
               sim_pps_processed := true },
             line2)
          else
            match sim_pps_optional [0, 1, 2] (pps0 &&& 0x0F)
                { transport := t2
                  line := line2
                  optional_count := 0
                  xor_acc := first_byte ^^^ pps0
                  consumed := pps_consume [first_byte] pps0 } with
            | .error (t3, line3) => (true, { t3 with sim_pps_processed := true }, line3)
            | .ok s =>
              match sim_receive_byte s.transport s.line SIM_PPS_INTERBYTE_TIMEOUT with
              | (none, t4, line4) => (true, { t4 with sim_pps_processed := true }, line4)
              | (some pck, t4, line4) =>
                if s.xor_acc ^^^ pck ≠ 0 then
                  (true,
                   { sim_pps_push_back t4 (pps_consume s.consumed pck) with
                     sim_pps_processed := true },
                   line4)
                else if pps0 &&& 0xF0 ≠ 0x10 then
                  (true, { t4 with sim_pps_processed := true }, line4)
                else if (pps0 &&& 0x0F) &&& 0x08 ≠ 0 then
                  (true, { t4 with sim_pps_processed := true }, line4)
                else if s.optional_count > 0 then
                  (true, { t4 with sim_pps_processed := true }, line4)
                else
                  let s1 := sim_send_byte { t4 with sim_pps_processed := true } first_byte
                  if ¬ s1.1 then (false, s1.2, line4)
                  else
                    let s2 := sim_send_byte s1.2 pps0
                    if ¬ s2.1 then (false, s2.2, line4)
                    else
                      let s3 := sim_send_byte s2.2 pck
                      if ¬ s3.1 then (false, s3.2, line4)
                      else (true, s3.2, line4)

/-- The statics of byte transport as `chip_init` leaves them: default ETU, an
empty prefetch buffer, PPS not yet processed, the I/O line released. -/
def chip_init_transport : sim_transport :=
  { sim_set_etu_ticks
      { sim_etu_ticks := SIM_DEFAULT_ETU_TICKS
        sim_half_etu_ticks := SIM_DEFAULT_ETU_TICKS / 2
        sim_quarter_etu_ticks := SIM_DEFAULT_ETU_TICKS / 4
        sim_etu_ready := false
        sim_rx_prefetch_buf := List.replicate 8 0
        sim_rx_prefetch_count := 0
        sim_pps_processed := false
        io_pin := true
        tx_wire := [] }
      SIM_DEFAULT_ETU_TICKS with
    sim_etu_ready := true
    sim_rx_prefetch_count := 0
    sim_pps_processed := false
    io_pin := true }

/-! ## Vocabulary of the specification: characters on the line -/

/-- Even parity bit of the eight data bits of `d`: their XOR. -/
def iso_parity (d : Nat) : Bool :=
  (List.range 8).foldl (fun p i => xor p (d.testBit i)) false

/-- The eleven levels of an ISO 7816-3 character for the byte `d`: start bit
(low), data bits 0 to 7, parity bit, stop bit (high). -/
def iso_frame (d : Nat) : List Bool :=
  [false] ++ (List.range 8).map (fun i => d.testBit i) ++ [iso_parity d, true]

/-- The reader sends the byte `d`. -/
def reader_byte (d : Nat) : line_event := .frame (iso_frame d)

/-- What `tx_wire` records when the bytes `bytes` are sent one after the other
with ETU `etu` and half ETU `half`: per byte the eleven levels of its
character, one ETU each, and the line released for another half ETU. -/
def sent_bytes (etu half : Nat) (bytes : List Nat) : List (Bool × Nat) :=
  bytes.flatMap (fun d => (iso_frame d).map (fun l => (l, etu)) ++ [(true, half)])

/-- The level recorded in `wire` at `tick` ticks after its beginning (high after
its end). -/
def level_at : List (Bool × Nat) → Nat → Bool
  | [], _ => true
  | (l, n) :: rest, tick => if tick < n then l else level_at rest (tick - n)

/-- The results of `n` successive calls of `sim_receive_byte`, with the statics
and the line events left after the last one. -/
def sim_receive_bytes : Nat → sim_transport → List line_event →
    List (Option Nat) × sim_transport × List line_event
  | 0, t, line => ([], t, line)
  | n + 1, t, line =>
    ((sim_receive_byte t line 0).1
        :: (sim_receive_bytes n (sim_receive_byte t line 0).2.1 (sim_receive_byte t line 0).2.2).1,
      (sim_receive_bytes n (sim_receive_byte t line 0).2.1 (sim_receive_byte t line 0).2.2).2.1,
      (sim_receive_bytes n (sim_receive_byte t line 0).2.1 (sim_receive_byte t line 0).2.2).2.2)

/-- Number of optional bytes PPS0 announces to `sim_handle_pps_sequence`: the
bits set among bits 0, 1, 2. -/
def pps_optional_bytes (pps0 : Nat) : Nat :=
  ([0, 1, 2].filter (fun i => pps0.testBit i)).length

/-! ## Clock measurement (`src/chip_init.c`) -/

abbrev SIM_MEASURE_GUARD : Nat := 200000

/-- One guarded spin of `sim_measure_clock_period`,
`while(((P1 & SIM_CLK_PIN) != 0U) && guard-- != 0UL) { }` for `level = true` and
`while(((P1 & SIM_CLK_PIN) == 0U) && guard-- != 0UL) { }` for `level = false`.
`clk i` is the level of the clock pin at the `i`-th read of `P1`; the spin
starts with read `i` and the counter at `guard`.  Each turn reads the pin
first; only when the pin still shows `level` is `guard-- != 0UL` evaluated,
which compares the old value of the counter and then decrements the 32-bit
counter, from 0 to `0xFFFFFFFF`.  The result is the counter after the loop and
the index of the next read. -/
def sim_clk_spin (clk : Nat → Bool) (level : Bool) : Nat → Nat → Nat × Nat
  | 0, i =>
    if clk i = level then ((0 + 4294967296 - 1) % 4294967296, i + 1) else (0, i + 1)
  | guard + 1, i =>
    if clk i = level then sim_clk_spin clk level guard (i + 1) else (guard + 1, i + 1)

/-- The function `sim_measure_clock_period`.  `clk i` is the level of the
clock pin at the `i`-th read of `P1`, `th0` and `tl0` the contents of the timer
registers `TH0` and `TL0` once the timer is stopped. -/
def sim_measure_clock_period (clk : Nat → Bool) (th0 tl0 : Nat) : Nat :=
  let s1 := sim_clk_spin clk true SIM_MEASURE_GUARD 0
  if s1.1 = 0 then 0
  else
    let s2 := sim_clk_spin clk false SIM_MEASURE_GUARD s1.2
    if s2.1 = 0 then 0
    else
      let s3 := sim_clk_spin clk true SIM_MEASURE_GUARD s2.2
      if s3.1 = 0 then 0
      else
        let s4 := sim_clk_spin clk false SIM_MEASURE_GUARD s3.2
        if s4.1 = 0 then 0
        else ((th0 <<< 8) ||| tl0) % 4294967296

/-- The function `sim_update_clock_from_reader`; the product `period * 372UL`
is taken in 32-bit unsigned arithmetic. -/
def sim_update_clock_from_reader (t : sim_transport) (clk : Nat → Bool) (th0 tl0 : Nat) :
    sim_transport :=
  let period := sim_measure_clock_period clk th0 tl0
  if period ≠ 0 then
    let etu := (period * 372) % 4294967296
    { sim_set_etu_ticks t etu with sim_etu_ready := true }
  else if t.sim_etu_ready = false then
    { sim_set_etu_ticks t SIM_DEFAULT_ETU_TICKS with sim_etu_ready := true }
  else t

/-- The function `sim_prepare_after_reset`. -/
def sim_prepare_after_reset (t : sim_transport) (clk : Nat → Bool) (th0 tl0 : Nat) :
    sim_transport :=
  { sim_prefetch_clear (sim_io_release (sim_update_clock_from_reader t clk th0 tl0)) with
    sim_pps_processed := false }

/-! ## Vocabulary of the specification: clocks, sequences of commands -/

/-- A reader clock that changes level at every read of the pin, starting low. -/
def clk_toggle (i : Nat) : Bool := decide (i % 2 = 1)

/-- A reader clock stuck at `level`. -/
def clk_stuck (level : Bool) (_i : Nat) : Bool := level

/-- A reader clock that shows `level` at the first 200000 reads and the other
level from then on. -/
def clk_late (level : Bool) (i : Nat) : Bool := if i < SIM_MEASURE_GUARD then level else !level

/-- The card `st` with other stored bytes in the arrays of EF_KEY and EF_OPc. -/
def with_secrets (st : Card) (key opc : List Nat) : Card :=
  { st with key_data := key, opc_data := opc }

/-- A command buffer the codec accepts and the dispatcher routes to
`handle_authenticate`. -/
def is_authenticate (command : List Nat) : Bool :=
  match apdu_parse command with
  | some cmd =>
    decide ((cmd.cla = CLA_STANDARD ∨ cmd.cla = CLA_GSM) ∧ cmd.ins = INS_AUTHENTICATE)
  | none => false

/-- A VERIFY CHV or CHANGE CHV command that reaches the comparison of the PIN
(routed, `Lc` and `P2` accepted, PIN1 not blocked) and presents other bytes
than the stored PIN1. -/
def wrong_pin_attempt (cmd : apdu_command_t) (st : Card) : Prop :=
  (cmd.cla = CLA_STANDARD ∨ cmd.cla = CLA_GSM)
    ∧ ((cmd.ins = INS_VERIFY_CHV ∧ cmd.lc = 8) ∨ (cmd.ins = INS_CHANGE_CHV ∧ cmd.lc = 16))
    ∧ cmd.p2 &&& 0x01 ≠ 0
    ∧ 0 < st.subscriber.pin1_retries
    ∧ memcmp_eq cmd.data st.subscriber.pin1 8 = false

/-- The card `st` with one PIN1 retry less. -/
def one_retry_less (st : Card) : Card :=
  { st with
    subscriber := { st.subscriber with pin1_retries := st.subscriber.pin1_retries - 1 } }

/-! ## Buffers -/

theorem rd_nil (i : Nat) : rd [] i = 0 := by
  simp [rd]

theorem rd_set (l : List Nat) (i j v : Nat) :
    rd (l.set i v) j = if j = i ∧ i < l.length then v else rd l j := by
  unfold rd
  simp only [List.getD_eq_getElem?_getD, List.getElem?_set]
  by_cases h1 : i = j
  · subst h1
    by_cases h2 : i < l.length
    · simp [h2]
    · have : l[i]? = none := by simp; omega
      simp [h2, this]
  · have : ¬ j = i := fun h => h1 h.symm
    simp [h1, this]

theorem length_write_bytes (dst src : List Nat) (off n : Nat) :
    (write_bytes dst off src n).length = dst.length := by
  simp [write_bytes]

theorem length_read_bytes (src : List Nat) (off n : Nat) :
    (read_bytes src off n).length = n := by
  simp [read_bytes]

theorem rd_write_bytes (dst src : List Nat) (off n j : Nat) :
    rd (write_bytes dst off src n) j =
      if j < dst.length then (if off ≤ j ∧ j < off + n then rd src (j - off) else rd dst j)
      else 0 := by
  unfold write_bytes
  conv_lhs => unfold rd
  rw [List.getD_eq_getElem?_getD, List.getElem?_map]
  by_cases h : j < dst.length
  · simp [List.getElem?_range, h, rd, List.getD_eq_getElem?_getD]
  · have : (List.range dst.length)[j]? = none := by simp; omega
    simp [this, h]

theorem rd_range_map (f : Nat → Nat) (n i : Nat) (h : i < n) :
    rd ((List.range n).map f) i = f i := by
  simp [rd, List.getD_eq_getElem?_getD, List.getElem?_range, h]

theorem read_bytes_eq_of_rd (buf : List Nat) (off n : Nat) (f : Nat → Nat)
    (h : ∀ i, i < n → rd buf (off + i) = f i) :
    read_bytes buf off n = (List.range n).map f := by
  unfold read_bytes
  apply List.map_congr_left
  intro i hi
  exact h i (List.mem_range.mp hi)

theorem set_same {α : Type} (l : List α) (i : Nat) (a : α) (h : l[i]? = some a) :
    l.set i a = l := by
  apply List.ext_getElem?
  intro j
  rw [List.getElem?_set]
  by_cases h1 : i = j
  · subst h1
    have hlt : i < l.length := by
      by_contra hc
      have : l[i]? = none := by simp; omega
      rw [this] at h
      cases h
    simp [hlt, h]
  · simp [h1]

/-! ## The catalogue -/

theorem find_static (files files' : List usim_file_t)
    (h : files.map static_part = files'.map static_part) (file_id : Nat) :
    (usim_find_file files file_id).map static_part
      = (usim_find_file files' file_id).map static_part := by
  induction files generalizing files' with
  | nil =>
    cases files' with
    | nil => rfl
    | cons g gs => simp at h
  | cons f fs ih =>
    cases files' with
    | nil => simp at h
    | cons g gs =>
      simp only [List.map_cons, List.cons.injEq] at h
      obtain ⟨hfg, hrest⟩ := h
      have hid : f.file_id = g.file_id := by
        have := congrArg Prod.fst hfg
        simpa [static_part] using this
      unfold usim_find_file
      rw [hid]
      by_cases h0 : g.file_id = 0
      · simp [h0]
      · by_cases h1 : g.file_id = file_id
        · rw [if_neg h0, if_pos h1, if_neg h0, if_pos h1]
          simp [hfg]
        · rw [if_neg h0, if_neg h1, if_neg h0, if_neg h1]
          exact ih gs hrest

theorem find_mem (files : List usim_file_t) (file_id : Nat) (f : usim_file_t)
    (h : usim_find_file files file_id = some f) : f ∈ files ∧ f.file_id = file_id := by
  induction files with
  | nil => simp [usim_find_file] at h
  | cons g gs ih =>
    unfold usim_find_file at h
    by_cases h0 : g.file_id = 0
    · simp [h0] at h
    · by_cases h1 : g.file_id = file_id
      · rw [if_neg h0, if_pos h1] at h
        cases h
        exact ⟨List.mem_cons_self _ _, h1⟩
      · rw [if_neg h0, if_neg h1] at h
        exact ⟨List.mem_cons_of_mem _ (ih h).1, (ih h).2⟩

theorem find_intact (st : Card) (hc : catalogue_intact st) (file_id : Nat) :
    (usim_find_file st.usim_files file_id).map static_part
      = (usim_find_file usim_files_table file_id).map static_part :=
  find_static _ _ hc file_id

theorem table_sizes : ∀ g ∈ usim_files_table, g.file_size ≤ 22 := by
  decide

theorem intact_size_le (st : Card) (hc : catalogue_intact st) (file_id : Nat) (f : usim_file_t)
    (h : usim_find_file st.usim_files file_id = some f) : f.file_size ≤ 22 := by
  have h1 := find_intact st hc file_id
  rw [h] at h1
  cases hg : usim_find_file usim_files_table file_id with
  | none => rw [hg] at h1; simp at h1
  | some g =>
    rw [hg] at h1
    simp only [Option.map_some', Option.some.injEq] at h1
    have hs : f.file_size = g.file_size := by
      have := congrArg (fun t => t.2.2.1) h1
      simpa [static_part] using this
    rw [hs]
    exact table_sizes g (find_mem _ _ _ hg).1

theorem intact_find_key (st : Card) (hc : catalogue_intact st) :
    ∃ f, usim_find_file st.usim_files 0x6F08 = some f ∧ f.file_type = FILE_TYPE_EF
      ∧ f.file_size = 16 ∧ f.access_conditions = AC_NEVER ∧ f.file_data = some .key_data := by
  have h1 := find_intact st hc 0x6F08
  have h2 : (usim_find_file usim_files_table 0x6F08).map static_part
      = some (0x6F08, FILE_TYPE_EF, 16, AC_NEVER, some .key_data) := by decide
  rw [h2] at h1
  cases hf : usim_find_file st.usim_files 0x6F08 with
  | none => rw [hf] at h1; simp at h1
  | some f =>
    rw [hf] at h1
    simp only [Option.map_some', Option.some.injEq, static_part, Prod.mk.injEq] at h1
    exact ⟨f, rfl, h1.2.1, h1.2.2.1, h1.2.2.2.1, h1.2.2.2.2⟩

theorem intact_find_opc (st : Card) (hc : catalogue_intact st) :
    ∃ f, usim_find_file st.usim_files 0x6F09 = some f ∧ f.file_type = FILE_TYPE_EF
      ∧ f.file_size = 16 ∧ f.access_conditions = AC_NEVER ∧ f.file_data = some .opc_data := by
  have h1 := find_intact st hc 0x6F09
  have h2 : (usim_find_file usim_files_table 0x6F09).map static_part
      = some (0x6F09, FILE_TYPE_EF, 16, AC_NEVER, some .opc_data) := by decide
  rw [h2] at h1
  cases hf : usim_find_file st.usim_files 0x6F09 with
  | none => rw [hf] at h1; simp at h1
  | some f =>
    rw [hf] at h1
    simp only [Option.map_some', Option.some.injEq, static_part, Prod.mk.injEq] at h1
    exact ⟨f, rfl, h1.2.1, h1.2.2.1, h1.2.2.2.1, h1.2.2.2.2⟩

theorem find_mutable_from_spec (files : List usim_file_t) (file_id i slot : Nat)
    (file : usim_file_t)
    (h : usim_find_file_mutable_from files file_id i = some (slot, file)) :
    i ≤ slot ∧ files[slot - i]? = some file := by
  induction files generalizing i with
  | nil => simp [usim_find_file_mutable_from] at h
  | cons g gs ih =>
    unfold usim_find_file_mutable_from at h
    by_cases h0 : g.file_id = 0
    · simp [h0] at h
    · by_cases h1 : g.file_id = file_id
      · rw [if_neg h0, if_pos h1] at h
        cases h
        simp
      · rw [if_neg h0, if_neg h1] at h
        obtain ⟨hle, hget⟩ := ih (i + 1) h
        refine ⟨by omega, ?_⟩
        have : slot - i = (slot - (i + 1)) + 1 := by omega
        rw [this, List.getElem?_cons_succ]
        exact hget

theorem store_files (st : Card) (p : data_ptr) (v : List Nat) :
    (st.store p v).usim_files = st.usim_files := by
  cases p <;> rfl

theorem store_session (st : Card) (p : data_ptr) (v : List Nat) :
    (st.store p v).session = st.session := by
  cases p <;> rfl

theorem store_subscriber (st : Card) (p : data_ptr) (v : List Nat) :
    (st.store p v).subscriber = st.subscriber := by
  cases p <;> rfl

theorem store_current_file (st : Card) (p : data_ptr) (v : List Nat) :
    (st.store p v).current_file = st.current_file := by
  cases p <;> rfl

/-! ## Handlers: the table and the response record -/

theorem sw_remaining_lt (n : Nat) : SW_REMAINING_ATTEMPTS n < 65536 := by
  unfold SW_REMAINING_ATTEMPTS
  exact Nat.mod_lt _ (by norm_num)

theorem read_binary_requested_le (available le : Nat) :
    read_binary_requested available le ≤ available := by
  unfold read_binary_requested
  split_ifs <;> omega

theorem select_file_frame (cmd : apdu_command_t) (resp : apdu_response_t) (st : Card)
    (hd : resp.data_len ≤ 255) :
    (handle_select_file cmd resp st).card.usim_files = st.usim_files
      ∧ (handle_select_file cmd resp st).resp.data.length = resp.data.length
      ∧ (handle_select_file cmd resp st).resp.data_len ≤ 255
      ∧ (handle_select_file cmd resp st).resp.sw1sw2 < 65536 := by
  unfold handle_select_file
  dsimp only
  repeat' split
  all_goals
      refine ⟨?_, ?_, ?_, ?_⟩ <;> first
        | rfl
        | exact hd
        | exact sw_remaining_lt _
        | exact length_write_bytes _ _ _ _
        | (dsimp only; omega)
        | omega
        | norm_num

theorem read_binary_frame (cmd : apdu_command_t) (resp : apdu_response_t) (st : Card)
    (hc : catalogue_intact st) (hd : resp.data_len ≤ 255) :
    (handle_read_binary cmd resp st).card = st
      ∧ (handle_read_binary cmd resp st).resp.data.length = resp.data.length
      ∧ (handle_read_binary cmd resp st).resp.data_len ≤ 255
      ∧ (handle_read_binary cmd resp st).resp.sw1sw2 < 65536 := by
  unfold handle_read_binary
  cases hfile : usim_find_file st.usim_files st.current_file.file_id with
  | none => exact ⟨rfl, rfl, hd, by norm_num⟩
  | some file =>
    have hsize := intact_size_le st hc _ file hfile
    have hreq := read_binary_requested_le
      (file.file_size - ((cmd.p1 <<< 8 ||| cmd.p2) % 65536)) cmd.le
    dsimp only
    repeat' split
    all_goals
      refine ⟨?_, ?_, ?_, ?_⟩ <;> first
        | rfl
        | exact hd
        | exact sw_remaining_lt _
        | exact length_write_bytes _ _ _ _
        | (dsimp only; omega)
        | omega
        | norm_num

theorem verify_chv_frame (cmd : apdu_command_t) (resp : apdu_response_t) (st : Card)
    :
    (handle_verify_chv cmd resp st).card.usim_files = st.usim_files
      ∧ (handle_verify_chv cmd resp st).resp.data = resp.data
      ∧ (handle_verify_chv cmd resp st).resp.data_len = resp.data_len
      ∧ (handle_verify_chv cmd resp st).resp.sw1sw2 < 65536 := by
  unfold handle_verify_chv
  dsimp only
  repeat' split
  all_goals
      refine ⟨?_, ?_, ?_, ?_⟩ <;> first
        | rfl
        | exact hd
        | exact sw_remaining_lt _
        | exact length_write_bytes _ _ _ _
        | (dsimp only; omega)
        | omega
        | norm_num

theorem change_chv_frame (cmd : apdu_command_t) (resp : apdu_response_t) (st : Card)
    :
    (handle_change_chv cmd resp st).card.usim_files = st.usim_files
      ∧ (handle_change_chv cmd resp st).resp.data = resp.data
      ∧ (handle_change_chv cmd resp st).resp.data_len = resp.data_len
      ∧ (handle_change_chv cmd resp st).resp.sw1sw2 < 65536 := by
  unfold handle_change_chv
  dsimp only
  repeat' split
  all_goals
      refine ⟨?_, ?_, ?_, ?_⟩ <;> first
        | rfl
        | exact hd
        | exact sw_remaining_lt _
        | exact length_write_bytes _ _ _ _
        | (dsimp only; omega)
        | omega
        | norm_num

theorem get_response_frame (cmd : apdu_command_t) (resp : apdu_response_t) (st : Card)
    (hd : resp.data_len ≤ 255) :
    (handle_get_response cmd resp st).card = st
      ∧ (handle_get_response cmd resp st).resp.data.length = resp.data.length
      ∧ (handle_get_response cmd resp st).resp.data_len ≤ 255
      ∧ (handle_get_response cmd resp st).resp.sw1sw2 < 65536 := by
  unfold handle_get_response
  dsimp only
  repeat' split
  all_goals
      refine ⟨?_, ?_, ?_, ?_⟩ <;> first
        | rfl
        | exact hd
        | exact sw_remaining_lt _
        | exact length_write_bytes _ _ _ _
        | (dsimp only; omega)
        | omega
        | norm_num

theorem status_frame (cmd : apdu_command_t) (resp : apdu_response_t) (st : Card)
    (hd : resp.data_len ≤ 255) :
    (handle_status cmd resp st).card = st
      ∧ (handle_status cmd resp st).resp.data.length = resp.data.length
      ∧ (handle_status cmd resp st).resp.data_len ≤ 255
      ∧ (handle_status cmd resp st).resp.sw1sw2 < 65536 := by
  unfold handle_status
  split_ifs
  · exact ⟨rfl, rfl, hd, by norm_num⟩
  · exact ⟨rfl, length_write_bytes _ _ _ _, by norm_num, by norm_num⟩

theorem run_xor_auth_frame (st : Card) (rand output temp out : List Nat) (n : Nat) (st1 : Card)
    (h : usim_run_xor_auth st rand output temp = some (out, n, st1)) :
    st1.usim_files = st.usim_files ∧ out.length = output.length ∧ n = 54 := by
  unfold usim_run_xor_auth at h
  split at h
  · split_ifs at h
    simp only [Option.some.injEq, Prod.mk.injEq] at h
    obtain ⟨h1, h2, h3⟩ := h
    subst h1; subst h2; subst h3
    refine ⟨rfl, ?_, rfl⟩
    simp [length_write_bytes]
  · cases h

theorem authenticate_frame (cmd : apdu_command_t) (resp : apdu_response_t) (st : Card)
    (temp : List Nat) (hd : resp.data_len ≤ 255) :
    (handle_authenticate cmd resp st temp).card.usim_files = st.usim_files
      ∧ (handle_authenticate cmd resp st temp).resp.data.length = resp.data.length
      ∧ (handle_authenticate cmd resp st temp).resp.data_len ≤ 255
      ∧ (handle_authenticate cmd resp st temp).resp.sw1sw2 < 65536 := by
  unfold handle_authenticate
  dsimp only
  cases hrun : usim_run_xor_auth st (read_bytes cmd.data 0 16) resp.data temp with
  | none =>
    dsimp only
    repeat' split
    all_goals
      refine ⟨?_, ?_, ?_, ?_⟩ <;> first
        | rfl
        | exact hd
        | norm_num
  | some t =>
    obtain ⟨out, n, st1⟩ := t
    obtain ⟨h1, h2, h3⟩ := run_xor_auth_frame _ _ _ _ _ _ _ hrun
    dsimp only
    repeat' split
    all_goals
      refine ⟨?_, ?_, ?_, ?_⟩ <;> first
        | rfl
        | exact hd
        | exact h1
        | exact h2
        | (dsimp only; omega)
        | norm_num

theorem update_binary_frame (cmd : apdu_command_t) (resp : apdu_response_t) (st : Card)
    (hd : resp.data_len ≤ 255) :
    (handle_update_binary cmd resp st).card.usim_files.map static_part
        = st.usim_files.map static_part
      ∧ (handle_update_binary cmd resp st).resp.data = resp.data
      ∧ (handle_update_binary cmd resp st).resp.data_len ≤ 255
      ∧ (handle_update_binary cmd resp st).resp.sw1sw2 < 65536 := by
  unfold handle_update_binary
  dsimp only
  split
  · rename_i slot file file_const hmut hfind
    have hget := (find_mutable_from_spec _ _ _ _ _ hmut).2
    simp only [Nat.sub_zero] at hget
    have hset : ∀ (l : List Nat) (n : Nat) (p : data_ptr),
        ((st.store p l).usim_files.set slot { file with data_size := n }).map static_part
          = st.usim_files.map static_part := by
      intro l n p
      rw [store_files, List.map_set]
      apply set_same
      rw [List.getElem?_map, hget]
      rfl
    repeat' split
    all_goals
      refine ⟨?_, ?_, ?_, ?_⟩ <;> first
        | rfl
        | exact hd
        | exact hset _ _ _
        | exact congrArg (List.map static_part) (store_files _ _ _)
        | (dsimp only; omega)
        | norm_num
  · exact ⟨rfl, rfl, hd, by norm_num⟩

/-! ## Dispatcher: routing, the table and the response record -/

theorem send_response_resp (h : handled) : (send_response h).resp = h.resp := rfl

theorem send_response_card (h : handled) : (send_response h).card = h.card := rfl

theorem dispatch_select_file (cmd : apdu_command_t) (resp : apdu_response_t) (st : Card)
    (temp : List Nat) (hcla : cmd.cla = CLA_STANDARD ∨ cmd.cla = CLA_GSM)
    (hins : cmd.ins = INS_SELECT_FILE) :
    apdu_dispatch cmd resp st temp = handle_select_file cmd resp st := by
  unfold apdu_dispatch
  rw [if_pos hcla, if_pos hins]

theorem dispatch_read_binary (cmd : apdu_command_t) (resp : apdu_response_t) (st : Card)
    (temp : List Nat) (hcla : cmd.cla = CLA_STANDARD ∨ cmd.cla = CLA_GSM)
    (hins : cmd.ins = INS_READ_BINARY) :
    apdu_dispatch cmd resp st temp = handle_read_binary cmd resp st := by
  unfold apdu_dispatch
  rw [if_pos hcla, hins]
  rfl

theorem dispatch_update_binary (cmd : apdu_command_t) (resp : apdu_response_t) (st : Card)
    (temp : List Nat) (hcla : cmd.cla = CLA_STANDARD ∨ cmd.cla = CLA_GSM)
    (hins : cmd.ins = INS_UPDATE_BINARY) :
    apdu_dispatch cmd resp st temp = handle_update_binary cmd resp st := by
  unfold apdu_dispatch
  rw [if_pos hcla, hins]
  rfl

theorem dispatch_verify_chv (cmd : apdu_command_t) (resp : apdu_response_t) (st : Card)
    (temp : List Nat) (hcla : cmd.cla = CLA_STANDARD ∨ cmd.cla = CLA_GSM)
    (hins : cmd.ins = INS_VERIFY_CHV) :
    apdu_dispatch cmd resp st temp = handle_verify_chv cmd resp st := by
  unfold apdu_dispatch
  rw [if_pos hcla, hins]
  rfl

theorem dispatch_change_chv (cmd : apdu_command_t) (resp : apdu_response_t) (st : Card)
    (temp : List Nat) (hcla : cmd.cla = CLA_STANDARD ∨ cmd.cla = CLA_GSM)
    (hins : cmd.ins = INS_CHANGE_CHV) :
    apdu_dispatch cmd resp st temp = handle_change_chv cmd resp st := by
  unfold apdu_dispatch
  rw [if_pos hcla, hins]
  rfl

theorem dispatch_authenticate (cmd : apdu_command_t) (resp : apdu_response_t) (st : Card)
    (temp : List Nat) (hcla : cmd.cla = CLA_STANDARD ∨ cmd.cla = CLA_GSM)
    (hins : cmd.ins = INS_AUTHENTICATE) :
    apdu_dispatch cmd resp st temp = handle_authenticate cmd resp st temp := by
  unfold apdu_dispatch
  rw [if_pos hcla, hins]
  rfl

theorem dispatch_get_response (cmd : apdu_command_t) (resp : apdu_response_t) (st : Card)
    (temp : List Nat) (hcla : cmd.cla = CLA_STANDARD ∨ cmd.cla = CLA_GSM)
    (hins : cmd.ins = INS_GET_RESPONSE) :
    apdu_dispatch cmd resp st temp = handle_get_response cmd resp st := by
  unfold apdu_dispatch
  rw [if_pos hcla, hins]
  rfl

theorem dispatch_status (cmd : apdu_command_t) (resp : apdu_response_t) (st : Card)
    (temp : List Nat) (hcla : cmd.cla = CLA_STANDARD ∨ cmd.cla = CLA_GSM)
    (hins : cmd.ins = INS_STATUS) :
    apdu_dispatch cmd resp st temp = handle_status cmd resp st := by
  unfold apdu_dispatch
  rw [if_pos hcla, hins]
  rfl

theorem dispatch_unrouted (cmd : apdu_command_t) (resp : apdu_response_t) (st : Card)
    (temp : List Nat)
    (h : ¬ ((cmd.cla = CLA_STANDARD ∨ cmd.cla = CLA_GSM)
      ∧ (cmd.ins = INS_SELECT_FILE ∨ cmd.ins = INS_READ_BINARY ∨ cmd.ins = INS_UPDATE_BINARY
        ∨ cmd.ins = INS_VERIFY_CHV ∨ cmd.ins = INS_CHANGE_CHV ∨ cmd.ins = INS_AUTHENTICATE
        ∨ cmd.ins = INS_GET_RESPONSE ∨ cmd.ins = INS_STATUS))) :
    (apdu_dispatch cmd resp st temp).card = st
      ∧ (apdu_dispatch cmd resp st temp).resp.data = resp.data
      ∧ (apdu_dispatch cmd resp st temp).resp.data_len = resp.data_len
      ∧ (apdu_dispatch cmd resp st temp).resp.sw1sw2 =
          (if cmd.cla = CLA_STANDARD ∨ cmd.cla = CLA_GSM then
            (if resp.sw1sw2 = 0 then SW_INS_NOT_SUPPORTED else resp.sw1sw2)
           else SW_CLA_NOT_SUPPORTED) := by
  unfold apdu_dispatch
  by_cases hcla : cmd.cla = CLA_STANDARD ∨ cmd.cla = CLA_GSM
  · have hn : ¬ (cmd.ins = INS_SELECT_FILE ∨ cmd.ins = INS_READ_BINARY
        ∨ cmd.ins = INS_UPDATE_BINARY ∨ cmd.ins = INS_VERIFY_CHV ∨ cmd.ins = INS_CHANGE_CHV
        ∨ cmd.ins = INS_AUTHENTICATE ∨ cmd.ins = INS_GET_RESPONSE ∨ cmd.ins = INS_STATUS) :=
      fun hi => h ⟨hcla, hi⟩
    simp only [not_or] at hn
    obtain ⟨n1, n2, n3, n4, n5, n6, n7, n8⟩ := hn
    rw [if_pos hcla, if_neg n1, if_neg n2, if_neg n3, if_neg n4, if_neg n5, if_neg n6,
      if_neg n7, if_neg n8, if_pos hcla]
    by_cases hz : resp.sw1sw2 = 0
    · rw [if_pos hz, if_pos hz]
      exact ⟨rfl, rfl, rfl, rfl⟩
    · rw [if_neg hz, if_neg hz]
      exact ⟨rfl, rfl, rfl, rfl⟩
  · rw [if_neg hcla, if_neg hcla]
    exact ⟨rfl, rfl, rfl, rfl⟩

theorem dispatch_frame (cmd : apdu_command_t) (resp : apdu_response_t) (st : Card)
    (temp : List Nat) (hc : catalogue_intact st) (hd : resp.data_len ≤ 255)
    (hs : resp.sw1sw2 < 65536) :
    (apdu_dispatch cmd resp st temp).card.usim_files.map static_part
        = st.usim_files.map static_part
      ∧ (apdu_dispatch cmd resp st temp).resp.data.length = resp.data.length
      ∧ (apdu_dispatch cmd resp st temp).resp.data_len ≤ 255
      ∧ (apdu_dispatch cmd resp st temp).resp.sw1sw2 < 65536 := by
  by_cases hr : (cmd.cla = CLA_STANDARD ∨ cmd.cla = CLA_GSM)
      ∧ (cmd.ins = INS_SELECT_FILE ∨ cmd.ins = INS_READ_BINARY ∨ cmd.ins = INS_UPDATE_BINARY
        ∨ cmd.ins = INS_VERIFY_CHV ∨ cmd.ins = INS_CHANGE_CHV ∨ cmd.ins = INS_AUTHENTICATE
        ∨ cmd.ins = INS_GET_RESPONSE ∨ cmd.ins = INS_STATUS)
  · obtain ⟨hcla, hins⟩ := hr
    rcases hins with hi | hi | hi | hi | hi | hi | hi | hi
    · rw [dispatch_select_file cmd resp st temp hcla hi]
      obtain ⟨h1, h2, h3, h4⟩ := select_file_frame cmd resp st hd
      exact ⟨congrArg _ h1, h2, h3, h4⟩
    · rw [dispatch_read_binary cmd resp st temp hcla hi]
      obtain ⟨h1, h2, h3, h4⟩ := read_binary_frame cmd resp st hc hd
      exact ⟨congrArg (fun c => c.usim_files.map static_part) h1, h2, h3, h4⟩
    · rw [dispatch_update_binary cmd resp st temp hcla hi]
      obtain ⟨h1, h2, h3, h4⟩ := update_binary_frame cmd resp st hd
      exact ⟨h1, congrArg List.length h2, h3, h4⟩
    · rw [dispatch_verify_chv cmd resp st temp hcla hi]
      obtain ⟨h1, h2, h3, h4⟩ := verify_chv_frame cmd resp st
      exact ⟨congrArg _ h1, congrArg List.length h2, le_of_eq_of_le h3 hd, h4⟩
    · rw [dispatch_change_chv cmd resp st temp hcla hi]
      obtain ⟨h1, h2, h3, h4⟩ := change_chv_frame cmd resp st
      exact ⟨congrArg _ h1, congrArg List.length h2, le_of_eq_of_le h3 hd, h4⟩
    · rw [dispatch_authenticate cmd resp st temp hcla hi]
      obtain ⟨h1, h2, h3, h4⟩ := authenticate_frame cmd resp st temp hd
      exact ⟨congrArg _ h1, h2, h3, h4⟩
    · rw [dispatch_get_response cmd resp st temp hcla hi]
      obtain ⟨h1, h2, h3, h4⟩ := get_response_frame cmd resp st hd
      exact ⟨congrArg (fun c => c.usim_files.map static_part) h1, h2, h3, h4⟩
    · rw [dispatch_status cmd resp st temp hcla hi]
      obtain ⟨h1, h2, h3, h4⟩ := status_frame cmd resp st hd
      exact ⟨congrArg (fun c => c.usim_files.map static_part) h1, h2, h3, h4⟩
  · obtain ⟨h1, h2, h3, h4⟩ := dispatch_unrouted cmd resp st temp hr
    refine ⟨congrArg (fun c => c.usim_files.map static_part) h1, congrArg List.length h2,
      le_of_eq_of_le h3 hd, ?_⟩
    rw [h4]
    split_ifs
    · norm_num
    · exact hs
    · norm_num

theorem process_frame (command response : List Nat) (st : Card) (temp : List Nat)
    (hc : catalogue_intact st) :
    catalogue_intact (apdu_process_command command response st temp).card
      ∧ (apdu_process_command command response st temp).resp.data.length = response.length
      ∧ (apdu_process_command command response st temp).resp.data_len ≤ 255
      ∧ (apdu_process_command command response st temp).resp.sw1sw2 < 65536 := by
  unfold apdu_process_command
  dsimp only
  split
  · refine ⟨hc, rfl, ?_, ?_⟩
    · show (0 : Nat) ≤ 255
      norm_num
    · show (0x6700 : Nat) < 65536
      norm_num
  · rename_i cmd hparse
    obtain ⟨h1, h2, h3, h4⟩ :=
      dispatch_frame cmd { data := response, data_len := 0, sw1sw2 := 0 } st temp hc
        (by norm_num) (by norm_num)
    simp only [send_response_resp, send_response_card]
    refine ⟨?_, h2, h3, h4⟩
    unfold catalogue_intact
    unfold catalogue_intact at hc
    rw [h1, hc]

theorem usim_init_intact (st : Card) (hc : catalogue_intact st) :
    catalogue_intact (usim_init st) := hc

theorem static_image_intact : catalogue_intact static_image := rfl

theorem sw_bytes (sw : Nat) (h : sw < 65536) :
    (sw >>> 8) &&& 0xFF = sw / 256 ∧ sw &&& 0xFF = sw % 256 := by
  constructor
  · rw [Nat.shiftRight_eq_div_pow, show (0xFF : Nat) = 2 ^ 8 - 1 from rfl, Nat.and_pow_two_sub_one_eq_mod]
    have : sw / 2 ^ 8 < 2 ^ 8 := by
      rw [Nat.div_lt_iff_lt_mul (by norm_num)]
      exact h
    exact Nat.mod_eq_of_lt this
  · rw [show (0xFF : Nat) = 2 ^ 8 - 1 from rfl, Nat.and_pow_two_sub_one_eq_mod]

theorem rd_take (l : List Nat) (n i : Nat) : rd (l.take n) i = if i < n then rd l i else 0 := by
  unfold rd
  rw [List.getD_eq_getElem?_getD, List.getD_eq_getElem?_getD, List.getElem?_take]
  split_ifs <;> rfl

theorem process_eq_send (command response : List Nat) (st : Card) (temp : List Nat) :
    ∃ h : handled, apdu_process_command command response st temp = send_response h := by
  unfold apdu_process_command
  dsimp only
  split
  · exact ⟨_, rfl⟩
  · exact ⟨_, rfl⟩

theorem send_response_layout (h : handled) (hd : h.resp.data_len + 2 ≤ h.resp.data.length)
    (hl : h.resp.data_len ≤ 255) (hs : h.resp.sw1sw2 < 65536) :
    (send_response h).resp_len = h.resp.data_len + 2
      ∧ (send_response h).sent.length = h.resp.data_len + 2
      ∧ rd (send_response h).sent h.resp.data_len = h.resp.sw1sw2 / 256
      ∧ rd (send_response h).sent (h.resp.data_len + 1) = h.resp.sw1sw2 % 256
      ∧ ∀ i, i < h.resp.data_len → rd (send_response h).sent i = rd h.resp.data i := by
  have hlen : (send_response h).resp_len = h.resp.data_len + 2 := by
    show (h.resp.data_len + 2) % 65536 = h.resp.data_len + 2
    exact Nat.mod_eq_of_lt (by omega)
  obtain ⟨hb1, hb2⟩ := sw_bytes _ hs
  have hsent : (send_response h).sent
      = ((h.resp.data.set h.resp.data_len (h.resp.sw1sw2 / 256)).set (h.resp.data_len + 1)
          (h.resp.sw1sw2 % 256)).take (h.resp.data_len + 2) := by
    unfold processed.sent
    rw [hlen]
    show List.take _ ((h.resp.data.set h.resp.data_len ((h.resp.sw1sw2 >>> 8) &&& 0xFF)).set
      (h.resp.data_len + 1) (h.resp.sw1sw2 &&& 0xFF)) = _
    rw [hb1, hb2]
  refine ⟨hlen, ?_, ?_, ?_, ?_⟩
  · rw [hsent, List.length_take, List.length_set, List.length_set]
    omega
  · rw [hsent, rd_take, rd_set, rd_set, List.length_set]
    have h1 : h.resp.data_len < h.resp.data_len + 2 := by omega
    have h2 : ¬ (h.resp.data_len = h.resp.data_len + 1 ∧ h.resp.data_len + 1 < h.resp.data.length) := by
      omega
    have h3 : h.resp.data_len = h.resp.data_len ∧ h.resp.data_len < h.resp.data.length := by
      omega
    rw [if_pos h1, if_neg h2, if_pos h3]
  · rw [hsent, rd_take, rd_set, List.length_set]
    have h1 : h.resp.data_len + 1 < h.resp.data_len + 2 := by omega
    have h3 : h.resp.data_len + 1 = h.resp.data_len + 1
        ∧ h.resp.data_len + 1 < h.resp.data.length := by omega
    rw [if_pos h1, if_pos h3]
  · intro i hi
    rw [hsent, rd_take, rd_set, rd_set, List.length_set]
    have h1 : i < h.resp.data_len + 2 := by omega
    have h2 : ¬ (i = h.resp.data_len + 1 ∧ h.resp.data_len + 1 < h.resp.data.length) := by
      omega
    have h3 : ¬ (i = h.resp.data_len ∧ h.resp.data_len < h.resp.data.length) := by omega
    rw [if_pos h1, if_neg h2, if_neg h3]

/-! ## C2, C10 -/

/-- C2: `usim_check_access` implements the access policy exactly.  A missing
file is denied for every access type; on an existing entry SELECT is always
permitted; for READ and for UPDATE the answer is `true` for ALWAYS, `false`
for NEVER, the PIN_VERIFIED bit of `session.state` for CHV1, the AUTHENTICATED
bit for ADM, and `false` for every other condition code. -/
theorem usim_check_access_policy :
    (∀ (s : session_context_t) (t : Nat), usim_check_access s none t = false)
    ∧ (∀ (s : session_context_t) (f : usim_file_t),
        usim_check_access s (some f) ACCESS_SELECT = true)
    ∧ (∀ (s : session_context_t) (f : usim_file_t),
        usim_check_access s (some f) ACCESS_READ =
          (if f.access_conditions = AC_ALWAYS then true
           else if f.access_conditions = AC_NEVER then false
           else if f.access_conditions = AC_CHV1 then
             decide (s.state &&& USIM_STATE_PIN_VERIFIED ≠ 0)
           else if f.access_conditions = AC_ADM then
             decide (s.state &&& USIM_STATE_AUTHENTICATED ≠ 0)
           else false))
    ∧ (∀ (s : session_context_t) (f : usim_file_t),
        usim_check_access s (some f) ACCESS_UPDATE =
          (if f.access_conditions = AC_ALWAYS then true
           else if f.access_conditions = AC_NEVER then false
           else if f.access_conditions = AC_CHV1 then
             decide (s.state &&& USIM_STATE_PIN_VERIFIED ≠ 0)
           else if f.access_conditions = AC_ADM then
             decide (s.state &&& USIM_STATE_AUTHENTICATED ≠ 0)
           else false)) := by
  exact ⟨fun s t => rfl, fun s f => rfl, fun s f => rfl, fun s f => rfl⟩

/-- C10: for every command buffer and every state of the card (the table
carrying the constant fields of its initialiser, the response buffer being the
257-byte `apdu_response`), `apdu_process_command` sets `*resp_len` to
`data_len + 2`, so exactly `data_len + 2` bytes are sent, and the last two of
them are SW1, the high byte of the status word, then SW2, its low byte. -/
theorem apdu_response_layout (command response : List Nat) (st : Card) (temp : List Nat)
    (hc : catalogue_intact st) (hlen : response.length = USIM_APDU_RESPONSE_MAX_LEN) :
    (apdu_process_command command response st temp).resp_len
        = (apdu_process_command command response st temp).resp.data_len + 2
      ∧ (apdu_process_command command response st temp).sent.length
        = (apdu_process_command command response st temp).resp.data_len + 2
      ∧ (apdu_process_command command response st temp).resp.sw1sw2 < 65536
      ∧ rd (apdu_process_command command response st temp).sent
          (apdu_process_command command response st temp).resp.data_len
        = (apdu_process_command command response st temp).resp.sw1sw2 / 256
      ∧ rd (apdu_process_command command response st temp).sent
          ((apdu_process_command command response st temp).resp.data_len + 1)
        = (apdu_process_command command response st temp).resp.sw1sw2 % 256 := by
  obtain ⟨_, h2, h3, h4⟩ := process_frame command response st temp hc
  obtain ⟨h, hh⟩ := process_eq_send command response st temp
  rw [hh] at h2 h3 h4 ⊢
  rw [send_response_resp] at h2 h3 h4 ⊢
  have hd : h.resp.data_len + 2 ≤ h.resp.data.length := by
    have h257 : response.length = 257 := hlen
    omega
  obtain ⟨r1, r2, r3, r4, _⟩ := send_response_layout h hd h3 h4
  exact ⟨r1, r2, h4, r3, r4⟩

/-- C10, at an instance: SELECT of the master file on the card after power-on,
into a zeroed response buffer. -/
theorem apdu_response_layout_witness :
    (apdu_process_command [0xA0, 0xA4, 0, 0, 2, 0x3F, 0] (List.replicate 257 0) power_on
        []).sent.length = 13 + 2
      ∧ rd (apdu_process_command [0xA0, 0xA4, 0, 0, 2, 0x3F, 0] (List.replicate 257 0)
          power_on []).sent 13 = 0x90
      ∧ rd (apdu_process_command [0xA0, 0xA4, 0, 0, 2, 0x3F, 0] (List.replicate 257 0)
          power_on []).sent 14 = 0x00 := by
  have h := apdu_response_layout [0xA0, 0xA4, 0, 0, 2, 0x3F, 0] (List.replicate 257 0)
    power_on [] (by decide) (List.length_replicate 257 0)
  have hd : (apdu_process_command [0xA0, 0xA4, 0, 0, 2, 0x3F, 0] (List.replicate 257 0)
      power_on []).resp.data_len = 13 := by decide
  have hs : (apdu_process_command [0xA0, 0xA4, 0, 0, 2, 0x3F, 0] (List.replicate 257 0)
      power_on []).resp.sw1sw2 = 0x9000 := by decide
  rw [hd, hs] at h
  exact ⟨h.2.1, h.2.2.2.1, h.2.2.2.2⟩

theorem list_two (l : List Nat) (h : l.length = 2) : l = [rd l 0, rd l 1] := by
  match l, h with
  | [a, b], _ => rfl

theorem process_parsed (command response : List Nat) (st : Card) (temp : List Nat)
    (cmd : apdu_command_t) (h : apdu_parse command = some cmd) :
    apdu_process_command command response st temp
      = send_response (apdu_dispatch cmd { data := response, data_len := 0, sw1sw2 := 0 } st temp) := by
  unfold apdu_process_command
  rw [h]

theorem send_no_data (h : handled) (hd : h.resp.data_len = 0) (hl : 2 ≤ h.resp.data.length)
    (hs : h.resp.sw1sw2 < 65536) :
    (send_response h).sent = [h.resp.sw1sw2 / 256, h.resp.sw1sw2 % 256]
      ∧ (send_response h).response
        = (h.resp.data.set 0 (h.resp.sw1sw2 / 256)).set 1 (h.resp.sw1sw2 % 256) := by
  obtain ⟨_, r2, r3, r4, _⟩ := send_response_layout h (by omega) (by omega) hs
  rw [hd] at r2 r3 r4
  obtain ⟨hb1, hb2⟩ := sw_bytes _ hs
  constructor
  · rw [list_two _ r2, r3, r4]
  · show (h.resp.data.set h.resp.data_len ((h.resp.sw1sw2 >>> 8) &&& 0xFF)).set
      (h.resp.data_len + 1) (h.resp.sw1sw2 &&& 0xFF) = _
    rw [hb1, hb2, hd]

theorem read_binary_never (cmd : apdu_command_t) (resp : apdu_response_t) (st : Card)
    (f : usim_file_t) (hf : usim_find_file st.usim_files st.current_file.file_id = some f)
    (ht : f.file_type = FILE_TYPE_EF) (ha : f.access_conditions = AC_NEVER) :
    handle_read_binary cmd resp st
      = ⟨false, { resp with sw1sw2 := SW_SECURITY_STATUS_NOT_SATISFIED }, st⟩ := by
  unfold handle_read_binary
  rw [hf]
  simp [ht, usim_check_access, ha]

theorem read_binary_secret_handler (st : Card) (hc : catalogue_intact st)
    (hsel : st.current_file.file_id = 0x6F08 ∨ st.current_file.file_id = 0x6F09)
    (cmd : apdu_command_t) (resp : apdu_response_t) :
    handle_read_binary cmd resp st
      = ⟨false, { resp with sw1sw2 := SW_SECURITY_STATUS_NOT_SATISFIED }, st⟩ := by
  rcases hsel with h | h
  · obtain ⟨f, hf, ht, _, ha, _⟩ := intact_find_key st hc
    rw [← h] at hf
    exact read_binary_never cmd resp st f hf ht ha
  · obtain ⟨f, hf, ht, _, ha, _⟩ := intact_find_opc st hc
    rw [← h] at hf
    exact read_binary_never cmd resp st f hf ht ha

/-! ## C1, C6 -/

/-- C1: in every state of a card holding the shipped catalogue in which EF_KEY
(6F08) or EF_OPc (6F09) is the current file, whatever the session flags, the
subscriber record and the contents of the files, `handle_read_binary` refuses
every command record (every P1, P2, Le) with 6982 and touches neither the
response buffer nor the card; every READ BINARY command buffer the codec
accepts is answered with exactly the two bytes 69 82, no data, the response
buffer changing in its first two bytes only and the card not at all. -/
theorem read_binary_secret_denied (st : Card) (hc : catalogue_intact st)
    (hsel : st.current_file.file_id = 0x6F08 ∨ st.current_file.file_id = 0x6F09) :
    (∀ (cmd : apdu_command_t) (resp : apdu_response_t),
        handle_read_binary cmd resp st
          = ⟨false, { resp with sw1sw2 := SW_SECURITY_STATUS_NOT_SATISFIED }, st⟩)
    ∧ (∀ (command response temp : List Nat) (cmd : apdu_command_t),
        apdu_parse command = some cmd →
        (cmd.cla = CLA_STANDARD ∨ cmd.cla = CLA_GSM) →
        cmd.ins = INS_READ_BINARY →
        response.length = USIM_APDU_RESPONSE_MAX_LEN →
        (apdu_process_command command response st temp).sent = [0x69, 0x82]
          ∧ (apdu_process_command command response st temp).resp.data_len = 0
          ∧ (apdu_process_command command response st temp).response
              = (response.set 0 0x69).set 1 0x82
          ∧ (apdu_process_command command response st temp).card = st) := by
  refine ⟨fun cmd resp => read_binary_secret_handler st hc hsel cmd resp, ?_⟩
  intro command response temp cmd hparse hcla hins hlen
  have h257 : response.length = 257 := hlen
  rw [process_parsed command response st temp cmd hparse,
    dispatch_read_binary cmd _ st temp hcla hins,
    read_binary_secret_handler st hc hsel cmd _]
  obtain ⟨s1, s2⟩ := send_no_data
    ⟨false, { data := response, data_len := 0, sw1sw2 := SW_SECURITY_STATUS_NOT_SATISFIED }, st⟩
    rfl (by show 2 ≤ response.length; omega) (by show (0x6982 : Nat) < 65536; norm_num)
  have e1 : (0x6982 : Nat) / 256 = 0x69 := by norm_num
  have e2 : (0x6982 : Nat) % 256 = 0x82 := by norm_num
  dsimp only at s1 s2
  rw [e1, e2] at s1 s2
  exact ⟨s1, rfl, s2, rfl⟩

/-- C1, at an instance: after power-on and SELECT of EF_KEY the command
`A0 B0 00 00 10` is answered `69 82`. -/
theorem read_binary_secret_denied_witness :
    (apdu_process_command [0xA0, 0xB0, 0x00, 0x00, 0x10] (List.replicate 257 0)
      (apdu_process_command [0xA0, 0xA4, 0x00, 0x00, 0x02, 0x6F, 0x08] (List.replicate 257 0)
        power_on []).card []).sent = [0x69, 0x82] :=
  ((read_binary_secret_denied
    (apdu_process_command [0xA0, 0xA4, 0x00, 0x00, 0x02, 0x6F, 0x08] (List.replicate 257 0)
      power_on []).card
    (process_frame _ _ _ _ (usim_init_intact _ static_image_intact)).1 (by decide)).2
    [0xA0, 0xB0, 0x00, 0x00, 0x10] (List.replicate 257 0) []
    ⟨0xA0, 0xB0, 0, 0, 0, [], 0x10⟩ (by decide) (by decide) (by decide)
    (List.length_replicate 257 0)).1

/-- C6: in every state whose PIN_VERIFIED bit is clear, every AUTHENTICATE
command buffer the codec accepts with `Lc ≥ 16` (whatever RAND it carries) is
answered with exactly the two bytes 69 82 and no data; the card (session keys
and the AUTHENTICATED flag included) is unchanged. -/
theorem authenticate_without_pin (st : Card)
    (hpin : st.session.state &&& USIM_STATE_PIN_VERIFIED = 0)
    (command response temp : List Nat) (cmd : apdu_command_t)
    (hparse : apdu_parse command = some cmd)
    (hcla : cmd.cla = CLA_STANDARD ∨ cmd.cla = CLA_GSM)
    (hins : cmd.ins = INS_AUTHENTICATE) (hlc : 16 ≤ cmd.lc)
    (hlen : response.length = USIM_APDU_RESPONSE_MAX_LEN) :
    (apdu_process_command command response st temp).sent = [0x69, 0x82]
      ∧ (apdu_process_command command response st temp).resp.data_len = 0
      ∧ (apdu_process_command command response st temp).card = st := by
  have h257 : response.length = 257 := hlen
  have hh : handle_authenticate cmd { data := response, data_len := 0, sw1sw2 := 0 } st temp
      = ⟨false,
          { data := response, data_len := 0, sw1sw2 := SW_SECURITY_STATUS_NOT_SATISFIED },
          st⟩ := by
    unfold handle_authenticate
    rw [if_neg (by omega), if_pos hpin]
  rw [process_parsed command response st temp cmd hparse,
    dispatch_authenticate cmd _ st temp hcla hins, hh]
  obtain ⟨s1, _⟩ := send_no_data
    ⟨false, { data := response, data_len := 0, sw1sw2 := SW_SECURITY_STATUS_NOT_SATISFIED }, st⟩
    rfl (by show 2 ≤ response.length; omega) (by show (0x6982 : Nat) < 65536; norm_num)
  have e1 : (0x6982 : Nat) / 256 = 0x69 := by norm_num
  have e2 : (0x6982 : Nat) % 256 = 0x82 := by norm_num
  dsimp only at s1
  rw [e1, e2] at s1
  exact ⟨s1, rfl, rfl⟩

/-- C6, at an instance: `A0 88 00 00 10` with an all-zero RAND on the card
after power-on. -/
theorem authenticate_without_pin_witness :
    (apdu_process_command ([0xA0, 0x88, 0x00, 0x00, 0x10] ++ List.replicate 16 0)
      (List.replicate 257 0) power_on []).sent = [0x69, 0x82]
    ∧ (apdu_process_command ([0xA0, 0x88, 0x00, 0x00, 0x10] ++ List.replicate 16 0)
      (List.replicate 257 0) power_on []).card = power_on :=
  have h := authenticate_without_pin power_on (by decide)
    ([0xA0, 0x88, 0x00, 0x00, 0x10] ++ List.replicate 16 0) (List.replicate 257 0) []
    ⟨0xA0, 0x88, 0, 0, 16, List.replicate 16 0, 0⟩ (by decide) (by decide) (by decide)
    (by decide) (List.length_replicate 257 0)
  ⟨h.1, h.2.2⟩

/-! ## VERIFY CHV -/

theorem sw_remaining_eq (n : Nat) : SW_REMAINING_ATTEMPTS n = 0x63C0 + n % 16 := by
  unfold SW_REMAINING_ATTEMPTS
  have h1 : n &&& 0x0F = n % 16 := by
    rw [show (0x0F : Nat) = 2 ^ 4 - 1 from rfl, Nat.and_pow_two_sub_one_eq_mod]
  rw [h1]
  have h2 : ∀ m, m < 16 → (0x63C0 ||| m) % 65536 = 0x63C0 + m := by decide
  exact h2 _ (Nat.mod_lt _ (by norm_num))

theorem pin_verified_set (s : Nat) : ((s ||| USIM_STATE_PIN_VERIFIED) % 256) &&& USIM_STATE_PIN_VERIFIED ≠ 0 := by
  have h2 : (((s ||| 4) % 256) &&& 4).testBit 2 = true := by
    rw [Nat.testBit_and, show (256 : Nat) = 2 ^ 8 from rfl, Nat.testBit_mod_two_pow,
      Nat.testBit_or]
    have : Nat.testBit 4 2 = true := by decide
    simp [this]
  intro h
  have h' : ((s ||| 4) % 256) &&& 4 = 0 := h
  rw [h'] at h2
  simp at h2

theorem odd_p2 (p2 : Nat) (h : p2 % 2 = 1) : ¬ (p2 &&& 0x01 = 0) := by
  rw [Nat.and_one_is_mod]
  omega

theorem verify_chv_match (cmd : apdu_command_t) (resp : apdu_response_t) (st : Card)
    (hlc : cmd.lc = 8) (hp2 : cmd.p2 % 2 = 1) (hr : 0 < st.subscriber.pin1_retries)
    (hm : read_bytes cmd.data 0 8 = read_bytes st.subscriber.pin1 0 8) :
    handle_verify_chv cmd resp st
      = ⟨true, { resp with sw1sw2 := SW_OK },
         { st with
           session :=
             { st.session with state := (st.session.state ||| USIM_STATE_PIN_VERIFIED) % 256 }
           subscriber := { st.subscriber with pin1_retries := 3 } }⟩ := by
  unfold handle_verify_chv
  have hmm : memcmp_eq cmd.data st.subscriber.pin1 8 = true := by
    unfold memcmp_eq
    exact decide_eq_true hm
  rw [if_neg (by omega), if_neg (odd_p2 _ hp2), if_neg (by omega), if_pos hmm]

theorem verify_chv_miss (cmd : apdu_command_t) (resp : apdu_response_t) (st : Card)
    (hlc : cmd.lc = 8) (hp2 : cmd.p2 % 2 = 1) (hr : 0 < st.subscriber.pin1_retries)
    (hm : read_bytes cmd.data 0 8 ≠ read_bytes st.subscriber.pin1 0 8) :
    handle_verify_chv cmd resp st
      = ⟨false,
         { resp with
           sw1sw2 :=
             if st.subscriber.pin1_retries - 1 = 0 then SW_PIN_BLOCKED
             else SW_REMAINING_ATTEMPTS (st.subscriber.pin1_retries - 1) },
         { st with
           subscriber :=
             { st.subscriber with pin1_retries := st.subscriber.pin1_retries - 1 } }⟩ := by
  unfold handle_verify_chv
  have hmm : ¬ memcmp_eq cmd.data st.subscriber.pin1 8 = true := by
    unfold memcmp_eq
    simpa using hm
  rw [if_neg (by omega), if_neg (odd_p2 _ hp2), if_neg (by omega), if_neg hmm]
  dsimp only
  rw [if_pos hr]
  split_ifs <;> rfl

theorem verify_chv_blocked (cmd : apdu_command_t) (resp : apdu_response_t) (st : Card)
    (hlc : cmd.lc = 8) (hp2 : cmd.p2 % 2 = 1) (hr : st.subscriber.pin1_retries = 0) :
    handle_verify_chv cmd resp st = ⟨false, { resp with sw1sw2 := SW_PIN_BLOCKED }, st⟩ := by
  unfold handle_verify_chv
  rw [if_neg (by omega), if_neg (odd_p2 _ hp2), if_pos hr]

theorem is_verify_parsed (command : List Nat) (h : is_verify_chv command = true) :
    ∃ cmd, apdu_parse command = some cmd ∧ (cmd.cla = CLA_STANDARD ∨ cmd.cla = CLA_GSM)
      ∧ cmd.ins = INS_VERIFY_CHV ∧ cmd.lc = 8 ∧ cmd.p2 % 2 = 1 := by
  unfold is_verify_chv at h
  cases hp : apdu_parse command with
  | none => rw [hp] at h; cases h
  | some cmd =>
    rw [hp] at h
    exact ⟨cmd, rfl, of_decide_eq_true h⟩

theorem carries_pin_parsed (command pin : List Nat) (cmd : apdu_command_t)
    (hp : apdu_parse command = some cmd) (h : carries_pin command pin = false) :
    read_bytes cmd.data 0 8 ≠ read_bytes pin 0 8 := by
  unfold carries_pin at h
  rw [hp] at h
  exact of_decide_eq_false h

theorem verify_apdu_miss (command response : List Nat) (st : Card) (temp : List Nat)
    (hv : is_verify_chv command = true)
    (hw : carries_pin command st.subscriber.pin1 = false)
    (hr : 0 < st.subscriber.pin1_retries) (hlen : response.length = 257) :
    (apdu_process_command command response st temp).card
        = { st with
            subscriber :=
              { st.subscriber with pin1_retries := st.subscriber.pin1_retries - 1 } }
      ∧ (apdu_process_command command response st temp).response.length = 257
      ∧ (apdu_process_command command response st temp).sent
        = (if st.subscriber.pin1_retries - 1 = 0 then [0x69, 0x83]
           else [0x63, 0xC0 + (st.subscriber.pin1_retries - 1) % 16]) := by
  obtain ⟨cmd, hp, hcla, hins, hlc, hp2⟩ := is_verify_parsed command hv
  have hm := carries_pin_parsed command _ cmd hp hw
  rw [process_parsed command response st temp cmd hp, dispatch_verify_chv cmd _ st temp hcla hins,
    verify_chv_miss cmd _ st hlc hp2 hr hm]
  have hsw : (if st.subscriber.pin1_retries - 1 = 0 then SW_PIN_BLOCKED
      else SW_REMAINING_ATTEMPTS (st.subscriber.pin1_retries - 1)) < 65536 := by
    split_ifs
    · norm_num
    · exact sw_remaining_lt _
  obtain ⟨s1, s2⟩ := send_no_data
    ⟨false,
      { data := response, data_len := 0,
        sw1sw2 := if st.subscriber.pin1_retries - 1 = 0 then SW_PIN_BLOCKED
          else SW_REMAINING_ATTEMPTS (st.subscriber.pin1_retries - 1) },
      { st with
        subscriber := { st.subscriber with pin1_retries := st.subscriber.pin1_retries - 1 } }⟩
    rfl (by show 2 ≤ response.length; omega) hsw
  refine ⟨rfl, ?_, ?_⟩
  · rw [s2]
    simp only [List.length_set]
    exact hlen
  · rw [s1]
    dsimp only
    split_ifs
    · rfl
    · rw [sw_remaining_eq]
      have := Nat.mod_lt (st.subscriber.pin1_retries - 1) (show 0 < 16 by norm_num)
      congr 1
      · omega
      · congr 1
        omega

theorem verify_apdu_blocked (command response : List Nat) (st : Card) (temp : List Nat)
    (hv : is_verify_chv command = true)
    (hr : st.subscriber.pin1_retries = 0) (hlen : response.length = 257) :
    (apdu_process_command command response st temp).card = st
      ∧ (apdu_process_command command response st temp).response.length = 257
      ∧ (apdu_process_command command response st temp).sent = [0x69, 0x83] := by
  obtain ⟨cmd, hp, hcla, hins, hlc, hp2⟩ := is_verify_parsed command hv
  rw [process_parsed command response st temp cmd hp, dispatch_verify_chv cmd _ st temp hcla hins,
    verify_chv_blocked cmd _ st hlc hp2 hr]
  obtain ⟨s1, s2⟩ := send_no_data
    ⟨false, { data := response, data_len := 0, sw1sw2 := SW_PIN_BLOCKED }, st⟩
    rfl (by show 2 ≤ response.length; omega) (by show (0x6983 : Nat) < 65536; norm_num)
  refine ⟨rfl, ?_, ?_⟩
  · rw [s2]
    simp only [List.length_set]
    exact hlen
  · rw [s1]
    dsimp only
    norm_num

theorem verify_apdu_match (command response : List Nat) (st : Card) (temp : List Nat)
    (hv : is_verify_chv command = true)
    (hw : carries_pin command st.subscriber.pin1 = true)
    (hr : 0 < st.subscriber.pin1_retries) (hlen : response.length = 257) :
    (apdu_process_command command response st temp).card
        = { st with
            session :=
              { st.session with
                state := (st.session.state ||| USIM_STATE_PIN_VERIFIED) % 256 }
            subscriber := { st.subscriber with pin1_retries := 3 } }
      ∧ (apdu_process_command command response st temp).response.length = 257
      ∧ (apdu_process_command command response st temp).sent = [0x90, 0x00] := by
  obtain ⟨cmd, hp, hcla, hins, hlc, hp2⟩ := is_verify_parsed command hv
  have hm : read_bytes cmd.data 0 8 = read_bytes st.subscriber.pin1 0 8 := by
    unfold carries_pin at hw
    rw [hp] at hw
    exact of_decide_eq_true hw
  rw [process_parsed command response st temp cmd hp, dispatch_verify_chv cmd _ st temp hcla hins,
    verify_chv_match cmd _ st hlc hp2 hr hm]
  obtain ⟨s1, s2⟩ := send_no_data
    ⟨true, { data := response, data_len := 0, sw1sw2 := SW_OK },
      { st with
        session :=
          { st.session with state := (st.session.state ||| USIM_STATE_PIN_VERIFIED) % 256 }
        subscriber := { st.subscriber with pin1_retries := 3 } }⟩
    rfl (by show 2 ≤ response.length; omega) (by show (0x9000 : Nat) < 65536; norm_num)
  refine ⟨rfl, ?_, ?_⟩
  · rw [s2]
    simp only [List.length_set]
    exact hlen
  · rw [s1]
    dsimp only
    norm_num

/-! ## C3 -/

/-- C3: for every VERIFY CHV command record with `Lc = 8` and odd `P2`, on
every card with PIN1 retries `r > 0`: if the 8 data bytes equal the stored
PIN1, the handler succeeds with status 9000, retries become 3 and PIN_VERIFIED
is set; otherwise retries become `r - 1` and the status is 6983 when
`r - 1 = 0` and `63C0 + (r - 1) mod 16` otherwise, which is `63Cn` with
`n = r - 1` whenever `r - 1` is a hex digit.  On the card after power-on the command
`A0 20 00 01 08 30 30 30 30 FF FF FF FF` is answered `90 00`. -/
theorem verify_chv_outcome :
    (∀ (cmd : apdu_command_t) (resp : apdu_response_t) (st : Card),
      cmd.lc = 8 → cmd.p2 % 2 = 1 → 0 < st.subscriber.pin1_retries →
      (read_bytes cmd.data 0 8 = read_bytes st.subscriber.pin1 0 8 →
        (handle_verify_chv cmd resp st).ok = true
        ∧ (handle_verify_chv cmd resp st).resp.sw1sw2 = 0x9000
        ∧ (handle_verify_chv cmd resp st).card.subscriber.pin1_retries = 3
        ∧ (handle_verify_chv cmd resp st).card.session.state &&& USIM_STATE_PIN_VERIFIED ≠ 0)
      ∧ (read_bytes cmd.data 0 8 ≠ read_bytes st.subscriber.pin1 0 8 →
        (handle_verify_chv cmd resp st).ok = false
        ∧ (handle_verify_chv cmd resp st).card.subscriber.pin1_retries
            = st.subscriber.pin1_retries - 1
        ∧ (handle_verify_chv cmd resp st).card.session = st.session
        ∧ (st.subscriber.pin1_retries - 1 = 0 →
            (handle_verify_chv cmd resp st).resp.sw1sw2 = 0x6983)
        ∧ (st.subscriber.pin1_retries - 1 ≠ 0 →
            (handle_verify_chv cmd resp st).resp.sw1sw2
              = 0x63C0 + (st.subscriber.pin1_retries - 1) % 16)
        ∧ (st.subscriber.pin1_retries - 1 ≠ 0 → st.subscriber.pin1_retries - 1 ≤ 15 →
            (handle_verify_chv cmd resp st).resp.sw1sw2
              = 0x63C0 + (st.subscriber.pin1_retries - 1))))
    ∧ (∀ (response temp : List Nat), response.length = USIM_APDU_RESPONSE_MAX_LEN →
        (apdu_process_command
          [0xA0, 0x20, 0x00, 0x01, 0x08, 0x30, 0x30, 0x30, 0x30, 0xFF, 0xFF, 0xFF, 0xFF]
          response power_on temp).sent = [0x90, 0x00]) := by
  constructor
  · intro cmd resp st hlc hp2 hr
    constructor
    · intro hm
      rw [verify_chv_match cmd resp st hlc hp2 hr hm]
      exact ⟨rfl, rfl, rfl, pin_verified_set _⟩
    · intro hm
      rw [verify_chv_miss cmd resp st hlc hp2 hr hm]
      refine ⟨rfl, rfl, rfl, ?_, ?_, ?_⟩
      · intro h0
        show (if st.subscriber.pin1_retries - 1 = 0 then SW_PIN_BLOCKED
          else SW_REMAINING_ATTEMPTS (st.subscriber.pin1_retries - 1)) = 0x6983
        rw [if_pos h0]
      · intro h0
        show (if st.subscriber.pin1_retries - 1 = 0 then SW_PIN_BLOCKED
          else SW_REMAINING_ATTEMPTS (st.subscriber.pin1_retries - 1)) = _
        rw [if_neg h0, sw_remaining_eq]
      · intro h0 h15
        show (if st.subscriber.pin1_retries - 1 = 0 then SW_PIN_BLOCKED
          else SW_REMAINING_ATTEMPTS (st.subscriber.pin1_retries - 1)) = _
        rw [if_neg h0, sw_remaining_eq, Nat.mod_eq_of_lt (by omega)]
  · intro response temp hlen
    exact (verify_apdu_match _ response power_on temp (by decide) (by decide) (by decide)
      hlen).2.2

/-- C3, at an instance: a wrong PIN on the card after power-on (`r = 3`)
leaves 2 retries and status 63C2; the right PIN gives 9000. -/
theorem verify_chv_outcome_witness :
    (handle_verify_chv ⟨0xA0, 0x20, 0, 1, 8, [0x31, 0x32, 0x33, 0x34, 0xFF, 0xFF, 0xFF, 0xFF], 0⟩
        ⟨List.replicate 257 0, 0, 0⟩ power_on).card.subscriber.pin1_retries = 3 - 1
    ∧ (handle_verify_chv ⟨0xA0, 0x20, 0, 1, 8, [0x31, 0x32, 0x33, 0x34, 0xFF, 0xFF, 0xFF, 0xFF], 0⟩
        ⟨List.replicate 257 0, 0, 0⟩ power_on).resp.sw1sw2 = 0x63C2
    ∧ (apdu_process_command
        [0xA0, 0x20, 0x00, 0x01, 0x08, 0x30, 0x30, 0x30, 0x30, 0xFF, 0xFF, 0xFF, 0xFF]
        (List.replicate 257 0) power_on []).sent = [0x90, 0x00] :=
  have h := (verify_chv_outcome.1
    ⟨0xA0, 0x20, 0, 1, 8, [0x31, 0x32, 0x33, 0x34, 0xFF, 0xFF, 0xFF, 0xFF], 0⟩
    ⟨List.replicate 257 0, 0, 0⟩ power_on (by decide) (by decide) (by decide)).2 (by decide)
  ⟨h.2.1, h.2.2.2.2.2 (by decide) (by decide),
    verify_chv_outcome.2 (List.replicate 257 0) [] (List.length_replicate 257 0)⟩

/-! ## Sequences of VERIFY CHV -/

theorem main_loop_wrong (es : List apdu_event) :
    ∀ (st : Card) (response : List Nat), response.length = 257 →
      (∀ e ∈ es, is_verify_chv e.command = true
        ∧ carries_pin e.command st.subscriber.pin1 = false) →
      (main_loop st response es).1.subscriber.pin1_retries
          = st.subscriber.pin1_retries - es.length
        ∧ (main_loop st response es).1.subscriber.pin1 = st.subscriber.pin1
        ∧ (main_loop st response es).2.1.length = 257 := by
  induction es with
  | nil =>
    intro st response hlen _
    exact ⟨rfl, rfl, hlen⟩
  | cons e es ih =>
    intro st response hlen hall
    obtain ⟨hv, hw⟩ := hall e (List.mem_cons_self _ _)
    have hrest : ∀ x ∈ es, is_verify_chv x.command = true
        ∧ carries_pin x.command st.subscriber.pin1 = false :=
      fun x hx => hall x (List.mem_cons_of_mem _ hx)
    show (main_loop (apdu_process_command e.command response st e.temp).card
        (apdu_process_command e.command response st e.temp).response es).1.subscriber.pin1_retries
          = _ ∧ (main_loop (apdu_process_command e.command response st e.temp).card
        (apdu_process_command e.command response st e.temp).response es).1.subscriber.pin1 = _
          ∧ (main_loop (apdu_process_command e.command response st e.temp).card
        (apdu_process_command e.command response st e.temp).response es).2.1.length = 257
    by_cases hr : st.subscriber.pin1_retries = 0
    · obtain ⟨c1, c2, _⟩ := verify_apdu_blocked e.command response st e.temp hv hr hlen
      rw [c1]
      obtain ⟨i1, i2, i3⟩ := ih st _ c2 hrest
      refine ⟨?_, i2, i3⟩
      rw [i1, List.length_cons]
      omega
    · obtain ⟨c1, c2, _⟩ :=
        verify_apdu_miss e.command response st e.temp hv hw (by omega) hlen
      rw [c1]
      obtain ⟨i1, i2, i3⟩ := ih
        { st with
          subscriber := { st.subscriber with pin1_retries := st.subscriber.pin1_retries - 1 } }
        _ c2 hrest
      refine ⟨?_, i2, i3⟩
      rw [i1, List.length_cons]
      show st.subscriber.pin1_retries - 1 - es.length = _
      omega

theorem main_loop_blocked (es : List apdu_event) :
    ∀ (st : Card) (response : List Nat), response.length = 257 →
      st.subscriber.pin1_retries = 0 →
      (∀ e ∈ es, is_verify_chv e.command = true) →
      (main_loop st response es).1 = st
        ∧ (∀ s ∈ (main_loop st response es).2.2, s = [0x69, 0x83]) := by
  induction es with
  | nil =>
    intro st response _ _ _
    exact ⟨rfl, fun s hs => by cases hs⟩
  | cons e es ih =>
    intro st response hlen hr hall
    obtain ⟨c1, c2, c3⟩ :=
      verify_apdu_blocked e.command response st e.temp (hall e (List.mem_cons_self _ _)) hr hlen
    have hrest : ∀ x ∈ es, is_verify_chv x.command = true :=
      fun x hx => hall x (List.mem_cons_of_mem _ hx)
    show (main_loop (apdu_process_command e.command response st e.temp).card
        (apdu_process_command e.command response st e.temp).response es).1 = st
      ∧ ∀ s ∈ (apdu_process_command e.command response st e.temp).sent
          :: (main_loop (apdu_process_command e.command response st e.temp).card
        (apdu_process_command e.command response st e.temp).response es).2.2, s = [0x69, 0x83]
    rw [c1]
    obtain ⟨i1, i2⟩ := ih st _ c2 hr hrest
    refine ⟨i1, ?_⟩
    intro s hs
    rcases List.mem_cons.mp hs with h | h
    · rw [h, c3]
    · exact i2 s h

theorem main_loop_append (es fs : List apdu_event) :
    ∀ (st : Card) (response : List Nat),
      main_loop st response (es ++ fs)
        = ((main_loop (main_loop st response es).1 (main_loop st response es).2.1 fs).1,
           (main_loop (main_loop st response es).1 (main_loop st response es).2.1 fs).2.1,
           (main_loop st response es).2.2
             ++ (main_loop (main_loop st response es).1 (main_loop st response es).2.1 fs).2.2) := by
  induction es with
  | nil =>
    intro st response
    rfl
  | cons e es ih =>
    intro st response
    have h := ih (apdu_process_command e.command response st e.temp).card
      (apdu_process_command e.command response st e.temp).response
    show main_loop st response (e :: (es ++ fs)) = _
    show ((main_loop (apdu_process_command e.command response st e.temp).card
          (apdu_process_command e.command response st e.temp).response (es ++ fs)).1,
      (main_loop (apdu_process_command e.command response st e.temp).card
          (apdu_process_command e.command response st e.temp).response (es ++ fs)).2.1,
      (apdu_process_command e.command response st e.temp).sent ::
        (main_loop (apdu_process_command e.command response st e.temp).card
          (apdu_process_command e.command response st e.temp).response (es ++ fs)).2.2) = _
    rw [h]
    rfl

theorem main_loop_sent_length (es : List apdu_event) :
    ∀ (st : Card) (response : List Nat), (main_loop st response es).2.2.length = es.length := by
  induction es with
  | nil =>
    intro st response
    rfl
  | cons e es ih =>
    intro st response
    show ((apdu_process_command e.command response st e.temp).sent
      :: (main_loop _ _ es).2.2).length = _
    rw [List.length_cons, ih, List.length_cons]

/-! ## C4 -/

/-- C4: from the power-on state, after `k` consecutive VERIFY CHV commands that
carry a wrong PIN, PIN1 retries is `max(0, 3 - k)`; once three (or more) have
failed, every later VERIFY CHV, whatever its 8 data bytes, is answered 69 83
and retries stay 0. -/
theorem wrong_pin_lockout (response : List Nat)
    (hlen : response.length = USIM_APDU_RESPONSE_MAX_LEN) (cmds more : List apdu_event)
    (hw : ∀ e ∈ cmds, is_verify_chv e.command = true
      ∧ carries_pin e.command power_on.subscriber.pin1 = false)
    (hm : ∀ e ∈ more, is_verify_chv e.command = true) :
    ((main_loop power_on response cmds).1.subscriber.pin1_retries : Int)
        = max 0 (3 - (cmds.length : Int))
      ∧ (3 ≤ cmds.length →
          (main_loop power_on response (cmds ++ more)).1.subscriber.pin1_retries = 0
          ∧ ∀ s ∈ (main_loop power_on response (cmds ++ more)).2.2.drop cmds.length,
              s = [0x69, 0x83]) := by
  obtain ⟨h1, _, h3⟩ := main_loop_wrong cmds power_on response hlen hw
  have hp : power_on.subscriber.pin1_retries = 3 := rfl
  rw [hp] at h1
  constructor
  · rw [h1]
    omega
  · intro hk
    have h0 : (main_loop power_on response cmds).1.subscriber.pin1_retries = 0 := by
      rw [h1]
      omega
    obtain ⟨b1, b2⟩ := main_loop_blocked more _ _ h3 h0 hm
    rw [main_loop_append]
    dsimp only
    rw [b1]
    refine ⟨h0, ?_⟩
    intro s hs
    rw [List.drop_left' (main_loop_sent_length cmds power_on response)] at hs
    exact b2 s hs

theorem main_loop_wrong_sent (es : List apdu_event) :
    ∀ (st : Card) (response : List Nat), response.length = 257 →
      (∀ e ∈ es, is_verify_chv e.command = true
        ∧ carries_pin e.command st.subscriber.pin1 = false) →
      (main_loop st response es).2.2
        = (List.range es.length).map
            (fun i => if st.subscriber.pin1_retries - (i + 1) = 0 then [0x69, 0x83]
              else [0x63, 0xC0 + (st.subscriber.pin1_retries - (i + 1)) % 16]) := by
  induction es with
  | nil =>
    intro st response _ _
    rfl
  | cons e es ih =>
    intro st response hlen hall
    obtain ⟨hv, hw⟩ := hall e (List.mem_cons_self _ _)
    have hrest : ∀ x ∈ es, is_verify_chv x.command = true
        ∧ carries_pin x.command st.subscriber.pin1 = false :=
      fun x hx => hall x (List.mem_cons_of_mem _ hx)
    show (apdu_process_command e.command response st e.temp).sent
        :: (main_loop (apdu_process_command e.command response st e.temp).card
          (apdu_process_command e.command response st e.temp).response es).2.2 = _
    rw [List.length_cons, List.range_succ_eq_map, List.map_cons, List.map_map]
    by_cases hr : st.subscriber.pin1_retries = 0
    · obtain ⟨c1, c2, c3⟩ := verify_apdu_blocked e.command response st e.temp hv hr hlen
      rw [c1, c3, ih st _ c2 hrest]
      congr 1
      · rw [if_pos (by omega)]
      · apply List.map_congr_left
        intro i _
        show _ = if st.subscriber.pin1_retries - (i + 1 + 1) = 0 then _ else _
        rw [if_pos (by omega), if_pos (by omega)]
    · obtain ⟨c1, c2, c3⟩ :=
        verify_apdu_miss e.command response st e.temp hv hw (by omega) hlen
      rw [c1, c3, ih
        { st with
          subscriber := { st.subscriber with pin1_retries := st.subscriber.pin1_retries - 1 } }
        _ c2 hrest]
      congr 1
      apply List.map_congr_left
      intro i _
      show (if st.subscriber.pin1_retries - 1 - (i + 1) = 0 then _ else _)
        = if st.subscriber.pin1_retries - (i + 1 + 1) = 0 then _ else _
      rw [show st.subscriber.pin1_retries - 1 - (i + 1)
        = st.subscriber.pin1_retries - (i + 1 + 1) by omega]

/-- C4, at an instance: three wrong PINs, then the right one. -/
theorem wrong_pin_lockout_witness :
    ((main_loop power_on (List.replicate 257 0)
        (List.replicate 3
          ⟨[0xA0, 0x20, 0x00, 0x01, 0x08, 0x31, 0x32, 0x33, 0x34, 0xFF, 0xFF, 0xFF, 0xFF],
            []⟩)).1.subscriber.pin1_retries : Int) = max 0 (3 - ((3 : Nat) : Int))
    ∧ (main_loop power_on (List.replicate 257 0)
        (List.replicate 3
          ⟨[0xA0, 0x20, 0x00, 0x01, 0x08, 0x31, 0x32, 0x33, 0x34, 0xFF, 0xFF, 0xFF, 0xFF], []⟩
        ++ [⟨[0xA0, 0x20, 0x00, 0x01, 0x08, 0x30, 0x30, 0x30, 0x30, 0xFF, 0xFF, 0xFF, 0xFF],
            []⟩])).1.subscriber.pin1_retries = 0 :=
  have h := wrong_pin_lockout (List.replicate 257 0) (List.length_replicate 257 0)
    (List.replicate 3
      ⟨[0xA0, 0x20, 0x00, 0x01, 0x08, 0x31, 0x32, 0x33, 0x34, 0xFF, 0xFF, 0xFF, 0xFF], []⟩)
    [⟨[0xA0, 0x20, 0x00, 0x01, 0x08, 0x30, 0x30, 0x30, 0x30, 0xFF, 0xFF, 0xFF, 0xFF], []⟩]
    (by decide) (by decide)
  ⟨h.1, (h.2 (by decide)).1⟩

/-! ## C5 -/

/-- C5 as stated fails: on the card after power-on (zeroed response buffer)
the four status words for four wrong VERIFY CHV
`A0 20 00 01 08 31 32 33 34 FF FF FF FF` are not 63 C2, 63 C1, 63 00, 69 83. -/
theorem wrong_pin_statuses_counterexample :
    ¬ ((main_loop power_on (List.replicate 257 0)
        (List.replicate 4
          ⟨[0xA0, 0x20, 0x00, 0x01, 0x08, 0x31, 0x32, 0x33, 0x34, 0xFF, 0xFF, 0xFF, 0xFF],
            []⟩)).2.2
      = [[0x63, 0xC2], [0x63, 0xC1], [0x63, 0x00], [0x69, 0x83]]) := by
  decide

/-- C5, amended: from the power-on state, whatever the response buffer holds,
sending `A0 20 00 01 08 31 32 33 34 FF FF FF FF` four times yields 63 C2,
63 C1, 69 83 and 69 83, in that order. -/
theorem wrong_pin_statuses (response : List Nat)
    (hlen : response.length = USIM_APDU_RESPONSE_MAX_LEN) (t1 t2 t3 t4 : List Nat) :
    (main_loop power_on response
      [⟨[0xA0, 0x20, 0x00, 0x01, 0x08, 0x31, 0x32, 0x33, 0x34, 0xFF, 0xFF, 0xFF, 0xFF], t1⟩,
       ⟨[0xA0, 0x20, 0x00, 0x01, 0x08, 0x31, 0x32, 0x33, 0x34, 0xFF, 0xFF, 0xFF, 0xFF], t2⟩,
       ⟨[0xA0, 0x20, 0x00, 0x01, 0x08, 0x31, 0x32, 0x33, 0x34, 0xFF, 0xFF, 0xFF, 0xFF], t3⟩,
       ⟨[0xA0, 0x20, 0x00, 0x01, 0x08, 0x31, 0x32, 0x33, 0x34, 0xFF, 0xFF, 0xFF, 0xFF],
         t4⟩]).2.2
      = [[0x63, 0xC2], [0x63, 0xC1], [0x69, 0x83], [0x69, 0x83]] := by
  rw [main_loop_wrong_sent _ power_on response hlen]
  · rfl
  · intro e he
    simp only [List.mem_cons, List.mem_singleton, List.not_mem_nil, or_false] at he
    rcases he with h | h | h | h <;> subst h <;> refine ⟨?_, ?_⟩ <;> dsimp only <;> decide

/-- C5 amended, at an instance: a zeroed response buffer. -/
theorem wrong_pin_statuses_witness :
    (main_loop power_on (List.replicate 257 0)
      [⟨[0xA0, 0x20, 0x00, 0x01, 0x08, 0x31, 0x32, 0x33, 0x34, 0xFF, 0xFF, 0xFF, 0xFF], []⟩,
       ⟨[0xA0, 0x20, 0x00, 0x01, 0x08, 0x31, 0x32, 0x33, 0x34, 0xFF, 0xFF, 0xFF, 0xFF], []⟩,
       ⟨[0xA0, 0x20, 0x00, 0x01, 0x08, 0x31, 0x32, 0x33, 0x34, 0xFF, 0xFF, 0xFF, 0xFF], []⟩,
       ⟨[0xA0, 0x20, 0x00, 0x01, 0x08, 0x31, 0x32, 0x33, 0x34, 0xFF, 0xFF, 0xFF, 0xFF],
         []⟩]).2.2
      = [[0x63, 0xC2], [0x63, 0xC1], [0x69, 0x83], [0x69, 0x83]] :=
  wrong_pin_statuses (List.replicate 257 0) (List.length_replicate 257 0) [] [] [] []

/-! ## Authentication -/

theorem rd_read_bytes (src : List Nat) (off n i : Nat) (h : i < n) :
    rd (read_bytes src off n) i = rd src (off + i) := by
  unfold read_bytes
  exact rd_range_map _ n i h

theorem xor_unmask (stored : List Nat) :
    usim_xor_operation (read_bytes stored 0 16) 16 xor_key 16 = unmasked stored := by
  unfold usim_xor_operation unmasked
  rw [length_read_bytes]
  apply List.map_congr_left
  intro i hi
  have hi16 : i < 16 := List.mem_range.mp hi
  rw [if_pos hi16, rd_read_bytes _ _ _ _ hi16, Nat.zero_add, Nat.mod_eq_of_lt hi16]

theorem get_key_intact (st : Card) (hc : catalogue_intact st) :
    usim_get_file_data st 0x6F08 = some (unmasked st.key_data, 16) := by
  obtain ⟨f, hf, _, hs, _, hd⟩ := intact_find_key st hc
  unfold usim_get_file_data
  rw [hf]
  dsimp only
  rw [hd]
  dsimp only
  rw [if_pos (Or.inl rfl), hs]
  show some (usim_xor_operation (read_bytes st.key_data 0 16) 16 xor_key 16, 16) = _
  rw [xor_unmask]

theorem get_opc_intact (st : Card) (hc : catalogue_intact st) :
    usim_get_file_data st 0x6F09 = some (unmasked st.opc_data, 16) := by
  obtain ⟨f, hf, _, hs, _, hd⟩ := intact_find_opc st hc
  unfold usim_get_file_data
  rw [hf]
  dsimp only
  rw [hd]
  dsimp only
  rw [if_pos (Or.inr rfl), hs]
  show some (usim_xor_operation (read_bytes st.opc_data 0 16) 16 xor_key 16, 16) = _
  rw [xor_unmask]

theorem run_xor_auth_intact (st : Card) (hc : catalogue_intact st)
    (rand output temp : List Nat) :
    usim_run_xor_auth st rand output temp
      = some
          (write_bytes
            (write_bytes
              (write_bytes
                (write_bytes
                  (write_bytes output 0
                    (xor_auth_res
                      (xor_auth_temp rand (unmasked st.key_data) (unmasked st.opc_data) temp)) 8)
                  8 (xor_auth_ck rand (unmasked st.key_data) (unmasked st.opc_data)) 16)
                24 (xor_auth_ik rand (unmasked st.key_data) (unmasked st.opc_data)) 16)
              40 (xor_auth_ak rand (unmasked st.key_data) (unmasked st.opc_data)) 6)
            46 (xor_auth_kc (xor_auth_ck rand (unmasked st.key_data) (unmasked st.opc_data))) 8,
           54,
           { st with
             session :=
               { st.session with
                 res := xor_auth_res
                   (xor_auth_temp rand (unmasked st.key_data) (unmasked st.opc_data) temp)
                 ck := xor_auth_ck rand (unmasked st.key_data) (unmasked st.opc_data)
                 ik := xor_auth_ik rand (unmasked st.key_data) (unmasked st.opc_data)
                 kc := xor_auth_kc
                   (xor_auth_ck rand (unmasked st.key_data) (unmasked st.opc_data))
                 authenticated := true
                 state := (st.session.state ||| USIM_STATE_AUTHENTICATED) % 256 } }) := by
  unfold usim_run_xor_auth
  rw [get_key_intact st hc, get_opc_intact st hc]
  rfl

theorem rd_auth_output (output res ck ik ak kc : List Nat) (hl : 54 ≤ output.length) (i : Nat)
    (hi : i < 54) :
    rd (write_bytes (write_bytes (write_bytes (write_bytes (write_bytes output 0 res 8)
        8 ck 16) 24 ik 16) 40 ak 6) 46 kc 8) i
      = if i < 8 then rd res i
        else if i < 24 then rd ck (i - 8)
        else if i < 40 then rd ik (i - 24)
        else if i < 46 then rd ak (i - 40)
        else rd kc (i - 46) := by
  simp only [rd_write_bytes, length_write_bytes]
  split_ifs <;> first
    | rfl
    | omega

theorem authenticated_set (s : Nat) :
    ((s ||| USIM_STATE_AUTHENTICATED) % 256) &&& USIM_STATE_AUTHENTICATED ≠ 0 := by
  have h2 : (((s ||| 2) % 256) &&& 2).testBit 1 = true := by
    rw [Nat.testBit_and, show (256 : Nat) = 2 ^ 8 from rfl, Nat.testBit_mod_two_pow,
      Nat.testBit_or]
    have : Nat.testBit 2 1 = true := by decide
    simp [this]
  intro h
  have h' : ((s ||| 2) % 256) &&& 2 = 0 := h
  rw [h'] at h2
  simp at h2

theorem authenticate_ok (cmd : apdu_command_t) (resp : apdu_response_t) (st : Card)
    (temp : List Nat) (hc : catalogue_intact st)
    (hpin : st.session.state &&& USIM_STATE_PIN_VERIFIED ≠ 0) (hlc : 16 ≤ cmd.lc)
    (hle : cmd.le = 0 ∨ cmd.le = 256 ∨ 54 ≤ cmd.le) :
    ∃ out st1,
      usim_run_xor_auth st (read_bytes cmd.data 0 16) resp.data temp = some (out, 54, st1)
      ∧ handle_authenticate cmd resp st temp
          = ⟨true, { data := out, data_len := 54, sw1sw2 := SW_OK }, st1⟩ := by
  refine ⟨_, _, run_xor_auth_intact st hc _ _ _, ?_⟩
  unfold handle_authenticate
  rw [if_neg (by omega), if_neg hpin, if_neg (by omega)]
  dsimp only
  rw [run_xor_auth_intact st hc]

/-! ## C7 -/

/-- C7: on every card whose PIN_VERIFIED bit is set, for every AUTHENTICATE the
codec accepts with `Lc ≥ 16` and `Le` absent (0 in the record), encoded 0 (256
in the record) or `≥ 54`, whatever RAND it carries: `*resp_len` is 56 and the
56 bytes sent are 54 data bytes followed by 90 00; data bytes 0..7, 8..23,
24..39 and 46..53 are the session's RES, CK, IK and Kc after the command, bytes
40..45 are AK computed from RAND and the plaintext Ki and OPc; the session's
AUTHENTICATED bit and `authenticated` flag are set. -/
theorem authenticate_response (st : Card) (hc : catalogue_intact st)
    (hpin : st.session.state &&& USIM_STATE_PIN_VERIFIED ≠ 0)
    (command response temp : List Nat) (cmd : apdu_command_t)
    (hparse : apdu_parse command = some cmd)
    (hcla : cmd.cla = CLA_STANDARD ∨ cmd.cla = CLA_GSM)
    (hins : cmd.ins = INS_AUTHENTICATE) (hlc : 16 ≤ cmd.lc)
    (hle : cmd.le = 0 ∨ cmd.le = 256 ∨ 54 ≤ cmd.le)
    (hlen : response.length = USIM_APDU_RESPONSE_MAX_LEN) :
    (apdu_process_command command response st temp).resp_len = 56
      ∧ (apdu_process_command command response st temp).sent.length = 54 + 2
      ∧ (apdu_process_command command response st temp).resp.data_len = 54
      ∧ (apdu_process_command command response st temp).resp.sw1sw2 = 0x9000
      ∧ read_bytes (apdu_process_command command response st temp).sent 0 8
          = (apdu_process_command command response st temp).card.session.res
      ∧ read_bytes (apdu_process_command command response st temp).sent 8 16
          = (apdu_process_command command response st temp).card.session.ck
      ∧ read_bytes (apdu_process_command command response st temp).sent 24 16
          = (apdu_process_command command response st temp).card.session.ik
      ∧ read_bytes (apdu_process_command command response st temp).sent 40 6
          = (List.range 6).map (fun i =>
              rd (read_bytes cmd.data 0 16) (i + 2) ^^^ rd (unmasked st.key_data) (i + 5)
                ^^^ rd (unmasked st.opc_data) (i + 9))
      ∧ read_bytes (apdu_process_command command response st temp).sent 46 8
          = (apdu_process_command command response st temp).card.session.kc
      ∧ read_bytes (apdu_process_command command response st temp).sent 54 2 = [0x90, 0x00]
      ∧ (apdu_process_command command response st temp).card.session.state
          &&& USIM_STATE_AUTHENTICATED ≠ 0
      ∧ (apdu_process_command command response st temp).card.session.authenticated = true := by
  have h257 : response.length = 257 := hlen
  obtain ⟨out, st1, hrun, hh⟩ :=
    authenticate_ok cmd { data := response, data_len := 0, sw1sw2 := 0 } st temp hc hpin hlc hle
  rw [process_parsed command response st temp cmd hparse,
    dispatch_authenticate cmd _ st temp hcla hins, hh]
  have hrun' := hrun
  rw [run_xor_auth_intact st hc] at hrun'
  simp only [Option.some.injEq, Prod.mk.injEq, true_and] at hrun'
  obtain ⟨hout, hst1⟩ := hrun'
  have houtlen : out.length = 257 := by
    rw [← hout]
    simp only [length_write_bytes]
    exact h257
  obtain ⟨r1, r2, r3, r4, r5⟩ := send_response_layout
    ⟨true, { data := out, data_len := 54, sw1sw2 := SW_OK }, st1⟩
    (by show 54 + 2 ≤ out.length; omega) (by show (54 : Nat) ≤ 255; norm_num)
    (by show (0x9000 : Nat) < 65536; norm_num)
  dsimp only at r1 r2 r3 r4 r5
  have rdsent : ∀ i, i < 54 →
      rd (send_response ⟨true, { data := out, data_len := 54, sw1sw2 := SW_OK }, st1⟩).sent i
        = if i < 8 then rd st1.session.res i
          else if i < 24 then rd st1.session.ck (i - 8)
          else if i < 40 then rd st1.session.ik (i - 24)
          else if i < 46 then
            rd (xor_auth_ak (read_bytes cmd.data 0 16) (unmasked st.key_data)
              (unmasked st.opc_data)) (i - 40)
          else rd st1.session.kc (i - 46) := by
    intro i hi
    rw [r5 i hi, ← hout, ← hst1]
    exact rd_auth_output _ _ _ _ _ _ (by show 54 ≤ response.length; omega) i hi
  have hres : st1.session.res = (List.range 8).map (fun i => rd st1.session.res i) := by
    rw [← hst1]
    show xor_auth_res _ = _
    unfold xor_auth_res
    apply List.map_congr_left
    intro i hi
    rw [rd_range_map _ 8 i (List.mem_range.mp hi)]
  have hck : st1.session.ck = (List.range 16).map (fun i => rd st1.session.ck i) := by
    rw [← hst1]
    show xor_auth_ck _ _ _ = _
    unfold xor_auth_ck
    apply List.map_congr_left
    intro i hi
    rw [rd_range_map _ 16 i (List.mem_range.mp hi)]
  have hik : st1.session.ik = (List.range 16).map (fun i => rd st1.session.ik i) := by
    rw [← hst1]
    show xor_auth_ik _ _ _ = _
    unfold xor_auth_ik
    apply List.map_congr_left
    intro i hi
    rw [rd_range_map _ 16 i (List.mem_range.mp hi)]
  have hkc : st1.session.kc = (List.range 8).map (fun i => rd st1.session.kc i) := by
    rw [← hst1]
    show xor_auth_kc _ = _
    unfold xor_auth_kc
    apply List.map_congr_left
    intro i hi
    rw [rd_range_map _ 8 i (List.mem_range.mp hi)]
  refine ⟨r1, r2, rfl, rfl, ?_, ?_, ?_, ?_, ?_, ?_, ?_, ?_⟩
  · show read_bytes _ 0 8 = st1.session.res
    rw [hres]
    apply read_bytes_eq_of_rd
    intro i hi
    rw [rdsent (0 + i) (by omega), if_pos (by omega), Nat.zero_add]
  · show read_bytes _ 8 16 = st1.session.ck
    rw [hck]
    apply read_bytes_eq_of_rd
    intro i hi
    rw [rdsent (8 + i) (by omega), if_neg (by omega), if_pos (by omega)]
    congr 1
    omega
  · show read_bytes _ 24 16 = st1.session.ik
    rw [hik]
    apply read_bytes_eq_of_rd
    intro i hi
    rw [rdsent (24 + i) (by omega), if_neg (by omega), if_neg (by omega), if_pos (by omega)]
    congr 1
    omega
  · apply read_bytes_eq_of_rd
    intro i hi
    rw [rdsent (40 + i) (by omega), if_neg (by omega), if_neg (by omega), if_neg (by omega),
      if_pos (by omega), show 40 + i - 40 = i by omega]
    unfold xor_auth_ak
    rw [rd_range_map _ 6 i hi]
  · show read_bytes _ 46 8 = st1.session.kc
    rw [hkc]
    apply read_bytes_eq_of_rd
    intro i hi
    rw [rdsent (46 + i) (by omega), if_neg (by omega), if_neg (by omega), if_neg (by omega),
      if_neg (by omega)]
    congr 1
    omega
  · show read_bytes _ 54 2 = (List.range 2).map (fun i => if i = 0 then 0x90 else 0x00)
    apply read_bytes_eq_of_rd
    intro i hi
    have hcases : i = 0 ∨ i = 1 := by omega
    rcases hcases with h | h
    · subst h
      rw [show 54 + 0 = 54 from rfl, r3]
      norm_num
    · subst h
      rw [show 54 + 1 = 54 + 1 from rfl, r4]
      norm_num
  · show st1.session.state &&& USIM_STATE_AUTHENTICATED ≠ 0
    rw [← hst1]
    exact authenticated_set _
  · show st1.session.authenticated = true
    rw [← hst1]

/-- C7, at an instance: `A0 88 00 00 10` with an all-zero RAND, sent after the
default PIN was verified on the card after power-on. -/
theorem authenticate_response_witness :
    (apdu_process_command ([0xA0, 0x88, 0x00, 0x00, 0x10] ++ List.replicate 16 0)
        (List.replicate 257 0)
        (handle_verify_chv ⟨0xA0, 0x20, 0, 1, 8, [0x30, 0x30, 0x30, 0x30, 0xFF, 0xFF, 0xFF, 0xFF], 0⟩
          ⟨[], 0, 0⟩ power_on).card
        (List.replicate 16 0)).sent.length = 54 + 2
    ∧ read_bytes (apdu_process_command ([0xA0, 0x88, 0x00, 0x00, 0x10] ++ List.replicate 16 0)
        (List.replicate 257 0)
        (handle_verify_chv ⟨0xA0, 0x20, 0, 1, 8, [0x30, 0x30, 0x30, 0x30, 0xFF, 0xFF, 0xFF, 0xFF], 0⟩
          ⟨[], 0, 0⟩ power_on).card
        (List.replicate 16 0)).sent 54 2 = [0x90, 0x00] :=
  have h := authenticate_response
    (handle_verify_chv ⟨0xA0, 0x20, 0, 1, 8, [0x30, 0x30, 0x30, 0x30, 0xFF, 0xFF, 0xFF, 0xFF], 0⟩
      ⟨[], 0, 0⟩ power_on).card
    (by decide) (by decide)
    ([0xA0, 0x88, 0x00, 0x00, 0x10] ++ List.replicate 16 0) (List.replicate 257 0)
    (List.replicate 16 0) ⟨0xA0, 0x88, 0, 0, 16, List.replicate 16 0, 0⟩
    (by decide) (by decide) (by decide) (by decide) (by decide) (List.length_replicate 257 0)
  ⟨h.2.1, h.2.2.2.2.2.2.2.2.2.1⟩

/-! ## C8 -/

/-- What `usim_run_xor_auth` stores as RES: the low nibble of `RES[i]` is the
low nibble of `T[i] = RAND[i] ^ Ki[i] ^ OPc[i]`, the high nibble is the low
nibble of `temp[i + 8]` as the function found it on entry, for the loop that
fills `temp` stops at index 7. -/
theorem xor_auth_res_bytes (st : Card) (hc : catalogue_intact st)
    (rand output temp : List Nat) :
    ∃ out st1, usim_run_xor_auth st rand output temp = some (out, 54, st1)
      ∧ ∀ i, i < 8 →
          rd st1.session.res i
            = (rd (spec_T rand (unmasked st.key_data) (unmasked st.opc_data)) i &&& 0x0F)
              ||| (((rd temp (i + 8) &&& 0x0F) <<< 4) % 256) := by
  refine ⟨_, _, run_xor_auth_intact st hc rand output temp, ?_⟩
  intro i hi
  show rd (xor_auth_res (xor_auth_temp rand _ _ temp)) i = _
  unfold xor_auth_res
  rw [rd_range_map _ 8 i hi]
  unfold xor_auth_temp spec_T
  rw [rd_range_map _ 16 i (by omega), rd_range_map _ 16 (i + 8) (by omega),
    rd_range_map _ 16 i (by omega), if_pos hi, if_neg (by omega)]

/-- C8, evaluated: on the card after power-on (default Ki and OPc in
plaintext behind the mask) with RAND all-zero, `usim_run_xor_auth` stores
RES = 0B 08 07 09 04 03 0B 01 when `temp[8..15]` holds zeros on entry and
RES = FB F8 F7 F9 F4 F3 FB F1 when it holds FF, while the formula of the
specification gives 2B A8 37 59 44 23 FB 91. -/
theorem xor_auth_res_uninitialised :
    unmasked power_on.key_data = key_data_init
    ∧ unmasked power_on.opc_data = opc_data_init
    ∧ (usim_run_xor_auth power_on (List.replicate 16 0) (List.replicate 257 0)
        (List.replicate 16 0)).map (fun t => t.2.2.session.res)
        = some [0x0B, 0x08, 0x07, 0x09, 0x04, 0x03, 0x0B, 0x01]
    ∧ (usim_run_xor_auth power_on (List.replicate 16 0) (List.replicate 257 0)
        (List.replicate 16 0xFF)).map (fun t => t.2.2.session.res)
        = some [0xFB, 0xF8, 0xF7, 0xF9, 0xF4, 0xF3, 0xFB, 0xF1]
    ∧ spec_RES (List.replicate 16 0) key_data_init opc_data_init
        = [0x2B, 0xA8, 0x37, 0x59, 0x44, 0x23, 0xFB, 0x91] := by
  decide

/-! ## C9 -/

theorem rot_index_lt (i k : Nat) : rot_index i k < 16 := by
  unfold rot_index
  have := Nat.mod_lt (i + k) (show 0 < 16 by norm_num)
  omega

theorem rot_index_eq (i k : Nat) : rot_index i k = (i + k) % 16 := by
  unfold rot_index
  have := Nat.mod_lt (i + k) (show 0 < 16 by norm_num)
  omega

/-- C9: for every RAND, with Ki and OPc the plaintext (unmasked)
contents of EF_KEY and EF_OPc, `usim_run_xor_auth` succeeds and stores
`CK[i] = RAND[i] ^ Ki[(i+3) mod 16] ^ OPc[(i+7) mod 16]` and
`IK[i] = RAND[(i+5) mod 16] ^ Ki[(i+11) mod 16] ^ OPc[(i+13) mod 16]` for
`i` in 0..15 and `Kc[i] = CK[i] ^ CK[i+8]` for `i` in 0..7 in the session, and
writes `AK[i] = RAND[i+2] ^ Ki[i+5] ^ OPc[i+9]`, `i` in 0..5, to bytes 40..45
of the output; Ki, OPc, CK and IK have 16 bytes and every index used is
below 16. -/
theorem xor_auth_keys (st : Card) (hc : catalogue_intact st) (rand output temp : List Nat)
    (hout : 54 ≤ output.length) :
    ∃ out st1, usim_run_xor_auth st rand output temp = some (out, 54, st1)
      ∧ (unmasked st.key_data).length = 16 ∧ (unmasked st.opc_data).length = 16
      ∧ st1.session.ck.length = 16 ∧ st1.session.ik.length = 16
      ∧ st1.session.kc.length = 8
      ∧ (∀ i, i < 16 →
          rot_index i 3 = (i + 3) % 16 ∧ rot_index i 7 = (i + 7) % 16
          ∧ (i + 3) % 16 < 16 ∧ (i + 7) % 16 < 16
          ∧ rd st1.session.ck i
            = rd rand i ^^^ rd (unmasked st.key_data) ((i + 3) % 16)
              ^^^ rd (unmasked st.opc_data) ((i + 7) % 16))
      ∧ (∀ i, i < 16 →
          rot_index i 5 = (i + 5) % 16 ∧ rot_index i 11 = (i + 11) % 16
          ∧ rot_index i 13 = (i + 13) % 16
          ∧ (i + 5) % 16 < 16 ∧ (i + 11) % 16 < 16 ∧ (i + 13) % 16 < 16
          ∧ rd st1.session.ik i
            = rd rand ((i + 5) % 16) ^^^ rd (unmasked st.key_data) ((i + 11) % 16)
              ^^^ rd (unmasked st.opc_data) ((i + 13) % 16))
      ∧ (∀ i, i < 6 →
          i + 2 < 16 ∧ i + 5 < 16 ∧ i + 9 < 16
          ∧ rd out (40 + i)
            = rd rand (i + 2) ^^^ rd (unmasked st.key_data) (i + 5)
              ^^^ rd (unmasked st.opc_data) (i + 9))
      ∧ (∀ i, i < 8 →
          i + 8 < 16
          ∧ rd st1.session.kc i = rd st1.session.ck i ^^^ rd st1.session.ck (i + 8)) := by
  refine ⟨_, _, run_xor_auth_intact st hc rand output temp, ?_, ?_, ?_, ?_, ?_, ?_, ?_, ?_, ?_⟩
  · simp [unmasked]
  · simp [unmasked]
  · show (xor_auth_ck _ _ _).length = 16
    simp [xor_auth_ck]
  · show (xor_auth_ik _ _ _).length = 16
    simp [xor_auth_ik]
  · show (xor_auth_kc _).length = 8
    simp [xor_auth_kc]
  · intro i hi
    refine ⟨rot_index_eq i 3, rot_index_eq i 7, Nat.mod_lt _ (by norm_num),
      Nat.mod_lt _ (by norm_num), ?_⟩
    show rd (xor_auth_ck _ _ _) i = _
    unfold xor_auth_ck
    rw [rd_range_map _ 16 i hi, rot_index_eq, rot_index_eq]
  · intro i hi
    refine ⟨rot_index_eq i 5, rot_index_eq i 11, rot_index_eq i 13, Nat.mod_lt _ (by norm_num),
      Nat.mod_lt _ (by norm_num), Nat.mod_lt _ (by norm_num), ?_⟩
    show rd (xor_auth_ik _ _ _) i = _
    unfold xor_auth_ik
    rw [rd_range_map _ 16 i hi, rot_index_eq, rot_index_eq, rot_index_eq]
  · intro i hi
    refine ⟨by omega, by omega, by omega, ?_⟩
    rw [rd_auth_output _ _ _ _ _ _ hout (40 + i) (by omega), if_neg (by omega),
      if_neg (by omega), if_neg (by omega), if_pos (by omega), show 40 + i - 40 = i by omega]
    unfold xor_auth_ak
    rw [rd_range_map _ 6 i hi]
  · intro i hi
    refine ⟨by omega, ?_⟩
    show rd (xor_auth_kc _) i = _
    unfold xor_auth_kc
    rw [rd_range_map _ 8 i hi]

/-- C9, at an instance: RAND all-zero on the card after power-on, where the
plaintext Ki and OPc are the seeds of `usim_files.c`. -/
theorem xor_auth_keys_witness :
    unmasked power_on.key_data = key_data_init
    ∧ unmasked power_on.opc_data = opc_data_init
    ∧ ∃ out st1, usim_run_xor_auth power_on (List.replicate 16 0) (List.replicate 257 0) []
        = some (out, 54, st1)
      ∧ rd st1.session.ck 0
        = rd (List.replicate 16 0) 0 ^^^ rd (unmasked power_on.key_data) ((0 + 3) % 16)
          ^^^ rd (unmasked power_on.opc_data) ((0 + 7) % 16) :=
  have h := xor_auth_keys power_on (by decide) (List.replicate 16 0) (List.replicate 257 0) []
    (by rw [List.length_replicate]; norm_num)
  ⟨by decide, by decide,
    h.elim fun out h1 => h1.elim fun st1 h2 =>
      ⟨out, st1, h2.1, (h2.2.2.2.2.2.2.1 0 (by norm_num)).2.2.2.2⟩⟩

/-! ## The codec -/

theorem parse_short (command : List Nat) (h : command.length < 4) :
    apdu_parse command = none := by
  unfold apdu_parse
  dsimp only
  rw [if_pos h]

theorem parse_case1 (command : List Nat) (h : command.length = 4) :
    apdu_parse command
      = some { cla := rd command 0, ins := rd command 1, p1 := rd command 2,
               p2 := rd command 3, lc := 0, data := [], le := 0 } := by
  simp [apdu_parse, h]

theorem parse_case2 (command : List Nat) (h : command.length = 5) (hb : rd command 4 < 256) :
    apdu_parse command
      = some { cla := rd command 0, ins := rd command 1, p1 := rd command 2,
               p2 := rd command 3, lc := 0, data := [],
               le := if rd command 4 = 0 then 256 else rd command 4 } := by
  by_cases h0 : rd command 4 = 0
  · simp [apdu_parse, h, h0]
  · simp [apdu_parse, h, h0]
    omega

theorem parse_case3 (command : List Nat) (h5 : 5 < command.length)
    (h : command.length = 5 + rd command 4) (hb : rd command 4 < 256) :
    apdu_parse command
      = some { cla := rd command 0, ins := rd command 1, p1 := rd command 2,
               p2 := rd command 3, lc := rd command 4, data := command.drop 5, le := 0 } := by
  have hm : (5 + rd command 4) % 65536 = 5 + rd command 4 := Nat.mod_eq_of_lt (by omega)
  have hm1 : (5 + rd command 4 + 1) % 65536 = 5 + rd command 4 + 1 := Nat.mod_eq_of_lt (by omega)
  have hpos : 0 < rd command 4 := by omega
  unfold apdu_parse
  dsimp only
  have hmax : ¬ rd command 4 > USIM_APDU_MAX_DATA_LEN := by
    show ¬ rd command 4 > 255
    omega
  rw [if_neg (by omega), if_neg (by omega), if_pos h5, if_neg hmax, hm, hm1,
    if_neg (by omega), if_neg (by omega), if_neg (by omega), if_pos hpos]
  dsimp only
  rw [if_neg (by simp), if_neg (by simp)]

theorem parse_case4 (command : List Nat) (h5 : 5 < command.length)
    (h : command.length = 5 + rd command 4 + 1) (hb : rd command 4 < 256)
    (hle : rd command (5 + rd command 4) < 256) :
    apdu_parse command
      = some { cla := rd command 0, ins := rd command 1, p1 := rd command 2,
               p2 := rd command 3, lc := rd command 4,
               data := if rd command 4 > 0 then command.drop 5 else [],
               le := if rd command (5 + rd command 4) = 0 then 256
                     else rd command (5 + rd command 4) } := by
  have hm : (5 + rd command 4) % 65536 = 5 + rd command 4 := Nat.mod_eq_of_lt (by omega)
  have hm1 : (5 + rd command 4 + 1) % 65536 = 5 + rd command 4 + 1 := Nat.mod_eq_of_lt (by omega)
  unfold apdu_parse
  dsimp only
  have hmax : ¬ rd command 4 > USIM_APDU_MAX_DATA_LEN := by
    show ¬ rd command 4 > 255
    omega
  rw [if_neg (by omega), if_neg (by omega), if_pos h5, if_neg hmax, hm, hm1,
    if_neg (by omega), if_pos h]
  dsimp only
  by_cases h0 : rd command (5 + rd command 4) = 0
  · simp [h0]
  · simp [h0]
    omega

theorem parse_mismatch (command : List Nat) (h5 : 5 < command.length)
    (h3 : command.length ≠ 5 + rd command 4) (h4 : command.length ≠ 5 + rd command 4 + 1) :
    apdu_parse command = none := by
  unfold apdu_parse
  dsimp only
  rw [if_neg (by omega), if_neg (by omega), if_pos h5]
  by_cases hlc : rd command 4 > USIM_APDU_MAX_DATA_LEN
  · rw [if_pos hlc]
  · have hlc' : rd command 4 ≤ 255 := by
      have : ¬ rd command 4 > 255 := hlc
      omega
    have hm : (5 + rd command 4) % 65536 = 5 + rd command 4 := Nat.mod_eq_of_lt (by omega)
    have hm1 : (5 + rd command 4 + 1) % 65536 = 5 + rd command 4 + 1 :=
      Nat.mod_eq_of_lt (by omega)
    rw [if_neg hlc, hm, hm1]
    by_cases hlt : command.length < 5 + rd command 4
    · rw [if_pos hlt]
    · rw [if_neg hlt, if_neg h4, if_pos h3]


theorem rd_lt_of_bytes (l : List Nat) (hb : ∀ b ∈ l, b < 256) (i : Nat) : rd l i < 256 := by
  unfold rd
  rw [List.getD_eq_getElem?_getD]
  cases hget : l[i]? with
  | none => simp
  | some v =>
    have hmem : v ∈ l := List.getElem?_mem hget
    simpa using hb v hmem

theorem rd_eq_getElem (l : List Nat) (i : Nat) (h : i < l.length) : rd l i = l[i] := by
  unfold rd
  rw [List.getD_eq_getElem?_getD, List.getElem?_eq_getElem h]
  rfl

theorem ext_rd (l1 l2 : List Nat) (hl : l1.length = l2.length)
    (h : ∀ i, i < l1.length → rd l1 i = rd l2 i) : l1 = l2 := by
  apply List.ext_getElem hl
  intro i h1 h2
  have := h i h1
  rw [rd_eq_getElem l1 i h1, rd_eq_getElem l2 i h2] at this
  exact this

theorem rd_drop (l : List Nat) (k i : Nat) : rd (l.drop k) i = rd l (k + i) := by
  unfold rd
  rw [List.getD_eq_getElem?_getD, List.getD_eq_getElem?_getD, List.getElem?_drop]

theorem read_bytes_eq_take (l : List Nat) (n : Nat) (h : n ≤ l.length) :
    read_bytes l 0 n = l.take n := by
  apply ext_rd
  · rw [length_read_bytes, List.length_take]
    omega
  · intro i hi
    rw [length_read_bytes] at hi
    rw [rd_read_bytes _ _ _ _ hi, rd_take, if_pos hi, Nat.zero_add]

theorem send_wrong_length (response : List Nat) (st : Card) (hlen : response.length = 257) :
    (send_response
        ⟨false, { data := response, data_len := 0, sw1sw2 := SW_WRONG_LENGTH }, st⟩).sent
      = [0x67, 0x00] := by
  obtain ⟨s1, _⟩ := send_no_data
    ⟨false, { data := response, data_len := 0, sw1sw2 := SW_WRONG_LENGTH }, st⟩
    rfl (by show 2 ≤ response.length; omega) (by show (0x6700 : Nat) < 65536; norm_num)
  rw [s1]
  dsimp only
  norm_num

/-! ## C11 -/

/-- C11: for every command buffer whose length `n` matches none of the
accepted patterns (`n < 4`, or `n > 5` with `n ≠ 5 + Lc` and `n ≠ 5 + Lc + 1`
for `Lc = command[4]`), every card state and whatever CLA and INS are, the
bytes sent are exactly 67 00: no data, and the card is unchanged. -/
theorem wrong_length_rejected (command response : List Nat) (st : Card) (temp : List Nat)
    (hn : command.length < 4
      ∨ (5 < command.length ∧ command.length ≠ 5 + rd command 4
          ∧ command.length ≠ 5 + rd command 4 + 1))
    (hlen : response.length = USIM_APDU_RESPONSE_MAX_LEN) :
    (apdu_process_command command response st temp).sent = [0x67, 0x00]
      ∧ (apdu_process_command command response st temp).resp.data_len = 0
      ∧ (apdu_process_command command response st temp).card = st := by
  have hnone : apdu_parse command = none := by
    rcases hn with h | ⟨h5, h3, h4⟩
    · exact parse_short command h
    · exact parse_mismatch command h5 h3 h4
  unfold apdu_process_command
  rw [hnone]
  exact ⟨send_wrong_length response st hlen, rfl, rfl⟩

/-- C11, at two instances: three bytes only, and `A0 D6 00 00 05 AA` (six bytes
announcing `Lc = 5`), on the card after power-on. -/
theorem wrong_length_rejected_witness :
    (apdu_process_command [0xA0, 0xA4, 0x00] (List.replicate 257 0) power_on []).sent
        = [0x67, 0x00]
    ∧ (apdu_process_command [0xA0, 0xD6, 0x00, 0x00, 0x05, 0xAA] (List.replicate 257 0)
        power_on []).sent = [0x67, 0x00] :=
  ⟨(wrong_length_rejected [0xA0, 0xA4, 0x00] (List.replicate 257 0) power_on []
      (Or.inl (by decide)) (List.length_replicate 257 0)).1,
   (wrong_length_rejected [0xA0, 0xD6, 0x00, 0x00, 0x05, 0xAA] (List.replicate 257 0) power_on []
      (Or.inr (by decide)) (List.length_replicate 257 0)).1⟩

/-! ## C12 -/

/-- C12: for every command buffer of bytes of an accepted length `n`, the
parsed record has CLA, INS, P1, P2 equal to the first four bytes and
* `n = 4`: `Lc = 0`, no data, no Le (0 in the record);
* `n = 5`: `Lc = 0` and Le is P3, with `P3 = 0` expanded to 256;
* `n = 5 + Lc`, `Lc = command[4] > 0`: the `Lc` bytes after P3 are the data
  and there is no Le;
* `n = 5 + Lc + 1`: the same data and Le is the trailing byte, 0 expanded to
  256. -/
theorem parsed_command_record (command : List Nat) (hbytes : ∀ b ∈ command, b < 256) :
    (command.length = 4 →
      apdu_parse command
        = some { cla := rd command 0, ins := rd command 1, p1 := rd command 2,
                 p2 := rd command 3, lc := 0, data := [], le := 0 })
    ∧ (command.length = 5 →
      apdu_parse command
        = some { cla := rd command 0, ins := rd command 1, p1 := rd command 2,
                 p2 := rd command 3, lc := 0, data := [],
                 le := if rd command 4 = 0 then 256 else rd command 4 })
    ∧ (0 < rd command 4 → command.length = 5 + rd command 4 →
      ∃ cmd, apdu_parse command = some cmd
        ∧ cmd.cla = rd command 0 ∧ cmd.ins = rd command 1 ∧ cmd.p1 = rd command 2
        ∧ cmd.p2 = rd command 3 ∧ cmd.lc = rd command 4
        ∧ read_bytes cmd.data 0 cmd.lc = command.drop 5
        ∧ (command.drop 5).length = cmd.lc
        ∧ cmd.le = 0)
    ∧ (command.length = 5 + rd command 4 + 1 →
      ∃ cmd, apdu_parse command = some cmd
        ∧ cmd.cla = rd command 0 ∧ cmd.ins = rd command 1 ∧ cmd.p1 = rd command 2
        ∧ cmd.p2 = rd command 3 ∧ cmd.lc = rd command 4
        ∧ read_bytes cmd.data 0 cmd.lc = (command.drop 5).take cmd.lc
        ∧ ((command.drop 5).take cmd.lc).length = cmd.lc
        ∧ cmd.le = (if rd command (command.length - 1) = 0 then 256
                    else rd command (command.length - 1))) := by
  have hb4 := rd_lt_of_bytes command hbytes 4
  refine ⟨parse_case1 command, fun h => parse_case2 command h hb4, ?_, ?_⟩
  · intro hpos h
    refine ⟨_, parse_case3 command (by omega) h hb4, rfl, rfl, rfl, rfl, rfl, ?_, ?_, rfl⟩
    · show read_bytes (command.drop 5) 0 (rd command 4) = command.drop 5
      have hl : (command.drop 5).length = rd command 4 := by
        rw [List.length_drop]
        omega
      rw [read_bytes_eq_take _ _ (by omega), ← hl, List.take_length]
    · show (command.drop 5).length = rd command 4
      rw [List.length_drop]
      omega
  · intro h
    have hlast : command.length - 1 = 5 + rd command 4 := by omega
    rw [hlast]
    refine ⟨_, parse_case4 command (by omega) h hb4 (rd_lt_of_bytes command hbytes _),
      rfl, rfl, rfl, rfl, rfl, ?_, ?_, rfl⟩
    · show read_bytes (if rd command 4 > 0 then command.drop 5 else []) 0 (rd command 4) = _
      by_cases hpos : rd command 4 > 0
      · rw [if_pos hpos]
        exact read_bytes_eq_take _ _ (by rw [List.length_drop]; omega)
      · have h0 : rd command 4 = 0 := by omega
        rw [if_neg hpos, h0]
        rfl
    · show ((command.drop 5).take (rd command 4)).length = rd command 4
      rw [List.length_take, List.length_drop]
      omega

/-- C12, at an instance: the case-4 buffer `A0 A4 00 00 02 3F 00 00`. -/
theorem parsed_command_record_witness :
    ∃ cmd, apdu_parse [0xA0, 0xA4, 0x00, 0x00, 0x02, 0x3F, 0x00, 0x00] = some cmd
      ∧ cmd.lc = 2 ∧ read_bytes cmd.data 0 cmd.lc = [0x3F, 0x00] ∧ cmd.le = 256 :=
  ((parsed_command_record [0xA0, 0xA4, 0x00, 0x00, 0x02, 0x3F, 0x00, 0x00]
      (by decide)).2.2.2 (by decide)).elim fun cmd h =>
    ⟨cmd, h.1, h.2.2.2.2.2.1,
      by rw [h.2.2.2.2.2.2.1, h.2.2.2.2.2.1]; rfl,
      by rw [h.2.2.2.2.2.2.2.2]; rfl⟩

/-! ## C13 -/

/-- C13: in the default build, for every command buffer the codec accepts and
every card state: if CLA is neither 0x00 nor 0xA0 the bytes sent are exactly
6E 00, whatever INS is; if CLA is 0x00 or 0xA0 and INS is none of A4, B0, D6,
20, 24, 88, C0, F2 they are exactly 6D 00; in both cases the card is
unchanged.  `A0 FF 00 00 00` is answered 6D 00 in every state. -/
theorem unrouted_command :
    (∀ (command response temp : List Nat) (st : Card) (cmd : apdu_command_t),
      apdu_parse command = some cmd →
      response.length = USIM_APDU_RESPONSE_MAX_LEN →
      (¬ (cmd.cla = CLA_STANDARD ∨ cmd.cla = CLA_GSM) →
        (apdu_process_command command response st temp).sent = [0x6E, 0x00]
        ∧ (apdu_process_command command response st temp).card = st)
      ∧ ((cmd.cla = CLA_STANDARD ∨ cmd.cla = CLA_GSM) →
        cmd.ins ≠ 0xA4 → cmd.ins ≠ 0xB0 → cmd.ins ≠ 0xD6 → cmd.ins ≠ 0x20 →
        cmd.ins ≠ 0x24 → cmd.ins ≠ 0x88 → cmd.ins ≠ 0xC0 → cmd.ins ≠ 0xF2 →
        (apdu_process_command command response st temp).sent = [0x6D, 0x00]
        ∧ (apdu_process_command command response st temp).card = st))
    ∧ (∀ (response temp : List Nat) (st : Card),
      response.length = USIM_APDU_RESPONSE_MAX_LEN →
      (apdu_process_command [0xA0, 0xFF, 0x00, 0x00, 0x00] response st temp).sent
          = [0x6D, 0x00]
        ∧ (apdu_process_command [0xA0, 0xFF, 0x00, 0x00, 0x00] response st temp).card
          = st) := by
  have main : ∀ (command response temp : List Nat) (st : Card) (cmd : apdu_command_t),
      apdu_parse command = some cmd →
      response.length = USIM_APDU_RESPONSE_MAX_LEN →
      (¬ (cmd.cla = CLA_STANDARD ∨ cmd.cla = CLA_GSM) →
        (apdu_process_command command response st temp).sent = [0x6E, 0x00]
        ∧ (apdu_process_command command response st temp).card = st)
      ∧ ((cmd.cla = CLA_STANDARD ∨ cmd.cla = CLA_GSM) →
        cmd.ins ≠ 0xA4 → cmd.ins ≠ 0xB0 → cmd.ins ≠ 0xD6 → cmd.ins ≠ 0x20 →
        cmd.ins ≠ 0x24 → cmd.ins ≠ 0x88 → cmd.ins ≠ 0xC0 → cmd.ins ≠ 0xF2 →
        (apdu_process_command command response st temp).sent = [0x6D, 0x00]
        ∧ (apdu_process_command command response st temp).card = st) := by
    intro command response temp st cmd hparse hlen
    have h257 : response.length = 257 := hlen
    have key : ∀ (sw : Nat), sw < 65536 →
        ¬ ((cmd.cla = CLA_STANDARD ∨ cmd.cla = CLA_GSM)
          ∧ (cmd.ins = INS_SELECT_FILE ∨ cmd.ins = INS_READ_BINARY
            ∨ cmd.ins = INS_UPDATE_BINARY ∨ cmd.ins = INS_VERIFY_CHV
            ∨ cmd.ins = INS_CHANGE_CHV ∨ cmd.ins = INS_AUTHENTICATE
            ∨ cmd.ins = INS_GET_RESPONSE ∨ cmd.ins = INS_STATUS)) →
        (if cmd.cla = CLA_STANDARD ∨ cmd.cla = CLA_GSM then
            (if (0 : Nat) = 0 then SW_INS_NOT_SUPPORTED else 0)
          else SW_CLA_NOT_SUPPORTED) = sw →
        (apdu_process_command command response st temp).sent = [sw / 256, sw % 256]
          ∧ (apdu_process_command command response st temp).card = st := by
      intro sw hsw hr hsweq
      obtain ⟨d1, d2, d3, d4⟩ :=
        dispatch_unrouted cmd { data := response, data_len := 0, sw1sw2 := 0 } st temp hr
      rw [process_parsed command response st temp cmd hparse]
      have d4' : (apdu_dispatch cmd { data := response, data_len := 0, sw1sw2 := 0 } st
          temp).resp.sw1sw2 = sw := by
        rw [d4]
        exact hsweq
      obtain ⟨s1, _⟩ := send_no_data
        (apdu_dispatch cmd { data := response, data_len := 0, sw1sw2 := 0 } st temp)
        d3 (by rw [d2]; show 2 ≤ response.length; omega) (by rw [d4']; exact hsw)
      rw [s1, d4']
      exact ⟨rfl, d1⟩
    constructor
    · intro hcla
      have := key 0x6E00 (by norm_num) (fun h => hcla h.1) (by rw [if_neg hcla])
      simpa using this
    · intro hcla n1 n2 n3 n4 n5 n6 n7 n8
      have := key 0x6D00 (by norm_num)
        (fun h => by
          rcases h.2 with h | h | h | h | h | h | h | h
          · exact n1 h
          · exact n2 h
          · exact n3 h
          · exact n4 h
          · exact n5 h
          · exact n6 h
          · exact n7 h
          · exact n8 h)
        (by rw [if_pos hcla, if_pos rfl])
      simpa using this
  refine ⟨main, ?_⟩
  intro response temp st hlen
  exact (main [0xA0, 0xFF, 0x00, 0x00, 0x00] response temp st
    ⟨0xA0, 0xFF, 0, 0, 0, [], 256⟩ (by decide) hlen).2 (by decide) (by decide) (by decide)
    (by decide) (by decide) (by decide) (by decide) (by decide) (by decide)

/-- C13, at instances: CLA 0x80 (the USAT/config class, compiled out) and the
unknown INS 0xFF on the card after power-on. -/
theorem unrouted_command_witness :
    (apdu_process_command [0x80, 0xD0, 0x00, 0x00, 0x00] (List.replicate 257 0) power_on
        []).sent = [0x6E, 0x00]
    ∧ (apdu_process_command [0xA0, 0xFF, 0x00, 0x00, 0x00] (List.replicate 257 0) power_on
        []).sent = [0x6D, 0x00] :=
  ⟨((unrouted_command.1 [0x80, 0xD0, 0x00, 0x00, 0x00] (List.replicate 257 0) [] power_on
      ⟨0x80, 0xD0, 0, 0, 0, [], 256⟩ (by decide) (List.length_replicate 257 0)).1
      (by decide)).1,
   (unrouted_command.2 (List.replicate 257 0) [] power_on (List.length_replicate 257 0)).1⟩

/-! ## Bytes and words -/

theorem word_of_bytes (a b : Nat) (hb : b < 256) : (a <<< 8) ||| b = 256 * a + b := by
  rw [Nat.shiftLeft_eq, Nat.mul_comm a (2 ^ 8)]
  exact (Nat.mul_add_lt_is_or (show b < 2 ^ 8 from hb) a).symm

theorem hi_byte (x : Nat) : (x >>> 8) &&& 0xFF = x / 256 % 256 := by
  rw [Nat.shiftRight_eq_div_pow, show (0xFF : Nat) = 2 ^ 8 - 1 from rfl,
    Nat.and_pow_two_sub_one_eq_mod]

theorem lo_byte (x : Nat) : x &&& 0xFF = x % 256 := by
  rw [show (0xFF : Nat) = 2 ^ 8 - 1 from rfl, Nat.and_pow_two_sub_one_eq_mod]

theorem rd_append (a b : List Nat) (i : Nat) :
    rd (a ++ b) i = if i < a.length then rd a i else rd b (i - a.length) := by
  unfold rd
  simp only [List.getD_eq_getElem?_getD]
  by_cases h : i < a.length
  · rw [if_pos h, List.getElem?_append_left h]
  · rw [if_neg h, List.getElem?_append_right (by omega)]

theorem rd_pair (a b i : Nat) : rd [a, b] i = if i = 0 then a else if i = 1 then b else 0 := by
  match i with
  | 0 => rfl
  | 1 => rfl
  | n + 2 => simp [rd]

/-- The bytes sent are the `data_len` data bytes of the response buffer
followed by SW1 and SW2. -/
theorem send_response_sent (h : handled) (hd : h.resp.data_len + 2 ≤ h.resp.data.length)
    (hl : h.resp.data_len ≤ 255) (hs : h.resp.sw1sw2 < 65536) :
    (send_response h).sent
      = read_bytes h.resp.data 0 h.resp.data_len
          ++ [h.resp.sw1sw2 / 256, h.resp.sw1sw2 % 256] := by
  obtain ⟨_, r2, r3, r4, r5⟩ := send_response_layout h hd hl hs
  apply ext_rd
  · rw [r2, List.length_append, length_read_bytes]
    rfl
  · intro i hi
    rw [r2] at hi
    rw [rd_append, length_read_bytes]
    by_cases h1 : i < h.resp.data_len
    · rw [if_pos h1, r5 i h1, rd_read_bytes _ _ _ _ h1, Nat.zero_add]
    · rw [if_neg h1, rd_pair]
      by_cases h2 : i = h.resp.data_len
      · rw [h2, r3, Nat.sub_self, if_pos rfl]
      · have h3 : i = h.resp.data_len + 1 := by omega
        rw [h3, r4, if_neg (by omega), if_pos (by omega)]

theorem read_write_bytes (dst src : List Nat) (n : Nat) (h : n ≤ dst.length) :
    read_bytes (write_bytes dst 0 src n) 0 n = read_bytes src 0 n := by
  unfold read_bytes
  apply List.map_congr_left
  intro i hi
  have hi' := List.mem_range.mp hi
  rw [rd_write_bytes, if_pos (by omega), if_pos ⟨by omega, by omega⟩]
  congr 1

/-! ## SELECT FILE -/

theorem select_file_found (cmd : apdu_command_t) (resp : apdu_response_t) (st : Card)
    (file : usim_file_t) (hlc : cmd.lc = 2) (hle : cmd.le = 0 ∨ 13 ≤ cmd.le)
    (hfind : usim_find_file st.usim_files (((rd cmd.data 0 <<< 8) ||| rd cmd.data 1) % 65536)
      = some file) :
    handle_select_file cmd resp st
      = ⟨true,
         { data := write_bytes resp.data 0
             [0x62, 0x0B, 0x80, 0x02,
              (file.file_size >>> 8) &&& 0xFF, file.file_size &&& 0xFF,
              0x82, 0x01, (if file.file_type = FILE_TYPE_EF then 0x21 else 0x38),
              0x83, 0x02,
              ((((rd cmd.data 0 <<< 8) ||| rd cmd.data 1) % 65536) >>> 8) &&& 0xFF,
              (((rd cmd.data 0 <<< 8) ||| rd cmd.data 1) % 65536) &&& 0xFF] 13,
           data_len := 13, sw1sw2 := SW_OK },
         { st with
           current_file :=
             { file_id := ((rd cmd.data 0 <<< 8) ||| rd cmd.data 1) % 65536,
               file_type := file.file_type, file_size := file.file_size }
           session :=
             { st.session with state := (st.session.state ||| USIM_STATE_SELECTED) % 256 } }⟩ := by
  unfold handle_select_file
  rw [if_neg (by omega), if_neg (by omega)]
  dsimp only
  rw [hfind]
  dsimp only
  rw [if_neg (by simp [usim_check_access])]

theorem select_file_missing (cmd : apdu_command_t) (resp : apdu_response_t) (st : Card)
    (hlc : cmd.lc = 2) (hle : cmd.le = 0 ∨ 13 ≤ cmd.le)
    (hfind : usim_find_file st.usim_files (((rd cmd.data 0 <<< 8) ||| rd cmd.data 1) % 65536)
      = none) :
    handle_select_file cmd resp st = ⟨false, { resp with sw1sw2 := SW_FILE_NOT_FOUND }, st⟩ := by
  unfold handle_select_file
  rw [if_neg (by omega), if_neg (by omega)]
  dsimp only
  rw [hfind]

theorem selected_set (s : Nat) :
    ((s ||| USIM_STATE_SELECTED) % 256) &&& USIM_STATE_SELECTED ≠ 0 := by
  have h2 : (((s ||| 1) % 256) &&& 1).testBit 0 = true := by
    rw [Nat.testBit_and, show (256 : Nat) = 2 ^ 8 from rfl, Nat.testBit_mod_two_pow,
      Nat.testBit_or]
    have : Nat.testBit 1 0 = true := by decide
    simp [this]
  intro h
  have h' : ((s ||| 1) % 256) &&& 1 = 0 := h
  rw [h'] at h2
  simp at h2

theorem select_apdu_found (st : Card) (command response temp : List Nat) (cmd : apdu_command_t)
    (file : usim_file_t)
    (hparse : apdu_parse command = some cmd)
    (hcla : cmd.cla = CLA_STANDARD ∨ cmd.cla = CLA_GSM) (hins : cmd.ins = INS_SELECT_FILE)
    (hlc : cmd.lc = 2) (hle : cmd.le = 0 ∨ 13 ≤ cmd.le)
    (hfind : usim_find_file st.usim_files (((rd cmd.data 0 <<< 8) ||| rd cmd.data 1) % 65536)
      = some file)
    (hlen : response.length = 257) :
    (apdu_process_command command response st temp).sent
        = [0x62, 0x0B, 0x80, 0x02, file.file_size / 256 % 256, file.file_size % 256,
           0x82, 0x01, (if file.file_type = FILE_TYPE_EF then 0x21 else 0x38), 0x83, 0x02,
           (((rd cmd.data 0 <<< 8) ||| rd cmd.data 1) % 65536) / 256,
           (((rd cmd.data 0 <<< 8) ||| rd cmd.data 1) % 65536) % 256,
           0x90, 0x00]
      ∧ (apdu_process_command command response st temp).card
        = { st with
            current_file :=
              { file_id := ((rd cmd.data 0 <<< 8) ||| rd cmd.data 1) % 65536,
                file_type := file.file_type, file_size := file.file_size }
            session :=
              { st.session with
                state := (st.session.state ||| USIM_STATE_SELECTED) % 256 } }
      ∧ (apdu_process_command command response st temp).response.length = 257 := by
  rw [process_parsed command response st temp cmd hparse,
    dispatch_select_file cmd _ st temp hcla hins,
    select_file_found cmd _ st file hlc hle hfind]
  refine ⟨?_, rfl, ?_⟩
  · rw [send_response_sent _
      (by show 13 + 2 ≤ (write_bytes response 0 _ 13).length
          rw [length_write_bytes]; omega)
      (by show (13 : Nat) ≤ 255; norm_num) (by show (0x9000 : Nat) < 65536; norm_num)]
    show read_bytes (write_bytes response 0 _ 13) 0 13 ++ [0x9000 / 256, 0x9000 % 256] = _
    rw [read_write_bytes _ _ _ (by omega), read_bytes_eq_take _ _ (by show 13 ≤ 13; norm_num)]
    have hfid : ((((rd cmd.data 0 <<< 8) ||| rd cmd.data 1) % 65536) >>> 8) &&& 0xFF
        = (((rd cmd.data 0 <<< 8) ||| rd cmd.data 1) % 65536) / 256 := by
      rw [hi_byte]
      have := Nat.mod_lt ((rd cmd.data 0 <<< 8) ||| rd cmd.data 1) (show 0 < 65536 by norm_num)
      omega
    rw [hfid, hi_byte, lo_byte, lo_byte]
    rfl
  · show (List.set (List.set (write_bytes response 0 _ 13) _ _) _ _).length = 257
    rw [List.length_set, List.length_set, length_write_bytes]
    exact hlen

/-! ## C14 -/

/-- C14: for every identifier the lookup finds in the catalogue and every
session state, SELECT FILE with `Lc = 2` and Le absent (0 in the record),
encoded 0 (256 in the record) or `≥ 13` sends the 13 bytes
`62 0B 80 02 size_hi size_lo 82 01 t 83 02 fid_hi fid_lo`, with `t = 21` for
an EF and `38` otherwise, followed by `90 00`, makes the entry the current
file (identifier, type, size), sets the SELECTED flag and changes nothing
else.  With two bytes in the data field, `fid_hi` and `fid_lo` are those
bytes. -/
theorem select_file_fcp (st : Card) (command response temp : List Nat) (cmd : apdu_command_t)
    (file : usim_file_t)
    (hparse : apdu_parse command = some cmd)
    (hcla : cmd.cla = CLA_STANDARD ∨ cmd.cla = CLA_GSM) (hins : cmd.ins = INS_SELECT_FILE)
    (hlc : cmd.lc = 2) (hle : cmd.le = 0 ∨ cmd.le = 256 ∨ 13 ≤ cmd.le)
    (hfind : usim_find_file st.usim_files (((rd cmd.data 0 <<< 8) ||| rd cmd.data 1) % 65536)
      = some file)
    (hlen : response.length = USIM_APDU_RESPONSE_MAX_LEN) :
    (apdu_process_command command response st temp).sent
        = [0x62, 0x0B, 0x80, 0x02, file.file_size / 256 % 256, file.file_size % 256,
           0x82, 0x01, (if file.file_type = FILE_TYPE_EF then 0x21 else 0x38), 0x83, 0x02,
           (((rd cmd.data 0 <<< 8) ||| rd cmd.data 1) % 65536) / 256,
           (((rd cmd.data 0 <<< 8) ||| rd cmd.data 1) % 65536) % 256,
           0x90, 0x00]
      ∧ (apdu_process_command command response st temp).card
        = { st with
            current_file :=
              { file_id := ((rd cmd.data 0 <<< 8) ||| rd cmd.data 1) % 65536,
                file_type := file.file_type, file_size := file.file_size }
            session :=
              { st.session with
                state := (st.session.state ||| USIM_STATE_SELECTED) % 256 } }
      ∧ (apdu_process_command command response st temp).card.session.state
          &&& USIM_STATE_SELECTED ≠ 0
      ∧ file.file_id = ((rd cmd.data 0 <<< 8) ||| rd cmd.data 1) % 65536
      ∧ (rd cmd.data 0 < 256 → rd cmd.data 1 < 256 →
          (((rd cmd.data 0 <<< 8) ||| rd cmd.data 1) % 65536) / 256 = rd cmd.data 0
          ∧ (((rd cmd.data 0 <<< 8) ||| rd cmd.data 1) % 65536) % 256 = rd cmd.data 1) := by
  have hle' : cmd.le = 0 ∨ 13 ≤ cmd.le := by omega
  obtain ⟨h1, h2, _⟩ :=
    select_apdu_found st command response temp cmd file hparse hcla hins hlc hle' hfind hlen
  refine ⟨h1, h2, ?_, (find_mem _ _ _ hfind).2, ?_⟩
  · rw [h2]
    exact selected_set _
  · intro h0 h1
    rw [word_of_bytes _ _ h1]
    omega

/-- C14, at the instance of the claim: `A0 A4 00 00 02 3F 00` on the card
after power-on is answered `62 0B 80 02 00 00 82 01 38 83 02 3F 00 90 00`. -/
theorem select_file_fcp_witness :
    (apdu_process_command [0xA0, 0xA4, 0x00, 0x00, 0x02, 0x3F, 0x00] (List.replicate 257 0)
        power_on []).sent
      = [0x62, 0x0B, 0x80, 0x02, 0x00, 0x00, 0x82, 0x01, 0x38, 0x83, 0x02, 0x3F, 0x00,
         0x90, 0x00] :=
  (select_file_fcp power_on [0xA0, 0xA4, 0x00, 0x00, 0x02, 0x3F, 0x00] (List.replicate 257 0) []
    ⟨0xA0, 0xA4, 0, 0, 2, [0x3F, 0x00], 0⟩ ⟨0x3F00, FILE_TYPE_MF, 0, AC_ALWAYS, none, 0⟩
    (by decide) (by decide) (by decide) (by decide) (by decide) (by decide)
    (List.length_replicate 257 0)).1

/-! ## The lookup -/

theorem find_eq_find_entries (files : List usim_file_t) (file_id : Nat) :
    usim_find_file files file_id
      = (catalogue_entries files).find? (fun f => decide (f.file_id = file_id)) := by
  induction files with
  | nil => rfl
  | cons g gs ih =>
    unfold usim_find_file catalogue_entries
    by_cases h0 : g.file_id = 0
    · rw [if_pos h0, List.takeWhile_cons_of_neg (by simp [h0])]
      rfl
    · rw [if_neg h0, List.takeWhile_cons_of_pos (by simp [h0])]
      by_cases h1 : g.file_id = file_id
      · rw [if_pos h1, List.find?_cons_of_pos _ (by simp [h1])]
      · rw [if_neg h1, List.find?_cons_of_neg _ (by simp [h1])]
        exact ih

theorem find_none_iff (files : List usim_file_t) (file_id : Nat) :
    usim_find_file files file_id = none
      ↔ ∀ f ∈ catalogue_entries files, f.file_id ≠ file_id := by
  rw [find_eq_find_entries, List.find?_eq_none]
  constructor
  · intro h f hf
    simpa using h f hf
  · intro h f hf
    simpa using h f hf

theorem find_some_entry (files : List usim_file_t) (file_id : Nat) (f : usim_file_t)
    (h : usim_find_file files file_id = some f) :
    f ∈ catalogue_entries files ∧ f.file_id = file_id := by
  rw [find_eq_find_entries] at h
  exact ⟨List.mem_of_find?_eq_some h, by simpa using List.find?_some h⟩

theorem find_zero (files : List usim_file_t) : usim_find_file files 0 = none := by
  rw [find_none_iff]
  intro f hf
  have := (List.mem_takeWhile_imp hf)
  simpa using this

/-! ## READ BINARY -/

theorem read_binary_not_ef (cmd : apdu_command_t) (resp : apdu_response_t) (st : Card)
    (file : usim_file_t)
    (hfind : usim_find_file st.usim_files st.current_file.file_id = some file)
    (ht : file.file_type ≠ FILE_TYPE_EF) :
    handle_read_binary cmd resp st
      = ⟨false, { resp with sw1sw2 := SW_COMMAND_NOT_ALLOWED }, st⟩ := by
  unfold handle_read_binary
  rw [hfind]
  dsimp only
  rw [if_pos ht]

theorem read_binary_denied (cmd : apdu_command_t) (resp : apdu_response_t) (st : Card)
    (file : usim_file_t)
    (hfind : usim_find_file st.usim_files st.current_file.file_id = some file)
    (ht : file.file_type = FILE_TYPE_EF)
    (ha : usim_check_access st.session (some file) ACCESS_READ = false) :
    handle_read_binary cmd resp st
      = ⟨false, { resp with sw1sw2 := SW_SECURITY_STATUS_NOT_SATISFIED }, st⟩ := by
  unfold handle_read_binary
  rw [hfind]
  dsimp only
  rw [if_neg (by simp [ht]), if_pos (by simp [ha])]

theorem read_binary_out_of_range (cmd : apdu_command_t) (resp : apdu_response_t) (st : Card)
    (file : usim_file_t)
    (hfind : usim_find_file st.usim_files st.current_file.file_id = some file)
    (ht : file.file_type = FILE_TYPE_EF)
    (ha : usim_check_access st.session (some file) ACCESS_READ = true)
    (ho : ((cmd.p1 <<< 8) ||| cmd.p2) % 65536 ≥ file.file_size ∨ file.file_data = none) :
    handle_read_binary cmd resp st
      = ⟨false, { resp with sw1sw2 := SW_WRONG_PARAMETERS }, st⟩ := by
  unfold handle_read_binary
  rw [hfind]
  dsimp only
  rw [if_neg (by simp [ht]), if_neg (by simp [ha])]
  cases hd : file.file_data with
  | none => rfl
  | some p =>
    dsimp only
    rcases ho with h | h
    · rw [if_pos h]
    · rw [hd] at h
      cases h

theorem read_binary_plain (cmd : apdu_command_t) (resp : apdu_response_t) (st : Card)
    (file : usim_file_t) (p : data_ptr)
    (hfind : usim_find_file st.usim_files st.current_file.file_id = some file)
    (ht : file.file_type = FILE_TYPE_EF)
    (ha : usim_check_access st.session (some file) ACCESS_READ = true)
    (hd : file.file_data = some p)
    (ho : ((cmd.p1 <<< 8) ||| cmd.p2) % 65536 < file.file_size)
    (hns : ¬ (st.current_file.file_id = 0x6F08 ∨ st.current_file.file_id = 0x6F09)) :
    handle_read_binary cmd resp st
      = ⟨true,
         { data := write_bytes resp.data 0
             ((st.load p).drop (((cmd.p1 <<< 8) ||| cmd.p2) % 65536))
             (read_binary_requested (file.file_size - ((cmd.p1 <<< 8) ||| cmd.p2) % 65536)
               cmd.le),
           data_len := read_binary_requested
             (file.file_size - ((cmd.p1 <<< 8) ||| cmd.p2) % 65536) cmd.le,
           sw1sw2 := SW_OK },
         st⟩ := by
  unfold handle_read_binary
  rw [hfind]
  dsimp only
  rw [if_neg (by simp [ht]), if_neg (by simp [ha]), hd]
  dsimp only
  rw [if_neg (by omega), if_neg hns]

theorem read_binary_sent (st : Card) (command response temp : List Nat) (cmd : apdu_command_t)
    (file : usim_file_t) (p : data_ptr)
    (hparse : apdu_parse command = some cmd)
    (hcla : cmd.cla = CLA_STANDARD ∨ cmd.cla = CLA_GSM) (hins : cmd.ins = INS_READ_BINARY)
    (hfind : usim_find_file st.usim_files st.current_file.file_id = some file)
    (ht : file.file_type = FILE_TYPE_EF)
    (ha : usim_check_access st.session (some file) ACCESS_READ = true)
    (hd : file.file_data = some p)
    (ho : ((cmd.p1 <<< 8) ||| cmd.p2) % 65536 < file.file_size)
    (hns : ¬ (st.current_file.file_id = 0x6F08 ∨ st.current_file.file_id = 0x6F09))
    (hav : file.file_size - ((cmd.p1 <<< 8) ||| cmd.p2) % 65536 ≤ 255)
    (hlen : response.length = 257) :
    (apdu_process_command command response st temp).sent
        = read_bytes (st.load p) (((cmd.p1 <<< 8) ||| cmd.p2) % 65536)
            (read_binary_requested (file.file_size - ((cmd.p1 <<< 8) ||| cmd.p2) % 65536)
              cmd.le)
          ++ [0x90, 0x00]
      ∧ (apdu_process_command command response st temp).resp.data_len
        = read_binary_requested (file.file_size - ((cmd.p1 <<< 8) ||| cmd.p2) % 65536) cmd.le
      ∧ (apdu_process_command command response st temp).card = st
      ∧ (apdu_process_command command response st temp).response.length = 257 := by
  have hreq := read_binary_requested_le
    (file.file_size - ((cmd.p1 <<< 8) ||| cmd.p2) % 65536) cmd.le
  rw [process_parsed command response st temp cmd hparse,
    dispatch_read_binary cmd _ st temp hcla hins,
    read_binary_plain cmd _ st file p hfind ht ha hd ho hns]
  refine ⟨?_, rfl, rfl, ?_⟩
  · rw [send_response_sent _
      (by dsimp only
          rw [length_write_bytes]; omega)
      (by dsimp only; omega)
      (by show (0x9000 : Nat) < 65536; norm_num)]
    show read_bytes (write_bytes response 0 _ _) 0 _ ++ [0x9000 / 256, 0x9000 % 256] = _
    rw [read_write_bytes _ _ _ (by omega)]
    congr 1
    unfold read_bytes
    apply List.map_congr_left
    intro i _
    rw [rd_drop, Nat.zero_add]
  · show (List.set (List.set (write_bytes response 0 _ _) _ _) _ _).length = 257
    rw [List.length_set, List.length_set, length_write_bytes]
    exact hlen

theorem read_apdu_error (st : Card) (command response temp : List Nat) (cmd : apdu_command_t)
    (sw : Nat) (hparse : apdu_parse command = some cmd)
    (hcla : cmd.cla = CLA_STANDARD ∨ cmd.cla = CLA_GSM) (hins : cmd.ins = INS_READ_BINARY)
    (hh : handle_read_binary cmd { data := response, data_len := 0, sw1sw2 := 0 } st
      = ⟨false, { data := response, data_len := 0, sw1sw2 := sw }, st⟩)
    (hsw : sw < 65536) (hlen : response.length = 257) :
    (apdu_process_command command response st temp).sent = [sw / 256, sw % 256]
      ∧ (apdu_process_command command response st temp).resp.data_len = 0
      ∧ (apdu_process_command command response st temp).card = st := by
  rw [process_parsed command response st temp cmd hparse,
    dispatch_read_binary cmd _ st temp hcla hins, hh]
  obtain ⟨s1, _⟩ := send_no_data
    ⟨false, { data := response, data_len := 0, sw1sw2 := sw }, st⟩
    rfl (by show 2 ≤ response.length; omega) hsw
  exact ⟨s1, rfl, rfl⟩

theorem parse_le_bound (command : List Nat) (cmd : apdu_command_t)
    (h : apdu_parse command = some cmd) : cmd.le ≤ 256 := by
  unfold apdu_parse at h
  dsimp only at h
  split_ifs at h
  all_goals first
    | (cases h; done)
    | (dsimp only at h
       split_ifs at h
       all_goals first
         | (cases h; done)
         | (simp only [Option.some.injEq] at h
            subst h
            dsimp only
            omega)
         | (simp only [Option.some.injEq] at h
            subst h
            simp_all))

theorem intact_find_static (st : Card) (hc : catalogue_intact st) (file_id : Nat)
    (t : Nat × Nat × Nat × Nat × Option data_ptr)
    (h : (usim_find_file usim_files_table file_id).map static_part = some t) :
    ∃ f, usim_find_file st.usim_files file_id = some f ∧ static_part f = t := by
  have h1 := find_intact st hc file_id
  rw [h] at h1
  cases hf : usim_find_file st.usim_files file_id with
  | none => rw [hf] at h1; simp at h1
  | some f =>
    rw [hf] at h1
    simp only [Option.map_some', Option.some.injEq] at h1
    exact ⟨f, rfl, h1⟩

/-! ## C17 -/

/-- C17: READ BINARY answers, with no data, the card unchanged and in this
order of precedence: 69 86 when the current file is not an EF; otherwise 69 82
when `usim_check_access` does not permit READ in the current session;
otherwise 6B 00 when the offset `(P1 << 8) | P2` is not below the declared
size or the file has no data region.  In particular every READ BINARY sent
right after power-on, the MF being current, is answered 69 86, and every READ
BINARY on EF 6F60, which has no data region, is answered 6B 00. -/
theorem read_binary_errors :
    (∀ (st : Card) (command response temp : List Nat) (cmd : apdu_command_t)
        (file : usim_file_t),
      apdu_parse command = some cmd →
      (cmd.cla = CLA_STANDARD ∨ cmd.cla = CLA_GSM) → cmd.ins = INS_READ_BINARY →
      usim_find_file st.usim_files st.current_file.file_id = some file →
      response.length = USIM_APDU_RESPONSE_MAX_LEN →
      (file.file_type ≠ FILE_TYPE_EF →
        (apdu_process_command command response st temp).sent = [0x69, 0x86]
        ∧ (apdu_process_command command response st temp).resp.data_len = 0
        ∧ (apdu_process_command command response st temp).card = st)
      ∧ (file.file_type = FILE_TYPE_EF →
          usim_check_access st.session (some file) ACCESS_READ = false →
        (apdu_process_command command response st temp).sent = [0x69, 0x82]
        ∧ (apdu_process_command command response st temp).resp.data_len = 0
        ∧ (apdu_process_command command response st temp).card = st)
      ∧ (file.file_type = FILE_TYPE_EF →
          usim_check_access st.session (some file) ACCESS_READ = true →
          (((cmd.p1 <<< 8) ||| cmd.p2) % 65536 ≥ file.file_size ∨ file.file_data = none) →
        (apdu_process_command command response st temp).sent = [0x6B, 0x00]
        ∧ (apdu_process_command command response st temp).resp.data_len = 0
        ∧ (apdu_process_command command response st temp).card = st))
    ∧ (∀ (command response temp : List Nat) (cmd : apdu_command_t),
      apdu_parse command = some cmd →
      (cmd.cla = CLA_STANDARD ∨ cmd.cla = CLA_GSM) → cmd.ins = INS_READ_BINARY →
      response.length = USIM_APDU_RESPONSE_MAX_LEN →
      (apdu_process_command command response power_on temp).sent = [0x69, 0x86])
    ∧ (∀ (st : Card) (command response temp : List Nat) (cmd : apdu_command_t),
      catalogue_intact st → st.current_file.file_id = 0x6F60 →
      apdu_parse command = some cmd →
      (cmd.cla = CLA_STANDARD ∨ cmd.cla = CLA_GSM) → cmd.ins = INS_READ_BINARY →
      response.length = USIM_APDU_RESPONSE_MAX_LEN →
      (apdu_process_command command response st temp).sent = [0x6B, 0x00]) := by
  have main : ∀ (st : Card) (command response temp : List Nat) (cmd : apdu_command_t)
        (file : usim_file_t),
      apdu_parse command = some cmd →
      (cmd.cla = CLA_STANDARD ∨ cmd.cla = CLA_GSM) → cmd.ins = INS_READ_BINARY →
      usim_find_file st.usim_files st.current_file.file_id = some file →
      response.length = USIM_APDU_RESPONSE_MAX_LEN →
      (file.file_type ≠ FILE_TYPE_EF →
        (apdu_process_command command response st temp).sent = [0x69, 0x86]
        ∧ (apdu_process_command command response st temp).resp.data_len = 0
        ∧ (apdu_process_command command response st temp).card = st)
      ∧ (file.file_type = FILE_TYPE_EF →
          usim_check_access st.session (some file) ACCESS_READ = false →
        (apdu_process_command command response st temp).sent = [0x69, 0x82]
        ∧ (apdu_process_command command response st temp).resp.data_len = 0
        ∧ (apdu_process_command command response st temp).card = st)
      ∧ (file.file_type = FILE_TYPE_EF →
          usim_check_access st.session (some file) ACCESS_READ = true →
          (((cmd.p1 <<< 8) ||| cmd.p2) % 65536 ≥ file.file_size ∨ file.file_data = none) →
        (apdu_process_command command response st temp).sent = [0x6B, 0x00]
        ∧ (apdu_process_command command response st temp).resp.data_len = 0
        ∧ (apdu_process_command command response st temp).card = st) := by
    intro st command response temp cmd file hparse hcla hins hfind hlen
    refine ⟨?_, ?_, ?_⟩
    · intro ht
      have := read_apdu_error st command response temp cmd 0x6986 hparse hcla hins
        (read_binary_not_ef cmd _ st file hfind ht) (by norm_num) hlen
      simpa using this
    · intro ht ha
      have := read_apdu_error st command response temp cmd 0x6982 hparse hcla hins
        (read_binary_denied cmd _ st file hfind ht ha) (by norm_num) hlen
      simpa using this
    · intro ht ha ho
      have := read_apdu_error st command response temp cmd 0x6B00 hparse hcla hins
        (read_binary_out_of_range cmd _ st file hfind ht ha ho) (by norm_num) hlen
      simpa using this
  refine ⟨main, ?_, ?_⟩
  · intro command response temp cmd hparse hcla hins hlen
    exact ((main power_on command response temp cmd
      ⟨0x3F00, FILE_TYPE_MF, 0, AC_ALWAYS, none, 0⟩ hparse hcla hins (by decide) hlen).1
      (by decide)).1
  · intro st command response temp cmd hc hsel hparse hcla hins hlen
    obtain ⟨f, hf, hs⟩ := intact_find_static st hc 0x6F60
      (0x6F60, FILE_TYPE_EF, 0x16, AC_ALWAYS, none) (by decide)
    simp only [static_part, Prod.mk.injEq] at hs
    obtain ⟨_, ht, _, hac, hd⟩ := hs
    rw [← hsel] at hf
    have ha : usim_check_access st.session (some f) ACCESS_READ = true := by
      simp [usim_check_access, hac]
    exact ((main st command response temp cmd f hparse hcla hins hf hlen).2.2 ht ha
      (Or.inr hd)).1

/-- C17, at instances: `A0 B0 00 00 02` right after power-on; after SELECT of
EF_IMSI (CHV1) with no PIN verified; after SELECT of EF_AD (2 bytes), at
offset 2. -/
theorem read_binary_errors_witness :
    (apdu_process_command [0xA0, 0xB0, 0x00, 0x00, 0x02] (List.replicate 257 0) power_on
        []).sent = [0x69, 0x86]
    ∧ (apdu_process_command [0xA0, 0xB0, 0x00, 0x00, 0x02] (List.replicate 257 0)
        (apdu_process_command [0xA0, 0xA4, 0x00, 0x00, 0x02, 0x6F, 0x07] (List.replicate 257 0)
          power_on []).card
        []).sent = [0x69, 0x82]
    ∧ (apdu_process_command [0xA0, 0xB0, 0x00, 0x02, 0x02] (List.replicate 257 0)
        (apdu_process_command [0xA0, 0xA4, 0x00, 0x00, 0x02, 0x6F, 0xAD] (List.replicate 257 0)
          power_on []).card
        []).sent = [0x6B, 0x00] :=
  ⟨read_binary_errors.2.1 [0xA0, 0xB0, 0x00, 0x00, 0x02] (List.replicate 257 0) []
      ⟨0xA0, 0xB0, 0, 0, 0, [], 2⟩ (by decide) (by decide) (by decide)
      (List.length_replicate 257 0),
   ((read_binary_errors.1
      (apdu_process_command [0xA0, 0xA4, 0x00, 0x00, 0x02, 0x6F, 0x07] (List.replicate 257 0)
        power_on []).card
      [0xA0, 0xB0, 0x00, 0x00, 0x02] (List.replicate 257 0) []
      ⟨0xA0, 0xB0, 0, 0, 0, [], 2⟩ ⟨0x6F07, FILE_TYPE_EF, 9, AC_CHV1, some .imsi_data, 9⟩
      (by decide) (by decide) (by decide) (by decide) (List.length_replicate 257 0)).2.1
      (by decide) (by decide)).1,
   ((read_binary_errors.1
      (apdu_process_command [0xA0, 0xA4, 0x00, 0x00, 0x02, 0x6F, 0xAD] (List.replicate 257 0)
        power_on []).card
      [0xA0, 0xB0, 0x00, 0x02, 0x02] (List.replicate 257 0) []
      ⟨0xA0, 0xB0, 0, 2, 0, [], 2⟩ ⟨0x6FAD, FILE_TYPE_EF, 2, AC_ALWAYS, some .ad_data, 2⟩
      (by decide) (by decide) (by decide) (by decide) (List.length_replicate 257 0)).2.2
      (by decide) (by decide) (by decide)).1⟩

/-! ## C16 -/

theorem select_apdu_missing (st : Card) (command response temp : List Nat)
    (cmd : apdu_command_t)
    (hparse : apdu_parse command = some cmd)
    (hcla : cmd.cla = CLA_STANDARD ∨ cmd.cla = CLA_GSM) (hins : cmd.ins = INS_SELECT_FILE)
    (hlc : cmd.lc = 2) (hle : cmd.le = 0 ∨ 13 ≤ cmd.le)
    (hfind : usim_find_file st.usim_files (((rd cmd.data 0 <<< 8) ||| rd cmd.data 1) % 65536)
      = none)
    (hlen : response.length = 257) :
    (apdu_process_command command response st temp).sent = [0x6A, 0x82]
      ∧ (apdu_process_command command response st temp).resp.data_len = 0
      ∧ (apdu_process_command command response st temp).card = st := by
  rw [process_parsed command response st temp cmd hparse,
    dispatch_select_file cmd _ st temp hcla hins,
    select_file_missing cmd _ st hlc hle hfind]
  obtain ⟨s1, _⟩ := send_no_data
    ⟨false, { data := response, data_len := 0, sw1sw2 := SW_FILE_NOT_FOUND }, st⟩
    rfl (by show 2 ≤ response.length; omega) (by show (0x6A82 : Nat) < 65536; norm_num)
  refine ⟨?_, rfl, rfl⟩
  rw [s1]
  dsimp only
  norm_num

/-! ## C15 -/

/-- C15: SELECT FILE with `Lc = 2` and an admissible Le is answered 6A 82 if and
only if no catalogue entry before the sentinel carries the requested 16-bit
identifier, and then there is no data and the card (current file and session
flags included) is unchanged.  The lookup `usim_find_file` returns the first
entry before the sentinel with exactly the identifier asked for, returns an
entry whenever one carries it, and never finds identifier 0x0000. -/
theorem select_file_not_found :
    (∀ (st : Card) (command response temp : List Nat) (cmd : apdu_command_t),
      apdu_parse command = some cmd →
      (cmd.cla = CLA_STANDARD ∨ cmd.cla = CLA_GSM) → cmd.ins = INS_SELECT_FILE →
      cmd.lc = 2 → (cmd.le = 0 ∨ cmd.le = 256 ∨ 13 ≤ cmd.le) →
      response.length = USIM_APDU_RESPONSE_MAX_LEN →
      ((apdu_process_command command response st temp).sent = [0x6A, 0x82]
        ↔ ∀ f ∈ catalogue_entries st.usim_files,
            f.file_id ≠ ((rd cmd.data 0 <<< 8) ||| rd cmd.data 1) % 65536)
      ∧ ((∀ f ∈ catalogue_entries st.usim_files,
            f.file_id ≠ ((rd cmd.data 0 <<< 8) ||| rd cmd.data 1) % 65536) →
          (apdu_process_command command response st temp).resp.data_len = 0
          ∧ (apdu_process_command command response st temp).card = st))
    ∧ (∀ (files : List usim_file_t) (file_id : Nat),
        usim_find_file files file_id
          = (catalogue_entries files).find? (fun f => decide (f.file_id = file_id)))
    ∧ (∀ (files : List usim_file_t) (file_id : Nat) (f : usim_file_t),
        usim_find_file files file_id = some f →
          f ∈ catalogue_entries files ∧ f.file_id = file_id)
    ∧ (∀ (files : List usim_file_t) (file_id : Nat),
        (∃ f ∈ catalogue_entries files, f.file_id = file_id) →
          ∃ f, usim_find_file files file_id = some f)
    ∧ (∀ (files : List usim_file_t), usim_find_file files 0x0000 = none) := by
  refine ⟨?_, find_eq_find_entries, find_some_entry, ?_, find_zero⟩
  · intro st command response temp cmd hparse hcla hins hlc hle hlen
    have h257 : response.length = 257 := hlen
    have hle' : cmd.le = 0 ∨ 13 ≤ cmd.le := by omega
    have hmiss : (∀ f ∈ catalogue_entries st.usim_files,
        f.file_id ≠ ((rd cmd.data 0 <<< 8) ||| rd cmd.data 1) % 65536) →
        (apdu_process_command command response st temp).sent = [0x6A, 0x82]
        ∧ (apdu_process_command command response st temp).resp.data_len = 0
        ∧ (apdu_process_command command response st temp).card = st := by
      intro hno
      exact select_apdu_missing st command response temp cmd hparse hcla hins hlc hle'
        ((find_none_iff _ _).mpr hno) h257
    refine ⟨⟨?_, fun hno => (hmiss hno).1⟩, fun hno => (hmiss hno).2⟩
    intro hsent
    rw [← find_none_iff]
    cases hfind : usim_find_file st.usim_files
        (((rd cmd.data 0 <<< 8) ||| rd cmd.data 1) % 65536) with
    | none => rfl
    | some file =>
      exfalso
      obtain ⟨h1, _, _⟩ :=
        select_apdu_found st command response temp cmd file hparse hcla hins hlc hle' hfind h257
      rw [h1] at hsent
      have := congrArg List.length hsent
      simp at this
  · intro files file_id hex
    cases hfind : usim_find_file files file_id with
    | some f => exact ⟨f, rfl⟩
    | none =>
      exfalso
      obtain ⟨f, hf, hid⟩ := hex
      exact (find_none_iff _ _).mp hfind f hf hid

/-- C15, at an instance: `A0 A4 00 00 02 6F 99` on the card after power-on,
whose catalogue has no entry 6F99. -/
theorem select_file_not_found_witness :
    (apdu_process_command [0xA0, 0xA4, 0x00, 0x00, 0x02, 0x6F, 0x99] (List.replicate 257 0)
        power_on []).sent = [0x6A, 0x82]
    ∧ (apdu_process_command [0xA0, 0xA4, 0x00, 0x00, 0x02, 0x6F, 0x99] (List.replicate 257 0)
        power_on []).card = power_on :=
  have h := select_file_not_found.1 power_on [0xA0, 0xA4, 0x00, 0x00, 0x02, 0x6F, 0x99]
    (List.replicate 257 0) [] ⟨0xA0, 0xA4, 0, 0, 2, [0x6F, 0x99], 0⟩
    (by decide) (by decide) (by decide) (by decide) (by decide) (List.length_replicate 257 0)
  ⟨h.1.mpr (by decide), (h.2 (by decide)).2⟩

/-! ## UPDATE BINARY -/

theorem find_mutable_from_find (files : List usim_file_t) (file_id : Nat) :
    ∀ i, (usim_find_file_mutable_from files file_id i).map Prod.snd
      = usim_find_file files file_id := by
  induction files with
  | nil => intro i; rfl
  | cons g gs ih =>
    intro i
    unfold usim_find_file_mutable_from usim_find_file
    by_cases h0 : g.file_id = 0
    · rw [if_pos h0, if_pos h0]
      rfl
    · rw [if_neg h0, if_neg h0]
      by_cases h1 : g.file_id = file_id
      · rw [if_pos h1, if_pos h1]
        rfl
      · rw [if_neg h1, if_neg h1]
        exact ih (i + 1)

theorem find_mutable_of_find (files : List usim_file_t) (file_id : Nat) (file : usim_file_t)
    (h : usim_find_file files file_id = some file) :
    ∃ slot, usim_find_file_mutable files file_id = some (slot, file) := by
  have hm := find_mutable_from_find files file_id 0
  rw [h] at hm
  unfold usim_find_file_mutable
  cases hf : usim_find_file_mutable_from files file_id 0 with
  | none => rw [hf] at hm; cases hm
  | some t =>
    obtain ⟨slot, f⟩ := t
    rw [hf] at hm
    simp only [Option.map_some', Option.some.injEq] at hm
    subst hm
    exact ⟨slot, rfl⟩

theorem find_set_slot (files : List usim_file_t) (file_id : Nat) (f' : usim_file_t) :
    ∀ (i slot : Nat) (file : usim_file_t),
      usim_find_file_mutable_from files file_id i = some (slot, file) →
      f'.file_id = file.file_id →
      usim_find_file (files.set (slot - i) f') file_id = some f' := by
  induction files with
  | nil =>
    intro i slot file h _
    simp [usim_find_file_mutable_from] at h
  | cons g gs ih =>
    intro i slot file h hid
    unfold usim_find_file_mutable_from at h
    by_cases h0 : g.file_id = 0
    · rw [if_pos h0] at h
      cases h
    · rw [if_neg h0] at h
      by_cases h1 : g.file_id = file_id
      · rw [if_pos h1] at h
        cases h
        rw [Nat.sub_self, List.set_cons_zero]
        unfold usim_find_file
        rw [hid, if_neg h0, if_pos h1]
      · rw [if_neg h1] at h
        have hle := (find_mutable_from_spec gs file_id (i + 1) slot file h).1
        have : slot - i = (slot - (i + 1)) + 1 := by omega
        rw [this, List.set_cons_succ]
        unfold usim_find_file
        rw [if_neg h0, if_neg h1]
        exact ih (i + 1) slot file h hid

theorem find_set_other (files : List usim_file_t) (file_id other : Nat) (f' : usim_file_t)
    (hne : other ≠ file_id) :
    ∀ (i slot : Nat) (file : usim_file_t),
      usim_find_file_mutable_from files file_id i = some (slot, file) →
      f'.file_id = file.file_id →
      usim_find_file (files.set (slot - i) f') other = usim_find_file files other := by
  induction files with
  | nil =>
    intro i slot file h _
    simp [usim_find_file_mutable_from] at h
  | cons g gs ih =>
    intro i slot file h hid
    unfold usim_find_file_mutable_from at h
    by_cases h0 : g.file_id = 0
    · rw [if_pos h0] at h
      cases h
    · rw [if_neg h0] at h
      by_cases h1 : g.file_id = file_id
      · rw [if_pos h1] at h
        cases h
        rw [Nat.sub_self, List.set_cons_zero]
        unfold usim_find_file
        rw [hid, if_neg h0, if_neg h0, if_neg (by omega), if_neg (by omega)]
      · rw [if_neg h1] at h
        have hle := (find_mutable_from_spec gs file_id (i + 1) slot file h).1
        have : slot - i = (slot - (i + 1)) + 1 := by omega
        rw [this, List.set_cons_succ]
        unfold usim_find_file
        rw [if_neg h0, if_neg h0]
        by_cases h2 : g.file_id = other
        · rw [if_pos h2, if_pos h2]
        · rw [if_neg h2, if_neg h2]
          exact ih (i + 1) slot file h hid

theorem update_binary_ok (cmd : apdu_command_t) (resp : apdu_response_t) (st : Card)
    (slot : Nat) (file : usim_file_t) (p : data_ptr)
    (hmut : usim_find_file_mutable st.usim_files st.current_file.file_id = some (slot, file))
    (ht : file.file_type = FILE_TYPE_EF)
    (ha : usim_check_access st.session (some file) ACCESS_UPDATE = true)
    (hlc : cmd.lc ≠ 0)
    (hsum : ¬ ((((cmd.p1 <<< 8) ||| cmd.p2) % 65536 + cmd.lc) % 65536 > file.file_size))
    (hd : file.file_data = some p) :
    handle_update_binary cmd resp st
      = ⟨true, { resp with sw1sw2 := SW_OK, data_len := 0 },
         if (((cmd.p1 <<< 8) ||| cmd.p2) % 65536 + cmd.lc) % 65536 > file.data_size then
           { st.store p (write_bytes (st.load p) (((cmd.p1 <<< 8) ||| cmd.p2) % 65536)
                cmd.data cmd.lc) with
             usim_files :=
               (st.store p (write_bytes (st.load p) (((cmd.p1 <<< 8) ||| cmd.p2) % 65536)
                 cmd.data cmd.lc)).usim_files.set slot
                 { file with
                   data_size := (((cmd.p1 <<< 8) ||| cmd.p2) % 65536 + cmd.lc) % 65536 } }
         else
           st.store p (write_bytes (st.load p) (((cmd.p1 <<< 8) ||| cmd.p2) % 65536)
             cmd.data cmd.lc)⟩ := by
  have hfind : usim_find_file st.usim_files st.current_file.file_id = some file := by
    have hm := find_mutable_from_find st.usim_files st.current_file.file_id 0
    unfold usim_find_file_mutable at hmut
    rw [hmut] at hm
    exact hm.symm
  unfold handle_update_binary
  rw [hmut, hfind]
  dsimp only
  rw [if_neg (by simp [ht]), if_neg (by simp [ha]), if_neg hlc, if_neg hsum, hd]

theorem update_binary_beyond (cmd : apdu_command_t) (resp : apdu_response_t) (st : Card)
    (file : usim_file_t)
    (hfind : usim_find_file st.usim_files st.current_file.file_id = some file)
    (ht : file.file_type = FILE_TYPE_EF)
    (ha : usim_check_access st.session (some file) ACCESS_UPDATE = true)
    (hlc : cmd.lc ≠ 0)
    (hsum : (((cmd.p1 <<< 8) ||| cmd.p2) % 65536 + cmd.lc) % 65536 > file.file_size) :
    handle_update_binary cmd resp st
      = ⟨false, { resp with sw1sw2 := SW_WRONG_PARAMETERS }, st⟩ := by
  obtain ⟨slot, hmut⟩ := find_mutable_of_find _ _ _ hfind
  unfold handle_update_binary
  rw [hmut, hfind]
  dsimp only
  rw [if_neg (by simp [ht]), if_neg (by simp [ha]), if_neg hlc, if_pos hsum]

theorem load_store_same (st : Card) (p : data_ptr) (v : List Nat) :
    (st.store p v).load p = v := by
  cases p <;> rfl

theorem load_store_other (st : Card) (p q : data_ptr) (v : List Nat) (h : q ≠ p) :
    (st.store p v).load q = st.load q := by
  cases p <;> cases q <;> first | rfl | exact absurd rfl h

theorem load_with_files (st : Card) (files : List usim_file_t) (q : data_ptr) :
    ({ st with usim_files := files } : Card).load q = st.load q := by
  cases q <;> rfl

theorem update_binary_done (cmd : apdu_command_t) (resp : apdu_response_t) (st : Card)
    (file : usim_file_t) (p : data_ptr)
    (hfind : usim_find_file st.usim_files st.current_file.file_id = some file)
    (ht : file.file_type = FILE_TYPE_EF)
    (ha : usim_check_access st.session (some file) ACCESS_UPDATE = true)
    (hd : file.file_data = some p)
    (hlc : 1 ≤ cmd.lc)
    (hsum : ((cmd.p1 <<< 8) ||| cmd.p2) + cmd.lc ≤ file.file_size)
    (hsize : file.file_size < 65536) :
    ∃ slot, usim_find_file_mutable st.usim_files st.current_file.file_id = some (slot, file)
      ∧ st.usim_files[slot]? = some file
      ∧ handle_update_binary cmd resp st
        = ⟨true, { resp with sw1sw2 := SW_OK, data_len := 0 },
           { st.store p (write_bytes (st.load p) ((cmd.p1 <<< 8) ||| cmd.p2) cmd.data cmd.lc) with
             usim_files :=
               st.usim_files.set slot
                 { file with
                   data_size := max file.data_size (((cmd.p1 <<< 8) ||| cmd.p2) + cmd.lc) } }⟩ := by
  obtain ⟨slot, hmut⟩ := find_mutable_of_find _ _ _ hfind
  have hget : st.usim_files[slot]? = some file := by
    have := (find_mutable_from_spec _ _ _ _ _ hmut).2
    simpa using this
  have ho : ((cmd.p1 <<< 8) ||| cmd.p2) % 65536 = (cmd.p1 <<< 8) ||| cmd.p2 :=
    Nat.mod_eq_of_lt (by omega)
  have hs : (((cmd.p1 <<< 8) ||| cmd.p2) % 65536 + cmd.lc) % 65536
      = ((cmd.p1 <<< 8) ||| cmd.p2) + cmd.lc := by
    rw [ho]
    exact Nat.mod_eq_of_lt (by omega)
  refine ⟨slot, hmut, hget, ?_⟩
  rw [update_binary_ok cmd resp st slot file p hmut ht ha (by omega) (by rw [hs]; omega) hd,
    hs, ho]
  congr 1
  by_cases hg : ((cmd.p1 <<< 8) ||| cmd.p2) + cmd.lc > file.data_size
  · rw [if_pos hg, store_files, Nat.max_eq_right (by omega)]
  · rw [if_neg hg, Nat.max_eq_left (by omega)]
    have hself : ({ file with data_size := file.data_size } : usim_file_t) = file := rfl
    rw [hself, set_same _ _ _ hget]
    have := store_files st p
      (write_bytes (st.load p) ((cmd.p1 <<< 8) ||| cmd.p2) cmd.data cmd.lc)
    rw [← this]

/-! ## C18 -/

/-- C18: when the current file is an EF with a data region, UPDATE is
permitted, `Lc ≥ 1` and `offset + Lc` is at most the declared size (the byte
array being at least that long), UPDATE BINARY answers `90 00` with no data,
sets bytes `[offset, offset + Lc)` of the file to the command data, leaves
every other byte of the region, every other region, the session, the
subscriber record and the current-file selection unchanged, and changes the
file table in one entry only: the current file's, whose valid-byte count
becomes `max(old count, offset + Lc)`; that count stays within the declared
size when the old one was, and the lookup of every other identifier is
unchanged. -/
theorem update_binary_effect (st : Card) (command response temp : List Nat)
    (cmd : apdu_command_t) (file : usim_file_t) (p : data_ptr)
    (hparse : apdu_parse command = some cmd)
    (hcla : cmd.cla = CLA_STANDARD ∨ cmd.cla = CLA_GSM) (hins : cmd.ins = INS_UPDATE_BINARY)
    (hfind : usim_find_file st.usim_files st.current_file.file_id = some file)
    (ht : file.file_type = FILE_TYPE_EF)
    (hd : file.file_data = some p)
    (ha : usim_check_access st.session (some file) ACCESS_UPDATE = true)
    (hlc : 1 ≤ cmd.lc)
    (hsum : ((cmd.p1 <<< 8) ||| cmd.p2) + cmd.lc ≤ file.file_size)
    (hsize : file.file_size < 65536)
    (hcap : file.file_size ≤ (st.load p).length)
    (hlen : response.length = USIM_APDU_RESPONSE_MAX_LEN) :
    (apdu_process_command command response st temp).sent = [0x90, 0x00]
      ∧ (apdu_process_command command response st temp).resp.data_len = 0
      ∧ (∀ j, j < cmd.lc →
          rd ((apdu_process_command command response st temp).card.load p)
            (((cmd.p1 <<< 8) ||| cmd.p2) + j) = rd cmd.data j)
      ∧ (∀ j, (j < ((cmd.p1 <<< 8) ||| cmd.p2) ∨ ((cmd.p1 <<< 8) ||| cmd.p2) + cmd.lc ≤ j) →
          rd ((apdu_process_command command response st temp).card.load p) j
            = rd (st.load p) j)
      ∧ ((apdu_process_command command response st temp).card.load p).length
          = (st.load p).length
      ∧ (∀ q, q ≠ p →
          (apdu_process_command command response st temp).card.load q = st.load q)
      ∧ (apdu_process_command command response st temp).card.session = st.session
      ∧ (apdu_process_command command response st temp).card.subscriber = st.subscriber
      ∧ (apdu_process_command command response st temp).card.current_file = st.current_file
      ∧ (∃ slot, st.usim_files[slot]? = some file
          ∧ (apdu_process_command command response st temp).card.usim_files
            = st.usim_files.set slot
                { file with
                  data_size := max file.data_size (((cmd.p1 <<< 8) ||| cmd.p2) + cmd.lc) })
      ∧ usim_find_file (apdu_process_command command response st temp).card.usim_files
            st.current_file.file_id
          = some { file with
                   data_size := max file.data_size (((cmd.p1 <<< 8) ||| cmd.p2) + cmd.lc) }
      ∧ (file.data_size ≤ file.file_size →
          max file.data_size (((cmd.p1 <<< 8) ||| cmd.p2) + cmd.lc) ≤ file.file_size)
      ∧ (∀ other, other ≠ st.current_file.file_id →
          usim_find_file (apdu_process_command command response st temp).card.usim_files other
            = usim_find_file st.usim_files other) := by
  obtain ⟨slot, hmut, hget, hh⟩ :=
    update_binary_done cmd { data := response, data_len := 0, sw1sw2 := 0 } st file p
      hfind ht ha hd hlc hsum hsize
  rw [process_parsed command response st temp cmd hparse,
    dispatch_update_binary cmd _ st temp hcla hins, hh]
  obtain ⟨s1, _⟩ := send_no_data
    ⟨true, { data := response, data_len := 0, sw1sw2 := SW_OK },
      { st.store p (write_bytes (st.load p) ((cmd.p1 <<< 8) ||| cmd.p2) cmd.data cmd.lc) with
        usim_files :=
          st.usim_files.set slot
            { file with
              data_size := max file.data_size (((cmd.p1 <<< 8) ||| cmd.p2) + cmd.lc) } }⟩
    rfl (by show 2 ≤ response.length; rw [hlen]; decide)
    (by show (0x9000 : Nat) < 65536; norm_num)
  unfold usim_find_file_mutable at hmut
  have hl : ∀ q,
      Card.load
        { st.store p (write_bytes (st.load p) ((cmd.p1 <<< 8) ||| cmd.p2) cmd.data cmd.lc) with
          usim_files :=
            st.usim_files.set slot
              { file with
                data_size := max file.data_size (((cmd.p1 <<< 8) ||| cmd.p2) + cmd.lc) } } q
        = (st.store p (write_bytes (st.load p) ((cmd.p1 <<< 8) ||| cmd.p2) cmd.data cmd.lc)).load
            q :=
    fun q => by cases q <;> rfl
  refine ⟨?_, rfl, ?_, ?_, ?_, ?_, ?_, ?_, ?_, ⟨slot, hget, rfl⟩, ?_, ?_, ?_⟩
  · rw [s1]
    dsimp only
    norm_num
  · intro j hj
    refine (congrArg (fun l => rd l _) (hl p)).trans ?_
    dsimp only
    rw [load_store_same, rd_write_bytes, if_pos (by omega), if_pos ⟨by omega, by omega⟩]
    congr 1
    omega
  · intro j hj
    refine (congrArg (fun l => rd l _) (hl p)).trans ?_
    dsimp only
    rw [load_store_same, rd_write_bytes]
    by_cases hjl : j < (st.load p).length
    · rw [if_pos hjl, if_neg (by omega)]
    · rw [if_neg hjl]
      unfold rd
      rw [List.getD_eq_default _ _ (by omega)]
  · refine (congrArg List.length (hl p)).trans ?_
    rw [load_store_same, length_write_bytes]
  · intro q hq
    refine (hl q).trans ?_
    rw [load_store_other _ _ _ _ hq]
  · exact store_session _ _ _
  · exact store_subscriber _ _ _
  · exact store_current_file _ _ _
  · have := find_set_slot st.usim_files st.current_file.file_id
      { file with
        data_size := max file.data_size (((cmd.p1 <<< 8) ||| cmd.p2) + cmd.lc) }
      0 slot file hmut rfl
    rw [Nat.sub_zero] at this
    exact this
  · intro _
    exact Nat.max_le.mpr ⟨by assumption, hsum⟩
  · intro other hne
    have := find_set_other st.usim_files st.current_file.file_id other
      { file with
        data_size := max file.data_size (((cmd.p1 <<< 8) ||| cmd.p2) + cmd.lc) }
      hne 0 slot file hmut rfl
    rw [Nat.sub_zero] at this
    exact this

theorem update_binary_effect_witness :
    (apdu_process_command [0xA0, 0xD6, 0x00, 0x00, 0x02, 0xAA, 0xBB] (List.replicate 257 0)
        (apdu_process_command [0xA0, 0xA4, 0x00, 0x00, 0x02, 0x6F, 0xAD]
          (List.replicate 257 0) power_on []).card []).sent = [0x90, 0x00] :=
  (update_binary_effect
    (apdu_process_command [0xA0, 0xA4, 0x00, 0x00, 0x02, 0x6F, 0xAD]
      (List.replicate 257 0) power_on []).card
    [0xA0, 0xD6, 0x00, 0x00, 0x02, 0xAA, 0xBB] (List.replicate 257 0) []
    ⟨0xA0, 0xD6, 0, 0, 2, [0xAA, 0xBB], 0⟩ ⟨0x6FAD, FILE_TYPE_EF, 2, AC_ALWAYS, some .ad_data, 2⟩
    .ad_data (by decide) (by decide) (by decide) (by decide) (by decide) (by decide)
    (by decide) (by decide) (by decide) (by decide) (by decide)
    (List.length_replicate 257 0)).1

theorem update_apdu_beyond (st : Card) (command response temp : List Nat)
    (cmd : apdu_command_t) (file : usim_file_t)
    (hparse : apdu_parse command = some cmd)
    (hcla : cmd.cla = CLA_STANDARD ∨ cmd.cla = CLA_GSM) (hins : cmd.ins = INS_UPDATE_BINARY)
    (hfind : usim_find_file st.usim_files st.current_file.file_id = some file)
    (ht : file.file_type = FILE_TYPE_EF)
    (ha : usim_check_access st.session (some file) ACCESS_UPDATE = true)
    (hlc : 1 ≤ cmd.lc)
    (hnowrap : ((cmd.p1 <<< 8) ||| cmd.p2) + cmd.lc < 65536)
    (hsum : file.file_size < ((cmd.p1 <<< 8) ||| cmd.p2) + cmd.lc)
    (hlen : response.length = USIM_APDU_RESPONSE_MAX_LEN) :
    (apdu_process_command command response st temp).sent = [0x6B, 0x00]
      ∧ (apdu_process_command command response st temp).resp.data_len = 0
      ∧ (apdu_process_command command response st temp).card = st := by
  have ho : ((cmd.p1 <<< 8) ||| cmd.p2) % 65536 = (cmd.p1 <<< 8) ||| cmd.p2 :=
    Nat.mod_eq_of_lt (by omega)
  have hs : (((cmd.p1 <<< 8) ||| cmd.p2) % 65536 + cmd.lc) % 65536
      = ((cmd.p1 <<< 8) ||| cmd.p2) + cmd.lc := by
    rw [ho]
    exact Nat.mod_eq_of_lt hnowrap
  rw [process_parsed command response st temp cmd hparse,
    dispatch_update_binary cmd _ st temp hcla hins,
    update_binary_beyond cmd _ st file hfind ht ha (by omega) (by rw [hs]; exact hsum)]
  obtain ⟨s1, _⟩ := send_no_data
    ⟨false, { data := response, data_len := 0, sw1sw2 := SW_WRONG_PARAMETERS }, st⟩
    rfl (by show 2 ≤ response.length; rw [hlen]; decide)
    (by show (0x6B00 : Nat) < 65536; norm_num)
  refine ⟨?_, rfl, rfl⟩
  rw [s1]
  dsimp only
  norm_num

theorem update_apdu_beyond_witness :
    (apdu_process_command [0xA0, 0xD6, 0x00, 0x00, 0x02, 0xAA, 0xBB] (List.replicate 257 0)
        (apdu_process_command [0xA0, 0xA4, 0x00, 0x00, 0x02, 0x6F, 0xAE]
          (List.replicate 257 0) power_on []).card []).sent = [0x6B, 0x00] :=
  (update_apdu_beyond
    (apdu_process_command [0xA0, 0xA4, 0x00, 0x00, 0x02, 0x6F, 0xAE]
      (List.replicate 257 0) power_on []).card
    [0xA0, 0xD6, 0x00, 0x00, 0x02, 0xAA, 0xBB] (List.replicate 257 0) []
    ⟨0xA0, 0xD6, 0, 0, 2, [0xAA, 0xBB], 0⟩
    ⟨0x6FAE, FILE_TYPE_EF, 1, AC_ALWAYS, some .phase_data, 1⟩
    (by decide) (by decide) (by decide) (by decide) (by decide) (by decide)
    (by decide) (by decide) (by decide) (List.length_replicate 257 0)).1

/-! ## C19 -/

/-- C19, evaluated.  With EF_PHASE (declared size 1, UPDATE always permitted)
selected after power-on, `A0 D6 FF FF 02 AA BB` has offset `0xFFFF` and
`Lc = 2`, whose true sum 65537 exceeds the declared size; the 16-bit sum the
handler compares is `65537 mod 65536 = 1`, which does not, so the command is
answered `90 00`, not `6B 00`. -/
theorem update_binary_offset_wraps :
    (apdu_process_command [0xA0, 0xD6, 0xFF, 0xFF, 0x02, 0xAA, 0xBB] (List.replicate 257 0)
        (apdu_process_command [0xA0, 0xA4, 0x00, 0x00, 0x02, 0x6F, 0xAE]
          (List.replicate 257 0) power_on []).card []).sent = [0x90, 0x00]
    ∧ usim_find_file
        (apdu_process_command [0xA0, 0xA4, 0x00, 0x00, 0x02, 0x6F, 0xAE]
          (List.replicate 257 0) power_on []).card.usim_files
        (apdu_process_command [0xA0, 0xA4, 0x00, 0x00, 0x02, 0x6F, 0xAE]
          (List.replicate 257 0) power_on []).card.current_file.file_id
      = some ⟨0x6FAE, FILE_TYPE_EF, 1, AC_ALWAYS, some .phase_data, 1⟩
    ∧ (1 : Nat) < ((0xFF <<< 8) ||| 0xFF) + 2
    ∧ (((0xFF <<< 8) ||| 0xFF) + 2) % 65536 = 1 := by
  decide

/-! ## CHANGE CHV -/

theorem change_chv_match (cmd : apdu_command_t) (resp : apdu_response_t) (st : Card)
    (hlc : cmd.lc = 16) (hp2 : cmd.p2 % 2 = 1) (hr : 0 < st.subscriber.pin1_retries)
    (hm : read_bytes cmd.data 0 8 = read_bytes st.subscriber.pin1 0 8) :
    handle_change_chv cmd resp st
      = ⟨true, { resp with sw1sw2 := SW_OK },
         { st with
           subscriber :=
             { st.subscriber with
               pin1 := read_bytes cmd.data 8 8
               pin1_retries := 3 }
           session :=
             { st.session with
               state := (st.session.state ||| USIM_STATE_PIN_VERIFIED) % 256 } }⟩ := by
  unfold handle_change_chv
  have hmm : memcmp_eq cmd.data st.subscriber.pin1 8 = true := by
    unfold memcmp_eq
    exact decide_eq_true hm
  rw [if_neg (by omega), if_neg (odd_p2 _ hp2), if_neg (by omega), if_neg (by simp [hmm])]

theorem read_bytes_idem (src : List Nat) (off n : Nat) :
    read_bytes (read_bytes src off n) 0 n = read_bytes src off n := by
  unfold read_bytes
  apply List.map_congr_left
  intro i hi
  have hi' := List.mem_range.mp hi
  have := rd_read_bytes src off n i hi'
  unfold read_bytes at this
  rw [Nat.zero_add]
  exact this

theorem carries_pin_eq (command pin : List Nat) (h : carries_pin command pin = true) :
    ∃ cmd, apdu_parse command = some cmd ∧ read_bytes cmd.data 0 8 = read_bytes pin 0 8 := by
  unfold carries_pin at h
  cases hp : apdu_parse command with
  | none => rw [hp] at h; cases h
  | some cmd =>
    rw [hp] at h
    exact ⟨cmd, rfl, of_decide_eq_true h⟩

theorem carries_pin_congr (command pin pin' : List Nat)
    (h : read_bytes pin 0 8 = read_bytes pin' 0 8) :
    carries_pin command pin = carries_pin command pin' := by
  unfold carries_pin
  rw [h]

theorem carries_pin_differ (command pin pin' : List Nat)
    (h : carries_pin command pin = true)
    (hne : read_bytes pin 0 8 ≠ read_bytes pin' 0 8) :
    carries_pin command pin' = false := by
  obtain ⟨cmd, hp, he⟩ := carries_pin_eq command pin h
  unfold carries_pin
  rw [hp]
  show decide (read_bytes cmd.data 0 8 = read_bytes pin' 0 8) = false
  rw [he]
  exact decide_eq_false hne

/-! ## C20 -/

/-- C20: a CHANGE CHV command with `Lc = 16` and odd `P2`, received with PIN1
retries above 0, whose first 8 data bytes equal the current PIN1, is answered
`90 00`; afterwards retries are 3, PIN_VERIFIED is set and PIN1 is the trailing
8 data bytes.  On the resulting card every VERIFY CHV (`Lc = 8`, odd `P2`)
carrying those trailing 8 bytes is answered `90 00`, and, whenever the old and
the new PIN differ, every VERIFY CHV carrying the old PIN is answered with the
wrong-PIN status `63 C2` and leaves 2 retries. -/
theorem change_chv_then_verify (st : Card) (command response temp : List Nat)
    (cmd : apdu_command_t)
    (hparse : apdu_parse command = some cmd)
    (hcla : cmd.cla = CLA_STANDARD ∨ cmd.cla = CLA_GSM) (hins : cmd.ins = INS_CHANGE_CHV)
    (hlc : cmd.lc = 16) (hp2 : cmd.p2 % 2 = 1) (hr : 0 < st.subscriber.pin1_retries)
    (hold : read_bytes cmd.data 0 8 = read_bytes st.subscriber.pin1 0 8)
    (hlen : response.length = USIM_APDU_RESPONSE_MAX_LEN) :
    (apdu_process_command command response st temp).sent = [0x90, 0x00]
      ∧ (apdu_process_command command response st temp).card.subscriber.pin1_retries = 3
      ∧ (apdu_process_command command response st temp).card.session.state
          &&& USIM_STATE_PIN_VERIFIED ≠ 0
      ∧ (apdu_process_command command response st temp).card.subscriber.pin1
          = read_bytes cmd.data 8 8
      ∧ (∀ verify response2 temp2 : List Nat, is_verify_chv verify = true →
          response2.length = USIM_APDU_RESPONSE_MAX_LEN →
          (carries_pin verify (read_bytes cmd.data 8 8) = true →
            (apdu_process_command verify response2
              (apdu_process_command command response st temp).card temp2).sent = [0x90, 0x00])
          ∧ (carries_pin verify st.subscriber.pin1 = true →
              read_bytes st.subscriber.pin1 0 8 ≠ read_bytes cmd.data 8 8 →
              (apdu_process_command verify response2
                (apdu_process_command command response st temp).card temp2).sent = [0x63, 0xC2]
              ∧ (apdu_process_command verify response2
                  (apdu_process_command command response st temp).card
                  temp2).card.subscriber.pin1_retries = 2)) := by
  rw [process_parsed command response st temp cmd hparse,
    dispatch_change_chv cmd _ st temp hcla hins, change_chv_match cmd _ st hlc hp2 hr hold]
  obtain ⟨s1, _⟩ := send_no_data
    ⟨true, { data := response, data_len := 0, sw1sw2 := SW_OK },
      { st with
        subscriber :=
          { st.subscriber with
            pin1 := read_bytes cmd.data 8 8
            pin1_retries := 3 }
        session :=
          { st.session with state := (st.session.state ||| USIM_STATE_PIN_VERIFIED) % 256 } }⟩
    rfl (by show 2 ≤ response.length; rw [hlen]; decide)
    (by show (0x9000 : Nat) < 65536; norm_num)
  refine ⟨?_, rfl, pin_verified_set _, rfl, ?_⟩
  · rw [s1]
    dsimp only
    norm_num
  · intro verify response2 temp2 hv hlen2
    constructor
    · intro hnew
      exact (verify_apdu_match verify response2 _ temp2 hv hnew (Nat.succ_pos 2) hlen2).2.2
    · intro hcarry hne
      have hmiss : carries_pin verify (read_bytes cmd.data 8 8) = false := by
        apply carries_pin_differ verify st.subscriber.pin1 _ hcarry
        rw [read_bytes_idem]
        exact hne
      obtain ⟨c1, _, c3⟩ := verify_apdu_miss verify response2
        (send_response
          ⟨true, { data := response, data_len := 0, sw1sw2 := SW_OK },
            { st with
              subscriber :=
                { st.subscriber with
                  pin1 := read_bytes cmd.data 8 8
                  pin1_retries := 3 }
              session :=
                { st.session with
                  state := (st.session.state ||| USIM_STATE_PIN_VERIFIED) % 256 } }⟩).card
        temp2 hv hmiss (Nat.succ_pos 2) hlen2
      refine ⟨?_, ?_⟩
      · rw [c3]
        rfl
      · rw [c1]
        rfl

theorem change_chv_then_verify_witness :
    (apdu_process_command
        [0xA0, 0x24, 0x00, 0x01, 0x10, 0x30, 0x30, 0x30, 0x30, 0xFF, 0xFF, 0xFF, 0xFF,
         0x31, 0x32, 0x33, 0x34, 0xFF, 0xFF, 0xFF, 0xFF]
        (List.replicate 257 0) power_on []).sent = [0x90, 0x00]
    ∧ (apdu_process_command
        [0xA0, 0x20, 0x00, 0x01, 0x08, 0x31, 0x32, 0x33, 0x34, 0xFF, 0xFF, 0xFF, 0xFF]
        (List.replicate 257 0)
        (apdu_process_command
          [0xA0, 0x24, 0x00, 0x01, 0x10, 0x30, 0x30, 0x30, 0x30, 0xFF, 0xFF, 0xFF, 0xFF,
           0x31, 0x32, 0x33, 0x34, 0xFF, 0xFF, 0xFF, 0xFF]
          (List.replicate 257 0) power_on []).card []).sent = [0x90, 0x00]
    ∧ (apdu_process_command
        [0xA0, 0x20, 0x00, 0x01, 0x08, 0x30, 0x30, 0x30, 0x30, 0xFF, 0xFF, 0xFF, 0xFF]
        (List.replicate 257 0)
        (apdu_process_command
          [0xA0, 0x24, 0x00, 0x01, 0x10, 0x30, 0x30, 0x30, 0x30, 0xFF, 0xFF, 0xFF, 0xFF,
           0x31, 0x32, 0x33, 0x34, 0xFF, 0xFF, 0xFF, 0xFF]
          (List.replicate 257 0) power_on []).card []).sent = [0x63, 0xC2] :=
  have h := change_chv_then_verify power_on
    [0xA0, 0x24, 0x00, 0x01, 0x10, 0x30, 0x30, 0x30, 0x30, 0xFF, 0xFF, 0xFF, 0xFF,
     0x31, 0x32, 0x33, 0x34, 0xFF, 0xFF, 0xFF, 0xFF]
    (List.replicate 257 0) []
    ⟨0xA0, 0x24, 0x00, 0x01, 0x10,
      [0x30, 0x30, 0x30, 0x30, 0xFF, 0xFF, 0xFF, 0xFF,
       0x31, 0x32, 0x33, 0x34, 0xFF, 0xFF, 0xFF, 0xFF], 0⟩
    (by decide) (by decide) (by decide) (by decide) (by decide) (by decide) (by decide)
    (List.length_replicate 257 0)
  ⟨h.1,
   (h.2.2.2.2 [0xA0, 0x20, 0x00, 0x01, 0x08, 0x31, 0x32, 0x33, 0x34, 0xFF, 0xFF, 0xFF, 0xFF]
      (List.replicate 257 0) [] (by decide) (List.length_replicate 257 0)).1 (by decide),
   ((h.2.2.2.2 [0xA0, 0x20, 0x00, 0x01, 0x08, 0x30, 0x30, 0x30, 0x30, 0xFF, 0xFF, 0xFF, 0xFF]
      (List.replicate 257 0) [] (by decide) (List.length_replicate 257 0)).2
      (by decide) (by decide)).1⟩

/-! ## Status-only answers -/

theorem process_status_only (command response temp : List Nat) (st st1 : Card)
    (cmd : apdu_command_t) (ok : Bool) (sw : Nat)
    (hparse : apdu_parse command = some cmd)
    (hd : apdu_dispatch cmd { data := response, data_len := 0, sw1sw2 := 0 } st temp
      = ⟨ok, { data := response, data_len := 0, sw1sw2 := sw }, st1⟩)
    (hsw : sw < 65536) (hlen : response.length = 257) :
    (apdu_process_command command response st temp).sent = [sw / 256, sw % 256]
      ∧ (apdu_process_command command response st temp).resp.data_len = 0
      ∧ (apdu_process_command command response st temp).card = st1 := by
  rw [process_parsed command response st temp cmd hparse, hd]
  obtain ⟨s1, _⟩ := send_no_data
    ⟨ok, { data := response, data_len := 0, sw1sw2 := sw }, st1⟩
    rfl (by show 2 ≤ response.length; omega) hsw
  exact ⟨s1, rfl, rfl⟩

theorem authenticate_short (cmd : apdu_command_t) (resp : apdu_response_t) (st : Card)
    (temp : List Nat) (hlc : cmd.lc < 16) :
    handle_authenticate cmd resp st temp
      = ⟨false, { resp with sw1sw2 := SW_WRONG_LENGTH }, st⟩ := by
  unfold handle_authenticate
  rw [if_pos hlc]

theorem authenticate_le_short (cmd : apdu_command_t) (resp : apdu_response_t) (st : Card)
    (temp : List Nat) (hlc : 16 ≤ cmd.lc)
    (hpin : st.session.state &&& USIM_STATE_PIN_VERIFIED ≠ 0)
    (hle : 1 ≤ cmd.le ∧ cmd.le ≤ 53) :
    handle_authenticate cmd resp st temp
      = ⟨false, { resp with sw1sw2 := SW_WRONG_LENGTH }, st⟩ := by
  unfold handle_authenticate
  rw [if_neg (by omega), if_neg hpin, if_pos ⟨by omega, by omega, by omega⟩]

/-! ## C21 -/

/-- C21 as stated fails: on the card after power-on the AUTHENTICATE command
`A0 88 00 00 08` with 8 data bytes (`Lc = 8 < 16`) is not answered 69 82. -/
theorem authenticate_short_lc_counterexample :
    ¬ ((apdu_process_command ([0xA0, 0x88, 0x00, 0x00, 0x08] ++ List.replicate 8 0)
        (List.replicate 257 0) power_on []).sent = [0x69, 0x82]) := by
  decide

/-- C21, amended: every AUTHENTICATE command the codec accepts whose `Lc` is
less than 16 is answered with exactly the two bytes 67 00 (wrong length), with
no data and the card, session included, unchanged, whether or not the PIN has
been verified. -/
theorem authenticate_short_lc (st : Card) (command response temp : List Nat)
    (cmd : apdu_command_t)
    (hparse : apdu_parse command = some cmd)
    (hcla : cmd.cla = CLA_STANDARD ∨ cmd.cla = CLA_GSM)
    (hins : cmd.ins = INS_AUTHENTICATE) (hlc : cmd.lc < 16)
    (hlen : response.length = USIM_APDU_RESPONSE_MAX_LEN) :
    (apdu_process_command command response st temp).sent = [0x67, 0x00]
      ∧ (apdu_process_command command response st temp).resp.data_len = 0
      ∧ (apdu_process_command command response st temp).card = st := by
  have h := process_status_only command response temp st st cmd false SW_WRONG_LENGTH hparse
    (by rw [dispatch_authenticate cmd _ st temp hcla hins, authenticate_short cmd _ st temp hlc])
    (by norm_num) hlen
  have e1 : SW_WRONG_LENGTH / 256 = 0x67 := by norm_num
  have e2 : SW_WRONG_LENGTH % 256 = 0x00 := by norm_num
  rw [e1, e2] at h
  exact h

/-- C21 amended, at two instances: `A0 88 00 00 08` with 8 data bytes on the
card after power-on (PIN not verified), and on the card after a successful
VERIFY CHV. -/
theorem authenticate_short_lc_witness :
    (apdu_process_command ([0xA0, 0x88, 0x00, 0x00, 0x08] ++ List.replicate 8 0)
        (List.replicate 257 0) power_on []).sent = [0x67, 0x00]
    ∧ (apdu_process_command ([0xA0, 0x88, 0x00, 0x00, 0x08] ++ List.replicate 8 0)
        (List.replicate 257 0)
        (apdu_process_command
          [0xA0, 0x20, 0x00, 0x01, 0x08, 0x30, 0x30, 0x30, 0x30, 0xFF, 0xFF, 0xFF, 0xFF]
          (List.replicate 257 0) power_on []).card []).sent = [0x67, 0x00] :=
  ⟨(authenticate_short_lc power_on ([0xA0, 0x88, 0x00, 0x00, 0x08] ++ List.replicate 8 0)
      (List.replicate 257 0) [] ⟨0xA0, 0x88, 0, 0, 8, List.replicate 8 0, 0⟩
      (by decide) (by decide) (by decide) (by decide) (List.length_replicate 257 0)).1,
   (authenticate_short_lc
      (apdu_process_command
        [0xA0, 0x20, 0x00, 0x01, 0x08, 0x30, 0x30, 0x30, 0x30, 0xFF, 0xFF, 0xFF, 0xFF]
        (List.replicate 257 0) power_on []).card
      ([0xA0, 0x88, 0x00, 0x00, 0x08] ++ List.replicate 8 0)
      (List.replicate 257 0) [] ⟨0xA0, 0x88, 0, 0, 8, List.replicate 8 0, 0⟩
      (by decide) (by decide) (by decide) (by decide) (List.length_replicate 257 0)).1⟩

theorem parse_with_data (command : List Nat) (cmd : apdu_command_t)
    (h : apdu_parse command = some cmd) (hlc : 0 < cmd.lc) :
    5 < command.length ∧ cmd.lc = rd command 4 ∧ cmd.lc ≤ 255 ∧ cmd.data = command.drop 5
      ∧ ((command.length = 5 + cmd.lc ∧ cmd.le = 0)
        ∨ (command.length = 5 + cmd.lc + 1
            ∧ cmd.le = (if rd command (5 + cmd.lc) = 0 then 256 else rd command (5 + cmd.lc)))) := by
  by_cases h4 : command.length < 4
  · rw [parse_short command h4] at h
    cases h
  by_cases h5 : command.length = 5
  · unfold apdu_parse at h
    dsimp only at h
    rw [if_neg h4, if_pos h5] at h
    dsimp only at h
    split_ifs at h <;> first
      | (cases h; done)
      | (simp only [Option.some.injEq] at h
         subst h
         simp at hlc)
  by_cases h6 : command.length > 5
  · unfold apdu_parse at h
    dsimp only at h
    rw [if_neg h4, if_neg h5, if_pos h6] at h
    by_cases hmax : rd command 4 > USIM_APDU_MAX_DATA_LEN
    · rw [if_pos hmax] at h
      cases h
    · have hmax' : rd command 4 ≤ 255 := by
        have : ¬ rd command 4 > 255 := hmax
        omega
      have hm : (5 + rd command 4) % 65536 = 5 + rd command 4 := Nat.mod_eq_of_lt (by omega)
      have hm1 : (5 + rd command 4 + 1) % 65536 = 5 + rd command 4 + 1 :=
        Nat.mod_eq_of_lt (by omega)
      rw [if_neg hmax, hm, hm1] at h
      by_cases hlt : command.length < 5 + rd command 4
      · rw [if_pos hlt] at h
        cases h
      · rw [if_neg hlt] at h
        by_cases he : command.length = 5 + rd command 4 + 1
        · rw [if_pos he] at h
          dsimp only at h
          by_cases h0 : rd command (5 + rd command 4) = 0
          · simp [h0] at h
            subst h
            dsimp only at hlc ⊢
            rw [if_pos hlc, if_pos h0]
            exact ⟨h6, rfl, hmax', rfl, Or.inr ⟨he, rfl⟩⟩
          · simp [h0] at h
            obtain ⟨_, h⟩ := h
            subst h
            dsimp only at hlc ⊢
            rw [if_pos hlc, if_neg h0]
            exact ⟨h6, rfl, hmax', rfl, Or.inr ⟨he, rfl⟩⟩
        · rw [if_neg he] at h
          by_cases hn : command.length ≠ 5 + rd command 4
          · rw [if_pos hn] at h
            cases h
          · rw [if_neg hn] at h
            dsimp only at h
            rw [if_neg (by simp), if_neg (by simp)] at h
            simp only [Option.some.injEq] at h
            subst h
            dsimp only at hlc ⊢
            rw [if_pos hlc]
            exact ⟨h6, rfl, hmax', rfl, Or.inl ⟨by omega, rfl⟩⟩
  · have h4' : command.length = 4 := by omega
    rw [parse_case1 command h4'] at h
    simp only [Option.some.injEq] at h
    subst h
    simp at hlc

/-! ## C22 -/

/-- C22: on a card holding the shipped catalogue with PIN_VERIFIED set, an
AUTHENTICATE command the codec accepts with `Lc ≥ 16` has either no Le
(`5 + Lc` bytes) or one trailing Le byte (`5 + Lc + 1` bytes).  It is answered
9000 exactly when the Le of the record is 0 (absent), 256 (byte 0) or `≥ 54`.
With a trailing Le byte in 1..53 the bytes sent are 67 00, there is no data and
the card (session keys and flags) is unchanged; with Le absent, or a trailing
byte 0 or `≥ 54`, the command succeeds with 54 data bytes followed by 90 00. -/
theorem authenticate_le_rule (st : Card) (hc : catalogue_intact st)
    (hpin : st.session.state &&& USIM_STATE_PIN_VERIFIED ≠ 0)
    (command response temp : List Nat) (cmd : apdu_command_t)
    (hparse : apdu_parse command = some cmd)
    (hcla : cmd.cla = CLA_STANDARD ∨ cmd.cla = CLA_GSM)
    (hins : cmd.ins = INS_AUTHENTICATE) (hlc : 16 ≤ cmd.lc)
    (hlen : response.length = USIM_APDU_RESPONSE_MAX_LEN) :
    (command.length = 5 + cmd.lc ∨ command.length = 5 + cmd.lc + 1)
      ∧ ((apdu_process_command command response st temp).resp.sw1sw2 = SW_OK
          ↔ (cmd.le = 0 ∨ cmd.le = 256 ∨ 54 ≤ cmd.le))
      ∧ (command.length = 5 + cmd.lc + 1 →
          1 ≤ rd command (5 + cmd.lc) → rd command (5 + cmd.lc) ≤ 53 →
          (apdu_process_command command response st temp).sent = [0x67, 0x00]
          ∧ (apdu_process_command command response st temp).resp.data_len = 0
          ∧ (apdu_process_command command response st temp).card = st)
      ∧ ((command.length = 5 + cmd.lc
            ∨ rd command (5 + cmd.lc) = 0 ∨ 54 ≤ rd command (5 + cmd.lc)) →
          (apdu_process_command command response st temp).ok = true
          ∧ (apdu_process_command command response st temp).resp.data_len = 54
          ∧ (apdu_process_command command response st temp).sent
              = read_bytes (apdu_process_command command response st temp).resp.data 0 54
                  ++ [0x90, 0x00]) := by
  have h257 : response.length = 257 := hlen
  obtain ⟨_, hlcb, _, _, hshape⟩ := parse_with_data command cmd hparse (by omega)
  have hbad : (1 ≤ cmd.le ∧ cmd.le ≤ 53) →
      (apdu_process_command command response st temp).sent = [0x67, 0x00]
      ∧ (apdu_process_command command response st temp).resp.data_len = 0
      ∧ (apdu_process_command command response st temp).card = st
      ∧ (apdu_process_command command response st temp).resp.sw1sw2 = SW_WRONG_LENGTH := by
    intro hle
    have hd : apdu_dispatch cmd { data := response, data_len := 0, sw1sw2 := 0 } st temp
        = ⟨false, { data := response, data_len := 0, sw1sw2 := SW_WRONG_LENGTH }, st⟩ := by
      rw [dispatch_authenticate cmd _ st temp hcla hins,
        authenticate_le_short cmd _ st temp hlc hpin hle]
    have h := process_status_only command response temp st st cmd false SW_WRONG_LENGTH hparse
      hd (by norm_num) h257
    have e1 : SW_WRONG_LENGTH / 256 = 0x67 := by norm_num
    have e2 : SW_WRONG_LENGTH % 256 = 0x00 := by norm_num
    rw [e1, e2] at h
    refine ⟨h.1, h.2.1, h.2.2, ?_⟩
    rw [process_parsed command response st temp cmd hparse, hd]
    rfl
  have hgood : (cmd.le = 0 ∨ cmd.le = 256 ∨ 54 ≤ cmd.le) →
      (apdu_process_command command response st temp).ok = true
      ∧ (apdu_process_command command response st temp).resp.data_len = 54
      ∧ (apdu_process_command command response st temp).sent
          = read_bytes (apdu_process_command command response st temp).resp.data 0 54
              ++ [0x90, 0x00]
      ∧ (apdu_process_command command response st temp).resp.sw1sw2 = SW_OK := by
    intro hle
    obtain ⟨out, st1, hrun, hh⟩ :=
      authenticate_ok cmd { data := response, data_len := 0, sw1sw2 := 0 } st temp hc hpin hlc hle
    have hout : out.length = 257 := by
      rw [run_xor_auth_intact st hc] at hrun
      simp only [Option.some.injEq, Prod.mk.injEq] at hrun
      rw [← hrun.1]
      simp only [length_write_bytes]
      exact h257
    rw [process_parsed command response st temp cmd hparse,
      dispatch_authenticate cmd _ st temp hcla hins, hh]
    have hs := send_response_sent
      ⟨true, { data := out, data_len := 54, sw1sw2 := SW_OK }, st1⟩
      (by show 54 + 2 ≤ out.length; omega) (by show 54 ≤ 255; omega)
      (by show (0x9000 : Nat) < 65536; norm_num)
    refine ⟨rfl, rfl, ?_, rfl⟩
    rw [hs]
    have e1 : SW_OK / 256 = 0x90 := by norm_num
    have e2 : SW_OK % 256 = 0x00 := by norm_num
    show read_bytes out 0 54 ++ [SW_OK / 256, SW_OK % 256] = read_bytes out 0 54 ++ [0x90, 0x00]
    rw [e1, e2]
  refine ⟨?_, ?_, ?_, ?_⟩
  · rcases hshape with h | h
    · exact Or.inl h.1
    · exact Or.inr h.1
  · constructor
    · intro hsw
      by_contra hne
      have h := (hbad (by omega)).2.2.2
      rw [h] at hsw
      exact absurd hsw (by decide)
    · intro hle
      exact (hgood hle).2.2.2
  · intro hl h1 h53
    have hle : cmd.le = rd command (5 + cmd.lc) := by
      rcases hshape with h | h
      · omega
      · rw [h.2, if_neg (by omega)]
    obtain ⟨a, b, c, _⟩ := hbad (by omega)
    exact ⟨a, b, c⟩
  · intro hcase
    have hle : cmd.le = 0 ∨ cmd.le = 256 ∨ 54 ≤ cmd.le := by
      rcases hshape with h | h
      · exact Or.inl h.2
      · rcases hcase with h1 | h1 | h1
        · omega
        · rw [h.2, if_pos h1]
          exact Or.inr (Or.inl rfl)
        · rw [h.2, if_neg (by omega)]
          exact Or.inr (Or.inr h1)
    obtain ⟨a, b, c, _⟩ := hgood hle
    exact ⟨a, b, c⟩

/-- C22, at instances: on the card after a successful VERIFY CHV, AUTHENTICATE
with an all-zero RAND and trailing Le byte 0x35 (53) is answered 67 00; with
trailing Le byte 0x36 (54), with Le byte 0 and with no Le it returns 54 data
bytes. -/
theorem authenticate_le_rule_witness :
    (apdu_process_command ([0xA0, 0x88, 0x00, 0x00, 0x10] ++ List.replicate 16 0 ++ [0x35])
        (List.replicate 257 0)
        (apdu_process_command
          [0xA0, 0x20, 0x00, 0x01, 0x08, 0x30, 0x30, 0x30, 0x30, 0xFF, 0xFF, 0xFF, 0xFF]
          (List.replicate 257 0) power_on []).card []).sent = [0x67, 0x00]
    ∧ (apdu_process_command ([0xA0, 0x88, 0x00, 0x00, 0x10] ++ List.replicate 16 0 ++ [0x36])
        (List.replicate 257 0)
        (apdu_process_command
          [0xA0, 0x20, 0x00, 0x01, 0x08, 0x30, 0x30, 0x30, 0x30, 0xFF, 0xFF, 0xFF, 0xFF]
          (List.replicate 257 0) power_on []).card []).resp.data_len = 54
    ∧ (apdu_process_command ([0xA0, 0x88, 0x00, 0x00, 0x10] ++ List.replicate 16 0 ++ [0x00])
        (List.replicate 257 0)
        (apdu_process_command
          [0xA0, 0x20, 0x00, 0x01, 0x08, 0x30, 0x30, 0x30, 0x30, 0xFF, 0xFF, 0xFF, 0xFF]
          (List.replicate 257 0) power_on []).card []).resp.data_len = 54
    ∧ (apdu_process_command ([0xA0, 0x88, 0x00, 0x00, 0x10] ++ List.replicate 16 0)
        (List.replicate 257 0)
        (apdu_process_command
          [0xA0, 0x20, 0x00, 0x01, 0x08, 0x30, 0x30, 0x30, 0x30, 0xFF, 0xFF, 0xFF, 0xFF]
          (List.replicate 257 0) power_on []).card []).resp.data_len = 54 :=
  ⟨((authenticate_le_rule _ (by decide) (by decide)
      ([0xA0, 0x88, 0x00, 0x00, 0x10] ++ List.replicate 16 0 ++ [0x35]) (List.replicate 257 0) []
      ⟨0xA0, 0x88, 0, 0, 16, List.replicate 16 0 ++ [0x35], 0x35⟩
      (by decide) (by decide) (by decide) (by decide)
      (List.length_replicate 257 0)).2.2.1 (by decide) (by decide) (by decide)).1,
   ((authenticate_le_rule _ (by decide) (by decide)
      ([0xA0, 0x88, 0x00, 0x00, 0x10] ++ List.replicate 16 0 ++ [0x36]) (List.replicate 257 0) []
      ⟨0xA0, 0x88, 0, 0, 16, List.replicate 16 0 ++ [0x36], 0x36⟩
      (by decide) (by decide) (by decide) (by decide)
      (List.length_replicate 257 0)).2.2.2 (by decide)).2.1,
   ((authenticate_le_rule _ (by decide) (by decide)
      ([0xA0, 0x88, 0x00, 0x00, 0x10] ++ List.replicate 16 0 ++ [0x00]) (List.replicate 257 0) []
      ⟨0xA0, 0x88, 0, 0, 16, List.replicate 16 0 ++ [0x00], 256⟩
      (by decide) (by decide) (by decide) (by decide)
      (List.length_replicate 257 0)).2.2.2 (by decide)).2.1,
   ((authenticate_le_rule _ (by decide) (by decide)
      ([0xA0, 0x88, 0x00, 0x00, 0x10] ++ List.replicate 16 0) (List.replicate 257 0) []
      ⟨0xA0, 0x88, 0, 0, 16, List.replicate 16 0, 0⟩
      (by decide) (by decide) (by decide) (by decide)
      (List.length_replicate 257 0)).2.2.2 (by decide)).2.1⟩

/-! ## GET RESPONSE and STATUS -/

theorem get_response_ok (cmd : apdu_command_t) (resp : apdu_response_t) (st : Card)
    (hle : cmd.le ≤ 256) :
    handle_get_response cmd resp st
      = ⟨true,
         { data := write_bytes resp.data 0
             ((List.range (min (if cmd.le = 0 then 256 else cmd.le) 32)).map
               (fun i => (i + 0x10) % 256))
             (min (if cmd.le = 0 then 256 else cmd.le) 32)
           data_len := min (if cmd.le = 0 then 256 else cmd.le) 32
           sw1sw2 := SW_OK },
         st⟩ := by
  have hmin : (if (if cmd.le = 0 then 256 else cmd.le) > 32 then 32
      else (if cmd.le = 0 then 256 else cmd.le))
      = min (if cmd.le = 0 then 256 else cmd.le) 32 := by
    split_ifs <;> omega
  unfold handle_get_response
  dsimp only
  rw [if_neg (by split_ifs <;> omega), hmin]

theorem read_bytes_self (l : List Nat) : read_bytes l 0 l.length = l := by
  rw [read_bytes_eq_take l l.length (Nat.le_refl _), List.take_length]

theorem status_ok (cmd : apdu_command_t) (resp : apdu_response_t) (st : Card)
    (hle : cmd.le = 0 ∨ 5 ≤ cmd.le) :
    handle_status cmd resp st
      = ⟨true,
         { data := write_bytes resp.data 0
             [USIM_VERSION_MAJOR, USIM_VERSION_MINOR, st.session.state,
              st.subscriber.pin1_retries, st.subscriber.puk1_retries] 5
           data_len := 5
           sw1sw2 := SW_OK },
         st⟩ := by
  unfold handle_status
  rw [if_neg (by omega)]

theorem process_data (command response temp : List Nat) (st st1 : Card)
    (cmd : apdu_command_t) (ok : Bool) (payload : List Nat) (sw : Nat)
    (hparse : apdu_parse command = some cmd)
    (hd : apdu_dispatch cmd { data := response, data_len := 0, sw1sw2 := 0 } st temp
      = ⟨ok, { data := write_bytes response 0 payload payload.length,
               data_len := payload.length, sw1sw2 := sw }, st1⟩)
    (hp : payload.length ≤ 255) (hsw : sw < 65536) (hlen : response.length = 257) :
    (apdu_process_command command response st temp).sent = payload ++ [sw / 256, sw % 256]
      ∧ (apdu_process_command command response st temp).resp.data_len = payload.length
      ∧ (apdu_process_command command response st temp).card = st1 := by
  rw [process_parsed command response st temp cmd hparse, hd]
  have hs := send_response_sent
    ⟨ok, { data := write_bytes response 0 payload payload.length,
           data_len := payload.length, sw1sw2 := sw }, st1⟩
    (by show payload.length + 2 ≤ (write_bytes response 0 payload payload.length).length
        rw [length_write_bytes]; omega)
    hp hsw
  refine ⟨?_, rfl, rfl⟩
  rw [hs]
  show read_bytes (write_bytes response 0 payload payload.length) 0 payload.length ++ _ = _
  rw [read_write_bytes _ _ _ (by omega), read_bytes_self]

/-! ## C23 -/

/-- C23: for every GET RESPONSE command the codec accepts (whatever P1, P2, Lc
and data) and every card state, the bytes sent are `min(Le, 32)` data bytes,
byte `i` being `0x10 + i`, followed by 90 00, where Le is 256 both when the
command has no Le (0 in the record) and when its Le byte is 0 (256 in the
record), so that 32 bytes are returned in these two cases; the card is
unchanged.  For a five-byte command the Le of the record is the byte P3, 0
standing for 256. -/
theorem get_response_pattern :
    (∀ (st : Card) (command response temp : List Nat) (cmd : apdu_command_t),
      apdu_parse command = some cmd →
      (cmd.cla = CLA_STANDARD ∨ cmd.cla = CLA_GSM) → cmd.ins = INS_GET_RESPONSE →
      response.length = USIM_APDU_RESPONSE_MAX_LEN →
      (apdu_process_command command response st temp).sent
          = (List.range (min (if cmd.le = 0 then 256 else cmd.le) 32)).map (fun i => 0x10 + i)
              ++ [0x90, 0x00]
        ∧ (apdu_process_command command response st temp).resp.data_len
            = min (if cmd.le = 0 then 256 else cmd.le) 32
        ∧ ((cmd.le = 0 ∨ cmd.le = 256) →
            (apdu_process_command command response st temp).resp.data_len = 32)
        ∧ (apdu_process_command command response st temp).card = st)
    ∧ (∀ (command : List Nat), command.length = 5 → rd command 4 < 256 →
        ∃ cmd, apdu_parse command = some cmd
          ∧ cmd.le = (if rd command 4 = 0 then 256 else rd command 4)) := by
  constructor
  · intro st command response temp cmd hparse hcla hins hlen
    have h257 : response.length = 257 := hlen
    have hle := parse_le_bound command cmd hparse
    have hmap : (List.range (min (if cmd.le = 0 then 256 else cmd.le) 32)).map
        (fun i => (i + 0x10) % 256)
        = (List.range (min (if cmd.le = 0 then 256 else cmd.le) 32)).map (fun i => 0x10 + i) := by
      apply List.map_congr_left
      intro i hi
      have := List.mem_range.mp hi
      have h32 : i < 32 := by omega
      show (i + 16) % 256 = 16 + i
      omega
    have hplen : ((List.range (min (if cmd.le = 0 then 256 else cmd.le) 32)).map
        (fun i => 0x10 + i)).length = min (if cmd.le = 0 then 256 else cmd.le) 32 := by
      rw [List.length_map, List.length_range]
    have hd : apdu_dispatch cmd { data := response, data_len := 0, sw1sw2 := 0 } st temp
        = ⟨true,
           { data := write_bytes response 0
               ((List.range (min (if cmd.le = 0 then 256 else cmd.le) 32)).map
                 (fun i => 0x10 + i))
               ((List.range (min (if cmd.le = 0 then 256 else cmd.le) 32)).map
                 (fun i => 0x10 + i)).length,
             data_len := ((List.range (min (if cmd.le = 0 then 256 else cmd.le) 32)).map
                 (fun i => 0x10 + i)).length,
             sw1sw2 := SW_OK }, st⟩ := by
      rw [dispatch_get_response cmd _ st temp hcla hins, get_response_ok cmd _ st hle, hmap,
        hplen]
    obtain ⟨s1, s2, s3⟩ := process_data command response temp st st cmd true _ SW_OK hparse hd
      (by rw [hplen]; omega) (by norm_num) h257
    rw [hplen] at s2
    have e1 : SW_OK / 256 = 0x90 := by norm_num
    have e2 : SW_OK % 256 = 0x00 := by norm_num
    rw [e1, e2] at s1
    refine ⟨s1, s2, ?_, s3⟩
    intro h0
    rw [s2]
    rcases h0 with h0 | h0 <;> rw [h0] <;> rfl
  · intro command h5 hb
    exact ⟨_, parse_case2 command h5 hb, rfl⟩

/-- C23, at instances: on the card after power-on `A0 C0 00 00 04` returns
`10 11 12 13 90 00` and `A0 C0 00 00 00` returns 32 data bytes. -/
theorem get_response_pattern_witness :
    (apdu_process_command [0xA0, 0xC0, 0x00, 0x00, 0x04] (List.replicate 257 0) power_on
        []).sent = [0x10, 0x11, 0x12, 0x13, 0x90, 0x00]
    ∧ (apdu_process_command [0xA0, 0xC0, 0x00, 0x00, 0x00] (List.replicate 257 0) power_on
        []).resp.data_len = 32 :=
  ⟨(get_response_pattern.1 power_on [0xA0, 0xC0, 0x00, 0x00, 0x04] (List.replicate 257 0) []
      ⟨0xA0, 0xC0, 0, 0, 0, [], 4⟩ (by decide) (by decide) (by decide)
      (List.length_replicate 257 0)).1,
   (get_response_pattern.1 power_on [0xA0, 0xC0, 0x00, 0x00, 0x00] (List.replicate 257 0) []
      ⟨0xA0, 0xC0, 0, 0, 0, [], 256⟩ (by decide) (by decide) (by decide)
      (List.length_replicate 257 0)).2.2.1 (Or.inr rfl)⟩

theorem select_ok_selected (cmd : apdu_command_t) (resp : apdu_response_t) (st : Card)
    (h : (handle_select_file cmd resp st).resp.sw1sw2 = SW_OK) :
    (handle_select_file cmd resp st).card.session.state &&& USIM_STATE_SELECTED ≠ 0 := by
  unfold handle_select_file at h ⊢
  split_ifs at h ⊢
  · dsimp only at h
    exact absurd h (by decide)
  · dsimp only at h
    exact absurd h (by decide)
  · dsimp only at h ⊢
    split at h
    · dsimp only at h
      exact absurd h (by decide)
    · split_ifs at h ⊢
      all_goals first
        | (dsimp only at h
           exact absurd h (by decide))
        | exact selected_set _

/-! ## C24 -/

/-- C24: every STATUS command the codec accepts with Le absent (0 in the
record), encoded 0 (256 in the record) or `≥ 5` is answered with exactly the
5 bytes 02, 00, `session.state`, PIN1 retries, PUK1 retries followed by 90 00,
and leaves the card unchanged.  Hence, whenever a SELECT FILE command was
answered 9000, the state byte (third byte) returned by a STATUS sent next has
the SELECTED bit 0x01 set. -/
theorem status_report :
    (∀ (st : Card) (command response temp : List Nat) (cmd : apdu_command_t),
      apdu_parse command = some cmd →
      (cmd.cla = CLA_STANDARD ∨ cmd.cla = CLA_GSM) → cmd.ins = INS_STATUS →
      (cmd.le = 0 ∨ cmd.le = 256 ∨ 5 ≤ cmd.le) →
      response.length = USIM_APDU_RESPONSE_MAX_LEN →
      (apdu_process_command command response st temp).sent
          = [0x02, 0x00, st.session.state, st.subscriber.pin1_retries,
             st.subscriber.puk1_retries, 0x90, 0x00]
        ∧ (apdu_process_command command response st temp).resp.data_len = 5
        ∧ (apdu_process_command command response st temp).card = st)
    ∧ (∀ (st : Card) (select status response response2 temp temp2 : List Nat)
        (cmd cmd2 : apdu_command_t),
      apdu_parse select = some cmd →
      (cmd.cla = CLA_STANDARD ∨ cmd.cla = CLA_GSM) → cmd.ins = INS_SELECT_FILE →
      (apdu_process_command select response st temp).resp.sw1sw2 = SW_OK →
      apdu_parse status = some cmd2 →
      (cmd2.cla = CLA_STANDARD ∨ cmd2.cla = CLA_GSM) → cmd2.ins = INS_STATUS →
      (cmd2.le = 0 ∨ cmd2.le = 256 ∨ 5 ≤ cmd2.le) →
      response2.length = USIM_APDU_RESPONSE_MAX_LEN →
      (apdu_process_command status response2
          (apdu_process_command select response st temp).card temp2).sent.length = 7
        ∧ rd (apdu_process_command status response2
            (apdu_process_command select response st temp).card temp2).sent 2
          &&& USIM_STATE_SELECTED ≠ 0) := by
  have hstatus : ∀ (st : Card) (command response temp : List Nat) (cmd : apdu_command_t),
      apdu_parse command = some cmd →
      (cmd.cla = CLA_STANDARD ∨ cmd.cla = CLA_GSM) → cmd.ins = INS_STATUS →
      (cmd.le = 0 ∨ cmd.le = 256 ∨ 5 ≤ cmd.le) →
      response.length = USIM_APDU_RESPONSE_MAX_LEN →
      (apdu_process_command command response st temp).sent
          = [0x02, 0x00, st.session.state, st.subscriber.pin1_retries,
             st.subscriber.puk1_retries, 0x90, 0x00]
        ∧ (apdu_process_command command response st temp).resp.data_len = 5
        ∧ (apdu_process_command command response st temp).card = st := by
    intro st command response temp cmd hparse hcla hins hle hlen
    have h257 : response.length = 257 := hlen
    have hd : apdu_dispatch cmd { data := response, data_len := 0, sw1sw2 := 0 } st temp
        = ⟨true,
           { data := write_bytes response 0
               [USIM_VERSION_MAJOR, USIM_VERSION_MINOR, st.session.state,
                st.subscriber.pin1_retries, st.subscriber.puk1_retries]
               [USIM_VERSION_MAJOR, USIM_VERSION_MINOR, st.session.state,
                st.subscriber.pin1_retries, st.subscriber.puk1_retries].length,
             data_len := [USIM_VERSION_MAJOR, USIM_VERSION_MINOR, st.session.state,
                st.subscriber.pin1_retries, st.subscriber.puk1_retries].length,
             sw1sw2 := SW_OK }, st⟩ := by
      rw [dispatch_status cmd _ st temp hcla hins, status_ok cmd _ st (by omega)]
      rfl
    obtain ⟨s1, s2, s3⟩ := process_data command response temp st st cmd true _ SW_OK hparse hd
      (by show 5 ≤ 255; omega) (by norm_num) h257
    have e1 : SW_OK / 256 = 0x90 := by norm_num
    have e2 : SW_OK % 256 = 0x00 := by norm_num
    rw [e1, e2] at s1
    exact ⟨s1, s2, s3⟩
  refine ⟨hstatus, ?_⟩
  intro st select status response response2 temp temp2 cmd cmd2 hparse hcla hins hok
    hparse2 hcla2 hins2 hle2 hlen2
  obtain ⟨s1, _, _⟩ := hstatus (apdu_process_command select response st temp).card status
    response2 temp2 cmd2 hparse2 hcla2 hins2 hle2 hlen2
  rw [s1]
  refine ⟨rfl, ?_⟩
  show (apdu_process_command select response st temp).card.session.state
    &&& USIM_STATE_SELECTED ≠ 0
  rw [process_parsed select response st temp cmd hparse,
    dispatch_select_file cmd _ st temp hcla hins] at hok ⊢
  exact select_ok_selected cmd _ st hok

/-- C24, at instances: on the card after power-on `A0 F2 00 00 05` returns
`02 00 00 03 0A 90 00`; after `A0 A4 00 00 02 6F 07` it returns the state byte
01. -/
theorem status_report_witness :
    (apdu_process_command [0xA0, 0xF2, 0x00, 0x00, 0x05] (List.replicate 257 0) power_on
        []).sent = [0x02, 0x00, 0x00, 0x03, 0x0A, 0x90, 0x00]
    ∧ rd (apdu_process_command [0xA0, 0xF2, 0x00, 0x00, 0x05] (List.replicate 257 0)
        (apdu_process_command [0xA0, 0xA4, 0x00, 0x00, 0x02, 0x6F, 0x07] (List.replicate 257 0)
          power_on []).card []).sent 2 &&& USIM_STATE_SELECTED ≠ 0 :=
  ⟨(status_report.1 power_on [0xA0, 0xF2, 0x00, 0x00, 0x05] (List.replicate 257 0) []
      ⟨0xA0, 0xF2, 0, 0, 0, [], 5⟩ (by decide) (by decide) (by decide) (by decide)
      (List.length_replicate 257 0)).1,
   (status_report.2 power_on [0xA0, 0xA4, 0x00, 0x00, 0x02, 0x6F, 0x07]
      [0xA0, 0xF2, 0x00, 0x00, 0x05] (List.replicate 257 0) (List.replicate 257 0) [] []
      ⟨0xA0, 0xA4, 0, 0, 2, [0x6F, 0x07], 0⟩ ⟨0xA0, 0xF2, 0, 0, 0, [], 5⟩
      (by decide) (by decide) (by decide) (by decide) (by decide) (by decide) (by decide)
      (by decide) (List.length_replicate 257 0)).2⟩

/-! ## C25 -/

/-- C25: for every prior card state, after `usim_init` the state byte of the
session is 0 (no flag set), the `authenticated` flag is clear, the derived
keys CK, IK, RES, Kc (and AUTS) are zero, the current file is the MF 3F00
(type MF, size 0), PIN1 retries are 3 and PUK1 retries are 10. -/
theorem usim_init_session (st : Card) :
    (usim_init st).session.state = 0
      ∧ (usim_init st).session.state &&& USIM_STATE_SELECTED = 0
      ∧ (usim_init st).session.state &&& USIM_STATE_AUTHENTICATED = 0
      ∧ (usim_init st).session.state &&& USIM_STATE_PIN_VERIFIED = 0
      ∧ (usim_init st).session.authenticated = false
      ∧ (usim_init st).session.ck = List.replicate 16 0
      ∧ (usim_init st).session.ik = List.replicate 16 0
      ∧ (usim_init st).session.res = List.replicate 8 0
      ∧ (usim_init st).session.kc = List.replicate 8 0
      ∧ (usim_init st).session.auts = List.replicate 14 0
      ∧ (usim_init st).current_file
          = { file_id := 0x3F00, file_type := FILE_TYPE_MF, file_size := 0 }
      ∧ (usim_init st).subscriber.pin1_retries = 3
      ∧ (usim_init st).subscriber.puk1_retries = 10 := by
  have hs : (usim_init st).session.state = 0 := rfl
  refine ⟨hs, ?_, ?_, ?_, rfl, rfl, rfl, rfl, rfl, rfl, rfl, rfl, rfl⟩ <;> rw [hs] <;> rfl

/-! ## Masking of the secret files -/

theorem xor_twice (a k : Nat) : (a ^^^ k) ^^^ k = a := by
  rw [Nat.xor_assoc, Nat.xor_self, Nat.xor_zero]

theorem length_xor_operation (data : List Nat) (length : Nat) (key : List Nat)
    (key_length : Nat) :
    (usim_xor_operation data length key key_length).length = data.length := by
  simp [usim_xor_operation]

theorem rd_xor_operation (data : List Nat) (length : Nat) (key : List Nat)
    (key_length i : Nat) (hi : i < data.length) :
    rd (usim_xor_operation data length key key_length) i
      = if i < length then rd data i ^^^ rd key (i % key_length) else rd data i := by
  unfold usim_xor_operation
  rw [rd_range_map _ _ _ hi]

theorem xor_operation_twice (data : List Nat) (length : Nat) (key : List Nat)
    (key_length : Nat) :
    usim_xor_operation (usim_xor_operation data length key key_length) length key key_length
      = data := by
  apply ext_rd
  · rw [length_xor_operation, length_xor_operation]
  · intro i hi
    rw [length_xor_operation, length_xor_operation] at hi
    rw [rd_xor_operation _ _ _ _ _ (by rw [length_xor_operation]; exact hi),
      rd_xor_operation _ _ _ _ _ hi]
    by_cases hl : i < length
    · simp only [if_pos hl]
      exact xor_twice _ _
    · simp only [if_neg hl]

theorem filesystem_init_intact (st : Card) (hc : catalogue_intact st) :
    catalogue_intact (usim_filesystem_init st) := hc

/-! ## C27 -/

/-- C27: after `usim_filesystem_init`, whatever the state before, the stored
bytes of EF_KEY and EF_OPc are their seed bytes XORed bytewise with the 16-byte
mask; on a card holding the shipped catalogue `usim_get_file_data` on 6F08 and
6F09 then returns exactly the plaintext seed, with length 16.  Unmasking undoes
masking because `usim_xor_operation` applied twice with the same key (of
length above 0; with length 0 the C loop computes `i % 0`) is the identity on
any data. -/
theorem secret_files_masking :
    (∀ st : Card,
      (usim_filesystem_init st).key_data
          = (List.range 16).map (fun i => rd key_data_init i ^^^ rd xor_key i)
      ∧ (usim_filesystem_init st).opc_data
          = (List.range 16).map (fun i => rd opc_data_init i ^^^ rd xor_key i))
    ∧ (∀ st : Card, catalogue_intact st →
        usim_get_file_data (usim_filesystem_init st) 0x6F08 = some (key_data_init, 16)
        ∧ usim_get_file_data (usim_filesystem_init st) 0x6F09 = some (opc_data_init, 16))
    ∧ (∀ (data : List Nat) (length : Nat) (key : List Nat) (key_length : Nat),
        0 < key_length →
        usim_xor_operation (usim_xor_operation data length key key_length) length key
          key_length = data) := by
  refine ⟨fun st => ⟨?_, ?_⟩, ?_, ?_⟩
  · show usim_xor_operation key_data_init 16 xor_key 16 = _
    decide
  · show usim_xor_operation opc_data_init 16 xor_key 16 = _
    decide
  · intro st hc
    have hc1 := filesystem_init_intact st hc
    constructor
    · rw [get_key_intact _ hc1]
      have : unmasked (usim_filesystem_init st).key_data = key_data_init := by
        show unmasked (usim_xor_operation key_data_init 16 xor_key 16) = _
        decide
      rw [this]
    · rw [get_opc_intact _ hc1]
      have : unmasked (usim_filesystem_init st).opc_data = opc_data_init := by
        show unmasked (usim_xor_operation opc_data_init 16 xor_key 16) = _
        decide
      rw [this]
  · intro data length key key_length _
    exact xor_operation_twice data length key key_length

/-- C27, at instances: on the card after power-on `usim_get_file_data` returns
the seed of EF_KEY and of EF_OPc; masking the bytes 01 02 03 twice with the
2-byte key AA 55 gives them back. -/
theorem secret_files_masking_witness :
    usim_get_file_data power_on 0x6F08 = some (key_data_init, 16)
    ∧ usim_get_file_data power_on 0x6F09 = some (opc_data_init, 16)
    ∧ usim_xor_operation (usim_xor_operation [0x01, 0x02, 0x03] 3 [0xAA, 0x55] 2) 3
        [0xAA, 0x55] 2 = [0x01, 0x02, 0x03] :=
  ⟨(secret_files_masking.2.1 _ static_image_intact).1,
   (secret_files_masking.2.1 _ static_image_intact).2,
   secret_files_masking.2.2 [0x01, 0x02, 0x03] 3 [0xAA, 0x55] 2 (by decide)⟩

/-! ## The subscriber record under the handlers -/

theorem select_file_subscriber (cmd : apdu_command_t) (resp : apdu_response_t) (st : Card) :
    (handle_select_file cmd resp st).card.subscriber = st.subscriber := by
  unfold handle_select_file
  split_ifs
  · rfl
  · rfl
  · dsimp only
    split
    · rfl
    · split_ifs <;> rfl

theorem read_binary_card (cmd : apdu_command_t) (resp : apdu_response_t) (st : Card) :
    (handle_read_binary cmd resp st).card = st := by
  unfold handle_read_binary
  dsimp only
  repeat' split
  all_goals rfl

theorem update_binary_subscriber (cmd : apdu_command_t) (resp : apdu_response_t) (st : Card) :
    (handle_update_binary cmd resp st).card.subscriber = st.subscriber := by
  unfold handle_update_binary
  dsimp only
  repeat' split
  all_goals first
    | rfl
    | exact store_subscriber _ _ _

theorem authenticate_subscriber (cmd : apdu_command_t) (resp : apdu_response_t) (st : Card)
    (temp : List Nat) :
    (handle_authenticate cmd resp st temp).card.subscriber = st.subscriber := by
  unfold handle_authenticate
  split_ifs
  · rfl
  · rfl
  · rfl
  · dsimp only
    split
    · rename_i out out_len st1 hrun
      unfold usim_run_xor_auth at hrun
      split at hrun
      · split_ifs at hrun
        simp only [Option.some.injEq, Prod.mk.injEq] at hrun
        rw [← hrun.2.2]
      · cases hrun
    · rfl

theorem get_response_card (cmd : apdu_command_t) (resp : apdu_response_t) (st : Card) :
    (handle_get_response cmd resp st).card = st := by
  unfold handle_get_response
  dsimp only
  split_ifs <;> rfl

theorem status_card (cmd : apdu_command_t) (resp : apdu_response_t) (st : Card) :
    (handle_status cmd resp st).card = st := by
  unfold handle_status
  split_ifs <;> rfl

theorem verify_chv_locked (cmd : apdu_command_t) (resp : apdu_response_t) (st : Card)
    (hr : st.subscriber.pin1_retries = 0) :
    (handle_verify_chv cmd resp st).card = st := by
  unfold handle_verify_chv
  rw [if_pos hr]
  split_ifs <;> rfl

theorem change_chv_locked (cmd : apdu_command_t) (resp : apdu_response_t) (st : Card)
    (hr : st.subscriber.pin1_retries = 0) :
    (handle_change_chv cmd resp st).card = st := by
  unfold handle_change_chv
  rw [if_pos hr]
  split_ifs <;> rfl

theorem change_chv_blocked (cmd : apdu_command_t) (resp : apdu_response_t) (st : Card)
    (hlc : cmd.lc = 16) (hp2 : cmd.p2 % 2 = 1) (hr : st.subscriber.pin1_retries = 0) :
    handle_change_chv cmd resp st = ⟨false, { resp with sw1sw2 := SW_PIN_BLOCKED }, st⟩ := by
  unfold handle_change_chv
  rw [if_neg (by omega), if_neg (odd_p2 _ hp2), if_pos hr]

theorem dispatch_locked (cmd : apdu_command_t) (resp : apdu_response_t) (st : Card)
    (temp : List Nat) (hr : st.subscriber.pin1_retries = 0) :
    (apdu_dispatch cmd resp st temp).card.subscriber.pin1_retries = 0 := by
  by_cases hrt : (cmd.cla = CLA_STANDARD ∨ cmd.cla = CLA_GSM)
      ∧ (cmd.ins = INS_SELECT_FILE ∨ cmd.ins = INS_READ_BINARY ∨ cmd.ins = INS_UPDATE_BINARY
        ∨ cmd.ins = INS_VERIFY_CHV ∨ cmd.ins = INS_CHANGE_CHV ∨ cmd.ins = INS_AUTHENTICATE
        ∨ cmd.ins = INS_GET_RESPONSE ∨ cmd.ins = INS_STATUS)
  · obtain ⟨hcla, hins⟩ := hrt
    rcases hins with hi | hi | hi | hi | hi | hi | hi | hi
    · rw [dispatch_select_file cmd resp st temp hcla hi, select_file_subscriber]
      exact hr
    · rw [dispatch_read_binary cmd resp st temp hcla hi, read_binary_card]
      exact hr
    · rw [dispatch_update_binary cmd resp st temp hcla hi, update_binary_subscriber]
      exact hr
    · rw [dispatch_verify_chv cmd resp st temp hcla hi, verify_chv_locked _ _ _ hr]
      exact hr
    · rw [dispatch_change_chv cmd resp st temp hcla hi, change_chv_locked _ _ _ hr]
      exact hr
    · rw [dispatch_authenticate cmd resp st temp hcla hi, authenticate_subscriber]
      exact hr
    · rw [dispatch_get_response cmd resp st temp hcla hi, get_response_card]
      exact hr
    · rw [dispatch_status cmd resp st temp hcla hi, status_card]
      exact hr
  · rw [(dispatch_unrouted cmd resp st temp hrt).1]
    exact hr

theorem process_locked (command response : List Nat) (st : Card) (temp : List Nat)
    (hr : st.subscriber.pin1_retries = 0) :
    (apdu_process_command command response st temp).card.subscriber.pin1_retries = 0 := by
  unfold apdu_process_command
  dsimp only
  split
  · exact hr
  · exact dispatch_locked _ _ _ _ hr

theorem main_loop_locked (es : List apdu_event) :
    ∀ (st : Card) (response : List Nat), st.subscriber.pin1_retries = 0 →
      (main_loop st response es).1.subscriber.pin1_retries = 0 := by
  induction es with
  | nil =>
    intro st response hr
    exact hr
  | cons e es ih =>
    intro st response hr
    exact ih _ _ (process_locked e.command response st e.temp hr)

/-! ## C26 -/

theorem chv_bad_length (cmd : apdu_command_t) (resp : apdu_response_t) (st : Card) :
    (cmd.lc ≠ 8 →
      handle_verify_chv cmd resp st = ⟨false, { resp with sw1sw2 := SW_WRONG_LENGTH }, st⟩)
    ∧ (cmd.lc ≠ 16 →
      handle_change_chv cmd resp st = ⟨false, { resp with sw1sw2 := SW_WRONG_LENGTH }, st⟩) := by
  constructor
  · intro h
    unfold handle_verify_chv
    rw [if_pos h]
  · intro h
    unfold handle_change_chv
    rw [if_pos h]

theorem chv_bad_p2 (cmd : apdu_command_t) (resp : apdu_response_t) (st : Card)
    (hp2 : cmd.p2 % 2 = 0) :
    (cmd.lc = 8 →
      handle_verify_chv cmd resp st
        = ⟨false, { resp with sw1sw2 := SW_WRONG_PARAMETERS }, st⟩)
    ∧ (cmd.lc = 16 →
      handle_change_chv cmd resp st
        = ⟨false, { resp with sw1sw2 := SW_WRONG_PARAMETERS }, st⟩) := by
  have hb : cmd.p2 &&& 0x01 = 0 := by
    rw [Nat.and_one_is_mod]
    exact hp2
  constructor
  · intro h
    unfold handle_verify_chv
    rw [if_neg (by rw [h]; decide), if_pos hb]
  · intro h
    unfold handle_change_chv
    rw [if_neg (by rw [h]; decide), if_pos hb]

theorem chv_rejected (st : Card) (command response temp : List Nat) (cmd : apdu_command_t)
    (hparse : apdu_parse command = some cmd)
    (hcla : cmd.cla = CLA_STANDARD ∨ cmd.cla = CLA_GSM)
    (hlen : response.length = USIM_APDU_RESPONSE_MAX_LEN) :
    (((cmd.ins = INS_VERIFY_CHV ∧ cmd.lc ≠ 8) ∨ (cmd.ins = INS_CHANGE_CHV ∧ cmd.lc ≠ 16)) →
      (apdu_process_command command response st temp).sent = [0x67, 0x00]
      ∧ (apdu_process_command command response st temp).card = st)
    ∧ (((cmd.ins = INS_VERIFY_CHV ∧ cmd.lc = 8) ∨ (cmd.ins = INS_CHANGE_CHV ∧ cmd.lc = 16)) →
      cmd.p2 % 2 = 0 →
      (apdu_process_command command response st temp).sent = [0x6B, 0x00]
      ∧ (apdu_process_command command response st temp).card = st) := by
  have e1 : SW_WRONG_LENGTH / 256 = 0x67 := by norm_num
  have e2 : SW_WRONG_LENGTH % 256 = 0x00 := by norm_num
  have e3 : SW_WRONG_PARAMETERS / 256 = 0x6B := by norm_num
  have e4 : SW_WRONG_PARAMETERS % 256 = 0x00 := by norm_num
  constructor
  · intro h
    have hd : apdu_dispatch cmd { data := response, data_len := 0, sw1sw2 := 0 } st temp
        = ⟨false, { data := response, data_len := 0, sw1sw2 := SW_WRONG_LENGTH }, st⟩ := by
      rcases h with ⟨hi, hl⟩ | ⟨hi, hl⟩
      · rw [dispatch_verify_chv cmd _ st temp hcla hi, (chv_bad_length cmd _ st).1 hl]
      · rw [dispatch_change_chv cmd _ st temp hcla hi, (chv_bad_length cmd _ st).2 hl]
    have hs := process_status_only command response temp st st cmd false SW_WRONG_LENGTH
      hparse hd (by norm_num) hlen
    rw [e1, e2] at hs
    exact ⟨hs.1, hs.2.2⟩
  · intro h hp2
    have hd : apdu_dispatch cmd { data := response, data_len := 0, sw1sw2 := 0 } st temp
        = ⟨false, { data := response, data_len := 0, sw1sw2 := SW_WRONG_PARAMETERS }, st⟩ := by
      rcases h with ⟨hi, hl⟩ | ⟨hi, hl⟩
      · rw [dispatch_verify_chv cmd _ st temp hcla hi, (chv_bad_p2 cmd _ st hp2).1 hl]
      · rw [dispatch_change_chv cmd _ st temp hcla hi, (chv_bad_p2 cmd _ st hp2).2 hl]
    have hs := process_status_only command response temp st st cmd false SW_WRONG_PARAMETERS
      hparse hd (by norm_num) hlen
    rw [e3, e4] at hs
    exact ⟨hs.1, hs.2.2⟩

/-- C26 (as amended): once PIN1 retries are 0, no command other than an UPDATE
BINARY whose offset plus `Lc` exceeds 16 bits changes them; every VERIFY CHV
with `Lc = 8` and an odd `P2` and every CHANGE CHV with `Lc = 16` and an odd
`P2` is answered 69 83 whatever PIN it carries, leaving the card unchanged; a
VERIFY CHV or CHANGE CHV with another `Lc` is answered 67 00 and one with the
right `Lc` and an even `P2` is answered 6B 00, on a blocked card as on any
other, the card unchanged; and after any sequence of commands of the main loop
none of which is such an UPDATE BINARY the retries are still 0. -/
theorem pin_lock_permanent :
    (∀ (st : Card) (command response temp : List Nat),
      st.subscriber.pin1_retries = 0 → update_wraps command = false →
      (apdu_process_command command response st temp).card.subscriber.pin1_retries = 0)
    ∧ (∀ (st : Card) (command response temp : List Nat),
        st.subscriber.pin1_retries = 0 → is_verify_chv command = true →
        response.length = USIM_APDU_RESPONSE_MAX_LEN →
        (apdu_process_command command response st temp).sent = [0x69, 0x83]
        ∧ (apdu_process_command command response st temp).card = st)
    ∧ (∀ (st : Card) (command response temp : List Nat) (cmd : apdu_command_t),
        st.subscriber.pin1_retries = 0 →
        apdu_parse command = some cmd →
        (cmd.cla = CLA_STANDARD ∨ cmd.cla = CLA_GSM) → cmd.ins = INS_CHANGE_CHV →
        cmd.lc = 16 → cmd.p2 % 2 = 1 →
        response.length = USIM_APDU_RESPONSE_MAX_LEN →
        (apdu_process_command command response st temp).sent = [0x69, 0x83]
        ∧ (apdu_process_command command response st temp).card = st)
    ∧ (∀ (st : Card) (command response temp : List Nat) (cmd : apdu_command_t),
        apdu_parse command = some cmd →
        (cmd.cla = CLA_STANDARD ∨ cmd.cla = CLA_GSM) →
        ((cmd.ins = INS_VERIFY_CHV ∧ cmd.lc ≠ 8) ∨ (cmd.ins = INS_CHANGE_CHV ∧ cmd.lc ≠ 16)) →
        response.length = USIM_APDU_RESPONSE_MAX_LEN →
        (apdu_process_command command response st temp).sent = [0x67, 0x00]
        ∧ (apdu_process_command command response st temp).card = st)
    ∧ (∀ (st : Card) (command response temp : List Nat) (cmd : apdu_command_t),
        apdu_parse command = some cmd →
        (cmd.cla = CLA_STANDARD ∨ cmd.cla = CLA_GSM) →
        ((cmd.ins = INS_VERIFY_CHV ∧ cmd.lc = 8) ∨ (cmd.ins = INS_CHANGE_CHV ∧ cmd.lc = 16)) →
        cmd.p2 % 2 = 0 →
        response.length = USIM_APDU_RESPONSE_MAX_LEN →
        (apdu_process_command command response st temp).sent = [0x6B, 0x00]
        ∧ (apdu_process_command command response st temp).card = st)
    ∧ (∀ (st : Card) (response : List Nat) (events : List apdu_event),
        st.subscriber.pin1_retries = 0 →
        (∀ e ∈ events, update_wraps e.command = false) →
        (main_loop st response events).1.subscriber.pin1_retries = 0) := by
  refine ⟨fun st command response temp hr _ => process_locked command response st temp hr,
    ?_, ?_, ?_, ?_, fun st response events hr _ => main_loop_locked events st response hr⟩
  · intro st command response temp hr hv hlen
    obtain ⟨c1, _, c3⟩ := verify_apdu_blocked command response st temp hv hr hlen
    exact ⟨c3, c1⟩
  · intro st command response temp cmd hr hparse hcla hins hlc hp2 hlen
    have h := process_status_only command response temp st st cmd false SW_PIN_BLOCKED hparse
      (by rw [dispatch_change_chv cmd _ st temp hcla hins,
            change_chv_blocked cmd _ st hlc hp2 hr])
      (by norm_num) hlen
    have e1 : SW_PIN_BLOCKED / 256 = 0x69 := by norm_num
    have e2 : SW_PIN_BLOCKED % 256 = 0x83 := by norm_num
    rw [e1, e2] at h
    exact ⟨h.1, h.2.2⟩
  · intro st command response temp cmd hparse hcla hbad hlen
    exact (chv_rejected st command response temp cmd hparse hcla hlen).1 hbad
  · intro st command response temp cmd hparse hcla hgood hp2 hlen
    exact (chv_rejected st command response temp cmd hparse hcla hlen).2 hgood hp2

/-- C26, at an instance: after three wrong VERIFY CHV from power-on, a VERIFY
CHV and a CHANGE CHV carrying the right PIN `30 30 30 30 FF FF FF FF` are both
answered 69 83. -/
theorem pin_lock_permanent_witness :
    (apdu_process_command
        [0xA0, 0x20, 0x00, 0x01, 0x08, 0x30, 0x30, 0x30, 0x30, 0xFF, 0xFF, 0xFF, 0xFF]
        (List.replicate 257 0)
        (main_loop power_on (List.replicate 257 0)
          (List.replicate 3
            ⟨[0xA0, 0x20, 0x00, 0x01, 0x08, 0x31, 0x32, 0x33, 0x34, 0xFF, 0xFF, 0xFF, 0xFF],
              []⟩)).1 []).sent = [0x69, 0x83]
    ∧ (apdu_process_command
        [0xA0, 0x24, 0x00, 0x01, 0x10, 0x30, 0x30, 0x30, 0x30, 0xFF, 0xFF, 0xFF, 0xFF,
         0x31, 0x32, 0x33, 0x34, 0xFF, 0xFF, 0xFF, 0xFF]
        (List.replicate 257 0)
        (main_loop power_on (List.replicate 257 0)
          (List.replicate 3
            ⟨[0xA0, 0x20, 0x00, 0x01, 0x08, 0x31, 0x32, 0x33, 0x34, 0xFF, 0xFF, 0xFF, 0xFF],
              []⟩)).1 []).sent = [0x69, 0x83] :=
  ⟨(pin_lock_permanent.2.1 _
      [0xA0, 0x20, 0x00, 0x01, 0x08, 0x30, 0x30, 0x30, 0x30, 0xFF, 0xFF, 0xFF, 0xFF]
      (List.replicate 257 0) [] (by decide) (by decide) (List.length_replicate 257 0)).1,
   (pin_lock_permanent.2.2.1 _
      [0xA0, 0x24, 0x00, 0x01, 0x10, 0x30, 0x30, 0x30, 0x30, 0xFF, 0xFF, 0xFF, 0xFF,
       0x31, 0x32, 0x33, 0x34, 0xFF, 0xFF, 0xFF, 0xFF]
      (List.replicate 257 0) []
      ⟨0xA0, 0x24, 0x00, 0x01, 0x10,
        [0x30, 0x30, 0x30, 0x30, 0xFF, 0xFF, 0xFF, 0xFF,
         0x31, 0x32, 0x33, 0x34, 0xFF, 0xFF, 0xFF, 0xFF], 0⟩
      (by decide) (by decide) (by decide) (by decide) (by decide) (by decide)
      (List.length_replicate 257 0)).1⟩

/-- C26, counterexample to the claim as stated: after three wrong VERIFY CHV
from power-on PIN1 retries are 0, and the VERIFY CHV `A0 20 00 01 04 30 30 30 30`
(`Lc = 4`) is answered 67 00, the VERIFY CHV `A0 20 00 00 08` with the right
PIN (even `P2`) 6B 00, not 69 83. -/
theorem pin_lock_permanent_counterexample :
    (main_loop power_on (List.replicate 257 0)
        (List.replicate 3
          ⟨[0xA0, 0x20, 0x00, 0x01, 0x08, 0x31, 0x32, 0x33, 0x34, 0xFF, 0xFF, 0xFF, 0xFF],
            []⟩)).1.subscriber.pin1_retries = 0
    ∧ (apdu_process_command [0xA0, 0x20, 0x00, 0x01, 0x04, 0x30, 0x30, 0x30, 0x30]
        (List.replicate 257 0)
        (main_loop power_on (List.replicate 257 0)
          (List.replicate 3
            ⟨[0xA0, 0x20, 0x00, 0x01, 0x08, 0x31, 0x32, 0x33, 0x34, 0xFF, 0xFF, 0xFF, 0xFF],
              []⟩)).1 []).sent = [0x67, 0x00]
    ∧ (apdu_process_command
        [0xA0, 0x20, 0x00, 0x00, 0x08, 0x30, 0x30, 0x30, 0x30, 0xFF, 0xFF, 0xFF, 0xFF]
        (List.replicate 257 0)
        (main_loop power_on (List.replicate 257 0)
          (List.replicate 3
            ⟨[0xA0, 0x20, 0x00, 0x01, 0x08, 0x31, 0x32, 0x33, 0x34, 0xFF, 0xFF, 0xFF, 0xFF],
              []⟩)).1 []).sent = [0x6B, 0x00] := by
  set_option maxRecDepth 100000 in decide

/-! ## Characters on the line -/

theorem release_release (t : sim_transport) :
    sim_io_release (sim_io_release t) = sim_io_release t := rfl

theorem ensure_etu_ready (t : sim_transport) (h : t.sim_etu_ready = true) :
    sim_ensure_etu t = t := by
  unfold sim_ensure_etu
  rw [if_pos h]

theorem send_bits_state (n : Nat) :
    ∀ (data parity : Nat) (t : sim_transport),
      ∃ pin : Bool,
        (sim_send_bits n data parity t).1
          = { t with
              io_pin := pin
              tx_wire := t.tx_wire
                ++ (List.range n).map (fun i => (data.testBit i, t.sim_etu_ticks)) } := by
  induction n with
  | zero =>
    intro data parity t
    exact ⟨t.io_pin, by simp [sim_send_bits]⟩
  | succ n ih =>
    intro data parity t
    have hshift : ∀ i, (data >>> 1).testBit i = data.testBit (i + 1) := by
      intro i
      rw [Nat.testBit_shiftRight, Nat.add_comm]
    have hrange : (List.range (n + 1)).map (fun i => (data.testBit i, t.sim_etu_ticks))
        = (data.testBit 0, t.sim_etu_ticks)
          :: (List.range n).map (fun i => ((data >>> 1).testBit i, t.sim_etu_ticks)) := by
      rw [List.range_succ_eq_map, List.map_cons, List.map_map]
      congr 1
      apply List.map_congr_left
      intro i _
      simp only [Function.comp, hshift, Nat.succ_eq_add_one]
    unfold sim_send_bits
    by_cases hb : data &&& 0x01 ≠ 0
    · rw [if_pos hb]
      obtain ⟨pin, hp⟩ := ih (data >>> 1) (parity ^^^ 1)
        (sim_delay_ticks (sim_io_release t) t.sim_etu_ticks)
      refine ⟨pin, ?_⟩
      rw [hp, hrange]
      have h0 : data.testBit 0 = true := by
        rw [Nat.testBit_zero]
        rw [Nat.and_one_is_mod] at hb
        simp only [decide_eq_true_eq]
        omega
      rw [h0]
      simp [sim_delay_ticks, sim_io_release]
    · rw [if_neg hb]
      obtain ⟨pin, hp⟩ := ih (data >>> 1) parity
        (sim_delay_ticks (sim_io_drive_low t) t.sim_etu_ticks)
      refine ⟨pin, ?_⟩
      rw [hp, hrange]
      have h0 : data.testBit 0 = false := by
        rw [Nat.testBit_zero]
        rw [Nat.and_one_is_mod] at hb
        simp only [decide_eq_false_iff_not]
        omega
      rw [h0]
      simp [sim_delay_ticks, sim_io_drive_low]

theorem send_bits_parity (n : Nat) :
    ∀ (data parity : Nat) (t t0 : sim_transport),
      (sim_send_bits n data parity t).2 = (sim_send_bits n data parity t0).2 := by
  induction n with
  | zero =>
    intro data parity t t0
    rfl
  | succ n ih =>
    intro data parity t t0
    unfold sim_send_bits
    by_cases hb : data &&& 0x01 ≠ 0
    · rw [if_pos hb, if_pos hb]
      exact ih _ _ _ _
    · rw [if_neg hb, if_neg hb]
      exact ih _ _ _ _

set_option maxRecDepth 100000 in
theorem send_bits_parity_value :
    ∀ d < 256, (sim_send_bits 8 d 0 chip_init_transport).2 = if iso_parity d then 1 else 0 := by
  decide

set_option maxRecDepth 100000 in
theorem receive_bits_frame :
    ∀ d < 256, sim_receive_bits (iso_frame d) 8 0 0 0 = (d, if iso_parity d then 1 else 0) := by
  decide

set_option maxRecDepth 100000 in
theorem iso_frame_even :
    ∀ d < 256, (((List.range 8).map (fun i => d.testBit i) ++ [iso_parity d]).count true) % 2
      = 0 := by
  decide

theorem send_byte_eq (t : sim_transport) (d : Nat) (hd : d < 256) :
    sim_send_byte t d
      = (true,
         { sim_ensure_etu t with
           io_pin := true
           tx_wire := (sim_ensure_etu t).tx_wire
             ++ sent_bytes (sim_ensure_etu t).sim_etu_ticks
                  (sim_ensure_etu t).sim_half_etu_ticks [d] }) := by
  obtain ⟨pin, hp⟩ := send_bits_state 8 d 0
    (sim_delay_ticks (sim_io_drive_low (sim_ensure_etu t)) (sim_ensure_etu t).sim_etu_ticks)
  have hpar : (sim_send_bits 8 d 0
      (sim_delay_ticks (sim_io_drive_low (sim_ensure_etu t))
        (sim_ensure_etu t).sim_etu_ticks)).2 = if iso_parity d then 1 else 0 :=
    (send_bits_parity 8 d 0 _ chip_init_transport).trans (send_bits_parity_value d hd)
  unfold sim_send_byte
  dsimp only
  rw [hp, hpar]
  cases hq : iso_parity d <;>
    simp [sim_delay_ticks, sim_io_release, sim_io_drive_low, sent_bytes, iso_frame, hq]

theorem send_byte_ready (t : sim_transport) (d : Nat) (hd : d < 256)
    (hr : t.sim_etu_ready = true) :
    sim_send_byte t d
      = (true,
         { t with
           io_pin := true
           tx_wire := t.tx_wire ++ sent_bytes t.sim_etu_ticks t.sim_half_etu_ticks [d] }) := by
  rw [send_byte_eq t d hd, ensure_etu_ready t hr]

theorem sent_bytes_append (etu half : Nat) (a b : List Nat) :
    sent_bytes etu half (a ++ b) = sent_bytes etu half a ++ sent_bytes etu half b := by
  simp [sent_bytes]

theorem receive_reader_byte (t : sim_transport) (b : Nat) (rest : List line_event)
    (timeout_cycles : Nat) (hc : t.sim_rx_prefetch_count = 0) (hb : b < 256) :
    sim_receive_byte t (reader_byte b :: rest) timeout_cycles
      = (some b, sim_io_release (sim_ensure_etu t), rest) := by
  unfold sim_receive_byte sim_prefetch_pop
  rw [if_pos hc]
  dsimp only [reader_byte]
  have h0 : (iso_frame b).getD 0 true = false := rfl
  rw [h0, receive_bits_frame b hb]
  rfl

theorem receive_prefetched (t : sim_transport) (line : List line_event)
    (timeout_cycles : Nat) (hc : 0 < t.sim_rx_prefetch_count) :
    sim_receive_byte t line timeout_cycles
      = (some (rd t.sim_rx_prefetch_buf (t.sim_rx_prefetch_count - 1)),
         { t with sim_rx_prefetch_count := t.sim_rx_prefetch_count - 1 }, line) := by
  unfold sim_receive_byte sim_prefetch_pop
  rw [if_neg (by omega)]

theorem ensure_etu_wire (t : sim_transport) : (sim_ensure_etu t).tx_wire = t.tx_wire := by
  unfold sim_ensure_etu
  split_ifs <;> rfl

theorem set_etu_half_lt (t : sim_transport) (ticks : Nat) :
    (sim_set_etu_ticks t ticks).sim_half_etu_ticks < (sim_set_etu_ticks t ticks).sim_etu_ticks := by
  unfold sim_set_etu_ticks
  dsimp only
  rw [show SIM_MIN_ETU_TICKS = 8 from rfl, show SIM_MAX_ETU_TICKS = 65535 from rfl]
  split_ifs <;> omega

theorem level_at_uniform (etu : Nat) (tail : List (Bool × Nat)) :
    ∀ (levels : List Bool) (k offset : Nat), offset < etu → k < levels.length →
      level_at (levels.map (fun l => (l, etu)) ++ tail) (offset + k * etu)
        = levels.getD k true := by
  intro levels
  induction levels with
  | nil =>
    intro k offset _ hk
    simp at hk
  | cons l ls ih =>
    intro k offset ho hk
    cases k with
    | zero =>
      simp only [List.map_cons, List.cons_append, level_at, Nat.zero_mul, Nat.add_zero,
        if_pos ho, List.getD_cons_zero]
    | succ k =>
      have hge : ¬ offset + (k + 1) * etu < etu := by
        have : (k + 1) * etu = k * etu + etu := Nat.succ_mul k etu
        omega
      have hsub : offset + (k + 1) * etu - etu = offset + k * etu := by
        have : (k + 1) * etu = k * etu + etu := Nat.succ_mul k etu
        omega
      simp only [List.map_cons, List.cons_append, level_at, if_neg hge, hsub,
        List.getD_cons_succ]
      exact ih k offset ho (by simpa using hk)

/-! ## C30 -/

/-- C30: for every byte `d`, `sim_send_byte` returns `true` after holding on
the I/O line, one ETU each: low (start bit); bit 0 to bit 7 of `d`, least
significant first, released (high) for 1 and driven low for 0; the parity
level, the XOR of the eight data bits, so that data bits and parity bit hold an
even number of 1s; released (stop bit); the line then stays released for half
an ETU.  Sampled `offset < ETU` ticks into each of the eleven ETUs, the record
shows these eleven levels, and the sampling loop of `sim_receive_byte` (start
check, eight data bits, parity, stop) recovers `d` from them.  Half an ETU as
`sim_set_etu_ticks` computes it is such an offset. -/
theorem sim_send_byte_character (t : sim_transport) (d : Nat) (hd : d < 256) :
    (sim_send_byte t d).1 = true
      ∧ (sim_send_byte t d).2.tx_wire
          = t.tx_wire
            ++ [(false, (sim_ensure_etu t).sim_etu_ticks),
                (d.testBit 0, (sim_ensure_etu t).sim_etu_ticks),
                (d.testBit 1, (sim_ensure_etu t).sim_etu_ticks),
                (d.testBit 2, (sim_ensure_etu t).sim_etu_ticks),
                (d.testBit 3, (sim_ensure_etu t).sim_etu_ticks),
                (d.testBit 4, (sim_ensure_etu t).sim_etu_ticks),
                (d.testBit 5, (sim_ensure_etu t).sim_etu_ticks),
                (d.testBit 6, (sim_ensure_etu t).sim_etu_ticks),
                (d.testBit 7, (sim_ensure_etu t).sim_etu_ticks),
                (iso_parity d, (sim_ensure_etu t).sim_etu_ticks),
                (true, (sim_ensure_etu t).sim_etu_ticks),
                (true, (sim_ensure_etu t).sim_half_etu_ticks)]
      ∧ iso_parity d
          = xor (xor (xor (xor (xor (xor (xor (d.testBit 0) (d.testBit 1)) (d.testBit 2))
              (d.testBit 3)) (d.testBit 4)) (d.testBit 5)) (d.testBit 6)) (d.testBit 7)
      ∧ ([d.testBit 0, d.testBit 1, d.testBit 2, d.testBit 3, d.testBit 4, d.testBit 5,
          d.testBit 6, d.testBit 7, iso_parity d].count true) % 2 = 0
      ∧ (∀ k offset, k < 11 → offset < (sim_ensure_etu t).sim_etu_ticks →
          level_at (sent_bytes (sim_ensure_etu t).sim_etu_ticks
              (sim_ensure_etu t).sim_half_etu_ticks [d])
            (offset + k * (sim_ensure_etu t).sim_etu_ticks)
            = [false, d.testBit 0, d.testBit 1, d.testBit 2, d.testBit 3, d.testBit 4,
               d.testBit 5, d.testBit 6, d.testBit 7, iso_parity d, true].getD k true)
      ∧ (sim_receive_bits
            [false, d.testBit 0, d.testBit 1, d.testBit 2, d.testBit 3, d.testBit 4,
             d.testBit 5, d.testBit 6, d.testBit 7, iso_parity d, true] 8 0 0 0).1 = d
      ∧ (∀ (r : sim_transport) (rest : List line_event) (timeout_cycles : Nat),
          r.sim_rx_prefetch_count = 0 →
          (sim_receive_byte r
            (.frame [false, d.testBit 0, d.testBit 1, d.testBit 2, d.testBit 3, d.testBit 4,
               d.testBit 5, d.testBit 6, d.testBit 7, iso_parity d, true] :: rest)
            timeout_cycles).1 = some d)
      ∧ (∀ (r : sim_transport) (ticks : Nat),
          (sim_set_etu_ticks r ticks).sim_half_etu_ticks
            < (sim_set_etu_ticks r ticks).sim_etu_ticks) := by
  have hframe : iso_frame d
      = [false, d.testBit 0, d.testBit 1, d.testBit 2, d.testBit 3, d.testBit 4,
         d.testBit 5, d.testBit 6, d.testBit 7, iso_parity d, true] := rfl
  refine ⟨rfl, ?_, ?_, ?_, ?_, ?_, ?_, set_etu_half_lt⟩
  · rw [send_byte_eq t d hd, ensure_etu_wire]
    rfl
  · unfold iso_parity
    simp only [show List.range 8 = [0, 1, 2, 3, 4, 5, 6, 7] from rfl, List.foldl,
      Bool.false_xor]
  · have h := iso_frame_even d hd
    have hl : (List.range 8).map (fun i => d.testBit i) ++ [iso_parity d]
        = [d.testBit 0, d.testBit 1, d.testBit 2, d.testBit 3, d.testBit 4, d.testBit 5,
           d.testBit 6, d.testBit 7, iso_parity d] := rfl
    rw [hl] at h
    exact h
  · intro k offset hk ho
    rw [← hframe]
    have hs : sent_bytes (sim_ensure_etu t).sim_etu_ticks (sim_ensure_etu t).sim_half_etu_ticks [d]
        = (iso_frame d).map (fun l => (l, (sim_ensure_etu t).sim_etu_ticks))
          ++ [(true, (sim_ensure_etu t).sim_half_etu_ticks)] := by
      simp [sent_bytes]
    rw [hs]
    exact level_at_uniform _ _ _ k offset ho (by rw [hframe]; exact hk)
  · rw [← hframe, receive_bits_frame d hd]
  · intro r rest timeout_cycles hc
    rw [← hframe]
    have := receive_reader_byte r d rest timeout_cycles hc hd
    unfold reader_byte at this
    rw [this]

/-- C30, at an instance: the byte A5 sent on the line as `chip_init` leaves it
(ETU 93 ticks, half ETU 46): the levels held, and the byte a receiver samples
from them. -/
theorem sim_send_byte_character_witness :
    (sim_send_byte chip_init_transport 0xA5).2.tx_wire
        = [(false, 93), (true, 93), (false, 93), (true, 93), (false, 93), (false, 93),
           (true, 93), (false, 93), (true, 93), (false, 93), (true, 93), (true, 46)]
    ∧ (sim_receive_bits
        [false, true, false, true, false, false, true, false, true, false, true] 8 0 0 0).1
        = 0xA5 :=
  ⟨(sim_send_byte_character chip_init_transport 0xA5 (by decide)).2.1,
   (sim_send_byte_character chip_init_transport 0xA5 (by decide)).2.2.2.2.2.1⟩

/-! ## The prefetch buffer -/

theorem listen_fields (t : sim_transport) :
    (sim_io_release (sim_ensure_etu t)).sim_rx_prefetch_count = t.sim_rx_prefetch_count
      ∧ (sim_io_release (sim_ensure_etu t)).sim_rx_prefetch_buf = t.sim_rx_prefetch_buf
      ∧ (sim_io_release (sim_ensure_etu t)).sim_pps_processed = t.sim_pps_processed
      ∧ (sim_io_release (sim_ensure_etu t)).tx_wire = t.tx_wire
      ∧ (sim_io_release (sim_ensure_etu t)).sim_etu_ready = true
      ∧ (sim_io_release (sim_ensure_etu t)).io_pin = true := by
  unfold sim_ensure_etu
  split_ifs with h
  · exact ⟨rfl, rfl, rfl, rfl, h, rfl⟩
  · exact ⟨rfl, rfl, rfl, rfl, rfl, rfl⟩

theorem listen_idle (t : sim_transport) (hr : t.sim_etu_ready = true) (hp : t.io_pin = true) :
    sim_io_release (sim_ensure_etu t) = t := by
  rw [ensure_etu_ready t hr]
  unfold sim_io_release
  rw [← hp]

theorem prefetch_push_eq (t : sim_transport) (value : Nat)
    (h : t.sim_rx_prefetch_count < 8) :
    sim_prefetch_push t value
      = { t with
          sim_rx_prefetch_buf := t.sim_rx_prefetch_buf.set t.sim_rx_prefetch_count value
          sim_rx_prefetch_count := t.sim_rx_prefetch_count + 1 } := by
  unfold sim_prefetch_push
  rw [if_pos h]

theorem prefetch_push_bound (t : sim_transport) (value : Nat)
    (h : t.sim_rx_prefetch_count ≤ 8) :
    (sim_prefetch_push t value).sim_rx_prefetch_count ≤ 8 := by
  unfold sim_prefetch_push
  split_ifs with hc
  · show t.sim_rx_prefetch_count + 1 ≤ 8
    have : t.sim_rx_prefetch_count < 8 := hc
    omega
  · exact h

theorem prefetch_push_wire (t : sim_transport) (value : Nat) :
    (sim_prefetch_push t value).tx_wire = t.tx_wire
      ∧ (sim_prefetch_push t value).sim_etu_ticks = t.sim_etu_ticks
      ∧ (sim_prefetch_push t value).sim_half_etu_ticks = t.sim_half_etu_ticks
      ∧ (sim_prefetch_push t value).sim_quarter_etu_ticks = t.sim_quarter_etu_ticks
      ∧ (sim_prefetch_push t value).sim_etu_ready = t.sim_etu_ready
      ∧ (sim_prefetch_push t value).sim_pps_processed = t.sim_pps_processed
      ∧ (sim_prefetch_push t value).io_pin = t.io_pin := by
  unfold sim_prefetch_push
  split_ifs <;> exact ⟨rfl, rfl, rfl, rfl, rfl, rfl, rfl⟩

theorem foldl_push (values : List Nat) :
    ∀ t : sim_transport, t.sim_rx_prefetch_count + values.length ≤ 8 →
      t.sim_rx_prefetch_buf.length = 8 →
      (values.foldl sim_prefetch_push t).sim_rx_prefetch_count
          = t.sim_rx_prefetch_count + values.length
        ∧ (values.foldl sim_prefetch_push t).sim_rx_prefetch_buf.length = 8
        ∧ (∀ i, i < t.sim_rx_prefetch_count →
            rd (values.foldl sim_prefetch_push t).sim_rx_prefetch_buf i
              = rd t.sim_rx_prefetch_buf i)
        ∧ (∀ i, i < values.length →
            rd (values.foldl sim_prefetch_push t).sim_rx_prefetch_buf
                (t.sim_rx_prefetch_count + i) = rd values i)
        ∧ (values.foldl sim_prefetch_push t).tx_wire = t.tx_wire
        ∧ (values.foldl sim_prefetch_push t).sim_etu_ticks = t.sim_etu_ticks
        ∧ (values.foldl sim_prefetch_push t).sim_half_etu_ticks = t.sim_half_etu_ticks
        ∧ (values.foldl sim_prefetch_push t).sim_quarter_etu_ticks = t.sim_quarter_etu_ticks
        ∧ (values.foldl sim_prefetch_push t).sim_etu_ready = t.sim_etu_ready
        ∧ (values.foldl sim_prefetch_push t).sim_pps_processed = t.sim_pps_processed
        ∧ (values.foldl sim_prefetch_push t).io_pin = t.io_pin := by
  induction values with
  | nil =>
    intro t _ hl
    exact ⟨rfl, hl, fun _ _ => rfl, fun i hi => by simp at hi, rfl, rfl, rfl, rfl, rfl, rfl,
      rfl⟩
  | cons v vs ih =>
    intro t hc hl
    have hlen : (v :: vs).length = vs.length + 1 := rfl
    have hlt : t.sim_rx_prefetch_count < 8 := by omega
    have hpush := prefetch_push_eq t v hlt
    have hcount : (sim_prefetch_push t v).sim_rx_prefetch_count = t.sim_rx_prefetch_count + 1 := by
      rw [hpush]
    have hbuf : (sim_prefetch_push t v).sim_rx_prefetch_buf
        = t.sim_rx_prefetch_buf.set t.sim_rx_prefetch_count v := by
      rw [hpush]
    obtain ⟨w1, w2, w3, w4, w5, w6, w7⟩ := prefetch_push_wire t v
    obtain ⟨h1, h2, h3, h4, h5, h6, h7, h8, h9, h10, h11⟩ := ih (sim_prefetch_push t v)
      (by rw [hcount]; omega) (by rw [hbuf, List.length_set]; exact hl)
    rw [List.foldl_cons]
    refine ⟨?_, h2, ?_, ?_, h5.trans w1, h6.trans w2, h7.trans w3, h8.trans w4, h9.trans w5,
      h10.trans w6, h11.trans w7⟩
    · rw [h1, hcount, hlen]
      omega
    · intro i hi
      rw [h3 i (by rw [hcount]; omega), hbuf, rd_set, if_neg (by omega)]
    · intro i hi
      cases i with
      | zero =>
        rw [Nat.add_zero, h3 _ (by rw [hcount]; omega), hbuf, rd_set, if_pos ⟨rfl, by omega⟩]
        rfl
      | succ i =>
        have := h4 i (by rw [hlen] at hi; omega)
        rw [hcount] at this
        have e : t.sim_rx_prefetch_count + (i + 1) = t.sim_rx_prefetch_count + 1 + i := by omega
        rw [e, this]
        rfl

theorem rd_reverse (l : List Nat) (i : Nat) (h : i < l.length) :
    rd l.reverse i = rd l (l.length - 1 - i) := by
  rw [rd_eq_getElem _ _ (by rw [List.length_reverse]; exact h), List.getElem_reverse,
    rd_eq_getElem _ _ (by omega)]

theorem push_back_eq_foldl (t : sim_transport) (consumed : List Nat) :
    sim_pps_push_back t consumed = consumed.reverse.foldl sim_prefetch_push t := by
  have hmap : (List.range consumed.length).map (fun i => rd consumed (consumed.length - 1 - i))
      = consumed.reverse := by
    apply ext_rd
    · rw [List.length_map, List.length_range, List.length_reverse]
    · intro i hi
      rw [List.length_map, List.length_range] at hi
      rw [rd_range_map _ _ _ hi, rd_reverse _ _ hi]
  unfold sim_pps_push_back
  rw [← hmap, List.foldl_map]

theorem receive_bytes_pop (k : Nat) :
    ∀ (t : sim_transport) (line : List line_event), k ≤ t.sim_rx_prefetch_count →
      sim_receive_bytes k t line
        = ((List.range k).map
            (fun j => some (rd t.sim_rx_prefetch_buf (t.sim_rx_prefetch_count - 1 - j))),
           { t with sim_rx_prefetch_count := t.sim_rx_prefetch_count - k }, line) := by
  induction k with
  | zero =>
    intro t line _
    rfl
  | succ k ih =>
    intro t line hk
    have hpop := receive_prefetched t line 0 (by omega)
    unfold sim_receive_bytes
    rw [hpop]
    dsimp only
    rw [ih _ line (by show k ≤ t.sim_rx_prefetch_count - 1; omega)]
    refine Prod.ext ?_ (Prod.ext ?_ rfl)
    · dsimp only
      rw [List.range_succ_eq_map, List.map_cons, List.map_map]
      congr 1
      apply List.map_congr_left
      intro j _
      show some (rd t.sim_rx_prefetch_buf (t.sim_rx_prefetch_count - 1 - 1 - j))
        = some (rd t.sim_rx_prefetch_buf (t.sim_rx_prefetch_count - 1 - (j + 1)))
      congr 2
      omega
    · show ({ t with sim_rx_prefetch_count := t.sim_rx_prefetch_count - 1 - k } : sim_transport)
        = { t with sim_rx_prefetch_count := t.sim_rx_prefetch_count - (k + 1) }
      congr 1
      omega

/-- Bytes pushed back on an empty prefetch buffer come out of the following
`sim_receive_byte` calls in the order in which they were received, and no line
event is used up. -/
theorem push_back_drained (t : sim_transport) (consumed : List Nat) (line : List line_event)
    (hc : t.sim_rx_prefetch_count = 0) (hl : t.sim_rx_prefetch_buf.length = 8)
    (hn : consumed.length ≤ 8) (processed : Bool) :
    ({ sim_pps_push_back t consumed with sim_pps_processed := processed }
        : sim_transport).sim_rx_prefetch_count = consumed.length
      ∧ (sim_receive_bytes consumed.length
          { sim_pps_push_back t consumed with sim_pps_processed := processed } line).1
          = consumed.map some
      ∧ (sim_receive_bytes consumed.length
          { sim_pps_push_back t consumed with sim_pps_processed := processed } line).2.2 = line
      ∧ (sim_receive_bytes consumed.length
          { sim_pps_push_back t consumed with sim_pps_processed := processed }
          line).2.1.sim_rx_prefetch_count = 0
      ∧ ({ sim_pps_push_back t consumed with sim_pps_processed := processed }
          : sim_transport).tx_wire = t.tx_wire := by
  obtain ⟨h1, _, _, h4, h5, _⟩ := foldl_push consumed.reverse t
    (by rw [hc, List.length_reverse]; omega) hl
  rw [← push_back_eq_foldl, hc, Nat.zero_add, List.length_reverse] at h1
  rw [← push_back_eq_foldl] at h4 h5
  rw [hc] at h4
  have hcount : ({ sim_pps_push_back t consumed with sim_pps_processed := processed }
      : sim_transport).sim_rx_prefetch_count = consumed.length := h1
  rw [receive_bytes_pop consumed.length _ line (by rw [hcount])]
  refine ⟨h1, ?_, rfl, ?_, h5⟩
  · show (List.range consumed.length).map
        (fun j => some (rd (sim_pps_push_back t consumed).sim_rx_prefetch_buf
          ((sim_pps_push_back t consumed).sim_rx_prefetch_count - 1 - j)))
      = consumed.map some
    rw [h1]
    apply List.ext_getElem
    · rw [List.length_map, List.length_range, List.length_map]
    · intro j hj1 hj2
      rw [List.length_map, List.length_range] at hj1
      rw [List.getElem_map, List.getElem_map, List.getElem_range]
      congr 1
      have := h4 (consumed.length - 1 - j) (by rw [List.length_reverse]; omega)
      rw [Nat.zero_add] at this
      have e : consumed.length - 1 - (consumed.length - 1 - j) = j := by omega
      rw [this, rd_reverse _ _ (by omega), e, rd_eq_getElem _ _ hj1]
  · show (sim_pps_push_back t consumed).sim_rx_prefetch_count - consumed.length = 0
    rw [h1, Nat.sub_self]

/-! ## The PPS exchange -/

theorem pps_consume_short (consumed : List Nat) (b : Nat) (h : consumed.length < 6) :
    pps_consume consumed b = consumed ++ [b] := by
  unfold pps_consume
  rw [if_pos h]

theorem pps_optional_ok (idx : List Nat) (mask : Nat) :
    ∀ (s : pps_scan) (opts : List Nat) (rest : List line_event),
      s.transport.sim_rx_prefetch_count = 0 → s.transport.sim_etu_ready = true →
      s.transport.io_pin = true →
      (∀ b ∈ opts, b < 256) →
      opts.length = (idx.filter (fun i => decide (mask &&& (1 <<< i) ≠ 0))).length →
      s.optional_count + opts.length ≤ 3 → s.consumed.length + opts.length ≤ 6 →
      s.line = opts.map reader_byte ++ rest →
      sim_pps_optional idx mask s
        = .ok { transport := s.transport
                line := rest
                optional_count := s.optional_count + opts.length
                xor_acc := opts.foldl (fun a b => a ^^^ b) s.xor_acc
                consumed := s.consumed ++ opts } := by
  induction idx with
  | nil =>
    intro s opts rest _ _ _ _ hlen _ _ hline
    have hnil : opts = [] := List.length_eq_zero.mp hlen
    subst hnil
    unfold sim_pps_optional
    simp only [List.map_nil, List.nil_append] at hline
    rw [← hline]
    simp
  | cons i idx ih =>
    intro s opts rest hc hr hp hb hlen hcount hcons hline
    unfold sim_pps_optional
    by_cases hbit : mask &&& (1 <<< i) ≠ 0
    · rw [if_pos hbit]
      rw [List.filter_cons_of_pos (by simpa using hbit)] at hlen
      cases opts with
      | nil => simp at hlen
      | cons o opts =>
        have hlen' : opts.length
            = (idx.filter (fun i => decide (mask &&& (1 <<< i) ≠ 0))).length := by
          simpa using hlen
        have hl1 : (o :: opts).length = opts.length + 1 := rfl
        rw [hl1] at hcount hcons
        rw [if_neg (by omega), hline]
        simp only [List.map_cons, List.cons_append]
        rw [receive_reader_byte s.transport o _ _ hc (hb o (List.mem_cons_self _ _)),
          listen_idle s.transport hr hp]
        dsimp only
        have hih := ih
          { transport := s.transport
            line := opts.map reader_byte ++ rest
            optional_count := s.optional_count + 1
            xor_acc := s.xor_acc ^^^ o
            consumed := pps_consume s.consumed o }
          opts rest hc hr hp (fun b hm => hb b (List.mem_cons_of_mem _ hm)) hlen'
          (by dsimp only; omega)
          (by dsimp only; rw [pps_consume_short _ _ (by omega), List.length_append]
              simp only [List.length_singleton]; omega)
          rfl
        rw [hih]
        dsimp only
        rw [pps_consume_short _ _ (by omega)]
        simp only [List.foldl_cons, List.append_assoc, List.singleton_append, hl1]
        congr 2
        omega
    · rw [if_neg hbit]
      rw [List.filter_cons_of_neg (by simpa using hbit)] at hlen
      exact ih s opts rest hc hr hp hb hlen hcount hcons hline

theorem send_three (t : sim_transport) (a b c : Nat) (ha : a < 256) (hb : b < 256)
    (hc : c < 256) (hr : t.sim_etu_ready = true) :
    sim_send_byte (sim_send_byte (sim_send_byte t a).2 b).2 c
        = (true,
           { t with
             io_pin := true
             tx_wire := t.tx_wire ++ sent_bytes t.sim_etu_ticks t.sim_half_etu_ticks [a, b, c] })
      ∧ (sim_send_byte t a).1 = true
      ∧ (sim_send_byte (sim_send_byte t a).2 b).1 = true := by
  refine ⟨?_, rfl, rfl⟩
  rw [send_byte_ready t a ha hr]
  dsimp only
  rw [send_byte_ready
    { t with
      io_pin := true
      tx_wire := t.tx_wire ++ sent_bytes t.sim_etu_ticks t.sim_half_etu_ticks [a] } b hb hr]
  dsimp only
  rw [send_byte_ready
    { t with
      io_pin := true
      tx_wire := t.tx_wire ++ sent_bytes t.sim_etu_ticks t.sim_half_etu_ticks [a]
        ++ sent_bytes t.sim_etu_ticks t.sim_half_etu_ticks [b] } c hc hr]
  simp only [sent_bytes, List.flatMap_cons, List.flatMap_nil, List.append_nil,
    List.append_assoc]

theorem pps_mask_count :
    ∀ p < 32, 16 ≤ p →
      ([0, 1, 2].filter (fun i => decide ((p &&& 0x0F) &&& (1 <<< i) ≠ 0))).length
        = pps_optional_bytes p := by
  decide

theorem pps_optional_bytes_le (p : Nat) : pps_optional_bytes p ≤ 3 := by
  unfold pps_optional_bytes
  exact (List.length_filter_le _ _).trans (by simp)

theorem pps_not_ff (t : sim_transport) (first : Nat) (rest : List line_event)
    (hp : t.sim_pps_processed = false) (hc : t.sim_rx_prefetch_count = 0)
    (hb : first < 256) (hf : first ≠ 0xFF) :
    sim_handle_pps_sequence t (reader_byte first :: rest)
      = (true,
         { sim_pps_push_back (sim_io_release (sim_ensure_etu t)) [first] with
           sim_pps_processed := true },
         rest) := by
  unfold sim_handle_pps_sequence
  rw [if_neg (by simp [hp]), receive_reader_byte t first rest _ hc hb]
  dsimp only
  rw [if_pos hf]
  rfl

theorem pps_bad_pps0 (t : sim_transport) (pps0 : Nat) (rest : List line_event)
    (hp : t.sim_pps_processed = false) (hc : t.sim_rx_prefetch_count = 0)
    (hb : pps0 < 256) (hr : pps0 < 0x10 ∨ pps0 > 0x1F) :
    sim_handle_pps_sequence t (reader_byte 0xFF :: reader_byte pps0 :: rest)
      = (true,
         { sim_pps_push_back (sim_io_release (sim_ensure_etu t)) [0xFF, pps0] with
           sim_pps_processed := true },
         rest) := by
  obtain ⟨f1, _, _, _, f5, f6⟩ := listen_fields t
  unfold sim_handle_pps_sequence
  rw [if_neg (by simp [hp]), receive_reader_byte t 0xFF _ _ hc (by decide)]
  dsimp only
  rw [if_neg (by decide), receive_reader_byte _ pps0 rest _ (f1.trans hc) hb,
    listen_idle _ f5 f6]
  dsimp only
  rw [if_pos hr]
  rfl

theorem pps_scanned (t : sim_transport) (pps0 pck : Nat) (opts : List Nat)
    (rest : List line_event)
    (hp : t.sim_pps_processed = false) (hc : t.sim_rx_prefetch_count = 0)
    (hr : 0x10 ≤ pps0 ∧ pps0 ≤ 0x1F) (hn : opts.length = pps_optional_bytes pps0)
    (hb : ∀ b ∈ opts, b < 256) (hk : pck < 256) :
    sim_handle_pps_sequence t
        (reader_byte 0xFF :: reader_byte pps0 :: (opts.map reader_byte ++ reader_byte pck :: rest))
      = if opts.foldl (fun a b => a ^^^ b) (0xFF ^^^ pps0) ^^^ pck ≠ 0 then
          (true,
           { sim_pps_push_back (sim_io_release (sim_ensure_etu t))
               ([0xFF, pps0] ++ opts ++ [pck]) with
             sim_pps_processed := true },
           rest)
        else if pps0 &&& 0xF0 ≠ 0x10 then
          (true, { sim_io_release (sim_ensure_etu t) with sim_pps_processed := true }, rest)
        else if (pps0 &&& 0x0F) &&& 0x08 ≠ 0 then
          (true, { sim_io_release (sim_ensure_etu t) with sim_pps_processed := true }, rest)
        else if opts.length > 0 then
          (true, { sim_io_release (sim_ensure_etu t) with sim_pps_processed := true }, rest)
        else
          (true,
           { sim_io_release (sim_ensure_etu t) with
             sim_pps_processed := true
             tx_wire := t.tx_wire
               ++ sent_bytes (sim_ensure_etu t).sim_etu_ticks
                    (sim_ensure_etu t).sim_half_etu_ticks [0xFF, pps0, pck] },
           rest) := by
  obtain ⟨f1, _, _, f4, f5, f6⟩ := listen_fields t
  have h3 := pps_optional_bytes_le pps0
  have hopt := pps_optional_ok [0, 1, 2] (pps0 &&& 0x0F)
    { transport := sim_io_release (sim_ensure_etu t)
      line := opts.map reader_byte ++ reader_byte pck :: rest
      optional_count := 0
      xor_acc := 0xFF ^^^ pps0
      consumed := [0xFF, pps0] }
    opts (reader_byte pck :: rest) (f1.trans hc) f5 f6 hb
    (by rw [pps_mask_count pps0 (by omega) hr.1]; exact hn)
    (by dsimp only; omega) (by dsimp only; simp only [List.length_cons, List.length_nil]; omega)
    rfl
  unfold sim_handle_pps_sequence
  rw [if_neg (by simp [hp]), receive_reader_byte t 0xFF _ _ hc (by decide)]
  dsimp only
  rw [if_neg (by decide), receive_reader_byte _ pps0 _ _ (f1.trans hc) (by omega),
    listen_idle _ f5 f6]
  dsimp only
  rw [if_neg (by omega), pps_consume_short [0xFF] pps0 (by decide)]
  dsimp only [List.singleton_append, List.cons_append, List.nil_append]
  rw [hopt]
  dsimp only
  rw [receive_reader_byte _ pck rest _ (f1.trans hc) hk, listen_idle _ f5 f6]
  dsimp only
  rw [pps_consume_short _ _ (by
    simp only [List.length_append, List.length_cons, List.length_nil]; omega)]
  by_cases hx : opts.foldl (fun a b => a ^^^ b) (0xFF ^^^ pps0) ^^^ pck ≠ 0
  · rw [if_pos hx, if_pos hx]
    simp only [List.cons_append, List.nil_append, List.append_assoc]
  · rw [if_neg hx, if_neg hx]
    by_cases h1 : pps0 &&& 0xF0 ≠ 0x10
    · rw [if_pos h1, if_pos h1]
    · rw [if_neg h1, if_neg h1]
      by_cases h2 : (pps0 &&& 0x0F) &&& 0x08 ≠ 0
      · rw [if_pos h2, if_pos h2]
      · rw [if_neg h2, if_neg h2]
        by_cases h4 : opts.length > 0
        · rw [if_pos (by omega), if_pos h4]
        · rw [if_neg (by omega), if_neg h4]
          obtain ⟨s3, s1, s2⟩ := send_three
            { sim_io_release (sim_ensure_etu t) with sim_pps_processed := true }
            0xFF pps0 pck (by decide) (by omega) hk f5
          rw [s1, if_neg (by simp), s2, if_neg (by simp), s3]
          dsimp only
          rw [if_neg (by simp)]
          have hw : (sim_io_release (sim_ensure_etu t)).tx_wire = t.tx_wire := f4
          have ht : (sim_io_release (sim_ensure_etu t)).sim_etu_ticks
              = (sim_ensure_etu t).sim_etu_ticks := rfl
          have hh : (sim_io_release (sim_ensure_etu t)).sim_half_etu_ticks
              = (sim_ensure_etu t).sim_half_etu_ticks := rfl
          rw [hw, ht, hh]
          rfl

/-! ## The prefetch count never exceeds the capacity -/

theorem ensure_etu_count (t : sim_transport) :
    (sim_ensure_etu t).sim_rx_prefetch_count = t.sim_rx_prefetch_count := by
  unfold sim_ensure_etu
  split_ifs <;> rfl

theorem receive_count_le (t : sim_transport) (line : List line_event) (timeout_cycles : Nat) :
    (sim_receive_byte t line timeout_cycles).2.1.sim_rx_prefetch_count
      ≤ t.sim_rx_prefetch_count := by
  have hl : (sim_io_release (sim_ensure_etu t)).sim_rx_prefetch_count
      = t.sim_rx_prefetch_count := ensure_etu_count t
  unfold sim_receive_byte sim_prefetch_pop
  split_ifs with h0
  · dsimp only
    split
    · exact Nat.le_of_eq hl
    · exact Nat.le_of_eq hl
    · split_ifs
      · exact Nat.le_of_eq hl
      · exact Nat.le_of_eq hl
  · exact Nat.sub_le _ _

theorem foldl_push_bound (values : List Nat) :
    ∀ t : sim_transport, t.sim_rx_prefetch_count ≤ 8 →
      (values.foldl sim_prefetch_push t).sim_rx_prefetch_count ≤ 8 := by
  induction values with
  | nil =>
    intro t h
    exact h
  | cons v vs ih =>
    intro t h
    exact ih _ (prefetch_push_bound t v h)

theorem push_back_bound (t : sim_transport) (consumed : List Nat)
    (h : t.sim_rx_prefetch_count ≤ 8) :
    (sim_pps_push_back t consumed).sim_rx_prefetch_count ≤ 8 := by
  rw [push_back_eq_foldl]
  exact foldl_push_bound _ t h

theorem send_byte_count (t : sim_transport) (d : Nat) :
    (sim_send_byte t d).2.sim_rx_prefetch_count = t.sim_rx_prefetch_count := by
  obtain ⟨pin, hp⟩ := send_bits_state 8 d 0
    (sim_delay_ticks (sim_io_drive_low (sim_ensure_etu t)) (sim_ensure_etu t).sim_etu_ticks)
  unfold sim_send_byte
  dsimp only
  rw [hp]
  by_cases hq : (sim_send_bits 8 d 0
      (sim_delay_ticks (sim_io_drive_low (sim_ensure_etu t))
        (sim_ensure_etu t).sim_etu_ticks)).2 ≠ 0
  · rw [if_pos hq]
    simp only [sim_delay_ticks, sim_io_release, sim_io_drive_low]
    exact ensure_etu_count t
  · rw [if_neg hq]
    simp only [sim_delay_ticks, sim_io_release, sim_io_drive_low]
    exact ensure_etu_count t

theorem pps_optional_bound (idx : List Nat) (mask : Nat) :
    ∀ s : pps_scan, s.transport.sim_rx_prefetch_count ≤ 8 →
      (∀ s1, sim_pps_optional idx mask s = .ok s1 → s1.transport.sim_rx_prefetch_count ≤ 8)
      ∧ (∀ t1 line1, sim_pps_optional idx mask s = .error (t1, line1) →
          t1.sim_rx_prefetch_count ≤ 8) := by
  induction idx with
  | nil =>
    intro s h
    constructor
    · intro s1 h1
      unfold sim_pps_optional at h1
      cases h1
      exact h
    · intro t1 line1 h1
      unfold sim_pps_optional at h1
      cases h1
  | cons i idx ih =>
    intro s h
    have hr := receive_count_le s.transport s.line SIM_PPS_INTERBYTE_TIMEOUT
    rcases hrx : sim_receive_byte s.transport s.line SIM_PPS_INTERBYTE_TIMEOUT
      with ⟨o, t1, line1⟩
    rw [hrx] at hr
    have ht1 : t1.sim_rx_prefetch_count ≤ 8 := Nat.le_trans hr h
    unfold sim_pps_optional
    by_cases hbit : mask &&& (1 <<< i) ≠ 0
    · rw [if_pos hbit]
      by_cases hcnt : s.optional_count ≥ 3
      · rw [if_pos hcnt]
        constructor
        · intro s1 h1
          cases h1
          exact h
        · intro t2 line2 h1
          cases h1
      · rw [if_neg hcnt, hrx]
        cases o with
        | none =>
          dsimp only
          constructor
          · intro s1 h1
            cases h1
          · intro t2 line2 h1
            cases h1
            exact ht1
        | some b =>
          dsimp only
          exact ih _ ht1
    · rw [if_neg hbit]
      exact ih s h

theorem pps_bound (t : sim_transport) (line : List line_event)
    (h : t.sim_rx_prefetch_count ≤ 8) :
    (sim_handle_pps_sequence t line).2.1.sim_rx_prefetch_count ≤ 8 := by
  unfold sim_handle_pps_sequence
  by_cases hp : t.sim_pps_processed = true
  · rw [if_pos hp]
    exact h
  rw [if_neg hp]
  have hr1 := receive_count_le t line SIM_PPS_START_TIMEOUT
  rcases hrx1 : sim_receive_byte t line SIM_PPS_START_TIMEOUT with ⟨o1, t1, line1⟩
  rw [hrx1] at hr1
  have h1 : t1.sim_rx_prefetch_count ≤ 8 := Nat.le_trans hr1 h
  cases o1 with
  | none => exact h1
  | some first_byte =>
    dsimp only
    by_cases hf : first_byte ≠ 0xFF
    · rw [if_pos hf]
      exact prefetch_push_bound t1 first_byte h1
    rw [if_neg hf]
    have hr2 := receive_count_le t1 line1 SIM_PPS_INTERBYTE_TIMEOUT
    rcases hrx2 : sim_receive_byte t1 line1 SIM_PPS_INTERBYTE_TIMEOUT with ⟨o2, t2, line2⟩
    rw [hrx2] at hr2
    have h2 : t2.sim_rx_prefetch_count ≤ 8 := Nat.le_trans hr2 h1
    cases o2 with
    | none => exact prefetch_push_bound t2 first_byte h2
    | some pps0 =>
      dsimp only
      by_cases hrange : pps0 < 0x10 ∨ pps0 > 0x1F
      · rw [if_pos hrange]
        exact push_back_bound t2 _ h2
      rw [if_neg hrange]
      obtain ⟨hok, herr⟩ := pps_optional_bound [0, 1, 2] (pps0 &&& 0x0F)
        { transport := t2
          line := line2
          optional_count := 0
          xor_acc := first_byte ^^^ pps0
          consumed := pps_consume [first_byte] pps0 } h2
      cases hopt : sim_pps_optional [0, 1, 2] (pps0 &&& 0x0F)
        { transport := t2
          line := line2
          optional_count := 0
          xor_acc := first_byte ^^^ pps0
          consumed := pps_consume [first_byte] pps0 } with
      | error e =>
        obtain ⟨t3, line3⟩ := e
        exact herr t3 line3 hopt
      | ok s =>
        have h3 : s.transport.sim_rx_prefetch_count ≤ 8 := hok s hopt
        dsimp only
        have hr4 := receive_count_le s.transport s.line SIM_PPS_INTERBYTE_TIMEOUT
        rcases hrx4 : sim_receive_byte s.transport s.line SIM_PPS_INTERBYTE_TIMEOUT
          with ⟨o4, t4, line4⟩
        rw [hrx4] at hr4
        have h4 : t4.sim_rx_prefetch_count ≤ 8 := Nat.le_trans hr4 h3
        cases o4 with
        | none => exact h4
        | some pck =>
          dsimp only
          split_ifs
          · exact push_back_bound t4 _ h4
          · exact h4
          · exact h4
          · exact h4
          all_goals
            dsimp only
            simp only [send_byte_count]
            exact h4

theorem foldl_push_fields (values : List Nat) :
    ∀ t : sim_transport,
      (values.foldl sim_prefetch_push t).tx_wire = t.tx_wire
        ∧ (values.foldl sim_prefetch_push t).sim_etu_ticks = t.sim_etu_ticks
        ∧ (values.foldl sim_prefetch_push t).sim_half_etu_ticks = t.sim_half_etu_ticks
        ∧ (values.foldl sim_prefetch_push t).sim_quarter_etu_ticks = t.sim_quarter_etu_ticks
        ∧ (values.foldl sim_prefetch_push t).sim_etu_ready = t.sim_etu_ready
        ∧ (values.foldl sim_prefetch_push t).sim_pps_processed = t.sim_pps_processed
        ∧ (values.foldl sim_prefetch_push t).io_pin = t.io_pin := by
  induction values with
  | nil =>
    intro t
    exact ⟨rfl, rfl, rfl, rfl, rfl, rfl, rfl⟩
  | cons v vs ih =>
    intro t
    obtain ⟨w1, w2, w3, w4, w5, w6, w7⟩ := prefetch_push_wire t v
    obtain ⟨h1, h2, h3, h4, h5, h6, h7⟩ := ih (sim_prefetch_push t v)
    exact ⟨h1.trans w1, h2.trans w2, h3.trans w3, h4.trans w4, h5.trans w5, h6.trans w6,
      h7.trans w7⟩

theorem foldl_push_count (values : List Nat) :
    ∀ t : sim_transport, t.sim_rx_prefetch_count + values.length ≤ 8 →
      (values.foldl sim_prefetch_push t).sim_rx_prefetch_count
        = t.sim_rx_prefetch_count + values.length := by
  induction values with
  | nil =>
    intro t _
    rfl
  | cons v vs ih =>
    intro t hc
    have hlen : (v :: vs).length = vs.length + 1 := rfl
    have hcount : (sim_prefetch_push t v).sim_rx_prefetch_count
        = t.sim_rx_prefetch_count + 1 := by
      rw [prefetch_push_eq t v (by omega)]
    rw [List.foldl_cons, ih _ (by rw [hcount]; omega), hcount, hlen]
    omega

theorem push_back_fields (t : sim_transport) (consumed : List Nat) :
    (sim_pps_push_back t consumed).tx_wire = t.tx_wire
      ∧ (sim_pps_push_back t consumed).sim_etu_ticks = t.sim_etu_ticks
      ∧ (sim_pps_push_back t consumed).sim_half_etu_ticks = t.sim_half_etu_ticks
      ∧ (sim_pps_push_back t consumed).sim_quarter_etu_ticks = t.sim_quarter_etu_ticks
      ∧ (sim_pps_push_back t consumed).sim_etu_ready = t.sim_etu_ready
      ∧ (sim_pps_push_back t consumed).sim_pps_processed = t.sim_pps_processed
      ∧ (sim_pps_push_back t consumed).io_pin = t.io_pin := by
  rw [push_back_eq_foldl]
  exact foldl_push_fields _ t

theorem push_back_count (t : sim_transport) (consumed : List Nat)
    (h : t.sim_rx_prefetch_count + consumed.length ≤ 8) :
    (sim_pps_push_back t consumed).sim_rx_prefetch_count
      = t.sim_rx_prefetch_count + consumed.length := by
  rw [push_back_eq_foldl, foldl_push_count _ t (by rw [List.length_reverse]; exact h),
    List.length_reverse]

set_option maxRecDepth 100000 in
theorem pps_checksum_10 : ∀ pck < 256, ((0xFF ^^^ 0x10) ^^^ pck ≠ 0 ↔ pck ≠ 0xEF) := by
  decide

/-! ## C28 -/

/-- C28 as stated fails: with the transport as `chip_init` leaves it (PPS not
yet processed, prefetch buffer empty), when the first three bytes the reader
sends are FF 10 F1 the line does not carry the three characters FF 10 F1
afterwards; nothing at all was sent. -/
theorem pps_echo_counterexample :
    ¬ ((sim_handle_pps_sequence chip_init_transport
          [reader_byte 0xFF, reader_byte 0x10, reader_byte 0xF1]).2.1.tx_wire
        = sent_bytes SIM_DEFAULT_ETU_TICKS (SIM_DEFAULT_ETU_TICKS / 2) [0xFF, 0x10, 0xF1])
    ∧ (sim_handle_pps_sequence chip_init_transport
          [reader_byte 0xFF, reader_byte 0x10, reader_byte 0xF1]).2.1.tx_wire = [] := by
  decide

/-- C28, amended: after a reset (PPS not yet processed, prefetch buffer empty,
ETU set), if the first three bytes the reader sends are FF 10 and a PCK byte,
`sim_handle_pps_sequence` returns `true` with PPS marked processed and the ETU
parameters unchanged, and it sends the three bytes back exactly when PCK is EF,
the value that makes the XOR of the three bytes zero: for FF 10 EF the line
carries the characters FF, 10, EF and the prefetch buffer stays empty; for any
other PCK, FF 10 F1 included, nothing is sent and the three bytes are pushed
back. -/
theorem pps_echo (t : sim_transport) (pck : Nat) (rest : List line_event)
    (hp : t.sim_pps_processed = false) (hc : t.sim_rx_prefetch_count = 0)
    (hr : t.sim_etu_ready = true) (hk : pck < 256) :
    (sim_handle_pps_sequence t
        (reader_byte 0xFF :: reader_byte 0x10 :: reader_byte pck :: rest)).1 = true
      ∧ (sim_handle_pps_sequence t
          (reader_byte 0xFF :: reader_byte 0x10 :: reader_byte pck :: rest)).2.2 = rest
      ∧ (sim_handle_pps_sequence t
          (reader_byte 0xFF :: reader_byte 0x10 :: reader_byte pck :: rest)).2.1.sim_pps_processed
          = true
      ∧ (sim_handle_pps_sequence t
          (reader_byte 0xFF :: reader_byte 0x10 :: reader_byte pck :: rest)).2.1.sim_etu_ticks
          = t.sim_etu_ticks
      ∧ (sim_handle_pps_sequence t
          (reader_byte 0xFF :: reader_byte 0x10 :: reader_byte pck :: rest)).2.1.sim_half_etu_ticks
          = t.sim_half_etu_ticks
      ∧ (sim_handle_pps_sequence t
          (reader_byte 0xFF :: reader_byte 0x10
            :: reader_byte pck :: rest)).2.1.sim_quarter_etu_ticks
          = t.sim_quarter_etu_ticks
      ∧ (pck = 0xEF →
          (sim_handle_pps_sequence t
              (reader_byte 0xFF :: reader_byte 0x10 :: reader_byte pck :: rest)).2.1.tx_wire
            = t.tx_wire ++ sent_bytes t.sim_etu_ticks t.sim_half_etu_ticks [0xFF, 0x10, 0xEF]
          ∧ (sim_handle_pps_sequence t
              (reader_byte 0xFF :: reader_byte 0x10
                :: reader_byte pck :: rest)).2.1.sim_rx_prefetch_count = 0)
      ∧ (pck ≠ 0xEF →
          (sim_handle_pps_sequence t
              (reader_byte 0xFF :: reader_byte 0x10 :: reader_byte pck :: rest)).2.1.tx_wire
            = t.tx_wire
          ∧ (sim_handle_pps_sequence t
              (reader_byte 0xFF :: reader_byte 0x10
                :: reader_byte pck :: rest)).2.1.sim_rx_prefetch_count = 3) := by
  have hs := pps_scanned t 0x10 pck [] rest hp hc (by decide) (by decide)
    (fun b hb => by cases hb) hk
  simp only [List.map_nil, List.nil_append, List.foldl_nil, List.length_nil, List.append_nil]
    at hs
  have hx := pps_checksum_10 pck hk
  rw [ensure_etu_ready t hr] at hs
  by_cases he : pck = 0xEF
  · rw [if_neg (by rw [hx]; simp [he]), if_neg (by decide), if_neg (by decide),
      if_neg (by decide)] at hs
    rw [hs]
    refine ⟨rfl, rfl, rfl, rfl, rfl, rfl, ?_, fun h => absurd he h⟩
    intro _
    subst he
    exact ⟨rfl, hc⟩
  · rw [if_pos (hx.mpr he)] at hs
    rw [hs]
    obtain ⟨q1, q2, q3, q4, _, _, _⟩ := push_back_fields (sim_io_release t) ([0xFF, 0x10] ++ [pck])
    have q5 := push_back_count (sim_io_release t) ([0xFF, 0x10] ++ [pck])
      (by rw [show (sim_io_release t).sim_rx_prefetch_count = 0 from hc]; exact Nat.le_of_ble_eq_true rfl)
    refine ⟨rfl, rfl, rfl, q2, q3, q4, fun h => absurd h he, ?_⟩
    intro _
    refine ⟨q1, ?_⟩
    rw [show (sim_io_release t).sim_rx_prefetch_count = 0 from hc] at q5
    exact q5

/-- C28 amended, at instances: with the transport as `chip_init` leaves it, the
bytes FF 10 EF put the characters FF, 10, EF on the line (ETU 93 ticks, half
ETU 46); the bytes FF 10 F1 leave three bytes in the prefetch buffer. -/
theorem pps_echo_witness :
    (sim_handle_pps_sequence chip_init_transport
        [reader_byte 0xFF, reader_byte 0x10, reader_byte 0xEF]).2.1.tx_wire
      = sent_bytes 93 46 [0xFF, 0x10, 0xEF]
    ∧ (sim_handle_pps_sequence chip_init_transport
        [reader_byte 0xFF, reader_byte 0x10, reader_byte 0xF1]).2.1.sim_rx_prefetch_count = 3 :=
  ⟨((pps_echo chip_init_transport 0xEF [] (by decide) (by decide) (by decide)
      (by decide)).2.2.2.2.2.2.1 rfl).1,
   ((pps_echo chip_init_transport 0xF1 [] (by decide) (by decide) (by decide)
      (by decide)).2.2.2.2.2.2.2 (by decide)).2⟩

theorem pushed_back_drained (t : sim_transport) (consumed : List Nat) (rest : List line_event)
    (hc : t.sim_rx_prefetch_count = 0)
    (hl : t.sim_rx_prefetch_buf.length = SIM_PREFETCH_CAPACITY) (hn : consumed.length ≤ 8) :
    ({ sim_pps_push_back (sim_io_release (sim_ensure_etu t)) consumed with
        sim_pps_processed := true } : sim_transport).tx_wire = t.tx_wire
      ∧ ({ sim_pps_push_back (sim_io_release (sim_ensure_etu t)) consumed with
          sim_pps_processed := true } : sim_transport).sim_rx_prefetch_count = consumed.length
      ∧ (sim_receive_bytes consumed.length
          { sim_pps_push_back (sim_io_release (sim_ensure_etu t)) consumed with
            sim_pps_processed := true } rest).1 = consumed.map some
      ∧ (sim_receive_bytes consumed.length
          { sim_pps_push_back (sim_io_release (sim_ensure_etu t)) consumed with
            sim_pps_processed := true } rest).2.2 = rest
      ∧ (sim_receive_bytes consumed.length
          { sim_pps_push_back (sim_io_release (sim_ensure_etu t)) consumed with
            sim_pps_processed := true } rest).2.1.sim_rx_prefetch_count = 0 := by
  obtain ⟨f1, f2, _, f4, _, _⟩ := listen_fields t
  obtain ⟨d1, d2, d3, d4, d5⟩ := push_back_drained (sim_io_release (sim_ensure_etu t)) consumed
    rest (f1.trans hc) (f2.symm ▸ hl) hn true
  exact ⟨d5.trans f4, d1, d2, d3, d4⟩

/-! ## C29 -/

/-- C29: starting with PPS not yet processed and an empty prefetch buffer (of
capacity 8), whenever `sim_handle_pps_sequence` rejects what it read, because
the first byte is not FF, or PPS0 is outside 10..1F, or the XOR of FF, PPS0,
the optional bytes PPS0 announces and PCK is not zero, it returns `true`
having sent nothing, and the following calls of `sim_receive_byte`, as many as
bytes were read, return exactly those bytes in the order the reader sent them,
using up no further line event.  Whatever the line carries, the prefetch count
stays at most 8 through `sim_prefetch_push`, `sim_receive_byte` and
`sim_handle_pps_sequence`. -/
theorem pps_rejected_pushed_back (t : sim_transport)
    (hp : t.sim_pps_processed = false) (hc : t.sim_rx_prefetch_count = 0)
    (hl : t.sim_rx_prefetch_buf.length = SIM_PREFETCH_CAPACITY) :
    (∀ (first : Nat) (rest : List line_event), first < 256 → first ≠ 0xFF →
      (sim_handle_pps_sequence t (reader_byte first :: rest)).1 = true
      ∧ (sim_handle_pps_sequence t (reader_byte first :: rest)).2.1.tx_wire = t.tx_wire
      ∧ (sim_handle_pps_sequence t (reader_byte first :: rest)).2.2 = rest
      ∧ (sim_receive_bytes 1
          (sim_handle_pps_sequence t (reader_byte first :: rest)).2.1 rest).1 = [some first]
      ∧ (sim_receive_bytes 1
          (sim_handle_pps_sequence t (reader_byte first :: rest)).2.1 rest).2.2 = rest)
    ∧ (∀ (pps0 : Nat) (rest : List line_event), pps0 < 256 → (pps0 < 0x10 ∨ pps0 > 0x1F) →
      (sim_handle_pps_sequence t (reader_byte 0xFF :: reader_byte pps0 :: rest)).1 = true
      ∧ (sim_handle_pps_sequence t (reader_byte 0xFF :: reader_byte pps0 :: rest)).2.1.tx_wire
          = t.tx_wire
      ∧ (sim_handle_pps_sequence t (reader_byte 0xFF :: reader_byte pps0 :: rest)).2.2 = rest
      ∧ (sim_receive_bytes 2
          (sim_handle_pps_sequence t (reader_byte 0xFF :: reader_byte pps0 :: rest)).2.1
          rest).1 = [some 0xFF, some pps0]
      ∧ (sim_receive_bytes 2
          (sim_handle_pps_sequence t (reader_byte 0xFF :: reader_byte pps0 :: rest)).2.1
          rest).2.2 = rest)
    ∧ (∀ (pps0 pck : Nat) (opts : List Nat) (rest : List line_event),
      0x10 ≤ pps0 → pps0 ≤ 0x1F → opts.length = pps_optional_bytes pps0 →
      (∀ b ∈ opts, b < 256) → pck < 256 →
      opts.foldl (fun a b => a ^^^ b) (0xFF ^^^ pps0) ^^^ pck ≠ 0 →
      (sim_handle_pps_sequence t
          (reader_byte 0xFF :: reader_byte pps0
            :: (opts.map reader_byte ++ reader_byte pck :: rest))).1 = true
      ∧ (sim_handle_pps_sequence t
          (reader_byte 0xFF :: reader_byte pps0
            :: (opts.map reader_byte ++ reader_byte pck :: rest))).2.1.tx_wire = t.tx_wire
      ∧ (sim_handle_pps_sequence t
          (reader_byte 0xFF :: reader_byte pps0
            :: (opts.map reader_byte ++ reader_byte pck :: rest))).2.2 = rest
      ∧ (sim_receive_bytes (2 + opts.length + 1)
          (sim_handle_pps_sequence t
            (reader_byte 0xFF :: reader_byte pps0
              :: (opts.map reader_byte ++ reader_byte pck :: rest))).2.1
          rest).1 = ([0xFF, pps0] ++ opts ++ [pck]).map some
      ∧ (sim_receive_bytes (2 + opts.length + 1)
          (sim_handle_pps_sequence t
            (reader_byte 0xFF :: reader_byte pps0
              :: (opts.map reader_byte ++ reader_byte pck :: rest))).2.1
          rest).2.2 = rest)
    ∧ (∀ (u : sim_transport) (line : List line_event) (value timeout_cycles : Nat),
      u.sim_rx_prefetch_count ≤ SIM_PREFETCH_CAPACITY →
      (sim_prefetch_push u value).sim_rx_prefetch_count ≤ SIM_PREFETCH_CAPACITY
      ∧ (sim_receive_byte u line timeout_cycles).2.1.sim_rx_prefetch_count
          ≤ SIM_PREFETCH_CAPACITY
      ∧ (sim_handle_pps_sequence u line).2.1.sim_rx_prefetch_count ≤ SIM_PREFETCH_CAPACITY) := by
  refine ⟨?_, ?_, ?_, ?_⟩
  · intro first rest hb hf
    rw [pps_not_ff t first rest hp hc hb hf]
    obtain ⟨d1, _, d3, d4, _⟩ := pushed_back_drained t [first] rest hc hl
      (Nat.le_of_ble_eq_true rfl)
    exact ⟨rfl, d1, rfl, d3, d4⟩
  · intro pps0 rest hb hr
    rw [pps_bad_pps0 t pps0 rest hp hc hb hr]
    obtain ⟨d1, _, d3, d4, _⟩ := pushed_back_drained t [0xFF, pps0] rest hc hl
      (Nat.le_of_ble_eq_true rfl)
    exact ⟨rfl, d1, rfl, d3, d4⟩
  · intro pps0 pck opts rest h1 h2 hn hb hk hx
    have h3 := pps_optional_bytes_le pps0
    rw [pps_scanned t pps0 pck opts rest hp hc ⟨h1, h2⟩ hn hb hk, if_pos hx]
    have hlen : ([0xFF, pps0] ++ opts ++ [pck]).length = 2 + opts.length + 1 := by
      simp only [List.length_append, List.length_cons, List.length_nil]
    obtain ⟨d1, _, d3, d4, _⟩ := pushed_back_drained t ([0xFF, pps0] ++ opts ++ [pck]) rest hc hl
      (by rw [hlen]; omega)
    rw [hlen] at d3 d4
    exact ⟨rfl, d1, rfl, d3, d4⟩
  · intro u line value timeout_cycles hu
    exact ⟨prefetch_push_bound u value hu,
      Nat.le_trans (receive_count_le u line timeout_cycles) hu, pps_bound u line hu⟩

/-- C29, at instances, with the transport as `chip_init` leaves it: the APDU
header byte A0 is handed back by the next `sim_receive_byte`; so are FF 20; and
so are FF 11 22 33 (PPS0 = 11 announces one optional byte; the XOR is DD), in
the order received. -/
theorem pps_rejected_pushed_back_witness :
    (sim_receive_bytes 1
        (sim_handle_pps_sequence chip_init_transport [reader_byte 0xA0, reader_byte 0xA4]).2.1
        [reader_byte 0xA4]).1 = [some 0xA0]
    ∧ (sim_receive_bytes 2
        (sim_handle_pps_sequence chip_init_transport [reader_byte 0xFF, reader_byte 0x20]).2.1
        []).1 = [some 0xFF, some 0x20]
    ∧ (sim_receive_bytes 4
        (sim_handle_pps_sequence chip_init_transport
          [reader_byte 0xFF, reader_byte 0x11, reader_byte 0x22, reader_byte 0x33]).2.1
        []).1 = [some 0xFF, some 0x11, some 0x22, some 0x33] :=
  ⟨((pps_rejected_pushed_back chip_init_transport (by decide) (by decide) (by decide)).1
      0xA0 [reader_byte 0xA4] (by decide) (by decide)).2.2.2.1,
   ((pps_rejected_pushed_back chip_init_transport (by decide) (by decide) (by decide)).2.1
      0x20 [] (by decide) (by decide)).2.2.2.1,
   ((pps_rejected_pushed_back chip_init_transport (by decide) (by decide) (by decide)).2.2.1
      0x11 0x33 [0x22] [] (by decide) (by decide) (by decide) (by decide) (by decide)
      (by decide)).2.2.2.1⟩

/-! ## Clock measurement -/

theorem clk_spin_change (clk : Nat → Bool) (level : Bool) (guard i : Nat)
    (h : clk i ≠ level) : sim_clk_spin clk level guard i = (guard, i + 1) := by
  cases guard with
  | zero => simp [sim_clk_spin, h]
  | succ g => simp [sim_clk_spin, h]

theorem clk_spin_hold (clk : Nat → Bool) (level : Bool) :
    ∀ (n guard i : Nat), (∀ j, j < n → clk (i + j) = level) →
      sim_clk_spin clk level (guard + n) i = sim_clk_spin clk level guard (i + n) := by
  intro n
  induction n with
  | zero => intro guard i _; rfl
  | succ n ih =>
    intro guard i h
    have h0 : clk i = level := by simpa using h 0 (Nat.succ_pos n)
    have e : guard + (n + 1) = (guard + n) + 1 := by omega
    rw [e, sim_clk_spin, if_pos h0, ih guard (i + 1) (fun j hj => by
      have := h (j + 1) (by omega)
      rwa [show i + 1 + j = i + (j + 1) by omega])]
    rw [show i + 1 + n = i + (n + 1) by omega]

theorem clk_spin_exhausted (clk : Nat → Bool) (level : Bool) (guard i : Nat)
    (h : ∀ j, j ≤ guard → clk (i + j) = level) :
    sim_clk_spin clk level guard i = (4294967295, i + guard + 1) := by
  have e := clk_spin_hold clk level guard 0 i (fun j hj => h j (by omega))
  rw [Nat.zero_add] at e
  rw [e, sim_clk_spin, if_pos (h guard (Nat.le_refl guard))]

theorem clk_spin_late (clk : Nat → Bool) (level : Bool) (guard i : Nat)
    (h : ∀ j, j < guard → clk (i + j) = level) (hc : clk (i + guard) ≠ level) :
    sim_clk_spin clk level guard i = (0, i + guard + 1) := by
  have e := clk_spin_hold clk level guard 0 i h
  rw [Nat.zero_add] at e
  rw [e, clk_spin_change clk level 0 (i + guard) hc]

theorem clk_spin_zero_iff (clk : Nat → Bool) (level : Bool) :
    ∀ (guard i : Nat), guard < 4294967296 →
      ((sim_clk_spin clk level guard i).1 = 0
        ↔ (∀ j, j < guard → clk (i + j) = level) ∧ clk (i + guard) ≠ level) := by
  intro guard
  induction guard with
  | zero =>
    intro i _
    by_cases h : clk i = level
    · simp [sim_clk_spin, h]
    · simp [sim_clk_spin, h]
  | succ g ih =>
    intro i hg
    by_cases h : clk i = level
    · rw [sim_clk_spin, if_pos h, ih (i + 1) (by omega)]
      constructor
      · rintro ⟨h1, h2⟩
        refine ⟨?_, ?_⟩
        · intro j hj
          cases j with
          | zero => exact h
          | succ j =>
            have := h1 j (by omega)
            rwa [show i + 1 + j = i + (j + 1) by omega] at this
        · rwa [show i + 1 + g = i + (g + 1) by omega] at h2
      · rintro ⟨h1, h2⟩
        refine ⟨?_, ?_⟩
        · intro j hj
          have := h1 (j + 1) (by omega)
          rwa [show i + (j + 1) = i + 1 + j by omega] at this
        · rwa [show i + (g + 1) = i + 1 + g by omega] at h2
    · rw [sim_clk_spin, if_neg h]
      constructor
      · intro h0
        exact absurd h0 (Nat.succ_ne_zero g)
      · rintro ⟨h1, _⟩
        exact absurd (h1 0 (Nat.succ_pos g)) h

theorem measure_stuck (level : Bool) (th0 tl0 : Nat) :
    sim_measure_clock_period (clk_stuck level) th0 tl0 = ((th0 <<< 8) ||| tl0) % 4294967296 := by
  have hs : ∀ i, sim_clk_spin (clk_stuck level) level SIM_MEASURE_GUARD i
      = (4294967295, i + SIM_MEASURE_GUARD + 1) :=
    fun i => clk_spin_exhausted _ _ _ _ (fun _ _ => rfl)
  have hn : ∀ i, sim_clk_spin (clk_stuck level) (!level) SIM_MEASURE_GUARD i
      = (SIM_MEASURE_GUARD, i + 1) :=
    fun i => clk_spin_change _ _ _ _ (by cases level <;> simp [clk_stuck])
  cases level with
  | true =>
    have hn1 := hn
    simp only [Bool.not_true] at hn1
    simp only [sim_measure_clock_period, hs, hn1]
    simp
  | false =>
    have hn1 := hn
    simp only [Bool.not_false] at hn1
    simp only [sim_measure_clock_period, hs, hn1]
    simp

theorem measure_late (th0 tl0 : Nat) :
    sim_measure_clock_period (clk_late true) th0 tl0 = 0 := by
  have h1 : sim_clk_spin (clk_late true) true SIM_MEASURE_GUARD 0
      = (0, 0 + SIM_MEASURE_GUARD + 1) := by
    refine clk_spin_late _ _ _ _ ?_ ?_
    · intro j hj
      simp only [clk_late, Nat.zero_add, if_pos hj]
    · simp [clk_late]
  simp only [sim_measure_clock_period, h1]
  simp

theorem measure_toggle (th0 tl0 : Nat) :
    sim_measure_clock_period clk_toggle th0 tl0 = ((th0 <<< 8) ||| tl0) % 4294967296 := by
  have h1 : sim_clk_spin clk_toggle true SIM_MEASURE_GUARD 0 = (SIM_MEASURE_GUARD, 1) :=
    clk_spin_change _ _ _ _ (by decide)
  have h2 : sim_clk_spin clk_toggle false SIM_MEASURE_GUARD 1 = (SIM_MEASURE_GUARD, 2) :=
    clk_spin_change _ _ _ _ (by decide)
  have h3 : sim_clk_spin clk_toggle true SIM_MEASURE_GUARD 2 = (SIM_MEASURE_GUARD, 3) :=
    clk_spin_change _ _ _ _ (by decide)
  have h4 : sim_clk_spin clk_toggle false SIM_MEASURE_GUARD 3 = (SIM_MEASURE_GUARD, 4) :=
    clk_spin_change _ _ _ _ (by decide)
  simp only [sim_measure_clock_period, h1, h2, h3, h4]
  simp

theorem update_clock_failed (t : sim_transport) (clk : Nat → Bool) (th0 tl0 : Nat)
    (h : sim_measure_clock_period clk th0 tl0 = 0) :
    sim_update_clock_from_reader t clk th0 tl0
      = if t.sim_etu_ready = false then
          { sim_set_etu_ticks t SIM_DEFAULT_ETU_TICKS with sim_etu_ready := true }
        else t := by
  simp only [sim_update_clock_from_reader, h, ne_eq, not_true_eq_false, if_false]

theorem update_clock_measured (t : sim_transport) (clk : Nat → Bool) (th0 tl0 : Nat)
    (h : sim_measure_clock_period clk th0 tl0 ≠ 0) :
    sim_update_clock_from_reader t clk th0 tl0
      = { sim_set_etu_ticks t ((sim_measure_clock_period clk th0 tl0 * 372) % 4294967296) with
          sim_etu_ready := true } := by
  simp only [sim_update_clock_from_reader, ne_eq, h, not_false_eq_true, if_true]

/-! ## C31 -/

/-- C31 (as amended): on a reset in which the clock measurement fails
(`sim_measure_clock_period` returns 0), `sim_update_clock_from_reader` leaves
the transport exactly as it was whenever an ETU had been set before
(`sim_etu_ready`, which `chip_init` sets), so the ETU in force before the reset
stays in force; it installs the default of 93 ticks, with half-ETU 46 and
quarter-ETU 23, only when no ETU had been set.  After `chip_init` alone the
ETU is, and stays, 93/46/23.  The same holds of `sim_prepare_after_reset`. -/
theorem clock_fallback (t : sim_transport) (clk : Nat → Bool) (th0 tl0 : Nat)
    (h : sim_measure_clock_period clk th0 tl0 = 0) :
    (t.sim_etu_ready = true → sim_update_clock_from_reader t clk th0 tl0 = t)
    ∧ (t.sim_etu_ready = true →
        (sim_prepare_after_reset t clk th0 tl0).sim_etu_ticks = t.sim_etu_ticks
        ∧ (sim_prepare_after_reset t clk th0 tl0).sim_half_etu_ticks = t.sim_half_etu_ticks
        ∧ (sim_prepare_after_reset t clk th0 tl0).sim_quarter_etu_ticks
            = t.sim_quarter_etu_ticks)
    ∧ (t.sim_etu_ready = false →
        (sim_update_clock_from_reader t clk th0 tl0).sim_etu_ticks = 93
        ∧ (sim_update_clock_from_reader t clk th0 tl0).sim_half_etu_ticks = 46
        ∧ (sim_update_clock_from_reader t clk th0 tl0).sim_quarter_etu_ticks = 23
        ∧ (sim_update_clock_from_reader t clk th0 tl0).sim_etu_ready = true)
    ∧ (sim_update_clock_from_reader chip_init_transport clk th0 tl0).sim_etu_ticks = 93
    ∧ (sim_update_clock_from_reader chip_init_transport clk th0 tl0).sim_half_etu_ticks = 46
    ∧ (sim_update_clock_from_reader chip_init_transport clk th0 tl0).sim_quarter_etu_ticks
        = 23 := by
  have e := update_clock_failed
  refine ⟨?_, ?_, ?_, ?_, ?_, ?_⟩
  · intro hr
    rw [e t clk th0 tl0 h, if_neg (by simp [hr])]
  · intro hr
    have e1 : sim_update_clock_from_reader t clk th0 tl0 = t := by
      rw [e t clk th0 tl0 h, if_neg (by simp [hr])]
    simp only [sim_prepare_after_reset, e1]
    exact ⟨rfl, rfl, rfl⟩
  · intro hr
    rw [e t clk th0 tl0 h, if_pos hr]
    exact ⟨rfl, rfl, rfl, rfl⟩
  · rw [e chip_init_transport clk th0 tl0 h]; rfl
  · rw [e chip_init_transport clk th0 tl0 h]; rfl
  · rw [e chip_init_transport clk th0 tl0 h]; rfl

theorem clock_fallback_witness :
    sim_measure_clock_period (clk_late true) 0x12 0x34 = 0
    ∧ sim_update_clock_from_reader chip_init_transport (clk_late true) 0x12 0x34
        = chip_init_transport :=
  ⟨measure_late 0x12 0x34,
   (clock_fallback chip_init_transport (clk_late true) 0x12 0x34 (measure_late 0x12 0x34)).1
     rfl⟩

/-- C31, counterexample to the claim as stated: a reset after `chip_init`
measures a period of 2 timer ticks, which sets the ETU to 744 ticks; at the
next reset the measurement returns 0 (the clock leaves the high level only at
the read that finds the guard counter at 0) and the ETU stays 744, with
half-ETU 372 and quarter-ETU 186, not 93/46/23. -/
theorem clock_fallback_counterexample :
    sim_measure_clock_period clk_toggle 0 2 = 2
    ∧ (sim_update_clock_from_reader chip_init_transport clk_toggle 0 2).sim_etu_ticks = 744
    ∧ sim_measure_clock_period (clk_late true) 0x12 0x34 = 0
    ∧ (sim_update_clock_from_reader
        (sim_update_clock_from_reader chip_init_transport clk_toggle 0 2)
        (clk_late true) 0x12 0x34).sim_etu_ticks = 744
    ∧ (sim_update_clock_from_reader
        (sim_update_clock_from_reader chip_init_transport clk_toggle 0 2)
        (clk_late true) 0x12 0x34).sim_half_etu_ticks = 372
    ∧ (sim_update_clock_from_reader
        (sim_update_clock_from_reader chip_init_transport clk_toggle 0 2)
        (clk_late true) 0x12 0x34).sim_quarter_etu_ticks = 186 := by
  have hm : sim_measure_clock_period clk_toggle 0 2 = 2 := by
    rw [measure_toggle]; rfl
  have h1 : sim_update_clock_from_reader chip_init_transport clk_toggle 0 2
      = { sim_set_etu_ticks chip_init_transport 744 with sim_etu_ready := true } := by
    rw [update_clock_measured _ _ _ _ (by rw [hm]; decide), hm]
  have h2 : ∀ t : sim_transport, t.sim_etu_ready = true →
      sim_update_clock_from_reader t (clk_late true) 0x12 0x34 = t := by
    intro t hr
    rw [update_clock_failed t _ _ _ (measure_late 0x12 0x34), if_neg (by simp [hr])]
  refine ⟨hm, ?_, measure_late 0x12 0x34, ?_, ?_, ?_⟩
  · rw [h1]; rfl
  · rw [h1, h2 _ rfl]; rfl
  · rw [h1, h2 _ rfl]; rfl
  · rw [h1, h2 _ rfl]; rfl

/-! ## C32 -/

/-- C32: with the reader clock stuck at one level, every guarded spin of
`sim_measure_clock_period` that waits for that level to change runs until
`guard-- != 0UL` fails, which leaves the counter at `0xFFFFFFFF`, not at 0; the
tests `guard == 0UL` therefore do not fire and the function returns the
contents of the timer registers, `(TH0 << 8) | TL0`, instead of 0: with
`TH0 = 0x12` and `TL0 = 0x34` it returns `0x1234`. -/
theorem clock_stuck_not_reported :
    (∀ (level : Bool) (th0 tl0 : Nat),
      sim_measure_clock_period (clk_stuck level) th0 tl0
        = ((th0 <<< 8) ||| tl0) % 4294967296)
    ∧ sim_measure_clock_period (clk_stuck true) 0x12 0x34 = 0x1234
    ∧ sim_measure_clock_period (clk_stuck false) 0x12 0x34 = 0x1234
    ∧ sim_clk_spin (clk_stuck true) true SIM_MEASURE_GUARD 0 = (0xFFFFFFFF, 200001)
    ∧ (sim_update_clock_from_reader chip_init_transport (clk_stuck true) 0x12
        0x34).sim_etu_ticks = 65535 := by
  refine ⟨measure_stuck, ?_, ?_, ?_, ?_⟩
  · rw [measure_stuck]; rfl
  · rw [measure_stuck]; rfl
  · exact (clk_spin_exhausted _ _ _ _ (fun _ _ => rfl)).trans rfl
  · have hm : sim_measure_clock_period (clk_stuck true) 0x12 0x34 = 0x1234 := by
      rw [measure_stuck]; rfl
    rw [update_clock_measured _ _ _ _ (by rw [hm]; decide), hm]
    rfl

/-! ## Commands that fail -/

theorem dispatch_cases (P : handled → Prop) (cmd : apdu_command_t) (resp : apdu_response_t)
    (st : Card) (temp : List Nat)
    (h1 : (cmd.cla = CLA_STANDARD ∨ cmd.cla = CLA_GSM) → cmd.ins = INS_SELECT_FILE →
      P (handle_select_file cmd resp st))
    (h2 : (cmd.cla = CLA_STANDARD ∨ cmd.cla = CLA_GSM) → cmd.ins = INS_READ_BINARY →
      P (handle_read_binary cmd resp st))
    (h3 : (cmd.cla = CLA_STANDARD ∨ cmd.cla = CLA_GSM) → cmd.ins = INS_UPDATE_BINARY →
      P (handle_update_binary cmd resp st))
    (h4 : (cmd.cla = CLA_STANDARD ∨ cmd.cla = CLA_GSM) → cmd.ins = INS_VERIFY_CHV →
      P (handle_verify_chv cmd resp st))
    (h5 : (cmd.cla = CLA_STANDARD ∨ cmd.cla = CLA_GSM) → cmd.ins = INS_CHANGE_CHV →
      P (handle_change_chv cmd resp st))
    (h6 : (cmd.cla = CLA_STANDARD ∨ cmd.cla = CLA_GSM) → cmd.ins = INS_AUTHENTICATE →
      P (handle_authenticate cmd resp st temp))
    (h7 : (cmd.cla = CLA_STANDARD ∨ cmd.cla = CLA_GSM) → cmd.ins = INS_GET_RESPONSE →
      P (handle_get_response cmd resp st))
    (h8 : (cmd.cla = CLA_STANDARD ∨ cmd.cla = CLA_GSM) → cmd.ins = INS_STATUS →
      P (handle_status cmd resp st))
    (h9 : ∀ sw : Nat,
      (sw = SW_INS_NOT_SUPPORTED ∨ sw = SW_CLA_NOT_SUPPORTED
        ∨ (sw = resp.sw1sw2 ∧ resp.sw1sw2 ≠ 0)) →
      P ⟨false, { resp with sw1sw2 := sw }, st⟩) :
    P (apdu_dispatch cmd resp st temp) := by
  by_cases hcla : cmd.cla = CLA_STANDARD ∨ cmd.cla = CLA_GSM
  · by_cases i1 : cmd.ins = INS_SELECT_FILE
    · rw [dispatch_select_file cmd resp st temp hcla i1]; exact h1 hcla i1
    by_cases i2 : cmd.ins = INS_READ_BINARY
    · rw [dispatch_read_binary cmd resp st temp hcla i2]; exact h2 hcla i2
    by_cases i3 : cmd.ins = INS_UPDATE_BINARY
    · rw [dispatch_update_binary cmd resp st temp hcla i3]; exact h3 hcla i3
    by_cases i4 : cmd.ins = INS_VERIFY_CHV
    · rw [dispatch_verify_chv cmd resp st temp hcla i4]; exact h4 hcla i4
    by_cases i5 : cmd.ins = INS_CHANGE_CHV
    · rw [dispatch_change_chv cmd resp st temp hcla i5]; exact h5 hcla i5
    by_cases i6 : cmd.ins = INS_AUTHENTICATE
    · rw [dispatch_authenticate cmd resp st temp hcla i6]; exact h6 hcla i6
    by_cases i7 : cmd.ins = INS_GET_RESPONSE
    · rw [dispatch_get_response cmd resp st temp hcla i7]; exact h7 hcla i7
    by_cases i8 : cmd.ins = INS_STATUS
    · rw [dispatch_status cmd resp st temp hcla i8]; exact h8 hcla i8
    unfold apdu_dispatch
    rw [if_pos hcla, if_neg i1, if_neg i2, if_neg i3, if_neg i4, if_neg i5, if_neg i6,
      if_neg i7, if_neg i8]
    by_cases hz : resp.sw1sw2 = 0
    · rw [if_pos hz]
      exact h9 _ (Or.inl rfl)
    · rw [if_neg hz]
      exact h9 resp.sw1sw2 (Or.inr (Or.inr ⟨rfl, hz⟩))
  · unfold apdu_dispatch
    rw [if_neg hcla]
    dsimp only
    rw [if_neg (by norm_num)]
    exact h9 _ (Or.inr (Or.inl rfl))

theorem select_file_failed (cmd : apdu_command_t) (resp : apdu_response_t) (st : Card) :
    (handle_select_file cmd resp st).resp.sw1sw2 = SW_OK
      ∨ ((handle_select_file cmd resp st).card = st
        ∧ (handle_select_file cmd resp st).resp.data = resp.data
        ∧ (handle_select_file cmd resp st).resp.data_len = resp.data_len) := by
  unfold handle_select_file
  repeat' first | split | dsimp only
  all_goals first
    | exact Or.inr ⟨rfl, rfl, rfl⟩
    | exact Or.inl rfl

theorem read_binary_failed (cmd : apdu_command_t) (resp : apdu_response_t) (st : Card) :
    (handle_read_binary cmd resp st).resp.sw1sw2 = SW_OK
      ∨ ((handle_read_binary cmd resp st).card = st
        ∧ (handle_read_binary cmd resp st).resp.data = resp.data
        ∧ (handle_read_binary cmd resp st).resp.data_len = resp.data_len) := by
  unfold handle_read_binary
  repeat' first | split | dsimp only
  all_goals first
    | exact Or.inr ⟨rfl, rfl, rfl⟩
    | exact Or.inl rfl

theorem update_binary_failed (cmd : apdu_command_t) (resp : apdu_response_t) (st : Card) :
    (handle_update_binary cmd resp st).resp.sw1sw2 = SW_OK
      ∨ ((handle_update_binary cmd resp st).card = st
        ∧ (handle_update_binary cmd resp st).resp.data = resp.data
        ∧ (handle_update_binary cmd resp st).resp.data_len = resp.data_len) := by
  unfold handle_update_binary
  repeat' first | split | dsimp only
  all_goals first
    | exact Or.inr ⟨rfl, rfl, rfl⟩
    | exact Or.inl rfl

theorem authenticate_failed (cmd : apdu_command_t) (resp : apdu_response_t) (st : Card)
    (temp : List Nat) :
    (handle_authenticate cmd resp st temp).resp.sw1sw2 = SW_OK
      ∨ ((handle_authenticate cmd resp st temp).card = st
        ∧ (handle_authenticate cmd resp st temp).resp.data = resp.data
        ∧ (handle_authenticate cmd resp st temp).resp.data_len = resp.data_len) := by
  unfold handle_authenticate
  repeat' first | split | dsimp only
  all_goals first
    | exact Or.inr ⟨rfl, rfl, rfl⟩
    | exact Or.inl rfl

theorem get_response_failed (cmd : apdu_command_t) (resp : apdu_response_t) (st : Card) :
    (handle_get_response cmd resp st).resp.sw1sw2 = SW_OK
      ∨ ((handle_get_response cmd resp st).card = st
        ∧ (handle_get_response cmd resp st).resp.data = resp.data
        ∧ (handle_get_response cmd resp st).resp.data_len = resp.data_len) := by
  unfold handle_get_response
  repeat' first | split | dsimp only
  all_goals first
    | exact Or.inr ⟨rfl, rfl, rfl⟩
    | exact Or.inl rfl

theorem status_failed (cmd : apdu_command_t) (resp : apdu_response_t) (st : Card) :
    (handle_status cmd resp st).resp.sw1sw2 = SW_OK
      ∨ ((handle_status cmd resp st).card = st
        ∧ (handle_status cmd resp st).resp.data = resp.data
        ∧ (handle_status cmd resp st).resp.data_len = resp.data_len) := by
  unfold handle_status
  repeat' split
  all_goals first
    | exact Or.inr ⟨rfl, rfl, rfl⟩
    | exact Or.inl rfl

theorem verify_chv_failed (cmd : apdu_command_t) (resp : apdu_response_t) (st : Card) :
    (handle_verify_chv cmd resp st).resp.sw1sw2 = SW_OK
      ∨ (handle_verify_chv cmd resp st).card = st
      ∨ (cmd.lc = 8 ∧ cmd.p2 &&& 0x01 ≠ 0 ∧ 0 < st.subscriber.pin1_retries
          ∧ memcmp_eq cmd.data st.subscriber.pin1 8 = false
          ∧ (handle_verify_chv cmd resp st).card = one_retry_less st) := by
  unfold handle_verify_chv
  by_cases hlc : cmd.lc ≠ 8
  · rw [if_pos hlc]; exact Or.inr (Or.inl rfl)
  rw [if_neg hlc]
  by_cases hp2 : cmd.p2 &&& 0x01 = 0
  · rw [if_pos hp2]; exact Or.inr (Or.inl rfl)
  rw [if_neg hp2]
  by_cases hr : st.subscriber.pin1_retries = 0
  · rw [if_pos hr]; exact Or.inr (Or.inl rfl)
  rw [if_neg hr]
  by_cases hm : memcmp_eq cmd.data st.subscriber.pin1 8 = true
  · rw [if_pos hm]; exact Or.inl rfl
  rw [if_neg hm]
  have hpos : st.subscriber.pin1_retries > 0 := Nat.pos_of_ne_zero hr
  dsimp only
  rw [if_pos hpos]
  refine Or.inr (Or.inr ⟨not_not.mp hlc, hp2, hpos, by simpa using hm, ?_⟩)
  split_ifs <;> rfl

theorem change_chv_failed (cmd : apdu_command_t) (resp : apdu_response_t) (st : Card) :
    (handle_change_chv cmd resp st).resp.sw1sw2 = SW_OK
      ∨ (handle_change_chv cmd resp st).card = st
      ∨ (cmd.lc = 16 ∧ cmd.p2 &&& 0x01 ≠ 0 ∧ 0 < st.subscriber.pin1_retries
          ∧ memcmp_eq cmd.data st.subscriber.pin1 8 = false
          ∧ (handle_change_chv cmd resp st).card = one_retry_less st) := by
  unfold handle_change_chv
  by_cases hlc : cmd.lc ≠ 16
  · rw [if_pos hlc]; exact Or.inr (Or.inl rfl)
  rw [if_neg hlc]
  by_cases hp2 : cmd.p2 &&& 0x01 = 0
  · rw [if_pos hp2]; exact Or.inr (Or.inl rfl)
  rw [if_neg hp2]
  by_cases hr : st.subscriber.pin1_retries = 0
  · rw [if_pos hr]; exact Or.inr (Or.inl rfl)
  rw [if_neg hr]
  by_cases hm : memcmp_eq cmd.data st.subscriber.pin1 8 = true
  · rw [if_neg (not_not.mpr hm)]; exact Or.inl rfl
  rw [if_pos hm]
  have hpos : st.subscriber.pin1_retries > 0 := Nat.pos_of_ne_zero hr
  dsimp only
  rw [if_pos hpos]
  refine Or.inr (Or.inr ⟨not_not.mp hlc, hp2, hpos, by simpa using hm, ?_⟩)
  split_ifs <;> rfl

theorem dispatch_failed (cmd : apdu_command_t) (resp : apdu_response_t) (st : Card)
    (temp : List Nat) :
    (apdu_dispatch cmd resp st temp).resp.sw1sw2 = SW_OK
      ∨ ((apdu_dispatch cmd resp st temp).resp.data = resp.data
        ∧ (apdu_dispatch cmd resp st temp).resp.data_len = resp.data_len
        ∧ ((apdu_dispatch cmd resp st temp).card = st
          ∨ (wrong_pin_attempt cmd st
            ∧ (apdu_dispatch cmd resp st temp).card = one_retry_less st))) := by
  refine dispatch_cases
    (fun h => h.resp.sw1sw2 = SW_OK
      ∨ (h.resp.data = resp.data ∧ h.resp.data_len = resp.data_len
        ∧ (h.card = st ∨ (wrong_pin_attempt cmd st ∧ h.card = one_retry_less st))))
    cmd resp st temp ?_ ?_ ?_ ?_ ?_ ?_ ?_ ?_ ?_
  · intro _ _
    rcases select_file_failed cmd resp st with h | ⟨h1, h2, h3⟩
    · exact Or.inl h
    · exact Or.inr ⟨h2, h3, Or.inl h1⟩
  · intro _ _
    rcases read_binary_failed cmd resp st with h | ⟨h1, h2, h3⟩
    · exact Or.inl h
    · exact Or.inr ⟨h2, h3, Or.inl h1⟩
  · intro _ _
    rcases update_binary_failed cmd resp st with h | ⟨h1, h2, h3⟩
    · exact Or.inl h
    · exact Or.inr ⟨h2, h3, Or.inl h1⟩
  · intro hcla hins
    obtain ⟨_, f2, f3, _⟩ := verify_chv_frame cmd resp st
    rcases verify_chv_failed cmd resp st with h | h | ⟨a, b, c, d, e⟩
    · exact Or.inl h
    · exact Or.inr ⟨f2, f3, Or.inl h⟩
    · exact Or.inr ⟨f2, f3, Or.inr ⟨⟨hcla, Or.inl ⟨hins, a⟩, b, c, d⟩, e⟩⟩
  · intro hcla hins
    obtain ⟨_, f2, f3, _⟩ := change_chv_frame cmd resp st
    rcases change_chv_failed cmd resp st with h | h | ⟨a, b, c, d, e⟩
    · exact Or.inl h
    · exact Or.inr ⟨f2, f3, Or.inl h⟩
    · exact Or.inr ⟨f2, f3, Or.inr ⟨⟨hcla, Or.inr ⟨hins, a⟩, b, c, d⟩, e⟩⟩
  · intro _ _
    rcases authenticate_failed cmd resp st temp with h | ⟨h1, h2, h3⟩
    · exact Or.inl h
    · exact Or.inr ⟨h2, h3, Or.inl h1⟩
  · intro _ _
    rcases get_response_failed cmd resp st with h | ⟨h1, h2, h3⟩
    · exact Or.inl h
    · exact Or.inr ⟨h2, h3, Or.inl h1⟩
  · intro _ _
    rcases status_failed cmd resp st with h | ⟨h1, h2, h3⟩
    · exact Or.inl h
    · exact Or.inr ⟨h2, h3, Or.inl h1⟩
  · intro sw _
    exact Or.inr ⟨rfl, rfl, Or.inl rfl⟩

theorem process_failed (command response : List Nat) (st : Card) (temp : List Nat) :
    (apdu_process_command command response st temp).resp.sw1sw2 = SW_OK
      ∨ ((apdu_process_command command response st temp).resp.data = response
        ∧ (apdu_process_command command response st temp).resp.data_len = 0
        ∧ ((apdu_process_command command response st temp).card = st
          ∨ (∃ cmd, apdu_parse command = some cmd ∧ wrong_pin_attempt cmd st
            ∧ (apdu_process_command command response st temp).card = one_retry_less st))) := by
  cases hparse : apdu_parse command with
  | none =>
    refine Or.inr ?_
    unfold apdu_process_command
    rw [hparse]
    exact ⟨rfl, rfl, Or.inl rfl⟩
  | some cmd =>
    rw [process_parsed command response st temp cmd hparse]
    simp only [send_response_resp, send_response_card]
    rcases dispatch_failed cmd { data := response, data_len := 0, sw1sw2 := 0 } st temp
      with h | ⟨h1, h2, h3⟩
    · exact Or.inl h
    · refine Or.inr ⟨h1, h2, ?_⟩
      rcases h3 with h3 | ⟨h3, h4⟩
      · exact Or.inl h3
      · exact Or.inr ⟨cmd, rfl, h3, h4⟩

theorem take_two_set (l : List Nat) (a b : Nat) (h : 2 ≤ l.length) :
    ((l.set 0 a).set 1 b).take 2 = [a, b] := by
  match l, h with
  | _ :: _ :: _, _ => rfl

/-! ## C33 -/

/-- C33: whenever the status word of the response is not 9000, the card after
`apdu_process_command` is the card before, every field of it (session, current
file, subscriber record, table with its valid-byte counts, the seven data
arrays), except after a wrong-PIN attempt, a VERIFY CHV or CHANGE CHV that was
routed with the right `Lc` and an odd `P2` while retries were left and that
carried other bytes than PIN1: then the card is the card before with PIN1
retries one lower and nothing else changed.  A VERIFY CHV whose `Lc` is not 8,
a CHANGE CHV whose `Lc` is not 16 and either command with an even `P2` leave
the card as it was, retries included. -/
theorem failed_command_state (st : Card) (command response temp : List Nat)
    (h : (apdu_process_command command response st temp).resp.sw1sw2 ≠ SW_OK) :
    ((apdu_process_command command response st temp).card = st
      ∨ (∃ cmd, apdu_parse command = some cmd ∧ wrong_pin_attempt cmd st
          ∧ (apdu_process_command command response st temp).card
            = { st with
                subscriber :=
                  { st.subscriber with
                    pin1_retries := st.subscriber.pin1_retries - 1 } }))
    ∧ (∀ cmd, apdu_parse command = some cmd →
        ((cmd.ins = INS_VERIFY_CHV ∧ (cmd.lc ≠ 8 ∨ cmd.p2 &&& 0x01 = 0))
          ∨ (cmd.ins = INS_CHANGE_CHV ∧ (cmd.lc ≠ 16 ∨ cmd.p2 &&& 0x01 = 0))) →
        (apdu_process_command command response st temp).card = st) := by
  rcases process_failed command response st temp with h0 | ⟨_, _, h3⟩
  · exact absurd h0 h
  · refine ⟨?_, ?_⟩
    · rcases h3 with h3 | ⟨cmd, hp, hw, hc⟩
      · exact Or.inl h3
      · exact Or.inr ⟨cmd, hp, hw, hc⟩
    · intro cmd hparse hrej
      rcases h3 with h3 | ⟨cmd1, hp, hw, _⟩
      · exact h3
      · exfalso
        rw [hparse] at hp
        cases hp
        obtain ⟨_, hins, hp2, _, _⟩ := hw
        rcases hrej with ⟨hi, hl⟩ | ⟨hi, hl⟩
        · rcases hins with ⟨_, hlc⟩ | ⟨hi2, _⟩
          · rcases hl with hl | hl
            · exact hl hlc
            · exact hp2 hl
          · rw [hi] at hi2
            exact absurd hi2 (by decide)
        · rcases hins with ⟨hi2, _⟩ | ⟨_, hlc⟩
          · rw [hi] at hi2
            exact absurd hi2 (by decide)
          · rcases hl with hl | hl
            · exact hl hlc
            · exact hp2 hl

/-! ## C38 -/

/-- C38: whenever the status word of the response is not 9000, the response
record carries no data (`data_len = 0`, the data bytes of the buffer
untouched), `*resp_len` is 2 and the bytes sent are exactly SW1 and SW2. -/
theorem error_response_two_bytes (st : Card) (command response temp : List Nat)
    (hlen : response.length = USIM_APDU_RESPONSE_MAX_LEN)
    (h : (apdu_process_command command response st temp).resp.sw1sw2 ≠ SW_OK) :
    (apdu_process_command command response st temp).resp.data_len = 0
      ∧ (apdu_process_command command response st temp).resp_len = 2
      ∧ (apdu_process_command command response st temp).sent.length = 2
      ∧ (apdu_process_command command response st temp).sent
          = [((apdu_process_command command response st temp).resp.sw1sw2 >>> 8) &&& 0xFF,
             (apdu_process_command command response st temp).resp.sw1sw2 &&& 0xFF]
      ∧ (apdu_process_command command response st temp).ok = false := by
  obtain ⟨hd, hsend⟩ := process_eq_send command response st temp
  rcases process_failed command response st temp with h0 | ⟨h1, h2, _⟩
  · exact absurd h0 h
  · rw [hsend] at h h1 h2 ⊢
    simp only [send_response_resp] at h h1 h2
    have hs : (send_response hd).sent
        = [(hd.resp.sw1sw2 >>> 8) &&& 0xFF, hd.resp.sw1sw2 &&& 0xFF] := by
      unfold processed.sent send_response
      dsimp only
      rw [h2, h1]
      exact take_two_set response _ _ (by rw [hlen]; decide)
    refine ⟨h2, ?_, ?_, ?_, ?_⟩
    · unfold send_response
      dsimp only
      rw [h2]
    · rw [hs]; rfl
    · rw [hs, send_response_resp]
    · unfold send_response
      dsimp only
      exact decide_eq_false h

theorem failed_command_state_witness :
    (apdu_process_command [0xA0, 0x20, 0x00, 0x01, 0x04, 0x30, 0x30, 0x30, 0x30]
        (List.replicate 257 0) power_on []).resp.sw1sw2 = 0x6700
    ∧ (apdu_process_command [0xA0, 0x20, 0x00, 0x01, 0x04, 0x30, 0x30, 0x30, 0x30]
        (List.replicate 257 0) power_on []).card = power_on :=
  ⟨by decide,
   (failed_command_state power_on [0xA0, 0x20, 0x00, 0x01, 0x04, 0x30, 0x30, 0x30, 0x30]
      (List.replicate 257 0) [] (by decide)).2
      ⟨0xA0, 0x20, 0x00, 0x01, 0x04, [0x30, 0x30, 0x30, 0x30], 0⟩ (by decide)
      (Or.inl ⟨rfl, Or.inl (by decide)⟩)⟩

theorem error_response_two_bytes_witness :
    (apdu_process_command [0xA0, 0xB0, 0x00, 0x00, 0x01] (List.replicate 257 0) power_on
        []).resp.sw1sw2 = 0x6986
    ∧ (apdu_process_command [0xA0, 0xB0, 0x00, 0x00, 0x01] (List.replicate 257 0) power_on
        []).sent.length = 2 :=
  ⟨by decide,
   (error_response_two_bytes power_on [0xA0, 0xB0, 0x00, 0x00, 0x01] (List.replicate 257 0) []
      (List.length_replicate 257 0) (by decide)).2.2.1⟩

/-! ## The current file -/

theorem check_access_congr (s : session_context_t) (f g : usim_file_t) (a : Nat)
    (h : f.access_conditions = g.access_conditions) :
    usim_check_access s (some f) a = usim_check_access s (some g) a := by
  unfold usim_check_access
  dsimp only
  rw [h]

theorem read_after_write (dst src : List Nat) (off n : Nat) (h : off + n ≤ dst.length) :
    read_bytes (write_bytes dst off src n) off n = read_bytes src 0 n := by
  rw [read_bytes_eq_of_rd (write_bytes dst off src n) off n (fun i => rd src i),
    read_bytes_eq_of_rd src 0 n (fun i => rd src i)]
  · intro i _
    rw [Nat.zero_add]
  · intro i hi
    rw [rd_write_bytes, if_pos (by omega), if_pos ⟨by omega, by omega⟩]
    congr 1
    omega

theorem intact_secret_never (st : Card) (hc : catalogue_intact st) (file : usim_file_t)
    (hfind : usim_find_file st.usim_files st.current_file.file_id = some file)
    (hsel : st.current_file.file_id = 0x6F08 ∨ st.current_file.file_id = 0x6F09) :
    file.access_conditions = AC_NEVER := by
  rcases hsel with h | h
  · obtain ⟨f, hf, _, _, ha, _⟩ := intact_find_key st hc
    rw [h, hf] at hfind
    cases hfind
    exact ha
  · obtain ⟨f, hf, _, _, ha, _⟩ := intact_find_opc st hc
    rw [h, hf] at hfind
    cases hfind
    exact ha

theorem check_access_never (s : session_context_t) (f : usim_file_t) (a : Nat)
    (ha : f.access_conditions = AC_NEVER) (hs : a ≠ ACCESS_SELECT) :
    usim_check_access s (some f) a = false := by
  unfold usim_check_access
  dsimp only
  rw [if_neg hs, ha, if_neg (by decide), if_pos rfl]

theorem update_apdu_done (st : Card) (command response temp : List Nat)
    (cmd : apdu_command_t) (file : usim_file_t) (p : data_ptr)
    (hparse : apdu_parse command = some cmd)
    (hcla : cmd.cla = CLA_STANDARD ∨ cmd.cla = CLA_GSM) (hins : cmd.ins = INS_UPDATE_BINARY)
    (hfind : usim_find_file st.usim_files st.current_file.file_id = some file)
    (ht : file.file_type = FILE_TYPE_EF)
    (hd : file.file_data = some p)
    (ha : usim_check_access st.session (some file) ACCESS_UPDATE = true)
    (hlc : 1 ≤ cmd.lc)
    (hsum : ((cmd.p1 <<< 8) ||| cmd.p2) + cmd.lc ≤ file.file_size)
    (hsize : file.file_size < 65536)
    (hlen : response.length = USIM_APDU_RESPONSE_MAX_LEN) :
    (apdu_process_command command response st temp).sent = [0x90, 0x00]
      ∧ (apdu_process_command command response st temp).card.session = st.session
      ∧ (apdu_process_command command response st temp).card.current_file = st.current_file
      ∧ (apdu_process_command command response st temp).card.load p
          = write_bytes (st.load p) ((cmd.p1 <<< 8) ||| cmd.p2) cmd.data cmd.lc
      ∧ usim_find_file (apdu_process_command command response st temp).card.usim_files
            st.current_file.file_id
          = some { file with
                   data_size := max file.data_size (((cmd.p1 <<< 8) ||| cmd.p2) + cmd.lc) } := by
  obtain ⟨slot, hmut, hget, hh⟩ :=
    update_binary_done cmd { data := response, data_len := 0, sw1sw2 := 0 } st file p
      hfind ht ha hd hlc hsum hsize
  rw [process_parsed command response st temp cmd hparse,
    dispatch_update_binary cmd _ st temp hcla hins, hh]
  obtain ⟨s1, _⟩ := send_no_data
    ⟨true, { data := response, data_len := 0, sw1sw2 := SW_OK },
      { st.store p (write_bytes (st.load p) ((cmd.p1 <<< 8) ||| cmd.p2) cmd.data cmd.lc) with
        usim_files :=
          st.usim_files.set slot
            { file with
              data_size := max file.data_size (((cmd.p1 <<< 8) ||| cmd.p2) + cmd.lc) } }⟩
    rfl (by show 2 ≤ response.length; rw [hlen]; decide)
    (by show (0x9000 : Nat) < 65536; norm_num)
  unfold usim_find_file_mutable at hmut
  have hl : ∀ q,
      Card.load
        { st.store p (write_bytes (st.load p) ((cmd.p1 <<< 8) ||| cmd.p2) cmd.data cmd.lc) with
          usim_files :=
            st.usim_files.set slot
              { file with
                data_size := max file.data_size (((cmd.p1 <<< 8) ||| cmd.p2) + cmd.lc) } } q
        = (st.store p (write_bytes (st.load p) ((cmd.p1 <<< 8) ||| cmd.p2) cmd.data cmd.lc)).load
            q :=
    fun q => by cases q <;> rfl
  refine ⟨?_, ?_, ?_, ?_, ?_⟩
  · rw [s1]
    dsimp only
    norm_num
  · exact store_session _ _ _
  · exact store_current_file _ _ _
  · refine (hl p).trans ?_
    rw [load_store_same]
  · have := find_set_slot st.usim_files st.current_file.file_id
      { file with
        data_size := max file.data_size (((cmd.p1 <<< 8) ||| cmd.p2) + cmd.lc) }
      0 slot file hmut rfl
    rw [Nat.sub_zero] at this
    exact this

/-- On a card holding the shipped catalogue, when the current file is an EF
with a data region for which UPDATE and READ are permitted, an UPDATE BINARY of
`Lc ≥ 1` bytes at an offset with `offset + Lc` within the declared size is
answered `90 00`, and a READ BINARY at the same offset with `Le = Lc` on the
resulting card returns exactly the `Lc` bytes written, followed by `90 00`. -/
theorem update_read_round_trip (st : Card) (hc : catalogue_intact st)
    (ucommand rcommand response response2 temp temp2 : List Nat)
    (ucmd rcmd : apdu_command_t) (file : usim_file_t) (p : data_ptr)
    (hparse : apdu_parse ucommand = some ucmd)
    (hcla : ucmd.cla = CLA_STANDARD ∨ ucmd.cla = CLA_GSM)
    (hins : ucmd.ins = INS_UPDATE_BINARY)
    (hrparse : apdu_parse rcommand = some rcmd)
    (hrcla : rcmd.cla = CLA_STANDARD ∨ rcmd.cla = CLA_GSM)
    (hrins : rcmd.ins = INS_READ_BINARY)
    (hp1 : rcmd.p1 = ucmd.p1) (hp2 : rcmd.p2 = ucmd.p2) (hle : rcmd.le = ucmd.lc)
    (hfind : usim_find_file st.usim_files st.current_file.file_id = some file)
    (ht : file.file_type = FILE_TYPE_EF)
    (hd : file.file_data = some p)
    (hau : usim_check_access st.session (some file) ACCESS_UPDATE = true)
    (har : usim_check_access st.session (some file) ACCESS_READ = true)
    (hlc : 1 ≤ ucmd.lc)
    (hsum : ((ucmd.p1 <<< 8) ||| ucmd.p2) + ucmd.lc ≤ file.file_size)
    (hcap : file.file_size ≤ (st.load p).length)
    (hlen : response.length = USIM_APDU_RESPONSE_MAX_LEN)
    (hlen2 : response2.length = USIM_APDU_RESPONSE_MAX_LEN) :
    (apdu_process_command ucommand response st temp).sent = [0x90, 0x00]
      ∧ (apdu_process_command rcommand response2
          (apdu_process_command ucommand response st temp).card temp2).sent
        = read_bytes ucmd.data 0 ucmd.lc ++ [0x90, 0x00] := by
  have hsize := intact_size_le st hc _ file hfind
  obtain ⟨u1, u2, u3, u4, u5⟩ :=
    update_apdu_done st ucommand response temp ucmd file p hparse hcla hins hfind ht hd hau hlc
      hsum (by omega) hlen
  refine ⟨u1, ?_⟩
  have hns : ¬ (st.current_file.file_id = 0x6F08 ∨ st.current_file.file_id = 0x6F09) := by
    intro hsel
    have hn := intact_secret_never st hc file hfind hsel
    rw [check_access_never st.session file ACCESS_READ hn (by decide)] at har
    cases har
  have ho : ((rcmd.p1 <<< 8) ||| rcmd.p2) % 65536 = (ucmd.p1 <<< 8) ||| ucmd.p2 := by
    rw [hp1, hp2]
    exact Nat.mod_eq_of_lt (by omega)
  have hreq : read_binary_requested
      (file.file_size - ((rcmd.p1 <<< 8) ||| rcmd.p2) % 65536) rcmd.le = ucmd.lc := by
    rw [ho, hle]
    unfold read_binary_requested
    rw [if_pos (by omega), if_neg (by omega)]
    split_ifs
    · rfl
    · omega
  obtain ⟨r1, _⟩ :=
    read_binary_sent (apdu_process_command ucommand response st temp).card rcommand response2
      temp2 rcmd
      { file with
        data_size := max file.data_size (((ucmd.p1 <<< 8) ||| ucmd.p2) + ucmd.lc) }
      p hrparse hrcla hrins (by rw [u3]; exact u5) ht
      (by rw [u2]; exact (check_access_congr st.session _ file ACCESS_READ rfl).trans har)
      hd (by rw [ho]; show (ucmd.p1 <<< 8 ||| ucmd.p2) < file.file_size; omega)
      (by rw [u3]; exact hns)
      (by show file.file_size - ((rcmd.p1 <<< 8) ||| rcmd.p2) % 65536 ≤ 255; omega)
      hlen2
  rw [r1]
  show read_bytes _ (((rcmd.p1 <<< 8) ||| rcmd.p2) % 65536)
      (read_binary_requested (file.file_size - ((rcmd.p1 <<< 8) ||| rcmd.p2) % 65536) rcmd.le)
      ++ [0x90, 0x00] = _
  rw [hreq, ho, u4, read_after_write _ _ _ _ (by omega)]

/-! ## C36 -/

/-- C36: a session in which a successful UPDATE BINARY is not read back.
After power-on, SELECT 6FAE makes EF_PHASE (declared size 1, UPDATE and READ
always permitted) the current file; UPDATE BINARY with offset FFFF and `Lc = 2`
is answered `90 00`, because the sum `offset + Lc` wraps to 1 in 16 bits and
passes the size check; READ BINARY at the same offset with `Le = 2` is answered
`6B 00`, not `AA BB 90 00`. -/
theorem update_not_read_back :
    (main_loop power_on (List.replicate 257 0)
      [⟨[0xA0, 0xA4, 0x00, 0x00, 0x02, 0x6F, 0xAE], []⟩,
       ⟨[0xA0, 0xD6, 0xFF, 0xFF, 0x02, 0xAA, 0xBB], []⟩,
       ⟨[0xA0, 0xB0, 0xFF, 0xFF, 0x02], []⟩]).2.2
      = [[0x62, 0x0B, 0x80, 0x02, 0x00, 0x01, 0x82, 0x01, 0x21, 0x83, 0x02, 0x6F, 0xAE,
          0x90, 0x00],
         [0x90, 0x00],
         [0x6B, 0x00]] := by
  set_option maxRecDepth 100000 in decide

/-! ## The secret files and the other commands -/

theorem load_with_secrets (st : Card) (k o : List Nat) (p : data_ptr)
    (hk : p ≠ .key_data) (ho : p ≠ .opc_data) :
    (with_secrets st k o).load p = st.load p := by
  cases p <;> first | rfl | exact absurd rfl hk | exact absurd rfl ho

theorem store_with_secrets (st : Card) (k o : List Nat) (p : data_ptr) (v : List Nat)
    (hk : p ≠ .key_data) (ho : p ≠ .opc_data) :
    (with_secrets st k o).store p v = with_secrets (st.store p v) k o := by
  cases p <;> first | rfl | exact absurd rfl hk | exact absurd rfl ho

theorem store_key_data (st : Card) (p : data_ptr) (v : List Nat)
    (hk : p ≠ .key_data) (ho : p ≠ .opc_data) :
    (st.store p v).key_data = st.key_data ∧ (st.store p v).opc_data = st.opc_data := by
  cases p <;> first | exact ⟨rfl, rfl⟩ | exact absurd rfl hk | exact absurd rfl ho

theorem table_secret_never :
    ∀ x ∈ usim_files_table.map static_part,
      (x.2.2.2.2 = some .key_data ∨ x.2.2.2.2 = some .opc_data) → x.2.2.2.1 = AC_NEVER := by
  decide

theorem intact_ptr_never (st : Card) (hc : catalogue_intact st) (file_id : Nat)
    (file : usim_file_t) (hfind : usim_find_file st.usim_files file_id = some file)
    (hp : file.file_data = some .key_data ∨ file.file_data = some .opc_data) :
    file.access_conditions = AC_NEVER := by
  have hm := (find_mem _ _ _ hfind).1
  have hm2 : static_part file ∈ usim_files_table.map static_part := by
    rw [← hc]
    exact List.mem_map_of_mem _ hm
  exact table_secret_never _ hm2 hp

theorem select_file_secrets (cmd : apdu_command_t) (resp : apdu_response_t) (st : Card)
    (k o : List Nat) :
    handle_select_file cmd resp (with_secrets st k o)
        = ⟨(handle_select_file cmd resp st).ok, (handle_select_file cmd resp st).resp,
           with_secrets (handle_select_file cmd resp st).card k o⟩
      ∧ (handle_select_file cmd resp st).card.key_data = st.key_data
      ∧ (handle_select_file cmd resp st).card.opc_data = st.opc_data := by
  unfold handle_select_file
  dsimp only [with_secrets]
  repeat' first | split | dsimp only
  all_goals exact ⟨rfl, rfl, rfl⟩

theorem verify_chv_secrets (cmd : apdu_command_t) (resp : apdu_response_t) (st : Card)
    (k o : List Nat) :
    handle_verify_chv cmd resp (with_secrets st k o)
        = ⟨(handle_verify_chv cmd resp st).ok, (handle_verify_chv cmd resp st).resp,
           with_secrets (handle_verify_chv cmd resp st).card k o⟩
      ∧ (handle_verify_chv cmd resp st).card.key_data = st.key_data
      ∧ (handle_verify_chv cmd resp st).card.opc_data = st.opc_data := by
  unfold handle_verify_chv
  dsimp only [with_secrets]
  repeat' first | split | dsimp only
  all_goals exact ⟨rfl, rfl, rfl⟩

theorem change_chv_secrets (cmd : apdu_command_t) (resp : apdu_response_t) (st : Card)
    (k o : List Nat) :
    handle_change_chv cmd resp (with_secrets st k o)
        = ⟨(handle_change_chv cmd resp st).ok, (handle_change_chv cmd resp st).resp,
           with_secrets (handle_change_chv cmd resp st).card k o⟩
      ∧ (handle_change_chv cmd resp st).card.key_data = st.key_data
      ∧ (handle_change_chv cmd resp st).card.opc_data = st.opc_data := by
  unfold handle_change_chv
  dsimp only [with_secrets]
  repeat' first | split | dsimp only
  all_goals exact ⟨rfl, rfl, rfl⟩

theorem get_response_secrets (cmd : apdu_command_t) (resp : apdu_response_t) (st : Card)
    (k o : List Nat) :
    handle_get_response cmd resp (with_secrets st k o)
        = ⟨(handle_get_response cmd resp st).ok, (handle_get_response cmd resp st).resp,
           with_secrets (handle_get_response cmd resp st).card k o⟩
      ∧ (handle_get_response cmd resp st).card.key_data = st.key_data
      ∧ (handle_get_response cmd resp st).card.opc_data = st.opc_data := by
  unfold handle_get_response
  dsimp only [with_secrets]
  repeat' first | split | dsimp only
  all_goals exact ⟨rfl, rfl, rfl⟩

theorem status_secrets (cmd : apdu_command_t) (resp : apdu_response_t) (st : Card)
    (k o : List Nat) :
    handle_status cmd resp (with_secrets st k o)
        = ⟨(handle_status cmd resp st).ok, (handle_status cmd resp st).resp,
           with_secrets (handle_status cmd resp st).card k o⟩
      ∧ (handle_status cmd resp st).card.key_data = st.key_data
      ∧ (handle_status cmd resp st).card.opc_data = st.opc_data := by
  unfold handle_status
  dsimp only [with_secrets]
  repeat' first | split | dsimp only
  all_goals exact ⟨rfl, rfl, rfl⟩

theorem read_binary_secrets (cmd : apdu_command_t) (resp : apdu_response_t) (st : Card)
    (hc : catalogue_intact st) (k o : List Nat) :
    handle_read_binary cmd resp (with_secrets st k o)
        = ⟨(handle_read_binary cmd resp st).ok, (handle_read_binary cmd resp st).resp,
           with_secrets (handle_read_binary cmd resp st).card k o⟩
      ∧ (handle_read_binary cmd resp st).card.key_data = st.key_data
      ∧ (handle_read_binary cmd resp st).card.opc_data = st.opc_data := by
  refine ⟨?_, by rw [read_binary_card], by rw [read_binary_card]⟩
  cases hfind : usim_find_file st.usim_files st.current_file.file_id with
  | none =>
    have hfind2 : usim_find_file (with_secrets st k o).usim_files
        (with_secrets st k o).current_file.file_id = none := hfind
    unfold handle_read_binary
    rw [hfind, hfind2]
  | some file =>
    have hfind2 : usim_find_file (with_secrets st k o).usim_files
        (with_secrets st k o).current_file.file_id = some file := hfind
    by_cases ht : file.file_type = FILE_TYPE_EF
    · cases ha : usim_check_access st.session (some file) ACCESS_READ with
      | false =>
        rw [read_binary_denied cmd resp st file hfind ht ha,
          read_binary_denied cmd resp (with_secrets st k o) file hfind2 ht ha]
      | true =>
        by_cases ho : ((cmd.p1 <<< 8) ||| cmd.p2) % 65536 ≥ file.file_size
            ∨ file.file_data = none
        · rw [read_binary_out_of_range cmd resp st file hfind ht ha ho,
            read_binary_out_of_range cmd resp (with_secrets st k o) file hfind2 ht ha ho]
        · simp only [not_or, not_le] at ho
          obtain ⟨ho1, ho2⟩ := ho
          cases hd : file.file_data with
          | none => exact absurd hd ho2
          | some p =>
            have hnever : file.access_conditions ≠ AC_NEVER := by
              intro hn
              rw [check_access_never st.session file ACCESS_READ hn (by decide)] at ha
              cases ha
            have hns : ¬ (st.current_file.file_id = 0x6F08
                ∨ st.current_file.file_id = 0x6F09) :=
              fun hsel => hnever (intact_secret_never st hc file hfind hsel)
            have hpk : p ≠ .key_data := by
              intro e
              exact hnever (intact_ptr_never st hc _ file hfind (Or.inl (by rw [hd, e])))
            have hpo : p ≠ .opc_data := by
              intro e
              exact hnever (intact_ptr_never st hc _ file hfind (Or.inr (by rw [hd, e])))
            rw [read_binary_plain cmd resp st file p hfind ht ha hd ho1 hns,
              read_binary_plain cmd resp (with_secrets st k o) file p hfind2 ht ha hd ho1 hns,
              load_with_secrets st k o p hpk hpo]
    · rw [read_binary_not_ef cmd resp st file hfind ht,
        read_binary_not_ef cmd resp (with_secrets st k o) file hfind2 ht]

theorem update_binary_secrets (cmd : apdu_command_t) (resp : apdu_response_t) (st : Card)
    (hc : catalogue_intact st) (k o : List Nat) :
    handle_update_binary cmd resp (with_secrets st k o)
        = ⟨(handle_update_binary cmd resp st).ok, (handle_update_binary cmd resp st).resp,
           with_secrets (handle_update_binary cmd resp st).card k o⟩
      ∧ (handle_update_binary cmd resp st).card.key_data = st.key_data
      ∧ (handle_update_binary cmd resp st).card.opc_data = st.opc_data := by
  have e1 : (with_secrets st k o).usim_files = st.usim_files := rfl
  have e2 : (with_secrets st k o).current_file = st.current_file := rfl
  have e3 : (with_secrets st k o).session = st.session := rfl
  cases hfind : usim_find_file st.usim_files st.current_file.file_id with
  | none =>
    have hmut : usim_find_file_mutable st.usim_files st.current_file.file_id = none := by
      have := find_mutable_from_find st.usim_files st.current_file.file_id 0
      rw [hfind] at this
      unfold usim_find_file_mutable
      simpa using this
    unfold handle_update_binary
    simp only [e1, e2, e3, hfind, hmut]
    refine ⟨?_, ?_, ?_⟩ <;> first | rfl | trivial
  | some file =>
    obtain ⟨slot, hmut⟩ := find_mutable_of_find _ _ _ hfind
    by_cases c1 : file.file_type = FILE_TYPE_EF
    · by_cases c2 : usim_check_access st.session (some file) ACCESS_UPDATE = true
      · by_cases c3 : cmd.lc = 0
        · unfold handle_update_binary
          simp only [e1, e2, e3, hfind, hmut, c1, c2, c3, ne_eq, not_true_eq_false, if_false,
            if_true]
          refine ⟨?_, ?_, ?_⟩ <;> first | rfl | trivial
        · by_cases c4 : (((cmd.p1 <<< 8) ||| cmd.p2) % 65536 + cmd.lc) % 65536
              > file.file_size
          · unfold handle_update_binary
            simp only [e1, e2, e3, hfind, hmut, c1, c2, c3, c4, ne_eq, not_true_eq_false,
              if_false, if_true]
            refine ⟨?_, ?_, ?_⟩ <;> first | rfl | trivial
          · cases hd : file.file_data with
            | none =>
              unfold handle_update_binary
              simp only [e1, e2, e3, hfind, hmut, c1, c2, c3, c4, hd, ne_eq,
                not_true_eq_false, if_false, if_true]
              refine ⟨?_, ?_, ?_⟩ <;> first | rfl | trivial
            | some p =>
              have hnever : file.access_conditions ≠ AC_NEVER := by
                intro hn
                rw [check_access_never st.session file ACCESS_UPDATE hn (by decide)] at c2
                cases c2
              have hpk : p ≠ .key_data := by
                intro e
                exact hnever (intact_ptr_never st hc _ file hfind (Or.inl (by rw [hd, e])))
              have hpo : p ≠ .opc_data := by
                intro e
                exact hnever (intact_ptr_never st hc _ file hfind (Or.inr (by rw [hd, e])))
              rw [update_binary_ok cmd resp st slot file p hmut c1 c2 c3 c4 hd,
                update_binary_ok cmd resp (with_secrets st k o) slot file p hmut c1 c2 c3 c4 hd,
                load_with_secrets st k o p hpk hpo, store_with_secrets st k o p _ hpk hpo]
              obtain ⟨s1, s2⟩ := store_key_data st p
                (write_bytes (st.load p) (((cmd.p1 <<< 8) ||| cmd.p2) % 65536) cmd.data cmd.lc)
                hpk hpo
              split_ifs
              · exact ⟨rfl, s1, s2⟩
              · exact ⟨rfl, s1, s2⟩
      · unfold handle_update_binary
        simp only [e1, e2, e3, hfind, hmut, c1, c2, ne_eq, not_true_eq_false, if_false,
          if_true, not_false_eq_true]
        exact ⟨rfl, rfl, rfl⟩
    · unfold handle_update_binary
      simp only [e1, e2, e3, hfind, hmut, c1, ne_eq, not_true_eq_false, if_false, if_true,
        not_false_eq_true]
      refine ⟨?_, ?_, ?_⟩ <;> first | rfl | trivial

theorem dispatch_secrets (cmd : apdu_command_t) (resp : apdu_response_t) (st : Card)
    (temp : List Nat) (hc : catalogue_intact st)
    (hna : ¬ ((cmd.cla = CLA_STANDARD ∨ cmd.cla = CLA_GSM) ∧ cmd.ins = INS_AUTHENTICATE))
    (k o : List Nat) :
    apdu_dispatch cmd resp (with_secrets st k o) temp
        = ⟨(apdu_dispatch cmd resp st temp).ok, (apdu_dispatch cmd resp st temp).resp,
           with_secrets (apdu_dispatch cmd resp st temp).card k o⟩
      ∧ (apdu_dispatch cmd resp st temp).card.key_data = st.key_data
      ∧ (apdu_dispatch cmd resp st temp).card.opc_data = st.opc_data := by
  by_cases hcla : cmd.cla = CLA_STANDARD ∨ cmd.cla = CLA_GSM
  · by_cases i1 : cmd.ins = INS_SELECT_FILE
    · rw [dispatch_select_file cmd resp st temp hcla i1,
        dispatch_select_file cmd resp _ temp hcla i1]
      exact select_file_secrets cmd resp st k o
    by_cases i2 : cmd.ins = INS_READ_BINARY
    · rw [dispatch_read_binary cmd resp st temp hcla i2,
        dispatch_read_binary cmd resp _ temp hcla i2]
      exact read_binary_secrets cmd resp st hc k o
    by_cases i3 : cmd.ins = INS_UPDATE_BINARY
    · rw [dispatch_update_binary cmd resp st temp hcla i3,
        dispatch_update_binary cmd resp _ temp hcla i3]
      exact update_binary_secrets cmd resp st hc k o
    by_cases i4 : cmd.ins = INS_VERIFY_CHV
    · rw [dispatch_verify_chv cmd resp st temp hcla i4,
        dispatch_verify_chv cmd resp _ temp hcla i4]
      exact verify_chv_secrets cmd resp st k o
    by_cases i5 : cmd.ins = INS_CHANGE_CHV
    · rw [dispatch_change_chv cmd resp st temp hcla i5,
        dispatch_change_chv cmd resp _ temp hcla i5]
      exact change_chv_secrets cmd resp st k o
    have i6 : ¬ cmd.ins = INS_AUTHENTICATE := fun h => hna ⟨hcla, h⟩
    by_cases i7 : cmd.ins = INS_GET_RESPONSE
    · rw [dispatch_get_response cmd resp st temp hcla i7,
        dispatch_get_response cmd resp _ temp hcla i7]
      exact get_response_secrets cmd resp st k o
    by_cases i8 : cmd.ins = INS_STATUS
    · rw [dispatch_status cmd resp st temp hcla i8,
        dispatch_status cmd resp _ temp hcla i8]
      exact status_secrets cmd resp st k o
    unfold apdu_dispatch
    simp only [if_pos hcla, if_neg i1, if_neg i2, if_neg i3, if_neg i4, if_neg i5, if_neg i6,
      if_neg i7, if_neg i8]
    refine ⟨?_, ?_, ?_⟩ <;> first | rfl | trivial
  · unfold apdu_dispatch
    simp only [if_neg hcla]
    refine ⟨?_, ?_, ?_⟩ <;> first | rfl | trivial

theorem process_secrets (command response : List Nat) (st : Card) (temp : List Nat)
    (hc : catalogue_intact st) (hna : is_authenticate command = false) (k o : List Nat) :
    apdu_process_command command response (with_secrets st k o) temp
        = { apdu_process_command command response st temp with
            card := with_secrets (apdu_process_command command response st temp).card k o }
      ∧ (apdu_process_command command response st temp).card.key_data = st.key_data
      ∧ (apdu_process_command command response st temp).card.opc_data = st.opc_data := by
  cases hparse : apdu_parse command with
  | none =>
    unfold apdu_process_command
    rw [hparse]
    exact ⟨rfl, rfl, rfl⟩
  | some cmd =>
    have hna2 : ¬ ((cmd.cla = CLA_STANDARD ∨ cmd.cla = CLA_GSM)
        ∧ cmd.ins = INS_AUTHENTICATE) := by
      intro h
      unfold is_authenticate at hna
      rw [hparse] at hna
      simp only [decide_eq_false_iff_not] at hna
      exact hna h
    obtain ⟨d1, d2, d3⟩ :=
      dispatch_secrets cmd { data := response, data_len := 0, sw1sw2 := 0 } st temp hc hna2 k o
    rw [process_parsed command response _ temp cmd hparse,
      process_parsed command response st temp cmd hparse, d1]
    exact ⟨rfl, d2, d3⟩

theorem main_loop_secrets (k o : List Nat) (es : List apdu_event) :
    ∀ (st : Card) (response : List Nat), catalogue_intact st →
      (∀ e ∈ es, is_authenticate e.command = false) →
      main_loop (with_secrets st k o) response es
          = (with_secrets (main_loop st response es).1 k o, (main_loop st response es).2.1,
             (main_loop st response es).2.2)
        ∧ (main_loop st response es).1.key_data = st.key_data
        ∧ (main_loop st response es).1.opc_data = st.opc_data := by
  induction es with
  | nil => intro st response _ _; exact ⟨rfl, rfl, rfl⟩
  | cons e es ih =>
    intro st response hc hna
    obtain ⟨p1, p2, p3⟩ :=
      process_secrets e.command response st e.temp hc
        (hna e (List.mem_cons_self e es)) k o
    obtain ⟨m1, m2, m3⟩ :=
      ih (apdu_process_command e.command response st e.temp).card
        (apdu_process_command e.command response st e.temp).response
        (process_frame e.command response st e.temp hc).1
        (fun e1 h1 => hna e1 (List.mem_cons_of_mem e h1))
    refine ⟨?_, ?_, ?_⟩
    · show (_, _, _) = _
      rw [p1]
      dsimp only
      rw [m1]
      rfl
    · exact m2.trans p2
    · exact m3.trans p3

/-! ## C37 -/

/-- C37: on cards holding the shipped catalogue, for every sequence of commands
none of which is routed to AUTHENTICATE and in which no UPDATE BINARY has an
offset plus `Lc` beyond 16 bits, a card and the same card with any other bytes
stored in the arrays of EF_KEY and EF_OPc send the same responses and leave the
same response buffer, their final states again differ in these two arrays only,
and the stored bytes of both secret files are the ones the sequence started
with.  The excluded UPDATE BINARY is answered `90 00` although its destination
lies outside the array of the file: after SELECT 6F78 (EF_ACC, 2 bytes),
`A0 D6 FF F0 10` with 16 data bytes passes the size check because
`0xFFF0 + 0x10` wraps to 0. -/
theorem secret_files_isolation :
    (∀ (st : Card) (k o response : List Nat) (events : List apdu_event),
      catalogue_intact st →
      (∀ e ∈ events, is_authenticate e.command = false ∧ update_wraps e.command = false) →
      (main_loop (with_secrets st k o) response events).2.2
          = (main_loop st response events).2.2
        ∧ (main_loop (with_secrets st k o) response events).2.1
          = (main_loop st response events).2.1
        ∧ (main_loop (with_secrets st k o) response events).1
          = with_secrets (main_loop st response events).1 k o
        ∧ (main_loop st response events).1.key_data = st.key_data
        ∧ (main_loop st response events).1.opc_data = st.opc_data)
    ∧ update_wraps
        [0xA0, 0xD6, 0xFF, 0xF0, 0x10, 0x11, 0x11, 0x11, 0x11, 0x11, 0x11, 0x11, 0x11,
         0x11, 0x11, 0x11, 0x11, 0x11, 0x11, 0x11, 0x11] = true
    ∧ (main_loop power_on (List.replicate 257 0)
        [⟨[0xA0, 0xA4, 0x00, 0x00, 0x02, 0x6F, 0x78], []⟩,
         ⟨[0xA0, 0xD6, 0xFF, 0xF0, 0x10, 0x11, 0x11, 0x11, 0x11, 0x11, 0x11, 0x11, 0x11,
           0x11, 0x11, 0x11, 0x11, 0x11, 0x11, 0x11, 0x11], []⟩]).2.2
        = [[0x62, 0x0B, 0x80, 0x02, 0x00, 0x02, 0x82, 0x01, 0x21, 0x83, 0x02, 0x6F, 0x78,
            0x90, 0x00],
           [0x90, 0x00]] := by
  refine ⟨?_, ?_, ?_⟩
  · intro st k o response events hc hev
    obtain ⟨m1, m2, m3⟩ :=
      main_loop_secrets k o events st response hc (fun e he => (hev e he).1)
    rw [m1]
    exact ⟨rfl, rfl, rfl, m2, m3⟩
  · decide
  · set_option maxRecDepth 100000 in decide

theorem secret_files_isolation_witness :
    (main_loop (with_secrets power_on (List.replicate 16 0) (List.replicate 16 0))
        (List.replicate 257 0)
        [⟨[0xA0, 0xA4, 0x00, 0x00, 0x02, 0x6F, 0x08], []⟩,
         ⟨[0xA0, 0xB0, 0x00, 0x00, 0x10], []⟩]).2.2
      = (main_loop power_on (List.replicate 257 0)
        [⟨[0xA0, 0xA4, 0x00, 0x00, 0x02, 0x6F, 0x08], []⟩,
         ⟨[0xA0, 0xB0, 0x00, 0x00, 0x10], []⟩]).2.2 :=
  (secret_files_isolation.1 power_on (List.replicate 16 0) (List.replicate 16 0)
    (List.replicate 257 0)
    [⟨[0xA0, 0xA4, 0x00, 0x00, 0x02, 0x6F, 0x08], []⟩, ⟨[0xA0, 0xB0, 0x00, 0x00, 0x10], []⟩]
    (usim_init_intact _ static_image_intact) (by decide)).1

/-! ## C39 -/

/-- C39: in every state of a card holding the shipped catalogue, for every
command buffer and a response buffer of
`USIM_APDU_RESPONSE_MAX_LEN = 257` bytes, the response data length is at most
255, `*resp_len` is the data length plus 2 and at most 257, SW1 and SW2 are
stored at indices below 257, the buffer keeps its 257 bytes and at most 257
bytes are sent. -/
theorem response_fits_buffer (st : Card) (hc : catalogue_intact st)
    (command response temp : List Nat)
    (hlen : response.length = USIM_APDU_RESPONSE_MAX_LEN) :
    (apdu_process_command command response st temp).resp.data_len
        ≤ USIM_APDU_RESPONSE_DATA_MAX
      ∧ (apdu_process_command command response st temp).resp_len
        = (apdu_process_command command response st temp).resp.data_len + 2
      ∧ (apdu_process_command command response st temp).resp_len
        ≤ USIM_APDU_RESPONSE_MAX_LEN
      ∧ (apdu_process_command command response st temp).resp.data_len + 1
        < (apdu_process_command command response st temp).response.length
      ∧ (apdu_process_command command response st temp).response.length
        = USIM_APDU_RESPONSE_MAX_LEN
      ∧ (apdu_process_command command response st temp).sent.length
        ≤ USIM_APDU_RESPONSE_MAX_LEN := by
  obtain ⟨hd, hsend⟩ := process_eq_send command response st temp
  obtain ⟨_, f2, f3, f4⟩ := process_frame command response st temp hc
  rw [hsend] at f2 f3 f4 ⊢
  simp only [send_response_resp] at f2 f3 f4 ⊢
  have hl : hd.resp.data.length = 257 := by rw [f2, hlen]
  obtain ⟨l1, l2, _, _, _⟩ := send_response_layout hd (by rw [hl]; omega) f3 f4
  have hbuf : (send_response hd).response.length = 257 := by
    unfold send_response
    dsimp only
    rw [List.length_set, List.length_set, hl]
  refine ⟨f3, l1, ?_, ?_, hbuf, ?_⟩
  · rw [l1]
    show hd.resp.data_len + 2 ≤ 257
    omega
  · rw [hbuf]
    omega
  · rw [l2]
    show hd.resp.data_len + 2 ≤ 257
    omega

theorem response_fits_buffer_witness :
    (apdu_process_command [0xA0, 0xC0, 0x00, 0x00, 0x00] (List.replicate 257 0) power_on
        []).resp.data_len ≤ USIM_APDU_RESPONSE_DATA_MAX
      ∧ (apdu_process_command [0xA0, 0xC0, 0x00, 0x00, 0x00] (List.replicate 257 0) power_on
        []).sent.length ≤ USIM_APDU_RESPONSE_MAX_LEN :=
  ⟨(response_fits_buffer power_on (usim_init_intact _ static_image_intact)
      [0xA0, 0xC0, 0x00, 0x00, 0x00]
      (List.replicate 257 0) [] (List.length_replicate 257 0)).1,
   (response_fits_buffer power_on (usim_init_intact _ static_image_intact)
      [0xA0, 0xC0, 0x00, 0x00, 0x00]
      (List.replicate 257 0) [] (List.length_replicate 257 0)).2.2.2.2.2⟩

/-! ## C40 -/

/-- C40: whatever the state before, `usim_init` leaves the subscriber record,
the session, the current file and the seven data arrays with the values they
have after power-on and does not touch the table: PIN1 is again
`30 30 30 30 FF FF FF FF` with 3 retries, every array holds its seed bytes, and
the arrays of EF_KEY and EF_OPc hold their seed XORed once with the mask (the
mask removed gives the seed, and the stored bytes are not the seed).  Running
`usim_init` twice gives the state of running it once. -/
theorem usim_init_resets :
    (∀ st : Card,
      (usim_init st).subscriber = power_on.subscriber
      ∧ (usim_init st).session = power_on.session
      ∧ (usim_init st).current_file = power_on.current_file
      ∧ (usim_init st).imsi_data = imsi_data_init
      ∧ (usim_init st).key_data = usim_xor_operation key_data_init 16 xor_key 16
      ∧ (usim_init st).opc_data = usim_xor_operation opc_data_init 16 xor_key 16
      ∧ (usim_init st).acc_data = acc_data_init
      ∧ (usim_init st).loci_data = loci_data_init
      ∧ (usim_init st).ad_data = ad_data_init
      ∧ (usim_init st).phase_data = phase_data_init
      ∧ (usim_init st).usim_files = st.usim_files)
    ∧ (∀ st : Card,
        (usim_init st).subscriber.pin1 = [0x30, 0x30, 0x30, 0x30, 0xFF, 0xFF, 0xFF, 0xFF]
        ∧ (usim_init st).subscriber.pin1_retries = 3)
    ∧ (∀ st : Card,
        unmasked (usim_init st).key_data = key_data_init
        ∧ unmasked (usim_init st).opc_data = opc_data_init
        ∧ (usim_init st).key_data ≠ key_data_init
        ∧ (usim_init st).opc_data ≠ opc_data_init)
    ∧ (∀ st : Card, usim_init (usim_init st) = usim_init st) := by
  refine ⟨?_, ?_, ?_, ?_⟩
  · intro st
    exact ⟨rfl, rfl, rfl, rfl, rfl, rfl, rfl, rfl, rfl, rfl, rfl⟩
  · intro st
    refine ⟨?_, rfl⟩
    show write_bytes (write_bytes (List.replicate 8 0) 0 [0x30, 0x30, 0x30, 0x30] 4) 4
      [0xFF, 0xFF, 0xFF, 0xFF] 4 = [0x30, 0x30, 0x30, 0x30, 0xFF, 0xFF, 0xFF, 0xFF]
    decide
  · intro st
    refine ⟨?_, ?_, ?_, ?_⟩
    · show unmasked (usim_xor_operation key_data_init 16 xor_key 16) = key_data_init
      decide
    · show unmasked (usim_xor_operation opc_data_init 16 xor_key 16) = opc_data_init
      decide
    · show usim_xor_operation key_data_init 16 xor_key 16 ≠ key_data_init
      decide
    · show usim_xor_operation opc_data_init 16 xor_key 16 ≠ opc_data_init
      decide
  · intro st
    rfl

end OpenUsim
